import Mathlib

/-!
# DYPSN Attendance Analyzer: the dual-persistence layer

A shallow embedding of `src/firebase/services.js` (the facade that tries the
remote document store first and falls back to the browser database) and of
`src/database/localDB.js` (the browser database wrapper).

* JavaScript objects are association lists with string values (`Obj`).
* Asynchronous functions are state transformers over a `World` that return an
  `Outcome`: a promise resolves (`ok`), rejects (`error`) or never settles
  (`pending`).
* Everything the code reads from outside (the clock, the random generator,
  remote document ids, failures of the remote store and of the browser
  database) comes from an `Env`, indexed by a counter of external calls kept
  in the world (`World.tick`). The collation behind `localeCompare` is a
  function of the `Env` as well: the host chooses it.
-/

namespace Attendance

/-! ## Objects -/

/-- A JavaScript object with string-valued properties, in property order. -/
abbrev Obj := List (String × String)

/-- Property read `o.k`; `none` stands for `undefined`. -/
def Obj.get (o : Obj) (k : String) : Option String :=
  match o with
  | [] => none
  | (k', v) :: rest => if k' = k then some v else Obj.get rest k

/-- Property write: an existing property keeps its position, a new one goes last. -/
def Obj.set (o : Obj) (k v : String) : Obj :=
  match o with
  | [] => [(k, v)]
  | (k', v') :: rest => if k' = k then (k, v) :: rest else (k', v') :: Obj.set rest k v

/-- Object spread `{ ...a, ...b }`: the properties of `b` are written over `a` in order. -/
def spread (a b : Obj) : Obj :=
  b.foldl (fun acc p => Obj.set acc p.1 p.2) a

/-- An object literal never repeats a property name. -/
def Obj.WF (o : Obj) : Prop := (o.map Prod.fst).Nodup

instance (o : Obj) : Decidable (Obj.WF o) := by
  unfold Obj.WF; infer_instance

/-- The key of a record under the key path `id`, the empty string when it has none. -/
def keyOf (r : Obj) : String := (Obj.get r "id").getD ""

/-- Strings compared character by character (`a < b` in the language, and the order of keys in
both stores); code points stand for code units. -/
def strLt (a b : String) : Prop := a.data < b.data

instance (a b : String) : Decidable (strLt a b) := by
  unfold strLt; infer_instance

/-! ## Outcomes of asynchronous calls -/

/-- How an awaited promise ends: resolved, rejected, or never settled. -/
inductive Outcome (α : Type) where
  | ok (a : α)
  | error (e : String)
  | pending
  deriving DecidableEq, Repr

/-- A remote document: the user partition it lives in, its key and its data. -/
structure Doc where
  user : String
  id : String
  data : Obj
  deriving DecidableEq, Repr

/-- The state the two modules act on. -/
structure World where
  /-- The variable `isOnline` of services.js. -/
  isOnline : Bool
  /-- The variable `firebaseConnected` of services.js. -/
  firebaseConnected : Bool
  /-- Whether `indexedDB` is a property of `window`. -/
  indexedDBPresent : Bool
  /-- Remote collection `users/uid/students`, all users, in document key order. -/
  remoteStudents : List Doc
  /-- Remote collection `users/uid/attendance`, all users, in document key order. -/
  remoteAttendance : List Doc
  /-- Object store `students` of the browser database, in key order. -/
  localStudents : List Obj
  /-- Object store `attendance` of the browser database, in key order. -/
  localAttendance : List Obj
  /-- Number of external calls made so far. -/
  tick : Nat
  deriving DecidableEq, Repr

/-- The world after `k` more external calls. -/
def World.advance (w : World) (k : Nat) : World := { w with tick := w.tick + k }

/-- The world with `firebaseConnected` set to `c`. -/
def World.setConnected (w : World) (c : Bool) : World := { w with firebaseConnected := c }

/-- What the outside world answers at each external call. -/
structure Env where
  /-- The probe read `getDocs(collection(db, test))` resolves. -/
  probeOk : Nat → Bool
  /-- A remote read, write or commit resolves. -/
  remoteOk : Nat → Bool
  /-- The key the remote store assigns to a new document. -/
  newDocId : Nat → String
  /-- The value of `new Date().toISOString()`. -/
  nowIso : Nat → String
  /-- The value of `Date.now()`. -/
  nowMs : Nat → Nat
  /-- The digits of `Math.random().toString(36)` after `0.`. -/
  randomDigits : Nat → String
  /-- The call `indexedDB.open` succeeds. -/
  idbOpenOk : Nat → Bool
  /-- A request on an object store succeeds (key constraints apart). -/
  idbRequestOk : Nat → Bool
  /-- The time value of `new Date(s)` for a string that is not a calendar date
  `YYYY-MM-DD`; `none` is NaN. -/
  dateParseOther : String → Option Int
  /-- The value of `a.localeCompare(b)`: the collation of the host for its default locale,
  negative, zero or positive. -/
  collate : String → String → Int

/-- An asynchronous computation. -/
def Eff (α : Type) : Type := World → Outcome α × World

namespace Eff

/-- Resolve with a value. -/
def ret {α : Type} (a : α) : Eff α := fun w => (Outcome.ok a, w)

/-- Reject with an error. -/
def throw {α : Type} (e : String) : Eff α := fun w => (Outcome.error e, w)

/-- A promise that never settles. -/
def hang {α : Type} : Eff α := fun w => (Outcome.pending, w)

/-- Continue with `f` after an awaited call ended as `r`: only a resolved call continues. -/
def cont {α β : Type} (r : Outcome α × World) (f : α → Eff β) : Outcome β × World :=
  match r with
  | (Outcome.ok a, w1) => f a w1
  | (Outcome.error e, w1) => (Outcome.error e, w1)
  | (Outcome.pending, w1) => (Outcome.pending, w1)

/-- Run the handler `h` after a `try` block ended as `r`: only a rejection is handled. -/
def handle {α : Type} (r : Outcome α × World) (h : String → Eff α) : Outcome α × World :=
  match r with
  | (Outcome.ok a, w1) => (Outcome.ok a, w1)
  | (Outcome.error e, w1) => h e w1
  | (Outcome.pending, w1) => (Outcome.pending, w1)

/-- Await `m`, then continue with `f`; effects made before a rejection stay. -/
def bind {α β : Type} (m : Eff α) (f : α → Eff β) : Eff β := fun w => cont (m w) f

/-- The statement `try { m } catch (e) { h e }`; a promise that never settles is not caught. -/
def tryCatch {α : Type} (m : Eff α) (h : String → Eff α) : Eff α := fun w => handle (m w) h

/-- Read the world. -/
def getWorld : Eff World := fun w => (Outcome.ok w, w)

/-- Change the world. -/
def modify (f : World → World) : Eff Unit := fun w => (Outcome.ok (), f w)

/-- The index of the next external call; the counter advances. -/
def next : Eff Nat := fun w => (Outcome.ok w.tick, w.advance 1)

end Eff

instance : Monad Eff where
  pure := Eff.ret
  bind := Eff.bind

/-! ## The browser database: object stores with key path `id` -/

/-- The two object stores of localDB.js. -/
inductive StoreName where
  | students
  | attendance
  deriving DecidableEq, Repr

/-- The content of an object store. -/
def World.store (w : World) : StoreName → List Obj
  | StoreName.students => w.localStudents
  | StoreName.attendance => w.localAttendance

/-- Replace the content of an object store. -/
def World.setStore (w : World) (n : StoreName) (s : List Obj) : World :=
  match n with
  | StoreName.students => { w with localStudents := s }
  | StoreName.attendance => { w with localAttendance := s }

/-- Whether the store holds a record under key `k`. -/
def hasKey (store : List Obj) (k : String) : Bool :=
  store.any (fun x => decide (keyOf x = k))

/-- Insert a record at its place in ascending key order (the order of `getAll`). -/
def insertByKey (r : Obj) : List Obj → List Obj
  | [] => [r]
  | x :: xs => if strLt (keyOf r) (keyOf x) then r :: x :: xs else x :: insertByKey r xs

/-- The record stored under key `k` (`store.get(k)`). -/
def findByKey (store : List Obj) (k : String) : Option Obj :=
  store.find? (fun x => decide (keyOf x = k))

/-- Remove the record stored under key `k` (`store.delete(k)`). -/
def deleteByKey (store : List Obj) (k : String) : List Obj :=
  store.filter (fun x => !decide (keyOf x = k))

/-- Store a record under its own key, replacing the one already there (`store.put`). -/
def putByKey (r : Obj) (store : List Obj) : List Obj :=
  insertByKey r (deleteByKey store (keyOf r))

/-- The function `initDB` of localDB.js: open the database; rejects when `indexedDB` is missing or
the open request errors. -/
def initDB (env : Env) : Eff Unit := do
  let t ← Eff.next
  let w ← Eff.getWorld
  if w.indexedDBPresent && env.idbOpenOk t then pure () else Eff.throw "Failed to open IndexedDB"

/-- Issue one request on an object store; tells whether the engine lets it succeed. -/
def idbRequest (env : Env) : Eff Bool := do
  let t ← Eff.next
  pure (env.idbRequestOk t)

/-- Shared body of `getLocalStudents` and `getLocalAttendanceRecords`: a failed open is caught
and gives `[]`; the promise built around `store.getAll()` is returned without `await`, so its
rejection is not caught. -/
def getLocalAll (env : Env) (n : StoreName) : Eff (List Obj) := do
  let opened ← Eff.tryCatch (do initDB env; pure true) (fun _ => pure false)
  if opened then do
    let ok ← idbRequest env
    if ok then do
      let w ← Eff.getWorld
      pure (w.store n)
    else Eff.throw "getAll request failed"
  else pure []

/-- The function `getLocalStudents` of localDB.js. -/
def getLocalStudents (env : Env) : Eff (List Obj) := getLocalAll env StoreName.students

/-- The function `getLocalAttendanceRecords` of localDB.js. -/
def getLocalAttendanceRecords (env : Env) : Eff (List Obj) := getLocalAll env StoreName.attendance

/-- Shared body of `addLocalStudent` and `addLocalAttendanceRecord`: `store.add(record)`.
A record without key makes `add` throw inside the promise executor, a key already in the store
makes the request error; both reject. -/
def addLocal (env : Env) (n : StoreName) (record : Obj) : Eff Obj := do
  initDB env
  match Obj.get record "id" with
  | none => Eff.throw "DataError"
  | some k => do
    let ok ← idbRequest env
    let w ← Eff.getWorld
    if hasKey (w.store n) k then Eff.throw "ConstraintError"
    else if ok then do
      Eff.modify (fun w1 => w1.setStore n (insertByKey record (w1.store n)))
      pure record
    else Eff.throw "add request failed"

/-- The function `addLocalStudent` of localDB.js. -/
def addLocalStudent (env : Env) (student : Obj) : Eff Obj := addLocal env StoreName.students student

/-- The function `addLocalAttendanceRecord` of localDB.js. -/
def addLocalAttendanceRecord (env : Env) (record : Obj) : Eff Obj :=
  addLocal env StoreName.attendance record

/-- The function `updateLocalStudent` of localDB.js: read the record, lay the update over it,
`put` the result (under the key the merged record carries). -/
def updateLocalStudent (env : Env) (studentId : String) (updateData : Obj) : Eff Obj := do
  initDB env
  let okGet ← idbRequest env
  if okGet then do
    let w ← Eff.getWorld
    match findByKey w.localStudents studentId with
    | some existingStudent => do
      let updatedStudent := spread existingStudent updateData
      let okPut ← idbRequest env
      if okPut then do
        Eff.modify (fun w1 =>
          w1.setStore StoreName.students (putByKey updatedStudent w1.localStudents))
        pure updatedStudent
      else Eff.throw "put request failed"
    | none => Eff.throw "Student not found"
  else Eff.throw "get request failed"

/-- The function `deleteLocalStudent` of localDB.js. -/
def deleteLocalStudent (env : Env) (studentId : String) : Eff String := do
  initDB env
  let ok ← idbRequest env
  if ok then do
    Eff.modify (fun w1 =>
      w1.setStore StoreName.students (deleteByKey w1.localStudents studentId))
    pure studentId
  else Eff.throw "delete request failed"

/-- The `add` requests of one save, run in order on the cleared store from external call `t` on;
`none` when one of them errors (key already added, or the engine refuses). -/
def addAllRequests (env : Env) : Nat → List Obj → List Obj → Option (List Obj)
  | _, [], store => some store
  | t, r :: rs, store =>
    if hasKey store (keyOf r) || !env.idbRequestOk t then none
    else addAllRequests env (t + 1) rs (insertByKey r store)

/-- Shared body of `saveLocalStudents` and `saveLocalAttendanceRecords`: one read-write
transaction that clears the store and adds every record.
* A failed `clear` rejects.
* A record without key makes `store.add` throw inside the success handler of `clear`: the
  transaction aborts and neither `resolve` nor `reject` is ever called.
* An `add` request that errors is counted as completed, so the promise resolves; its error event
  is not cancelled, so the transaction aborts and the store keeps the content it had before. -/
def saveLocal (env : Env) (n : StoreName) (records : List Obj) : Eff Unit := do
  initDB env
  let okClear ← idbRequest env
  if okClear then
    if records.isEmpty then
      Eff.modify (fun w1 => w1.setStore n [])
    else if records.any (fun r => (Obj.get r "id").isNone) then Eff.hang
    else do
      let w ← Eff.getWorld
      Eff.modify (fun w1 => w1.advance records.length)
      match addAllRequests env w.tick records [] with
      | some s => Eff.modify (fun w1 => w1.setStore n s)
      | none => pure ()
  else Eff.throw "clear request failed"

/-- The function `saveLocalStudents` of localDB.js. -/
def saveLocalStudents (env : Env) (students : List Obj) : Eff Unit :=
  saveLocal env StoreName.students students

/-- The function `saveLocalAttendanceRecords` of localDB.js. -/
def saveLocalAttendanceRecords (env : Env) (records : List Obj) : Eff Unit :=
  saveLocal env StoreName.attendance records

/-- The function `isLocalDBSupported` of localDB.js. -/
def isLocalDBSupported : Eff Bool := do
  let w ← Eff.getWorld
  pure w.indexedDBPresent

/-! ## Built-ins of the language -/

/-- The comparison of two strings character by character, as a sign. It is the collation of
the environments of the examples; a host collates by its locale and need not agree with it
(`a` comes before `B` in a locale collation and after it character by character). -/
def codePointCompare (a b : String) : Int :=
  if strLt a b then -1 else if a = b then 0 else 1

/-- The method `a.localeCompare(b)`: the language leaves the result to the collation of the
host. -/
def localeCompare (env : Env) (a b : String) : Int := env.collate a b

/-- The call `x.localeCompare(y)` on property values: an `undefined` receiver throws a
TypeError, an `undefined` argument is converted to the string `undefined`. -/
def localeCompareProp (env : Env) (x y : Option String) : Except String Int :=
  match x with
  | none => Except.error "TypeError: cannot read properties of undefined"
  | some a => Except.ok (localeCompare env a (y.getD "undefined"))

/-- Insert `a`, which stood before every element of the sorted list, keeping it before the
elements it does not exceed. -/
def insertSorted {α : Type} (cmp : α → α → Except String Int) (a : α) :
    List α → Except String (List α)
  | [] => Except.ok [a]
  | b :: l =>
    match cmp a b with
    | Except.error e => Except.error e
    | Except.ok c =>
      if c ≤ 0 then Except.ok (a :: b :: l)
      else
        match insertSorted cmp a l with
        | Except.error e => Except.error e
        | Except.ok rest => Except.ok (b :: rest)

/-- The method `Array.prototype.sort(cmp)`: a stable sort; an exception of the comparator
propagates. The language leaves open which pairs are compared; this is insertion from the right,
which never calls the comparator on a list of fewer than two elements. -/
def jsSort {α : Type} (cmp : α → α → Except String Int) : List α → Except String (List α)
  | [] => Except.ok []
  | a :: l =>
    match jsSort cmp l with
    | Except.error e => Except.error e
    | Except.ok s => insertSorted cmp a s

/-- Run a synchronous computation that may throw. -/
def liftExcept {α : Type} (x : Except String α) : Eff α :=
  match x with
  | Except.ok a => Eff.ret a
  | Except.error e => Eff.throw e

/-- Truthiness of a property value: `undefined` and the empty string are falsy. -/
def truthy (x : Option String) : Bool :=
  match x with
  | none => false
  | some s => decide (s ≠ "")

/-- The comparison `x >= y` for a property `x` and a string `y`; with `x` undefined it is
false. -/
def jsGe (x : Option String) (y : String) : Bool :=
  match x with
  | none => false
  | some a => decide (¬ strLt a y)

/-- The comparison `x <= y` for a property `x` and a string `y`; with `x` undefined it is
false. -/
def jsLe (x : Option String) (y : String) : Bool :=
  match x with
  | none => false
  | some a => decide (¬ strLt y a)

/-- The value of a decimal digit. -/
def digitVal (c : Char) : Option Nat :=
  if c.isDigit then some (c.toNat - 48) else none

/-- Leap years of the proleptic Gregorian calendar. -/
def isLeapYear (y : Nat) : Bool :=
  (y % 4 == 0 && y % 100 != 0) || y % 400 == 0

/-- Number of days of month `m` (1 to 12) in year `y`; 0 for any other `m`. -/
def daysInMonth (y m : Nat) : Nat :=
  match m with
  | 1 => 31
  | 2 => if isLeapYear y then 29 else 28
  | 3 => 31
  | 4 => 30
  | 5 => 31
  | 6 => 30
  | 7 => 31
  | 8 => 31
  | 9 => 30
  | 10 => 31
  | 11 => 30
  | 12 => 31
  | _ => 0

/-- Read a calendar date `YYYY-MM-DD` (year, month, day); `none` for any other string. -/
def parseIsoDate (s : String) : Option (Nat × Nat × Nat) :=
  match s.data with
  | [y1, y2, y3, y4, s1, m1, m2, s2, d1, d2] =>
    match digitVal y1, digitVal y2, digitVal y3, digitVal y4,
          digitVal m1, digitVal m2, digitVal d1, digitVal d2 with
    | some a, some b, some c, some d, some e, some f, some g, some h =>
      let y := 1000 * a + 100 * b + 10 * c + d
      let m := 10 * e + f
      let dd := 10 * g + h
      if s1 = '-' ∧ s2 = '-' ∧ 1 ≤ m ∧ m ≤ 12 ∧ 1 ≤ dd ∧ dd ≤ daysInMonth y m then
        some (y, m, dd)
      else none
    | _, _, _, _, _, _, _, _ => none
  | _ => none

/-- Day number of 1 January of year `y`, counted from 1 January 1970 (`DayFromYear`). -/
def dayFromYear (y : Int) : Int :=
  365 * (y - 1970) + (y - 1969) / 4 - (y - 1901) / 100 + (y - 1601) / 400

/-- Days of year `y` that precede month `m`. -/
def daysBeforeMonth (y m : Nat) : Nat :=
  ((List.range (m - 1)).map (fun i => daysInMonth y (i + 1))).sum

/-- Time value in milliseconds of midnight UTC of a calendar date. -/
def utcMs (y m d : Nat) : Int :=
  (dayFromYear (y : Int) + (daysBeforeMonth y m : Int) + (d : Int) - 1) * 86400000

/-- Time value of `new Date(x)` for a property `x`; `none` is NaN (Invalid Date). A calendar
date `YYYY-MM-DD` is midnight UTC of that day; what any other string gives is left to the
host (`Env.dateParseOther`). -/
def dateValue (env : Env) (x : Option String) : Option Int :=
  match x with
  | none => none
  | some s =>
    match parseIsoDate s with
    | some (y, m, d) => some (utcMs y m d)
    | none => env.dateParseOther s

/-- The comparator `(a, b) => a.year !== b.year ? ... : a.rollNumber.localeCompare(b.rollNumber)`
of `getStudents`. -/
def studentCompare (env : Env) (a b : Obj) : Except String Int :=
  if Obj.get a "year" ≠ Obj.get b "year" then
    localeCompareProp env (Obj.get a "year") (Obj.get b "year")
  else if Obj.get a "division" ≠ Obj.get b "division" then
    localeCompareProp env (Obj.get a "division") (Obj.get b "division")
  else localeCompareProp env (Obj.get a "rollNumber") (Obj.get b "rollNumber")

/-- The comparator `(a, b) => new Date(b.date) - new Date(a.date)` of `getAttendanceRecords`;
a NaN result counts as 0 in `sort`. -/
def attendanceCompare (env : Env) (a b : Obj) : Except String Int :=
  match dateValue env (Obj.get b "date"), dateValue env (Obj.get a "date") with
  | some x, some y => Except.ok (x - y)
  | _, _ => Except.ok 0

/-! ## The remote document store -/

/-- The content of a remote collection (all users). -/
def World.remote (w : World) : StoreName → List Doc
  | StoreName.students => w.remoteStudents
  | StoreName.attendance => w.remoteAttendance

/-- Replace the content of a remote collection. -/
def World.setRemote (w : World) (n : StoreName) (s : List Doc) : World :=
  match n with
  | StoreName.students => { w with remoteStudents := s }
  | StoreName.attendance => { w with remoteAttendance := s }

/-- Insert a document at its place in ascending key order (the order of `getDocs`). -/
def insertDoc (d : Doc) : List Doc → List Doc
  | [] => [d]
  | x :: xs => if strLt d.id x.id then d :: x :: xs else x :: insertDoc d xs

/-- Remove the document `users/user/.../id`. -/
def removeDoc (user id : String) (l : List Doc) : List Doc :=
  l.filter (fun d => !decide (d.user = user ∧ d.id = id))

/-- Write a document under its key, replacing the one already there. -/
def upsertDoc (d : Doc) (l : List Doc) : List Doc :=
  insertDoc d (removeDoc d.user d.id l)

/-- The document `users/user/.../id`, when it exists. -/
def findDoc (user id : String) (l : List Doc) : Option Doc :=
  l.find? (fun d => decide (d.user = user ∧ d.id = id))

/-- The record the code builds from a document: the literal `{ id: doc.id, ...doc.data() }`. -/
def docRecord (d : Doc) : Obj := spread [("id", d.id)] d.data

/-- The call `getDocs(collection(db, users, userId, n))`. -/
def getDocs (env : Env) (n : StoreName) (userId : String) : Eff (List Doc) := do
  let t ← Eff.next
  if env.remoteOk t then do
    let w ← Eff.getWorld
    pure ((w.remote n).filter (fun d => decide (d.user = userId)))
  else Eff.throw "remote read rejected"

/-- The call `addDoc(collection(db, users, userId, n), data)`; resolves with the new key. -/
def addDoc (env : Env) (n : StoreName) (userId : String) (data : Obj) : Eff String := do
  let t ← Eff.next
  if env.remoteOk t then do
    Eff.modify (fun w => w.setRemote n (upsertDoc (Doc.mk userId (env.newDocId t) data) (w.remote n)))
    pure (env.newDocId t)
  else Eff.throw "remote write rejected"

/-- The call `updateDoc(doc(db, users, userId, n, id), data)`; rejects when the document does
not exist. -/
def updateDoc (env : Env) (n : StoreName) (userId id : String) (data : Obj) : Eff Unit := do
  let t ← Eff.next
  let w ← Eff.getWorld
  if env.remoteOk t then
    match findDoc userId id (w.remote n) with
    | some d =>
      Eff.modify (fun w1 =>
        w1.setRemote n (upsertDoc (Doc.mk userId id (spread d.data data)) (w1.remote n)))
    | none => Eff.throw "remote document not found"
  else Eff.throw "remote write rejected"

/-- The call `deleteDoc(doc(db, users, userId, n, id))`. -/
def deleteDoc (env : Env) (n : StoreName) (userId id : String) : Eff Unit := do
  let t ← Eff.next
  if env.remoteOk t then
    Eff.modify (fun w => w.setRemote n (removeDoc userId id (w.remote n)))
  else Eff.throw "remote write rejected"

/-- The documents of a batch: `doc(ref)` draws one new key per record, from external call `t` on. -/
def assignDocIds (env : Env) (userId : String) : Nat → List Obj → List Doc
  | _, [] => []
  | t, r :: rs => Doc.mk userId (env.newDocId t) r :: assignDocIds env userId (t + 1) rs

/-- A write batch of `set` operations on new documents, then `batch.commit()`: all or nothing. -/
def batchSetCommit (env : Env) (n : StoreName) (userId : String) (records : List Obj) :
    Eff Unit := do
  let w ← Eff.getWorld
  Eff.modify (fun w1 => w1.advance records.length)
  let docs := assignDocIds env userId w.tick records
  let t ← Eff.next
  if env.remoteOk t then
    Eff.modify (fun w1 => w1.setRemote n (docs.foldl (fun acc d => upsertDoc d acc) (w1.remote n)))
  else Eff.throw "remote commit rejected"

/-- A write batch of `delete` operations, then `batch.commit()`: all or nothing. -/
def batchDeleteCommit (env : Env) (n : StoreName) (userId : String) (ids : List String) :
    Eff Unit := do
  let t ← Eff.next
  if env.remoteOk t then
    Eff.modify (fun w1 =>
      w1.setRemote n (ids.foldl (fun acc id => removeDoc userId id acc) (w1.remote n)))
  else Eff.throw "remote commit rejected"

/-! ## services.js -/

/-- Await `f` on every element in order (`Array.prototype.map` with awaited calls). -/
def mapEff {α β : Type} (f : α → Eff β) : List α → Eff (List β)
  | [] => pure []
  | a :: l => do
    let b ← f a
    let bs ← mapEff f l
    pure (b :: bs)

/-- The loop `for (const x of xs) { await f(x) }`. -/
def forEff {α β : Type} (f : α → Eff β) : List α → Eff Unit
  | [] => pure ()
  | a :: l => do
    let _ ← f a
    forEff f l

/-- The expression `new Date().toISOString()`. -/
def nowIso (env : Env) : Eff String := do
  let t ← Eff.next
  pure (env.nowIso t)

/-- The function `checkFirebaseConnection` of services.js. -/
def checkFirebaseConnection (env : Env) : Eff Bool := do
  let t ← Eff.next
  if env.probeOk t then do
    Eff.modify (fun w => w.setConnected true)
    pure true
  else do
    Eff.modify (fun w => w.setConnected false)
    pure false

/-- The condition `isOnline && await checkFirebaseConnection()`. -/
def remoteAvailable (env : Env) : Eff Bool := do
  let w ← Eff.getWorld
  if w.isOnline then checkFirebaseConnection env else pure false

/-- The function `generateLocalId` of services.js. -/
def generateLocalId (env : Env) : Eff String := do
  let t1 ← Eff.next
  let t2 ← Eff.next
  pure ("local_" ++ toString (env.nowMs t1) ++ "_" ++ (env.randomDigits t2).take 9)

/-- The `try` block of `getStudents`. -/
def getStudentsRemote (env : Env) (userId : String) : Eff (List Obj) := do
  let up ← remoteAvailable env
  if up then do
    let docs ← getDocs env StoreName.students userId
    let students := docs.map docRecord
    Eff.tryCatch (saveLocalStudents env students) (fun _ => pure ())
    liftExcept (jsSort (studentCompare env) students)
  else Eff.throw "Firebase unavailable"

/-- The `catch` block of `getStudents`. -/
def getStudentsLocal (env : Env) : Eff (List Obj) := do
  let supported ← isLocalDBSupported
  if supported then do
    let localStudents ← getLocalStudents env
    liftExcept (jsSort (studentCompare env) localStudents)
  else pure []

/-- The function `getStudents` of services.js. -/
def getStudents (env : Env) (userId : String) : Eff (List Obj) :=
  Eff.tryCatch (getStudentsRemote env userId) (fun _ => getStudentsLocal env)

/-- The `try` block of `addStudent`. -/
def addStudentRemote (env : Env) (userId : String) (studentWithId : Obj) : Eff Obj := do
  let up ← remoteAvailable env
  if up then do
    let docId ← addDoc env StoreName.students userId studentWithId
    let firebaseStudent := spread [("id", docId)] studentWithId
    Eff.tryCatch
      (do
        let allStudents ← getStudents env userId
        saveLocalStudents env allStudents)
      (fun _ => pure ())
    pure firebaseStudent
  else Eff.throw "Firebase unavailable"

/-- The `catch` block of `addStudent`. -/
def addStudentLocal (env : Env) (studentWithId : Obj) : Eff Obj := do
  let supported ← isLocalDBSupported
  if supported then do
    let id ← generateLocalId env
    let localStudent := Obj.set studentWithId "id" id
    let _ ← addLocalStudent env localStudent
    pure localStudent
  else Eff.throw "Failed to add student. Please check your connection and try again."

/-- The object `{ ...studentData, createdAt: ..., updatedAt: ... }`. -/
def withStudentMetadata (env : Env) (studentData : Obj) : Eff Obj := do
  let createdAt ← nowIso env
  let updatedAt ← nowIso env
  pure (Obj.set (Obj.set studentData "createdAt" createdAt) "updatedAt" updatedAt)

/-- The function `addStudent` of services.js. -/
def addStudent (env : Env) (userId : String) (studentData : Obj) : Eff Obj := do
  let studentWithId ← withStudentMetadata env studentData
  Eff.tryCatch (addStudentRemote env userId studentWithId)
    (fun _ => addStudentLocal env studentWithId)

/-- The `try` block of `addMultipleStudents`. -/
def addMultipleStudentsRemote (env : Env) (userId : String) (studentsWithMetadata : List Obj) :
    Eff (List Obj) := do
  let up ← remoteAvailable env
  if up then do
    batchSetCommit env StoreName.students userId studentsWithMetadata
    Eff.tryCatch
      (do
        let allStudents ← getStudents env userId
        saveLocalStudents env allStudents)
      (fun _ => pure ())
    pure studentsWithMetadata
  else Eff.throw "Firebase unavailable"

/-- The `catch` block of `addMultipleStudents`. -/
def addMultipleStudentsLocal (env : Env) (studentsWithMetadata : List Obj) : Eff (List Obj) := do
  let supported ← isLocalDBSupported
  if supported then do
    let localStudents ← mapEff
      (fun student => do
        let id ← generateLocalId env
        pure (Obj.set student "id" id))
      studentsWithMetadata
    forEff (addLocalStudent env) localStudents
    pure localStudents
  else Eff.throw "Failed to add students. Please check your connection and try again."

/-- The function `addMultipleStudents` of services.js. -/
def addMultipleStudents (env : Env) (userId : String) (studentsData : List Obj) :
    Eff (List Obj) := do
  let studentsWithMetadata ← mapEff (withStudentMetadata env) studentsData
  Eff.tryCatch (addMultipleStudentsRemote env userId studentsWithMetadata)
    (fun _ => addMultipleStudentsLocal env studentsWithMetadata)

/-- The `try` block of `updateStudent`. -/
def updateStudentRemote (env : Env) (userId studentId : String) (updatedData : Obj) :
    Eff Obj := do
  let up ← remoteAvailable env
  if up then do
    updateDoc env StoreName.students userId studentId updatedData
    Eff.tryCatch
      (do
        let _ ← updateLocalStudent env studentId updatedData
        pure ())
      (fun _ => pure ())
    pure (spread [("id", studentId)] updatedData)
  else Eff.throw "Firebase unavailable"

/-- The `catch` block of `updateStudent`. -/
def updateStudentLocal (env : Env) (studentId : String) (updatedData : Obj) : Eff Obj := do
  let supported ← isLocalDBSupported
  if supported then do
    let updatedStudent ← updateLocalStudent env studentId updatedData
    pure updatedStudent
  else Eff.throw "Failed to update student. Please try again."

/-- The function `updateStudent` of services.js. -/
def updateStudent (env : Env) (userId studentId : String) (updateData : Obj) : Eff Obj := do
  let updatedAt ← nowIso env
  let updatedData := Obj.set updateData "updatedAt" updatedAt
  Eff.tryCatch (updateStudentRemote env userId studentId updatedData)
    (fun _ => updateStudentLocal env studentId updatedData)

/-- The object `{ ...attendanceData, createdAt: ... }`. -/
def withRecordMetadata (env : Env) (attendanceData : Obj) : Eff Obj := do
  let createdAt ← nowIso env
  pure (Obj.set attendanceData "createdAt" createdAt)

/-- The `try` block of `addAttendanceRecord`. -/
def addAttendanceRecordRemote (env : Env) (userId : String) (recordWithMetadata : Obj) :
    Eff Obj := do
  let up ← remoteAvailable env
  if up then do
    let docId ← addDoc env StoreName.attendance userId recordWithMetadata
    let firebaseRecord := spread [("id", docId)] recordWithMetadata
    Eff.tryCatch
      (do
        let _ ← addLocalAttendanceRecord env firebaseRecord
        pure ())
      (fun _ => pure ())
    pure firebaseRecord
  else Eff.throw "Firebase unavailable"

/-- The `catch` block of `addAttendanceRecord`. -/
def addAttendanceRecordLocal (env : Env) (recordWithMetadata : Obj) : Eff Obj := do
  let supported ← isLocalDBSupported
  if supported then do
    let id ← generateLocalId env
    let localRecord := Obj.set recordWithMetadata "id" id
    let _ ← addLocalAttendanceRecord env localRecord
    pure localRecord
  else Eff.throw "Failed to save attendance. Please try again."

/-- The function `addAttendanceRecord` of services.js. -/
def addAttendanceRecord (env : Env) (userId : String) (attendanceData : Obj) : Eff Obj := do
  let recordWithMetadata ← withRecordMetadata env attendanceData
  Eff.tryCatch (addAttendanceRecordRemote env userId recordWithMetadata)
    (fun _ => addAttendanceRecordLocal env recordWithMetadata)

/-- One step `if (v) { records = records.filter(p) }` of the in-memory filter. -/
def filterIf (v : Option String) (p : String → Obj → Bool) (records : List Obj) : List Obj :=
  match v with
  | some x => if truthy (some x) then records.filter (p x) else records
  | none => records

/-- The block `// Filter in memory` of `getAttendanceRecords`, the same text on both paths. -/
def applyFilters (filters : Obj) (records : List Obj) : List Obj :=
  let r1 := filterIf (Obj.get filters "year")
    (fun y record => decide (Obj.get record "year" = some y)) records
  let r2 := filterIf (Obj.get filters "division")
    (fun d record => decide (Obj.get record "division" = some d)) r1
  let r3 := filterIf (Obj.get filters "startDate")
    (fun sd record => jsGe (Obj.get record "date") sd) r2
  filterIf (Obj.get filters "endDate")
    (fun ed record => jsLe (Obj.get record "date") ed) r3

/-- The `try` block of `getAttendanceRecords`. -/
def getAttendanceRecordsRemote (env : Env) (userId : String) (filters : Obj) :
    Eff (List Obj) := do
  let up ← remoteAvailable env
  if up then do
    let docs ← getDocs env StoreName.attendance userId
    let records := docs.map docRecord
    Eff.tryCatch (saveLocalAttendanceRecords env records) (fun _ => pure ())
    liftExcept (jsSort (attendanceCompare env) (applyFilters filters records))
  else Eff.throw "Firebase unavailable"

/-- The `catch` block of `getAttendanceRecords`. -/
def getAttendanceRecordsLocal (env : Env) (filters : Obj) : Eff (List Obj) := do
  let supported ← isLocalDBSupported
  if supported then do
    let localRecords ← getLocalAttendanceRecords env
    liftExcept (jsSort (attendanceCompare env) (applyFilters filters localRecords))
  else pure []

/-- The function `getAttendanceRecords` of services.js; `filters` defaults to the empty object. -/
def getAttendanceRecords (env : Env) (userId : String) (filters : Obj) : Eff (List Obj) :=
  Eff.tryCatch (getAttendanceRecordsRemote env userId filters)
    (fun _ => getAttendanceRecordsLocal env filters)

/-- The `try` block of `addMultipleAttendanceRecords`. -/
def addMultipleAttendanceRecordsRemote (env : Env) (userId : String)
    (recordsWithMetadata : List Obj) : Eff (List Obj) := do
  let up ← remoteAvailable env
  if up then do
    batchSetCommit env StoreName.attendance userId recordsWithMetadata
    Eff.tryCatch
      (do
        let allRecords ← getAttendanceRecords env userId []
        saveLocalAttendanceRecords env allRecords)
      (fun _ => pure ())
    pure recordsWithMetadata
  else Eff.throw "Firebase unavailable"

/-- The `catch` block of `addMultipleAttendanceRecords`. -/
def addMultipleAttendanceRecordsLocal (env : Env) (recordsWithMetadata : List Obj) :
    Eff (List Obj) := do
  let supported ← isLocalDBSupported
  if supported then do
    let localRecords ← mapEff
      (fun record => do
        let id ← generateLocalId env
        pure (Obj.set record "id" id))
      recordsWithMetadata
    forEff (addLocalAttendanceRecord env) localRecords
    pure localRecords
  else Eff.throw "Failed to save attendance records. Please try again."

/-- The function `addMultipleAttendanceRecords` of services.js. -/
def addMultipleAttendanceRecords (env : Env) (userId : String) (attendanceRecords : List Obj) :
    Eff (List Obj) := do
  let recordsWithMetadata ← mapEff (withRecordMetadata env) attendanceRecords
  Eff.tryCatch (addMultipleAttendanceRecordsRemote env userId recordsWithMetadata)
    (fun _ => addMultipleAttendanceRecordsLocal env recordsWithMetadata)

/-- The `try` block of `updateAttendanceRecord`. -/
def updateAttendanceRecordRemote (env : Env) (userId recordId : String) (updatedData : Obj) :
    Eff Obj := do
  let up ← remoteAvailable env
  if up then do
    updateDoc env StoreName.attendance userId recordId updatedData
    pure (spread [("id", recordId)] updatedData)
  else Eff.throw "Firebase unavailable"

/-- The function `updateAttendanceRecord` of services.js: its `catch` block only rethrows. -/
def updateAttendanceRecord (env : Env) (userId recordId : String) (updateData : Obj) :
    Eff Obj := do
  let updatedAt ← nowIso env
  let updatedData := Obj.set updateData "updatedAt" updatedAt
  Eff.tryCatch (updateAttendanceRecordRemote env userId recordId updatedData)
    (fun _ => Eff.throw "Failed to update attendance record. Please try again.")

/-- The `try` block of `deleteAttendanceRecord`. -/
def deleteAttendanceRecordRemote (env : Env) (userId recordId : String) : Eff String := do
  let up ← remoteAvailable env
  if up then do
    deleteDoc env StoreName.attendance userId recordId
    pure recordId
  else Eff.throw "Firebase unavailable"

/-- The function `deleteAttendanceRecord` of services.js: its `catch` block only rethrows. -/
def deleteAttendanceRecord (env : Env) (userId recordId : String) : Eff String :=
  Eff.tryCatch (deleteAttendanceRecordRemote env userId recordId)
    (fun _ => Eff.throw "Failed to delete attendance record. Please try again.")

/-- The `try` block of `deleteStudent`. -/
def deleteStudentRemote (env : Env) (userId studentId : String) : Eff Bool := do
  let up ← remoteAvailable env
  if up then do
    deleteDoc env StoreName.students userId studentId
    Eff.tryCatch
      (do
        let _ ← deleteLocalStudent env studentId
        pure ())
      (fun _ => pure ())
    pure true
  else Eff.throw "Firebase unavailable"

/-- The `catch` block of `deleteStudent`. -/
def deleteStudentLocal (env : Env) (studentId : String) : Eff Bool := do
  let supported ← isLocalDBSupported
  if supported then do
    let _ ← deleteLocalStudent env studentId
    pure true
  else Eff.throw "Unable to delete student: no storage available"

/-- The function `deleteStudent` of services.js. -/
def deleteStudent (env : Env) (userId studentId : String) : Eff Bool :=
  Eff.tryCatch (deleteStudentRemote env userId studentId)
    (fun _ => deleteStudentLocal env studentId)

/-- The `try` block of `deleteMultipleStudents`. -/
def deleteMultipleStudentsRemote (env : Env) (userId : String) (studentIds : List String) :
    Eff Bool := do
  let up ← remoteAvailable env
  if up then do
    batchDeleteCommit env StoreName.students userId studentIds
    Eff.tryCatch (forEff (deleteLocalStudent env) studentIds) (fun _ => pure ())
    pure true
  else Eff.throw "Firebase unavailable"

/-- The `catch` block of `deleteMultipleStudents`. -/
def deleteMultipleStudentsLocal (env : Env) (studentIds : List String) : Eff Bool := do
  let supported ← isLocalDBSupported
  if supported then do
    forEff (deleteLocalStudent env) studentIds
    pure true
  else Eff.throw "Unable to delete students: no storage available"

/-- The function `deleteMultipleStudents` of services.js. -/
def deleteMultipleStudents (env : Env) (userId : String) (studentIds : List String) :
    Eff Bool :=
  Eff.tryCatch (deleteMultipleStudentsRemote env userId studentIds)
    (fun _ => deleteMultipleStudentsLocal env studentIds)

/-- A world with nothing stored. -/
def World.empty : World :=
  { isOnline := true, firebaseConnected := true, indexedDBPresent := true,
    remoteStudents := [], remoteAttendance := [], localStudents := [], localAttendance := [],
    tick := 0 }

/-- An environment in which every external call succeeds. -/
def Env.allOk : Env :=
  { probeOk := fun _ => true, remoteOk := fun _ => true,
    newDocId := fun t => "doc" ++ toString t,
    nowIso := fun _ => "2024-03-07T10:00:00.000Z", nowMs := fun t => 1709805600000 + t,
    randomDigits := fun _ => "k3j9x2m1q", idbOpenOk := fun _ => true,
    idbRequestOk := fun _ => true, dateParseOther := fun _ => none,
    collate := codePointCompare }

/-- An environment in which the connection probe always fails. -/
def Env.probeFails : Env := { Env.allOk with probeOk := fun _ => false }

/-- A student as the roster form submits it. -/
def sampleStudent : Obj :=
  [("name", "Asha"), ("rollNumber", "7"), ("year", "FirstYear"), ("division", "A")]

/-- An attendance record as the attendance screens submit it. -/
def sampleAttendance : Obj :=
  [("studentId", "s1"), ("studentName", "Asha"), ("rollNumber", "7"), ("year", "FirstYear"),
    ("division", "A"), ("date", "2024-03-07"), ("status", "present")]

/-- The sample student with the timestamps of `Env.allOk`. -/
def sampleStudentStamped : Obj :=
  sampleStudent ++ [("createdAt", "2024-03-07T10:00:00.000Z"),
    ("updatedAt", "2024-03-07T10:00:00.000Z")]

/-- The sample student as the fallback path stores it from the empty world. -/
def sampleStudentLocal : Obj :=
  sampleStudentStamped ++ [("id", "local_1709805600003_k3j9x2m1q")]

/-- The sample attendance record with the timestamp of `Env.allOk`. -/
def sampleAttendanceStamped : Obj :=
  sampleAttendance ++ [("createdAt", "2024-03-07T10:00:00.000Z")]

/-- The sample attendance record as the fallback path stores it from the empty world. -/
def sampleAttendanceLocal : Obj :=
  sampleAttendanceStamped ++ [("id", "local_1709805600002_k3j9x2m1q")]

/-- The empty world after a failed probe, at external call `t`. -/
def World.offlineAt (t : Nat) : World :=
  { World.empty with firebaseConnected := false, tick := t }

/-- The empty world without `indexedDB`, with connection flag `c`, at external call `t`. -/
def World.noIdbAt (c : Bool) (t : Nat) : World :=
  { World.empty with indexedDBPresent := false, firebaseConnected := c, tick := t }

/-- The stored sample student after its name is changed to `Asha K`. -/
def sampleStudentRenamed : Obj :=
  [("name", "Asha K"), ("rollNumber", "7"), ("year", "FirstYear"), ("division", "A"),
    ("createdAt", "2024-03-07T10:00:00.000Z"), ("updatedAt", "2024-03-07T10:00:00.000Z"),
    ("id", "local_1709805600003_k3j9x2m1q")]

/-- A world whose browser database holds the sample student, after a failed probe when `c` is
false, at external call `t`. -/
def World.withLocalStudent (c : Bool) (t : Nat) : World :=
  { World.empty with firebaseConnected := c, localStudents := [sampleStudentLocal], tick := t }

/-- A world whose browser database holds the sample attendance record. -/
def World.withLocalAttendance (c : Bool) (t : Nat) : World :=
  { World.empty with
    firebaseConnected := c, localAttendance := [sampleAttendanceLocal], tick := t }

/-- An environment in which the probe fails and every request on an object store errors. -/
def Env.readFails : Env := { Env.probeFails with idbRequestOk := fun _ => false }

/-! ## Vocabulary of the statements -/

/-- The browser database is the same in `w2` as in `w`. -/
def SameLocal (w w2 : World) : Prop :=
  w2.localStudents = w.localStudents ∧ w2.localAttendance = w.localAttendance ∧
    w2.indexedDBPresent = w.indexedDBPresent

/-- A read finds the remote store unreachable: the browser is offline, or the probe rejects, or
the read of the collection that follows the probe rejects. -/
def RemoteUnreachable (env : Env) (w : World) : Prop :=
  w.isOnline = false ∨ env.probeOk w.tick = false ∨ env.remoteOk (w.tick + 1) = false

/-- The remote store is the same in `w2` as in `w`. -/
def SameRemote (w w2 : World) : Prop :=
  w2.remoteStudents = w.remoteStudents ∧ w2.remoteAttendance = w.remoteAttendance

/-! ## Vocabulary: the roster order -/

/-- Property `k` of a record as a string, the empty string when it is undefined. -/
def field (r : Obj) (k : String) : String := (Obj.get r k).getD ""

/-- A record that carries the three properties the roster is ordered by. -/
def IsStudent (r : Obj) : Prop :=
  (Obj.get r "year").isSome ∧ (Obj.get r "division").isSome ∧ (Obj.get r "rollNumber").isSome

/-- The order of the roster compared character by character: ascending by year, then by
division, then by rollNumber, each as strings and never as numbers. -/
def StudentLe (a b : Obj) : Prop :=
  strLt (field a "year") (field b "year") ∨
    (field a "year" = field b "year" ∧
      (strLt (field a "division") (field b "division") ∨
        (field a "division" = field b "division" ∧
          ¬ strLt (field b "rollNumber") (field a "rollNumber"))))

instance (a b : Obj) : Decidable (StudentLe a b) := by
  unfold StudentLe; infer_instance

/-- The order of the roster as the host collates it: ascending by year, then by division, then
by rollNumber, each compared by `localeCompare`. -/
def CollationLe (env : Env) (a b : Obj) : Prop :=
  env.collate (field a "year") (field b "year") < 0 ∨
    (field a "year" = field b "year" ∧
      (env.collate (field a "division") (field b "division") < 0 ∨
        (field a "division" = field b "division" ∧
          env.collate (field a "rollNumber") (field b "rollNumber") ≤ 0)))

instance (env : Env) (a b : Obj) : Decidable (CollationLe env a b) := by
  unfold CollationLe; infer_instance

/-- What a collation is, whatever the locale: a consistent comparison of strings. Exchanging
the arguments reverses the sign, and the comparison is transitive. -/
structure Env.Collates (env : Env) : Prop where
  swap : ∀ a b, env.collate b a ≤ 0 ↔ 0 ≤ env.collate a b
  trans : ∀ a b c, env.collate a b ≤ 0 → env.collate b c ≤ 0 → env.collate a c ≤ 0

/-- The collation tells the years and the divisions of the records apart: two of them that are
different strings do not collate as equal (as two spellings of one accented letter would). The
comparator tests `a.year !== b.year` on the strings and then returns what the collation says,
so that without this it is not a consistent comparator and the language does not fix the
order. -/
def Separates (env : Env) (l : List Obj) : Prop :=
  ∀ x ∈ l, ∀ y ∈ l,
    (env.collate (field x "year") (field y "year") = 0 → field x "year" = field y "year") ∧
    (env.collate (field x "division") (field y "division") = 0 →
      field x "division" = field y "division")

/-- On the years, divisions and roll numbers of the records the collation agrees with the
comparison character by character (as it does on strings of digits and on the year and division
names of the data model). -/
def CollatesByCharacter (env : Env) (l : List Obj) : Prop :=
  ∀ x ∈ l, ∀ y ∈ l, ∀ k ∈ ["year", "division", "rollNumber"],
    (env.collate (field x k) (field y k) ≤ 0 ↔ ¬ strLt (field y k) (field x k))

/-- The value of the comparator of `getStudents` on two records that carry the three
properties. -/
def studentCmp (env : Env) (a b : Obj) : Int :=
  if field a "year" ≠ field b "year" then localeCompare env (field a "year") (field b "year")
  else if field a "division" ≠ field b "division" then
    localeCompare env (field a "division") (field b "division")
  else localeCompare env (field a "rollNumber") (field b "rollNumber")


/-- The records a read of the remote collection `n` of user `uid` builds. -/
def recordsOf (w : World) (n : StoreName) (uid : String) : List Obj :=
  ((w.remote n).filter (fun d => decide (d.user = uid))).map docRecord

/-- The three students of the sort example, as remote documents of user `u1`. -/
def rosterDocs : List Doc :=
  [Doc.mk "u1" "d1" [("year", "SecondYear"), ("division", "B"), ("rollNumber", "5")],
   Doc.mk "u1" "d2" [("year", "FirstYear"), ("division", "A"), ("rollNumber", "2")],
   Doc.mk "u1" "d3" [("year", "FirstYear"), ("division", "A"), ("rollNumber", "10")]]

instance (r : Obj) : Decidable (IsStudent r) := by
  unfold IsStudent; infer_instance

/-- A world whose remote store holds the three students of the sort example. -/
def World.withRoster : World := { World.empty with remoteStudents := rosterDocs }

/-! ## Vocabulary: the attendance filters -/

/-- The value of the comparator of `getAttendanceRecords`, which never throws. -/
def attendanceCmp (env : Env) (a b : Obj) : Int :=
  match dateValue env (Obj.get b "date"), dateValue env (Obj.get a "date") with
  | some x, some y => x - y
  | _, _ => 0

/-- The record has a date and it is not before `s` (`r.date >= s`). -/
def dateAtLeast (r : Obj) (s : String) : Prop :=
  match Obj.get r "date" with
  | some d => ¬ strLt d s
  | none => False

/-- The record has a date and it is not after `s` (`r.date <= s`). -/
def dateAtMost (r : Obj) (s : String) : Prop :=
  match Obj.get r "date" with
  | some d => ¬ strLt s d
  | none => False

instance (r : Obj) (s : String) : Decidable (dateAtLeast r s) := by
  unfold dateAtLeast; split <;> infer_instance

instance (r : Obj) (s : String) : Decidable (dateAtMost r s) := by
  unfold dateAtMost; split <;> infer_instance

/-- A filter that does not apply: unset, or set to the empty string. -/
def FilterOff (v : Option String) : Prop := v = none ∨ v = some ""

instance (v : Option String) : Decidable (FilterOff v) := by
  unfold FilterOff; infer_instance

/-- The selection of `getAttendanceRecords` in words: a filter applies when it is set to a
non-empty string. -/
def Selects (filters r : Obj) : Prop :=
  (FilterOff (Obj.get filters "year") ∨ Obj.get r "year" = Obj.get filters "year") ∧
  (FilterOff (Obj.get filters "division") ∨
    Obj.get r "division" = Obj.get filters "division") ∧
  (FilterOff (Obj.get filters "startDate") ∨
    dateAtLeast r ((Obj.get filters "startDate").getD "")) ∧
  (FilterOff (Obj.get filters "endDate") ∨
    dateAtMost r ((Obj.get filters "endDate").getD ""))

instance (filters r : Obj) : Decidable (Selects filters r) := by
  unfold Selects; infer_instance

/-- A world whose remote store holds two attendance records of user `u1` and one of `u2`. -/
def World.withRemoteAttendance : World :=
  { World.empty with
    remoteAttendance :=
      [Doc.mk "u1" "a1" sampleAttendanceStamped,
       Doc.mk "u1" "a2" [("studentId", "s2"), ("year", "SecondYear"), ("division", "B"),
         ("date", "2024-03-08"), ("status", "absent")],
       Doc.mk "u2" "a3" [("studentId", "s9"), ("year", "FirstYear"), ("division", "A"),
         ("date", "2024-03-09"), ("status", "present")]] }

/-- Every run of `m` relates the world before to the world after by `R`, however it ends. -/
def Eff.Keeps {α : Type} (R : World → World → Prop) (m : Eff α) : Prop :=
  ∀ w o w2, m w = (o, w2) → R w w2

/-- A relation between worlds that every step of bookkeeping respects: reflexive, transitive,
blind to the call counter and to the connection flag. -/
structure Frame (R : World → World → Prop) : Prop where
  refl : ∀ w, R w w
  trans : ∀ a b c, R a b → R b c → R a c
  advance : ∀ w k, R w (w.advance k)
  setConnected : ∀ w c, R w (w.setConnected c)

/-- The sample student as the remote path returns it (document key `doc3`). -/
def sampleStudentRemote : Obj := ("id", "doc3") :: sampleStudentStamped

/-- The world after the sample student was added through the remote store and mirrored, at
external call `t`. -/
def World.afterRemoteAdd (t : Nat) : World :=
  { World.empty with
    remoteStudents := [Doc.mk "u1" "doc3" sampleStudentStamped],
    localStudents := [sampleStudentRemote], tick := t }

/-! ## Vocabulary: dates -/

/-- A record whose `date` is a calendar date `YYYY-MM-DD`. -/
def IsoDated (r : Obj) : Prop :=
  match Obj.get r "date" with
  | some s => (parseIsoDate s).isSome = true
  | none => False

instance (r : Obj) : Decidable (IsoDated r) := by
  unfold IsoDated; split <;> infer_instance

/-- The date string of `a` is not before the date string of `b`, character by character:
`a` may stand before `b` in a sequence ordered by descending date. -/
def DateGe (a b : Obj) : Prop := ¬ strLt (field a "date") (field b "date")

instance (a b : Obj) : Decidable (DateGe a b) := by
  unfold DateGe; infer_instance

/-! ## Vocabulary: mirroring -/

/-- The browser database collection `n` holds exactly the records of the remote collection
`n` of user `uid`. -/
def InSync (w : World) (n : StoreName) (uid : String) : Prop :=
  (w.store n).Perm (recordsOf w n uid)

instance (w : World) (n : StoreName) (uid : String) : Decidable (InSync w n uid) := by
  unfold InSync; infer_instance

/-- No two records of the list have the same key. -/
def DistinctKeys (l : List Obj) : Prop := (l.map keyOf).Nodup

instance (l : List Obj) : Decidable (DistinctKeys l) := by
  unfold DistinctKeys; infer_instance

/-- No document of the remote collection `n` carries a data field named `id`, so that the key
of the record read from a document is the key of the document. -/
def NoOwnId (w : World) (n : StoreName) : Prop := ∀ d ∈ w.remote n, Obj.get d.data "id" = none

instance (w : World) (n : StoreName) : Decidable (NoOwnId w n) := by
  unfold NoOwnId; infer_instance

/-- Every external call the environment answers succeeds. -/
structure Env.Cooperates (env : Env) : Prop where
  probe : ∀ t, env.probeOk t = true
  remote : ∀ t, env.remoteOk t = true
  idbOpen : ∀ t, env.idbOpenOk t = true
  idbRequest : ∀ t, env.idbRequestOk t = true

/-- The sample attendance record as the remote path returns it (document key `a1`). -/
def sampleAttendanceRemote : Obj := ("id", "a1") :: sampleAttendanceStamped

/-- A world whose remote store and browser database both hold the sample attendance record
of user `u1`. -/
def World.attendanceMirrored : World :=
  { World.empty with
    remoteAttendance := [Doc.mk "u1" "a1" sampleAttendanceStamped],
    localAttendance := [sampleAttendanceRemote] }

/-- A world whose browser database holds, next to the mirrored sample student, a student that
an earlier fallback stored only there. -/
def World.withLeftover : World :=
  { World.empty with
    remoteStudents := [Doc.mk "u1" "doc3" sampleStudentStamped],
    localStudents := [sampleStudentRemote, sampleStudentLocal] }

/-- An environment in which the probe fails and the request on an object store issued as
external call `t` errors, every other one succeeding. -/
def Env.requestFailsAt (t : Nat) : Env :=
  { Env.probeFails with idbRequestOk := fun s => s != t }

/-- A second and a third student of the roster form. -/
def sampleStudentB : Obj :=
  [("name", "Bala"), ("rollNumber", "8"), ("year", "FirstYear"), ("division", "A")]

/-- The third student of the sample batch. -/
def sampleStudentC : Obj :=
  [("name", "Chitra"), ("rollNumber", "9"), ("year", "FirstYear"), ("division", "A")]

/-- The record the fallback path of a batch stores for `student`, with the timestamps of
`Env.allOk` and the id drawn at external call `t`. -/
def localCopy (student : Obj) (t : Nat) : Obj :=
  student ++ [("createdAt", "2024-03-07T10:00:00.000Z"),
    ("updatedAt", "2024-03-07T10:00:00.000Z"),
    ("id", "local_" ++ toString (1709805600000 + t) ++ "_k3j9x2m1q")]

/-- A student of the sample batch with the timestamps of `Env.allOk`. -/
def stampedCopy (student : Obj) : Obj :=
  student ++ [("createdAt", "2024-03-07T10:00:00.000Z"),
    ("updatedAt", "2024-03-07T10:00:00.000Z")]

/-- The sample attendance record as the fallback path of a batch stores it, with the id drawn at
external call `t`. -/
def localAttendanceCopy (t : Nat) : Obj :=
  sampleAttendanceStamped ++ [("id", "local_" ++ toString (1709805600000 + t) ++ "_k3j9x2m1q")]

/-- The empty world after a failed probe, its browser database holding the given records, at
external call `t`. -/
def World.offlineHolding (students attendance : List Obj) (t : Nat) : World :=
  { World.empty with
    firebaseConnected := false, localStudents := students, localAttendance := attendance,
    tick := t }

/-! ## Vocabulary: settling -/

/-- Every record of the list carries an `id`. -/
def Keyed (l : List Obj) : Prop := ∀ r ∈ l, (Obj.get r "id").isSome = true

instance (l : List Obj) : Decidable (Keyed l) := by
  unfold Keyed; infer_instance

/-- The invariant of object stores with key path `id`: every stored record carries its key. -/
def LocalKeyed (w : World) : Prop := Keyed w.localStudents ∧ Keyed w.localAttendance

instance (w : World) : Decidable (LocalKeyed w) := by
  unfold LocalKeyed; infer_instance

/-- From a world whose stores are keyed, the promise of `m` settles (it resolves or rejects),
the stores are keyed afterwards, and a value it resolves with satisfies `Q`. -/
def Eff.Safe {α : Type} (Q : α → Prop) (m : Eff α) : Prop :=
  ∀ w, LocalKeyed w → ∀ o w2, m w = (o, w2) →
    LocalKeyed w2 ∧ o ≠ Outcome.pending ∧ ∀ a, o = Outcome.ok a → Q a

/-- The remote store answers every probe and every call. -/
structure Env.RemoteUp (env : Env) : Prop where
  probe : ∀ t, env.probeOk t = true
  remote : ∀ t, env.remoteOk t = true

/-- An environment in which the remote store answers and the browser database cannot be
opened. -/
def Env.mirrorFails : Env := { Env.allOk with idbOpenOk := fun _ => false }

/-- An environment in which the remote store answers, the browser database opens and refuses
every request. -/
def Env.mirrorRefuses : Env := { Env.allOk with idbRequestOk := fun _ => false }

/-- The content of an object store into which exactly `records` were added, one by one. -/
def storeOf (records : List Obj) : List Obj :=
  records.foldl (fun acc r => insertByKey r acc) []

/-- Both stores, the presence of `indexedDB` and the online flag are the same in `w2` as in
`w`. -/
def SameData (w w2 : World) : Prop :=
  SameLocal w w2 ∧ SameRemote w w2 ∧ w2.isOnline = w.isOnline

/-- The world after `k` further calls of `getStudents`. -/
def readStudentsAgain (env : Env) (uid : String) : Nat → World → World
  | 0, w => w
  | k + 1, w => readStudentsAgain env uid k (getStudents env uid w).2

/-- The world after `k` further calls of `getAttendanceRecords`. -/
def readAttendanceAgain (env : Env) (uid : String) (filters : Obj) : Nat → World → World
  | 0, w => w
  | k + 1, w => readAttendanceAgain env uid filters k (getAttendanceRecords env uid filters w).2

/-- A world whose browser database holds two students, under the keys `k1` and `k2`. -/
def World.withTwoLocal : World :=
  { World.empty with
    localStudents := [[("id", "k1"), ("name", "Asha")], [("id", "k2"), ("name", "Bala")]] }

/-! ## services.js: the subscriptions

A subscription is a function that returns at once; what it set up runs later, one event at a
time. The callback is not called here but recorded: the log lists, in order, the sequences the
callback was invoked with and the invocations of the returned handle. -/

/-- Which collection a subscription watches; for attendance, with the filters it was given. -/
inductive SubKind where
  | students
  | attendance (filters : Obj)
  deriving DecidableEq, Repr

/-- The object store a subscription falls back to. -/
def SubKind.store : SubKind → StoreName
  | SubKind.students => StoreName.students
  | SubKind.attendance _ => StoreName.attendance

/-- The function a subscription returned: the `unsubscribe` of `onSnapshot`, or `() => {}`. -/
inductive Handle where
  | unsubscribe
  | noop
  deriving DecidableEq, Repr

/-- One entry of the log of a subscription. -/
inductive SubLog where
  | called (records : List Obj)
  | cancelled
  deriving DecidableEq, Repr

/-- The state of one subscription. -/
structure Subscription where
  /-- The collection watched, with the filters captured. -/
  kind : SubKind
  /-- The user whose collection is watched. -/
  uid : String
  /-- The function that was returned to the caller. -/
  handle : Handle
  /-- The snapshot listener is attached to the remote channel. -/
  listening : Bool
  /-- Reads of the browser database that were started and have not settled yet. -/
  pendingReads : Nat
  /-- Invocations of the callback and of the handle, oldest first. -/
  log : List SubLog
  deriving DecidableEq, Repr

/-- What happens to a subscription after it was set up. -/
inductive SubEvent where
  /-- The remote channel delivers the collection as it is now. -/
  | snapshot
  /-- The remote channel reports an error. -/
  | channelError
  /-- The caller invokes the handle. -/
  | cancel
  /-- The oldest read of the browser database that was started settles. -/
  | readSettles
  deriving DecidableEq, Repr

/-- The block `// Filter in memory` of `subscribeToAttendanceRecords`: year and division only. -/
def applyClassFilters (filters : Obj) (records : List Obj) : List Obj :=
  let r1 := filterIf (Obj.get filters "year")
    (fun y record => decide (Obj.get record "year" = some y)) records
  filterIf (Obj.get filters "division")
    (fun d record => decide (Obj.get record "division" = some d)) r1

/-- The selection of a subscription in words: the year filter and the division filter, each
applying when it is set to a non-empty string. -/
def ClassSelects (filters r : Obj) : Prop :=
  (FilterOff (Obj.get filters "year") ∨ Obj.get r "year" = Obj.get filters "year") ∧
  (FilterOff (Obj.get filters "division") ∨
    Obj.get r "division" = Obj.get filters "division")

instance (filters r : Obj) : Decidable (ClassSelects filters r) := by
  unfold ClassSelects; infer_instance

/-- The sequence a subscription computes from the records it got: students sorted; attendance
filtered by year and division, then sorted. -/
def SubKind.view (env : Env) : SubKind → List Obj → Except String (List Obj)
  | SubKind.students, records => jsSort (studentCompare env) records
  | SubKind.attendance filters, records =>
    jsSort (attendanceCompare env) (applyClassFilters filters records)

/-- The continuation of a read of the browser database in a fallback: the callback gets the view
of the records read, and `[]` when the read rejects or the view throws. -/
def deliverLocal (env : Env) (kind : SubKind) (w : World) : World × List SubLog :=
  match getLocalAll env kind.store w with
  | (Outcome.ok records, w2) =>
    match kind.view env records with
    | Except.ok view => (w2, [SubLog.called view])
    | Except.error _ => (w2, [SubLog.called []])
  | (Outcome.error _, w2) => (w2, [SubLog.called []])
  | (Outcome.pending, w2) => (w2, [])

/-- Shared body of `subscribeToStudents` and `subscribeToAttendanceRecords`. With `isOnline` and
`firebaseConnected` both set, `onSnapshot` is called; `opens` tells whether it returns (the
listener is then attached and its `unsubscribe` returned) or throws. Otherwise, and when it
throws, the `catch` block starts a read of the browser database when `indexedDB` exists, calls
back with `[]` at once when it does not, and returns `() => {}`. -/
def subscribe (kind : SubKind) (uid : String) (opens : Bool) (w : World) :
    World × Subscription :=
  if w.isOnline && w.firebaseConnected && opens then
    (w, { kind := kind, uid := uid, handle := Handle.unsubscribe, listening := true,
          pendingReads := 0, log := [] })
  else if w.indexedDBPresent then
    (w, { kind := kind, uid := uid, handle := Handle.noop, listening := false,
          pendingReads := 1, log := [] })
  else
    (w, { kind := kind, uid := uid, handle := Handle.noop, listening := false,
          pendingReads := 0, log := [SubLog.called []] })

/-- The function `subscribeToStudents` of services.js, as far as it runs before it returns. -/
def subscribeToStudents (userId : String) (opens : Bool) (w : World) :
    World × Subscription :=
  subscribe SubKind.students userId opens w

/-- The function `subscribeToAttendanceRecords` of services.js, as far as it runs before it
returns. -/
def subscribeToAttendanceRecords (userId : String) (filters : Obj) (opens : Bool)
    (w : World) : World × Subscription :=
  subscribe (SubKind.attendance filters) userId opens w

/-- The snapshot listener: the records of the user are saved to the browser database (the
promise is not awaited, its rejection is caught), the view is computed and passed to the
callback. A comparator that throws ends the listener before the callback. -/
def onSnapshotNext (env : Env) (w : World) (s : Subscription) : World × Subscription :=
  let records := recordsOf w s.kind.store s.uid
  let w2 := (saveLocal env s.kind.store records w).2
  match s.kind.view env records with
  | Except.ok view => (w2, { s with log := s.log ++ [SubLog.called view] })
  | Except.error _ => (w2, s)

/-- The error listener: the channel is closed, `firebaseConnected` is cleared, and a read of the
browser database is started when `indexedDB` exists; when it does not, the callback gets `[]`
at once. -/
def onSnapshotError (w : World) (s : Subscription) : World × Subscription :=
  let w2 := w.setConnected false
  if w.indexedDBPresent then
    (w2, { s with listening := false, pendingReads := s.pendingReads + 1 })
  else
    (w2, { s with listening := false, log := s.log ++ [SubLog.called []] })

/-- One event. The remote channel delivers to an attached listener only; the `unsubscribe`
handle detaches the listener, the handle `() => {}` does nothing; a read that was started
runs to its continuation whatever happened to the handle. -/
def subStep (env : Env) (ev : SubEvent) (st : World × Subscription) :
    World × Subscription :=
  match ev with
  | SubEvent.snapshot =>
    if st.2.listening then onSnapshotNext env st.1 st.2 else st
  | SubEvent.channelError =>
    if st.2.listening then onSnapshotError st.1 st.2 else st
  | SubEvent.cancel =>
    match st.2.handle with
    | Handle.unsubscribe =>
      (st.1, { st.2 with listening := false, log := st.2.log ++ [SubLog.cancelled] })
    | Handle.noop => (st.1, { st.2 with log := st.2.log ++ [SubLog.cancelled] })
  | SubEvent.readSettles =>
    if 0 < st.2.pendingReads then
      let r := deliverLocal env st.2.kind st.1
      (r.1, { st.2 with pendingReads := st.2.pendingReads - 1, log := st.2.log ++ r.2 })
    else st

/-- A sequence of events, in order. -/
def subRun (env : Env) (evs : List SubEvent) (st : World × Subscription) :
    World × Subscription :=
  evs.foldl (fun acc ev => subStep env ev acc) st

/-- Number of invocations of the callback in a piece of log. -/
def callCount (log : List SubLog) : Nat :=
  (log.filter (fun x => decide (x ≠ SubLog.cancelled))).length

/-- Number of invocations of the callback after the first invocation of the handle. -/
def callsAfterCancel (log : List SubLog) : Nat :=
  callCount (log.dropWhile (fun x => decide (x ≠ SubLog.cancelled)))

/-- The object without property `k` (`delete o[k]`). -/
def Obj.erase (o : Obj) (k : String) : Obj := o.filter (fun p => decide (p.1 ≠ k))

/-- The filters with `startDate` and `endDate` removed. -/
def withoutDates (filters : Obj) : Obj := (Obj.erase filters "startDate").erase "endDate"

/-- Two attendance records of one class, of 7 March and of 20 March 2024. -/
def marchDocs : List Doc :=
  [Doc.mk "u1" "a1" sampleAttendanceStamped,
   Doc.mk "u1" "a4" [("studentId", "s1"), ("year", "FirstYear"), ("division", "A"),
     ("date", "2024-03-20"), ("status", "absent")]]

/-- A world whose remote store holds the two March records. -/
def World.withMarch : World := { World.empty with remoteAttendance := marchDocs }

/-- Filters that ask for FirstYear from 1 to 10 March 2024. -/
def earlyMarch : Obj :=
  [("year", "FirstYear"), ("startDate", "2024-03-01"), ("endDate", "2024-03-10")]

/-- A student as the import of a CSV file with an `id` column builds it. -/
def csvStudent : Obj := ("id", "7") :: sampleStudent

/-- A world whose remote store holds the CSV student as document `d7` of user `u1`, and an
attendance record with a data field `id` as document `a7`. -/
def World.withCsvImport : World :=
  { World.empty with
    remoteStudents := [Doc.mk "u1" "d7" csvStudent],
    remoteAttendance := [Doc.mk "u1" "a7" (("id", "7") :: sampleAttendance)] }

/-- The object `getConnectionStatus` returns. -/
structure ConnectionStatus where
  online : Bool
  firebaseConnected : Bool
  localDBSupported : Bool
  deriving DecidableEq, Repr

/-- The function `getConnectionStatus` of services.js: a read of the two variables and of
`isLocalDBSupported()`. -/
def getConnectionStatus (w : World) : ConnectionStatus :=
  { online := w.isOnline, firebaseConnected := w.firebaseConnected,
    localDBSupported := w.indexedDBPresent }

/-- The function `forceFirebaseReconnect` of services.js. -/
def forceFirebaseReconnect (env : Env) : Eff Bool := do
  let connected ← checkFirebaseConnection env
  Eff.modify (fun w => w.setConnected connected)
  let w ← Eff.getWorld
  pure w.firebaseConnected

/-- An environment in which the probe succeeds and every remote read, write and commit is
rejected. -/
def Env.remoteRejects : Env := { Env.allOk with remoteOk := fun _ => false }

/-- The variable `firebaseConnected` is the same in `w2` as in `w`. -/
def SameFlag (w w2 : World) : Prop := w2.firebaseConnected = w.firebaseConnected

/-- An environment in which the probes before external call `k` succeed and the later ones
fail, everything else succeeding. -/
def Env.probeUntil (k : Nat) : Env := { Env.allOk with probeOk := fun t => decide (t < k) }

/-- The value of `firebaseConnected` after the condition `isOnline && await
checkFirebaseConnection()` evaluated in `w`: the outcome of the probe when the browser is
online; the probe is not run when it is offline. -/
def flagAfterProbe (env : Env) (w : World) : Bool :=
  if w.isOnline then env.probeOk w.tick else w.firebaseConnected

/-- The world `w` with the documents of every user other than `uid` removed from the remote
store. -/
def World.onlyUser (w : World) (uid : String) : World :=
  { w with
    remoteStudents := w.remoteStudents.filter (fun d => decide (d.user = uid)),
    remoteAttendance := w.remoteAttendance.filter (fun d => decide (d.user = uid)) }

/-- A world whose remote store holds the three students of user `u1` and one of `u2`. -/
def World.withSharedRoster : World :=
  { World.empty with remoteStudents := Doc.mk "u2" "d9" sampleStudentStamped :: rosterDocs }

/-! ## App.jsx and StudentManagement.jsx: the roster form -/

/-- The list `filteredStudents` of App.jsx, which is what the roster form receives as
`students`: every student when the selected class lacks a year or a division, the students of
the selected year and division otherwise. -/
def filteredStudents (students : List Obj) (selectedClass : Obj) : List Obj :=
  students.filter (fun student =>
    if !truthy (Obj.get selectedClass "year") || !truthy (Obj.get selectedClass "division") then
      true
    else
      decide (Obj.get student "year" = Obj.get selectedClass "year") &&
        decide (Obj.get student "division" = Obj.get selectedClass "division"))

/-- The `message` state of StudentManagement.jsx. -/
structure Message where
  type : String
  text : String
deriving DecidableEq, Repr

/-- The two early returns of `handleSubmit` of StudentManagement.jsx. -/
inductive SubmitCheck where
  | missingFields
  | duplicate
  | accepted
deriving DecidableEq, Repr

/-- The guards of `handleSubmit`: the required fields, then
`students.find(s => s.rollNumber === formData.rollNumber)`. -/
def submitCheck (students : List Obj) (formData : Obj) : SubmitCheck :=
  if !truthy (Obj.get formData "name") || !truthy (Obj.get formData "rollNumber") ||
      !truthy (Obj.get formData "year") || !truthy (Obj.get formData "division") then
    SubmitCheck.missingFields
  else
    match students.find? (fun s =>
      decide (Obj.get s "rollNumber" = Obj.get formData "rollNumber")) with
    | some _ => SubmitCheck.duplicate
    | none => SubmitCheck.accepted

/-- The function `handleSubmit` of StudentManagement.jsx: the message it leaves on the
screen. -/
def handleSubmit (env : Env) (uid : String) (students : List Obj) (formData : Obj) :
    Eff Message :=
  match submitCheck students formData with
  | SubmitCheck.missingFields =>
    pure (Message.mk "error" "Please fill in all required fields.")
  | SubmitCheck.duplicate =>
    pure (Message.mk "error" "A student with this roll number already exists.")
  | SubmitCheck.accepted =>
    Eff.tryCatch
      (do
        let _ ← addStudent env uid formData
        pure (Message.mk "success" "Student added successfully!"))
      (fun message =>
        pure (Message.mk "error"
          (if message = "" then "Failed to add student. Please try again." else message)))

/-- A completed form: name, rollNumber, year and division all non-empty. -/
def CompletedForm (formData : Obj) : Prop :=
  truthy (Obj.get formData "name") = true ∧ truthy (Obj.get formData "rollNumber") = true ∧
    truthy (Obj.get formData "year") = true ∧ truthy (Obj.get formData "division") = true

instance (formData : Obj) : Decidable (CompletedForm formData) := by
  unfold CompletedForm; infer_instance

/-- The duplicate test as the claim states it: an existing student with the same rollNumber,
year and division. -/
def SameClassDuplicate (students : List Obj) (formData : Obj) : Prop :=
  ∃ s ∈ students, Obj.get s "rollNumber" = Obj.get formData "rollNumber" ∧
    Obj.get s "year" = Obj.get formData "year" ∧
    Obj.get s "division" = Obj.get formData "division"

instance (students : List Obj) (formData : Obj) :
    Decidable (SameClassDuplicate students formData) := by
  unfold SameClassDuplicate; infer_instance

/-- A student of SecondYear B as the form holds it, with the roll number of the sample
student. -/
def sampleFormOtherClass : Obj :=
  [("name", "Ravi"), ("rollNumber", "7"), ("year", "SecondYear"), ("division", "B"),
    ("email", ""), ("phone", "")]

/-! ## Running computations -/

@[simp] theorem Eff.ret_run {α : Type} (a : α) (w : World) : Eff.ret a w = (Outcome.ok a, w) := rfl
@[simp] theorem Eff.pure_run {α : Type} (a : α) (w : World) :
    (pure a : Eff α) w = (Outcome.ok a, w) := rfl
@[simp] theorem Eff.throw_run {α : Type} (e : String) (w : World) :
    (Eff.throw e : Eff α) w = (Outcome.error e, w) := rfl
@[simp] theorem Eff.hang_run {α : Type} (w : World) :
    (Eff.hang : Eff α) w = (Outcome.pending, w) := rfl
@[simp] theorem Eff.getWorld_run (w : World) : Eff.getWorld w = (Outcome.ok w, w) := rfl
@[simp] theorem Eff.modify_run (f : World → World) (w : World) :
    Eff.modify f w = (Outcome.ok (), f w) := rfl
@[simp] theorem Eff.next_run (w : World) : Eff.next w = (Outcome.ok w.tick, w.advance 1) := rfl
@[simp] theorem Eff.bind_run {α β : Type} (m : Eff α) (f : α → Eff β) (w : World) :
    (m >>= f) w = Eff.cont (m w) f := rfl
@[simp] theorem Eff.tryCatch_run {α : Type} (m : Eff α) (h : String → Eff α) (w : World) :
    Eff.tryCatch m h w = Eff.handle (m w) h := rfl
@[simp] theorem Eff.ite_run {α : Type} (c : Prop) [Decidable c] (a b : Eff α) (w : World) :
    (if c then a else b) w = if c then a w else b w := by
  split <;> rfl

@[simp] theorem Eff.cont_ok {α β : Type} (a : α) (w : World) (f : α → Eff β) :
    Eff.cont (Outcome.ok a, w) f = f a w := rfl
@[simp] theorem Eff.cont_error {α β : Type} (e : String) (w : World) (f : α → Eff β) :
    Eff.cont (Outcome.error e, w) f = (Outcome.error e, w) := rfl
@[simp] theorem Eff.cont_pending {α β : Type} (w : World) (f : α → Eff β) :
    Eff.cont (Outcome.pending, w) f = (Outcome.pending, w) := rfl
@[simp] theorem Eff.cont_ite {α β : Type} (c : Prop) [Decidable c] (x y : Outcome α × World)
    (f : α → Eff β) : Eff.cont (if c then x else y) f = if c then Eff.cont x f else Eff.cont y f := by
  split <;> rfl
@[simp] theorem Eff.handle_ok {α : Type} (a : α) (w : World) (h : String → Eff α) :
    Eff.handle (Outcome.ok a, w) h = (Outcome.ok a, w) := rfl
@[simp] theorem Eff.handle_error {α : Type} (e : String) (w : World) (h : String → Eff α) :
    Eff.handle (Outcome.error e, w) h = h e w := rfl
@[simp] theorem Eff.handle_pending {α : Type} (w : World) (h : String → Eff α) :
    Eff.handle (Outcome.pending, w) h = (Outcome.pending, w) := rfl
@[simp] theorem Eff.handle_ite {α : Type} (c : Prop) [Decidable c] (x y : Outcome α × World)
    (h : String → Eff α) :
    Eff.handle (if c then x else y) h = if c then Eff.handle x h else Eff.handle y h := by
  split <;> rfl

@[simp] theorem World.advance_tick (w : World) (k : Nat) : (w.advance k).tick = w.tick + k := rfl
@[simp] theorem World.advance_store (w : World) (k : Nat) (n : StoreName) :
    (w.advance k).store n = w.store n := by cases n <;> rfl
@[simp] theorem World.advance_advance (w : World) (j k : Nat) :
    (w.advance j).advance k = w.advance (j + k) := by
  simp [World.advance, Nat.add_assoc]
@[simp] theorem World.advance_indexedDBPresent (w : World) (k : Nat) :
    (w.advance k).indexedDBPresent = w.indexedDBPresent := rfl

theorem initDB_run (env : Env) (w : World) :
    initDB env w =
      if w.indexedDBPresent && env.idbOpenOk w.tick then (Outcome.ok (), w.advance 1)
      else (Outcome.error "Failed to open IndexedDB", w.advance 1) := by
  simp [initDB]

theorem idbRequest_run (env : Env) (w : World) :
    idbRequest env w = (Outcome.ok (env.idbRequestOk w.tick), w.advance 1) := by
  simp [idbRequest]

theorem addLocal_run (env : Env) (n : StoreName) (record : Obj) (w : World) :
    addLocal env n record w =
      if w.indexedDBPresent && env.idbOpenOk w.tick then
        match Obj.get record "id" with
        | none => (Outcome.error "DataError", w.advance 1)
        | some k =>
          if hasKey (w.store n) k then (Outcome.error "ConstraintError", w.advance 2)
          else if env.idbRequestOk (w.tick + 1) then
            (Outcome.ok record, (w.advance 2).setStore n (insertByKey record (w.store n)))
          else (Outcome.error "add request failed", w.advance 2)
      else (Outcome.error "Failed to open IndexedDB", w.advance 1) := by
  cases hid : Obj.get record "id" with
  | none => simp [addLocal, initDB_run, idbRequest_run, hid]
  | some k => simp [addLocal, initDB_run, idbRequest_run, hid]

/-! ## Objects and stores -/

theorem Obj.get_set_same (o : Obj) (k v : String) : Obj.get (Obj.set o k v) k = some v := by
  induction o with
  | nil => simp [Obj.set, Obj.get]
  | cons p rest ih =>
    obtain ⟨k1, v1⟩ := p
    by_cases h : k1 = k
    · simp [Obj.set, Obj.get, h]
    · simp [Obj.set, Obj.get, h, ih]

theorem Obj.get_set_other (o : Obj) (k v k2 : String) (hk : k2 ≠ k) :
    Obj.get (Obj.set o k v) k2 = Obj.get o k2 := by
  induction o with
  | nil => simp [Obj.set, Obj.get, Ne.symm hk]
  | cons p rest ih =>
    obtain ⟨k1, v1⟩ := p
    by_cases h : k1 = k
    · subst h
      simp [Obj.set, Obj.get, Ne.symm hk]
    · by_cases h2 : k1 = k2
      · subst h2
        simp [Obj.set, Obj.get, h]
      · simp [Obj.set, Obj.get, h, h2, ih]

theorem mem_insertByKey (r x : Obj) (l : List Obj) : x ∈ insertByKey r l ↔ x = r ∨ x ∈ l := by
  induction l with
  | nil => simp [insertByKey]
  | cons y ys ih =>
    unfold insertByKey
    split
    · simp
    · simp [ih]; tauto

theorem hasKey_eq_false {store : List Obj} {k : String} (h : hasKey store k = false) :
    ∀ x ∈ store, keyOf x ≠ k := by
  intro x hx
  simp [hasKey] at h
  exact h x hx

theorem get_id_ne_of_keyOf_ne {x : Obj} {k : String} (h : keyOf x ≠ k) :
    Obj.get x "id" ≠ some k := by
  intro hx
  apply h
  simp [keyOf, hx]

@[simp] theorem World.setStore_store_same (w : World) (n : StoreName) (s : List Obj) :
    (w.setStore n s).store n = s := by cases n <;> rfl

@[simp] theorem World.store_students (w : World) : w.store StoreName.students = w.localStudents :=
  rfl

@[simp] theorem World.store_attendance (w : World) :
    w.store StoreName.attendance = w.localAttendance := rfl

@[simp] theorem World.advance_localStudents (w : World) (k : Nat) :
    (w.advance k).localStudents = w.localStudents := rfl

@[simp] theorem World.advance_localAttendance (w : World) (k : Nat) :
    (w.advance k).localAttendance = w.localAttendance := rfl

@[simp] theorem World.advance_isOnline (w : World) (k : Nat) :
    (w.advance k).isOnline = w.isOnline := rfl

@[simp] theorem World.advance_remoteStudents (w : World) (k : Nat) :
    (w.advance k).remoteStudents = w.remoteStudents := rfl

@[simp] theorem World.advance_remoteAttendance (w : World) (k : Nat) :
    (w.advance k).remoteAttendance = w.remoteAttendance := rfl

@[simp] theorem World.advance_firebaseConnected (w : World) (k : Nat) :
    (w.advance k).firebaseConnected = w.firebaseConnected := rfl

@[simp] theorem World.setConnected_firebaseConnected (w : World) (c : Bool) :
    (w.setConnected c).firebaseConnected = c := rfl

@[simp] theorem World.setConnected_tick (w : World) (c : Bool) :
    (w.setConnected c).tick = w.tick := rfl

@[simp] theorem World.setConnected_isOnline (w : World) (c : Bool) :
    (w.setConnected c).isOnline = w.isOnline := rfl

@[simp] theorem World.setConnected_indexedDBPresent (w : World) (c : Bool) :
    (w.setConnected c).indexedDBPresent = w.indexedDBPresent := rfl

@[simp] theorem World.setConnected_localStudents (w : World) (c : Bool) :
    (w.setConnected c).localStudents = w.localStudents := rfl

@[simp] theorem World.setConnected_localAttendance (w : World) (c : Bool) :
    (w.setConnected c).localAttendance = w.localAttendance := rfl

@[simp] theorem World.setConnected_remoteStudents (w : World) (c : Bool) :
    (w.setConnected c).remoteStudents = w.remoteStudents := rfl

@[simp] theorem World.setConnected_remoteAttendance (w : World) (c : Bool) :
    (w.setConnected c).remoteAttendance = w.remoteAttendance := rfl

@[simp] theorem World.setConnected_store (w : World) (c : Bool) (n : StoreName) :
    (w.setConnected c).store n = w.store n := by cases n <;> rfl

@[simp] theorem World.setConnected_remote (w : World) (c : Bool) (n : StoreName) :
    (w.setConnected c).remote n = w.remote n := by cases n <;> rfl

theorem Eff.cont_swallow_ne_error {β : Type} (r : Outcome Unit × World) (b : β) (e : String)
    (w2 : World) :
    Eff.cont (Eff.handle r (fun _ => pure ())) (fun _ => pure b) ≠ (Outcome.error e, w2) := by
  rcases r with ⟨o, w⟩
  cases o <;> simp

/-! ## Facade: adding one record -/

theorem withStudentMetadata_run (env : Env) (data : Obj) (w : World) :
    withStudentMetadata env data w =
      (Outcome.ok (Obj.set (Obj.set data "createdAt" (env.nowIso w.tick)) "updatedAt"
        (env.nowIso (w.tick + 1))), w.advance 2) := by
  simp [withStudentMetadata, nowIso]

theorem generateLocalId_run (env : Env) (w : World) :
    generateLocalId env w =
      (Outcome.ok ("local_" ++ (toString (env.nowMs w.tick) ++ "_" ++
        (env.randomDigits (w.tick + 1)).take 9)), w.advance 2) := by
  simp only [generateLocalId, Eff.bind_run, Eff.next_run, Eff.cont_ok, Eff.pure_run,
    World.advance_tick]
  rw [World.advance_advance]
  simp only [String.append_assoc]

theorem remoteAvailable_run (env : Env) (w : World) :
    remoteAvailable env w =
      if w.isOnline then
        if env.probeOk w.tick then
          (Outcome.ok true, (w.advance 1).setConnected true)
        else (Outcome.ok false, (w.advance 1).setConnected false)
      else (Outcome.ok false, w) := by
  simp [remoteAvailable, checkFirebaseConnection]

theorem addStudentRemote_error {env : Env} {uid : String} {s : Obj} {w w2 : World} {e : String}
    (h : addStudentRemote env uid s w = (Outcome.error e, w2)) :
    SameLocal w w2 ∧ SameRemote w w2 := by
  simp only [addStudentRemote, Eff.bind_run, remoteAvailable_run, addDoc] at h
  by_cases h1 : w.isOnline = true
  · by_cases h2 : env.probeOk w.tick = true
    · by_cases h3 : env.remoteOk (w.tick + 1) = true
      · simp [h1, h2, h3] at h
        exact absurd h (Eff.cont_swallow_ne_error _ _ _ _)
      · simp [h1, h2, h3] at h
        obtain ⟨-, rfl⟩ := h
        simp [SameLocal, SameRemote]
    · simp [h1, h2] at h
      obtain ⟨-, rfl⟩ := h
      simp [SameLocal, SameRemote]
  · simp [h1] at h
    obtain ⟨-, rfl⟩ := h
    simp [SameLocal, SameRemote]

@[simp] theorem World.setStore_localStudents (w : World) (s : List Obj) :
    (w.setStore StoreName.students s).localStudents = s := rfl
@[simp] theorem World.setStore_localAttendance (w : World) (s : List Obj) :
    (w.setStore StoreName.attendance s).localAttendance = s := rfl
@[simp] theorem World.setStore_students_localAttendance (w : World) (s : List Obj) :
    (w.setStore StoreName.students s).localAttendance = w.localAttendance := rfl
@[simp] theorem World.setStore_attendance_localStudents (w : World) (s : List Obj) :
    (w.setStore StoreName.attendance s).localStudents = w.localStudents := rfl
@[simp] theorem World.setStore_remoteStudents (w : World) (n : StoreName) (s : List Obj) :
    (w.setStore n s).remoteStudents = w.remoteStudents := by cases n <;> rfl
@[simp] theorem World.setStore_remoteAttendance (w : World) (n : StoreName) (s : List Obj) :
    (w.setStore n s).remoteAttendance = w.remoteAttendance := by cases n <;> rfl
@[simp] theorem World.setStore_indexedDBPresent (w : World) (n : StoreName) (s : List Obj) :
    (w.setStore n s).indexedDBPresent = w.indexedDBPresent := by cases n <;> rfl
@[simp] theorem World.setStore_isOnline (w : World) (n : StoreName) (s : List Obj) :
    (w.setStore n s).isOnline = w.isOnline := by cases n <;> rfl
@[simp] theorem World.setStore_tick (w : World) (n : StoreName) (s : List Obj) :
    (w.setStore n s).tick = w.tick := by cases n <;> rfl

theorem addStudentLocal_ok {env : Env} {s r : Obj} {w w3 : World}
    (h : addStudentLocal env s w = (Outcome.ok r, w3)) :
    ∃ rest : String, r = Obj.set s "id" ("local_" ++ rest) ∧
      hasKey w.localStudents ("local_" ++ rest) = false ∧
      w3.localStudents = insertByKey r w.localStudents ∧
      w3.localAttendance = w.localAttendance ∧ SameRemote w w3 := by
  simp only [addStudentLocal, isLocalDBSupported, Eff.bind_run, Eff.getWorld_run, Eff.pure_run,
    Eff.cont_ok, generateLocalId_run, addLocalStudent, addLocal_run, Eff.ite_run,
    Eff.throw_run] at h
  by_cases h1 : w.indexedDBPresent = true
  · simp only [h1, if_true, Eff.cont_ok, Obj.get_set_same] at h
    refine ⟨toString (env.nowMs w.tick) ++ "_" ++ (env.randomDigits (w.tick + 1)).take 9, ?_⟩
    split_ifs at h with ha hb hc
    · simp at h
    · simp only [Eff.cont_ok, Eff.pure_run, Prod.mk.injEq, Outcome.ok.injEq] at h
      obtain ⟨rfl, rfl⟩ := h
      simp only [World.advance_store, World.store_students, World.store_attendance,
        World.advance_localStudents, World.advance_localAttendance, Bool.not_eq_true] at hb
      simp [hb, SameRemote]
    · simp at h
    · simp at h
  · simp [h1] at h

theorem withRecordMetadata_run (env : Env) (data : Obj) (w : World) :
    withRecordMetadata env data w =
      (Outcome.ok (Obj.set data "createdAt" (env.nowIso w.tick)), w.advance 1) := by
  simp [withRecordMetadata, nowIso]

theorem addAttendanceRecordRemote_error {env : Env} {uid : String} {s : Obj} {w w2 : World} {e : String}
    (h : addAttendanceRecordRemote env uid s w = (Outcome.error e, w2)) :
    SameLocal w w2 ∧ SameRemote w w2 := by
  simp only [addAttendanceRecordRemote, Eff.bind_run, remoteAvailable_run, addDoc] at h
  by_cases h1 : w.isOnline = true
  · by_cases h2 : env.probeOk w.tick = true
    · by_cases h3 : env.remoteOk (w.tick + 1) = true
      · simp [h1, h2, h3] at h
        exact absurd h (Eff.cont_swallow_ne_error _ _ _ _)
      · simp [h1, h2, h3] at h
        obtain ⟨-, rfl⟩ := h
        simp [SameLocal, SameRemote]
    · simp [h1, h2] at h
      obtain ⟨-, rfl⟩ := h
      simp [SameLocal, SameRemote]
  · simp [h1] at h
    obtain ⟨-, rfl⟩ := h
    simp [SameLocal, SameRemote]

theorem addAttendanceRecordLocal_ok {env : Env} {s r : Obj} {w w3 : World}
    (h : addAttendanceRecordLocal env s w = (Outcome.ok r, w3)) :
    ∃ rest : String, r = Obj.set s "id" ("local_" ++ rest) ∧
      hasKey w.localAttendance ("local_" ++ rest) = false ∧
      w3.localAttendance = insertByKey r w.localAttendance ∧
      w3.localStudents = w.localStudents ∧ SameRemote w w3 := by
  simp only [addAttendanceRecordLocal, isLocalDBSupported, Eff.bind_run, Eff.getWorld_run, Eff.pure_run,
    Eff.cont_ok, generateLocalId_run, addLocalAttendanceRecord, addLocal_run, Eff.ite_run,
    Eff.throw_run] at h
  by_cases h1 : w.indexedDBPresent = true
  · simp only [h1, if_true, Eff.cont_ok, Obj.get_set_same] at h
    refine ⟨toString (env.nowMs w.tick) ++ "_" ++ (env.randomDigits (w.tick + 1)).take 9, ?_⟩
    split_ifs at h with ha hb hc
    · simp at h
    · simp only [Eff.cont_ok, Eff.pure_run, Prod.mk.injEq, Outcome.ok.injEq] at h
      obtain ⟨rfl, rfl⟩ := h
      simp only [World.advance_store, World.store_students, World.store_attendance,
        World.advance_localStudents, World.advance_localAttendance, Bool.not_eq_true] at hb
      simp [hb, SameRemote]
    · simp at h
    · simp at h
  · simp [h1] at h

/-! ## Facade: the `try` blocks of the other write operations -/

theorem addMultipleStudentsRemote_error {env : Env} {uid : String} {l : List Obj} {w w2 : World}
    {e : String} (h : addMultipleStudentsRemote env uid l w = (Outcome.error e, w2)) :
    SameLocal w w2 ∧ SameRemote w w2 := by
  simp only [addMultipleStudentsRemote, Eff.bind_run, remoteAvailable_run, batchSetCommit] at h
  by_cases h1 : w.isOnline = true
  · by_cases h2 : env.probeOk w.tick = true
    · by_cases h3 : env.remoteOk (w.tick + 1 + l.length) = true
      · simp [h1, h2, h3] at h
        exact absurd h (Eff.cont_swallow_ne_error _ _ _ _)
      · simp [h1, h2, h3] at h
        obtain ⟨-, rfl⟩ := h
        simp [SameLocal, SameRemote]
    · simp [h1, h2] at h
      obtain ⟨-, rfl⟩ := h
      simp [SameLocal, SameRemote]
  · simp [h1] at h
    obtain ⟨-, rfl⟩ := h
    simp [SameLocal, SameRemote]
theorem addMultipleAttendanceRecordsRemote_error {env : Env} {uid : String} {l : List Obj}
    {w w2 : World} {e : String}
    (h : addMultipleAttendanceRecordsRemote env uid l w = (Outcome.error e, w2)) :
    SameLocal w w2 ∧ SameRemote w w2 := by
  simp only [addMultipleAttendanceRecordsRemote, Eff.bind_run, remoteAvailable_run,
    batchSetCommit] at h
  by_cases h1 : w.isOnline = true
  · by_cases h2 : env.probeOk w.tick = true
    · by_cases h3 : env.remoteOk (w.tick + 1 + l.length) = true
      · simp [h1, h2, h3] at h
        exact absurd h (Eff.cont_swallow_ne_error _ _ _ _)
      · simp [h1, h2, h3] at h
        obtain ⟨-, rfl⟩ := h
        simp [SameLocal, SameRemote]
    · simp [h1, h2] at h
      obtain ⟨-, rfl⟩ := h
      simp [SameLocal, SameRemote]
  · simp [h1] at h
    obtain ⟨-, rfl⟩ := h
    simp [SameLocal, SameRemote]

theorem updateStudentRemote_error {env : Env} {uid sid : String} {upd : Obj} {w w2 : World}
    {e : String} (h : updateStudentRemote env uid sid upd w = (Outcome.error e, w2)) :
    SameLocal w w2 ∧ SameRemote w w2 := by
  simp only [updateStudentRemote, Eff.bind_run, remoteAvailable_run, updateDoc] at h
  by_cases h1 : w.isOnline = true
  · by_cases h2 : env.probeOk w.tick = true
    · by_cases h3 : env.remoteOk (w.tick + 1) = true
      · cases hf : findDoc uid sid w.remoteStudents with
        | none =>
          simp [h1, h2, h3, World.remote, hf] at h
          obtain ⟨-, rfl⟩ := h
          simp [SameLocal, SameRemote]
        | some d =>
          simp [h1, h2, h3, World.remote, hf] at h
          exact absurd h (Eff.cont_swallow_ne_error _ _ _ _)
      · simp [h1, h2, h3] at h
        obtain ⟨-, rfl⟩ := h
        simp [SameLocal, SameRemote]
    · simp [h1, h2] at h
      obtain ⟨-, rfl⟩ := h
      simp [SameLocal, SameRemote]
  · simp [h1] at h
    obtain ⟨-, rfl⟩ := h
    simp [SameLocal, SameRemote]

theorem deleteStudentRemote_error {env : Env} {uid sid : String} {w w2 : World}
    {e : String} (h : deleteStudentRemote env uid sid w = (Outcome.error e, w2)) :
    SameLocal w w2 ∧ SameRemote w w2 := by
  simp only [deleteStudentRemote, Eff.bind_run, remoteAvailable_run, deleteDoc] at h
  by_cases h1 : w.isOnline = true
  · by_cases h2 : env.probeOk w.tick = true
    · by_cases h3 : env.remoteOk (w.tick + 1) = true
      · simp [h1, h2, h3] at h
        exact absurd h (Eff.cont_swallow_ne_error _ _ _ _)
      · simp [h1, h2, h3] at h
        obtain ⟨-, rfl⟩ := h
        simp [SameLocal, SameRemote]
    · simp [h1, h2] at h
      obtain ⟨-, rfl⟩ := h
      simp [SameLocal, SameRemote]
  · simp [h1] at h
    obtain ⟨-, rfl⟩ := h
    simp [SameLocal, SameRemote]

theorem deleteMultipleStudentsRemote_error {env : Env} {uid : String} {ids : List String}
    {w w2 : World} {e : String}
    (h : deleteMultipleStudentsRemote env uid ids w = (Outcome.error e, w2)) :
    SameLocal w w2 ∧ SameRemote w w2 := by
  simp only [deleteMultipleStudentsRemote, Eff.bind_run, remoteAvailable_run,
    batchDeleteCommit] at h
  by_cases h1 : w.isOnline = true
  · by_cases h2 : env.probeOk w.tick = true
    · by_cases h3 : env.remoteOk (w.tick + 1) = true
      · simp [h1, h2, h3] at h
        exact absurd h (Eff.cont_swallow_ne_error _ _ _ _)
      · simp [h1, h2, h3] at h
        obtain ⟨-, rfl⟩ := h
        simp [SameLocal, SameRemote]
    · simp [h1, h2] at h
      obtain ⟨-, rfl⟩ := h
      simp [SameLocal, SameRemote]
  · simp [h1] at h
    obtain ⟨-, rfl⟩ := h
    simp [SameLocal, SameRemote]
theorem mapEff_withStudentMetadata_run (env : Env) (data : List Obj) (w : World) :
    ∃ l, mapEff (withStudentMetadata env) data w = (Outcome.ok l, w.advance (2 * data.length)) ∧
      l.length = data.length := by
  induction data generalizing w with
  | nil => exact ⟨[], by simp [mapEff, World.advance], rfl⟩
  | cons d ds ih =>
    obtain ⟨l, hl, hlen⟩ := ih (w.advance 2)
    refine ⟨Obj.set (Obj.set d "createdAt" (env.nowIso w.tick)) "updatedAt"
      (env.nowIso (w.tick + 1)) :: l, ?_, by simp [hlen]⟩
    simp only [mapEff, Eff.bind_run, withStudentMetadata_run, Eff.cont_ok, hl, Eff.pure_run,
      World.advance_advance, List.length_cons]
    congr 2
    omega

theorem mapEff_withRecordMetadata_run (env : Env) (data : List Obj) (w : World) :
    ∃ l, mapEff (withRecordMetadata env) data w = (Outcome.ok l, w.advance data.length) ∧
      l.length = data.length := by
  induction data generalizing w with
  | nil => exact ⟨[], by simp [mapEff, World.advance], rfl⟩
  | cons d ds ih =>
    obtain ⟨l, hl, hlen⟩ := ih (w.advance 1)
    refine ⟨Obj.set d "createdAt" (env.nowIso w.tick) :: l, ?_, by simp [hlen]⟩
    simp only [mapEff, Eff.bind_run, withRecordMetadata_run, Eff.cont_ok, hl, Eff.pure_run,
      World.advance_advance, List.length_cons]
    congr 2
    omega

theorem sameLocal_advance (w : World) (k : Nat) : SameLocal w (w.advance k) := by
  simp [SameLocal]

theorem sameRemote_advance (w : World) (k : Nat) : SameRemote w (w.advance k) := by
  simp [SameRemote]

theorem sameLocal_trans {a b c : World} (h1 : SameLocal a b) (h2 : SameLocal b c) :
    SameLocal a c := by
  obtain ⟨x1, x2, x3⟩ := h1
  obtain ⟨y1, y2, y3⟩ := h2
  exact ⟨y1.trans x1, y2.trans x2, y3.trans x3⟩

theorem sameRemote_trans {a b c : World} (h1 : SameRemote a b) (h2 : SameRemote b c) :
    SameRemote a c := by
  obtain ⟨x1, x2⟩ := h1
  obtain ⟨y1, y2⟩ := h2
  exact ⟨y1.trans x1, y2.trans x2⟩

theorem addLocal_cont_pure (env : Env) (n : StoreName) (record : Obj) (w : World) :
    Eff.cont (addLocal env n record w) (fun _ => pure record) = addLocal env n record w := by
  rw [addLocal_run]
  cases Obj.get record "id" with
  | none => split_ifs <;> simp
  | some k => split_ifs <;> simp

theorem updateAttendanceRecordRemote_error {env : Env} {uid rid : String} {upd : Obj}
    {w w2 : World} {e : String}
    (h : updateAttendanceRecordRemote env uid rid upd w = (Outcome.error e, w2)) :
    SameLocal w w2 ∧ SameRemote w w2 := by
  simp only [updateAttendanceRecordRemote, Eff.bind_run, remoteAvailable_run, updateDoc] at h
  by_cases h1 : w.isOnline = true
  · by_cases h2 : env.probeOk w.tick = true
    · by_cases h3 : env.remoteOk (w.tick + 1) = true
      · cases hf : findDoc uid rid w.remoteAttendance with
        | none =>
          simp [h1, h2, h3, World.remote, hf] at h
          obtain ⟨-, rfl⟩ := h
          simp [SameLocal, SameRemote]
        | some d =>
          simp [h1, h2, h3, World.remote, hf] at h
      · simp [h1, h2, h3] at h
        obtain ⟨-, rfl⟩ := h
        simp [SameLocal, SameRemote]
    · simp [h1, h2] at h
      obtain ⟨-, rfl⟩ := h
      simp [SameLocal, SameRemote]
  · simp [h1] at h
    obtain ⟨-, rfl⟩ := h
    simp [SameLocal, SameRemote]

theorem deleteAttendanceRecordRemote_error {env : Env} {uid rid : String} {w w2 : World}
    {e : String} (h : deleteAttendanceRecordRemote env uid rid w = (Outcome.error e, w2)) :
    SameLocal w w2 ∧ SameRemote w w2 := by
  simp only [deleteAttendanceRecordRemote, Eff.bind_run, remoteAvailable_run, deleteDoc] at h
  by_cases h1 : w.isOnline = true
  · by_cases h2 : env.probeOk w.tick = true
    · by_cases h3 : env.remoteOk (w.tick + 1) = true
      · simp [h1, h2, h3] at h
      · simp [h1, h2, h3] at h
        obtain ⟨-, rfl⟩ := h
        simp [SameLocal, SameRemote]
    · simp [h1, h2] at h
      obtain ⟨-, rfl⟩ := h
      simp [SameLocal, SameRemote]
  · simp [h1] at h
    obtain ⟨-, rfl⟩ := h
    simp [SameLocal, SameRemote]

/-! ## Facade: reads -/

@[simp] theorem World.advance_remote (w : World) (k : Nat) (n : StoreName) :
    (w.advance k).remote n = w.remote n := by cases n <;> rfl

theorem filterIf_nil (v : Option String) (p : String → Obj → Bool) : filterIf v p [] = [] := by
  cases v with
  | none => rfl
  | some x =>
    simp only [filterIf]
    split <;> rfl

theorem applyFilters_nil (filters : Obj) : applyFilters filters [] = [] := by
  simp only [applyFilters, filterIf_nil]

theorem getDocs_run (env : Env) (n : StoreName) (uid : String) (w : World) :
    getDocs env n uid w =
      if env.remoteOk w.tick then
        (Outcome.ok ((w.remote n).filter (fun d => decide (d.user = uid))), w.advance 1)
      else (Outcome.error "remote read rejected", w.advance 1) := by
  simp only [getDocs, Eff.bind_run, Eff.next_run, Eff.cont_ok, Eff.ite_run, Eff.getWorld_run,
    Eff.pure_run, Eff.throw_run]
  split_ifs <;> simp_all

theorem getStudentsRemote_unreachable {env : Env} {w : World} (uid : String)
    (h : RemoteUnreachable env w) :
    ∃ e w2, getStudentsRemote env uid w = (Outcome.error e, w2) ∧ SameLocal w w2 ∧
      SameRemote w w2 := by
  have key : ∀ o w2, getStudentsRemote env uid w = (o, w2) →
      (∃ e, o = Outcome.error e) ∧ SameLocal w w2 ∧ SameRemote w w2 := by
    intro o w2 hrun
    simp only [getStudentsRemote, Eff.bind_run, remoteAvailable_run, getDocs_run] at hrun
    by_cases h1 : w.isOnline = true
    · by_cases h2 : env.probeOk w.tick = true
      · have h3 : env.remoteOk (w.tick + 1) = false := by
          rcases h with h | h | h
          · rw [h1] at h; cases h
          · rw [h2] at h; cases h
          · exact h
        simp [h1, h2, h3, getDocs_run] at hrun
        obtain ⟨rfl, rfl⟩ := hrun
        simp [SameLocal, SameRemote]
      · simp [h1, h2] at hrun
        obtain ⟨rfl, rfl⟩ := hrun
        simp [SameLocal, SameRemote]
    · simp [h1] at hrun
      obtain ⟨rfl, rfl⟩ := hrun
      simp [SameLocal, SameRemote]
  rcases hrun : getStudentsRemote env uid w with ⟨o, w2⟩
  obtain ⟨⟨e, rfl⟩, hl, hr⟩ := key o w2 hrun
  exact ⟨e, w2, rfl, hl, hr⟩

theorem getAttendanceRecordsRemote_unreachable {env : Env} {w : World} (uid : String)
    (filters : Obj) (h : RemoteUnreachable env w) :
    ∃ e w2, getAttendanceRecordsRemote env uid filters w = (Outcome.error e, w2) ∧
      SameLocal w w2 ∧ SameRemote w w2 := by
  have key : ∀ o w2, getAttendanceRecordsRemote env uid filters w = (o, w2) →
      (∃ e, o = Outcome.error e) ∧ SameLocal w w2 ∧ SameRemote w w2 := by
    intro o w2 hrun
    simp only [getAttendanceRecordsRemote, Eff.bind_run, remoteAvailable_run,
      getDocs_run] at hrun
    by_cases h1 : w.isOnline = true
    · by_cases h2 : env.probeOk w.tick = true
      · have h3 : env.remoteOk (w.tick + 1) = false := by
          rcases h with h | h | h
          · rw [h1] at h; cases h
          · rw [h2] at h; cases h
          · exact h
        simp [h1, h2, h3, getDocs_run] at hrun
        obtain ⟨rfl, rfl⟩ := hrun
        simp [SameLocal, SameRemote]
      · simp [h1, h2] at hrun
        obtain ⟨rfl, rfl⟩ := hrun
        simp [SameLocal, SameRemote]
    · simp [h1] at hrun
      obtain ⟨rfl, rfl⟩ := hrun
      simp [SameLocal, SameRemote]
  rcases hrun : getAttendanceRecordsRemote env uid filters w with ⟨o, w2⟩
  obtain ⟨⟨e, rfl⟩, hl, hr⟩ := key o w2 hrun
  exact ⟨e, w2, rfl, hl, hr⟩

theorem getLocalAll_run (env : Env) (n : StoreName) (w : World) :
    getLocalAll env n w =
      if w.indexedDBPresent && env.idbOpenOk w.tick then
        if env.idbRequestOk (w.tick + 1) then (Outcome.ok (w.store n), w.advance 2)
        else (Outcome.error "getAll request failed", w.advance 2)
      else (Outcome.ok [], w.advance 1) := by
  simp only [getLocalAll, Eff.bind_run, Eff.tryCatch_run, initDB_run]
  split_ifs <;> simp_all [idbRequest_run]

@[simp] theorem liftExcept_ok_run {α : Type} (a : α) (w : World) :
    liftExcept (Except.ok a : Except String α) w = (Outcome.ok a, w) := rfl

@[simp] theorem liftExcept_error_run {α : Type} (e : String) (w : World) :
    liftExcept (Except.error e : Except String α) w = (Outcome.error e, w) := rfl

/-! ## Sorting -/

theorem strLt_iff (a b : String) : strLt a b ↔ a < b := by
  unfold strLt
  exact String.lt_iff_toList_lt.symm

theorem codePointCompare_le_zero (a b : String) :
    codePointCompare a b ≤ 0 ↔ ¬ strLt b a := by
  unfold codePointCompare
  simp only [strLt_iff]
  rcases lt_trichotomy a b with h | h | h
  · simp [h, not_lt_of_lt h]
  · subst h; simp
  · simp [h, not_lt_of_lt h, ne_of_gt h]

theorem codePointCompare_collates (env : Env) (h : env.collate = codePointCompare) :
    env.Collates := by
  constructor
  · intro a b
    rw [h, codePointCompare_le_zero]
    unfold codePointCompare
    simp only [strLt_iff]
    rcases lt_trichotomy a b with h1 | h1 | h1
    · simp [h1]
    · subst h1; simp
    · simp [h1, not_lt_of_lt h1, ne_of_gt h1]
  · intro a b c
    rw [h]
    simp only [codePointCompare_le_zero, strLt_iff, not_lt]
    exact fun h1 h2 => le_trans h1 h2

theorem codePointCompare_byCharacter (env : Env) (h : env.collate = codePointCompare)
    (l : List Obj) : CollatesByCharacter env l := by
  intro x _ y _ k _
  rw [h]
  exact codePointCompare_le_zero _ _

theorem collate_self {env : Env} (hc : env.Collates) (a : String) : env.collate a a = 0 := by
  have h := hc.swap a a
  omega

theorem collate_lt_of_lt_of_le {env : Env} (hc : env.Collates) {a b c : String}
    (h1 : env.collate a b < 0) (h2 : env.collate b c ≤ 0) : env.collate a c < 0 := by
  by_contra h
  have h3 : env.collate c a ≤ 0 := (hc.swap a c).2 (by omega)
  have h4 : env.collate b a ≤ 0 := hc.trans b c a h2 h3
  have h5 := (hc.swap a b).1 h4
  omega

theorem collate_lt_of_le_of_lt {env : Env} (hc : env.Collates) {a b c : String}
    (h1 : env.collate a b ≤ 0) (h2 : env.collate b c < 0) : env.collate a c < 0 := by
  by_contra h
  have h3 : env.collate c a ≤ 0 := (hc.swap a c).2 (by omega)
  have h4 : env.collate c b ≤ 0 := hc.trans c a b h3 h1
  have h5 := (hc.swap b c).1 h4
  omega

theorem separates_of_byCharacter {env : Env} {l : List Obj} (hc : env.Collates)
    (h : CollatesByCharacter env l) : Separates env l := by
  have key : ∀ x ∈ l, ∀ y ∈ l, ∀ k ∈ ["year", "division", "rollNumber"],
      env.collate (field x k) (field y k) = 0 → field x k = field y k := by
    intro x hx y hy k hk h0
    have h1 : ¬ strLt (field y k) (field x k) := (h x hx y hy k hk).1 (le_of_eq h0)
    have h2 : ¬ strLt (field x k) (field y k) :=
      (h y hy x hx k hk).1 ((hc.swap _ _).2 (le_of_eq h0.symm))
    rw [strLt_iff] at h1 h2
    exact le_antisymm (not_lt.mp h1) (not_lt.mp h2)
  intro x hx y hy
  exact ⟨key x hx y hy "year" (by simp), key x hx y hy "division" (by simp)⟩

theorem studentCmp_le_zero {env : Env} {l : List Obj} (h : CollatesByCharacter env l)
    {a b : Obj} (ha : a ∈ l) (hb : b ∈ l) : studentCmp env a b ≤ 0 ↔ StudentLe a b := by
  have hy := h a ha b hb "year" (by simp)
  have hd := h a ha b hb "division" (by simp)
  have hr := h a ha b hb "rollNumber" (by simp)
  unfold studentCmp StudentLe localeCompare
  simp only [strLt_iff] at hy hd hr ⊢
  by_cases h1 : field a "year" = field b "year"
  · by_cases h2 : field a "division" = field b "division"
    · simp [h1, h2, hr]
    · simp only [h1, h2, ne_eq, not_true_eq_false, if_false, not_false_eq_true, if_true, hd,
        lt_self_iff_false, true_and, false_and, or_false, false_or]
      exact ⟨fun h => lt_of_le_of_ne (not_lt.mp h) h2, fun h => not_lt_of_lt h⟩
  · simp only [h1, ne_eq, not_false_eq_true, if_true, hy, false_and, or_false]
    exact ⟨fun h => lt_of_le_of_ne (not_lt.mp h) h1, fun h => not_lt_of_lt h⟩

theorem studentCmp_le_zero_collation {env : Env} {l : List Obj} (hc : env.Collates)
    (h : Separates env l) {a b : Obj} (ha : a ∈ l) (hb : b ∈ l) :
    studentCmp env a b ≤ 0 ↔ CollationLe env a b := by
  obtain ⟨hy, hd⟩ := h a ha b hb
  unfold studentCmp CollationLe localeCompare
  by_cases h1 : field a "year" = field b "year"
  · have hy0 : env.collate (field a "year") (field b "year") = 0 := by
      rw [h1]; exact collate_self hc _
    by_cases h2 : field a "division" = field b "division"
    · have hd0 : env.collate (field a "division") (field b "division") = 0 := by
        rw [h2]; exact collate_self hc _
      simp only [h1, h2, ne_eq, not_true_eq_false, if_false, true_and]
      rw [h1] at hy0
      rw [h2] at hd0
      constructor
      · intro hr
        exact Or.inr (Or.inr hr)
      · rintro (hlt | hlt | hr)
        · omega
        · omega
        · exact hr
    · simp only [h1, h2, ne_eq, not_true_eq_false, if_false, not_false_eq_true, if_true,
        true_and, false_and, or_false]
      rw [h1] at hy0
      constructor
      · intro hle
        refine Or.inr ?_
        by_contra hlt
        exact h2 (hd (by omega))
      · rintro (hlt | hlt)
        · omega
        · omega
  · simp only [h1, ne_eq, not_false_eq_true, if_true, false_and, or_false]
    constructor
    · intro hle
      by_contra hlt
      exact h1 (hy (by omega))
    · intro hlt
      omega

theorem collationLe_total {env : Env} {l : List Obj} (hc : env.Collates) (h : Separates env l)
    {a b : Obj} (ha : a ∈ l) (hb : b ∈ l) : CollationLe env a b ∨ CollationLe env b a := by
  obtain ⟨hy, hd⟩ := h a ha b hb
  unfold CollationLe
  have sy := hc.swap (field a "year") (field b "year")
  have sd := hc.swap (field a "division") (field b "division")
  have sr := hc.swap (field a "rollNumber") (field b "rollNumber")
  have sy2 := hc.swap (field b "year") (field a "year")
  have sd2 := hc.swap (field b "division") (field a "division")
  rcases lt_trichotomy (env.collate (field a "year") (field b "year")) 0 with h1 | h1 | h1
  · exact Or.inl (Or.inl h1)
  · have e1 := hy h1
    rcases lt_trichotomy (env.collate (field a "division") (field b "division")) 0
      with h2 | h2 | h2
    · exact Or.inl (Or.inr ⟨e1, Or.inl h2⟩)
    · have e2 := hd h2
      by_cases h3 : env.collate (field a "rollNumber") (field b "rollNumber") ≤ 0
      · exact Or.inl (Or.inr ⟨e1, Or.inr ⟨e2, h3⟩⟩)
      · exact Or.inr (Or.inr ⟨e1.symm, Or.inr ⟨e2.symm, sr.2 (by omega)⟩⟩)
    · refine Or.inr (Or.inr ⟨e1.symm, Or.inl ?_⟩)
      have := sd.2 (by omega)
      by_contra hn
      have h4 : 0 ≤ env.collate (field b "division") (field a "division") := by omega
      have := sd2.2 h4
      omega
  · refine Or.inr (Or.inl ?_)
    have := sy.2 (by omega)
    by_contra hn
    have h4 : 0 ≤ env.collate (field b "year") (field a "year") := by omega
    have := sy2.2 h4
    omega

theorem collationLe_trans {env : Env} (hc : env.Collates) {a b c : Obj}
    (h1 : CollationLe env a b) (h2 : CollationLe env b c) : CollationLe env a c := by
  unfold CollationLe at *
  rcases h1 with h1 | ⟨e1, h1⟩
  · rcases h2 with h2 | ⟨e2, h2⟩
    · exact Or.inl (collate_lt_of_lt_of_le hc h1 (le_of_lt h2))
    · exact Or.inl (e2 ▸ h1)
  · rcases h2 with h2 | ⟨e2, h2⟩
    · exact Or.inl (e1 ▸ h2)
    · refine Or.inr ⟨e1.trans e2, ?_⟩
      rcases h1 with h1 | ⟨f1, h1⟩
      · rcases h2 with h2 | ⟨f2, h2⟩
        · exact Or.inl (collate_lt_of_lt_of_le hc h1 (le_of_lt h2))
        · exact Or.inl (f2 ▸ h1)
      · rcases h2 with h2 | ⟨f2, h2⟩
        · exact Or.inl (f1 ▸ h2)
        · exact Or.inr ⟨f1.trans f2, hc.trans _ _ _ h1 h2⟩

theorem studentCompare_eq (env : Env) {a b : Obj} (ha : IsStudent a) (hb : IsStudent b) :
    studentCompare env a b = Except.ok (studentCmp env a b) := by
  obtain ⟨ha1, ha2, ha3⟩ := ha
  obtain ⟨hb1, hb2, hb3⟩ := hb
  obtain ⟨y1, hy1⟩ := Option.isSome_iff_exists.mp ha1
  obtain ⟨d1, hd1⟩ := Option.isSome_iff_exists.mp ha2
  obtain ⟨r1, hr1⟩ := Option.isSome_iff_exists.mp ha3
  obtain ⟨y2, hy2⟩ := Option.isSome_iff_exists.mp hb1
  obtain ⟨d2, hd2⟩ := Option.isSome_iff_exists.mp hb2
  obtain ⟨r2, hr2⟩ := Option.isSome_iff_exists.mp hb3
  simp only [studentCompare, studentCmp, field, hy1, hy2, hd1, hd2, hr1, hr2, localeCompareProp,
    Option.getD_some, ne_eq, Option.some.injEq]
  split_ifs <;> rfl

theorem studentLe_total (a b : Obj) : StudentLe a b ∨ StudentLe b a := by
  unfold StudentLe
  simp only [strLt_iff]
  rcases lt_trichotomy (field a "year") (field b "year") with h | h | h
  · exact Or.inl (Or.inl h)
  · rcases lt_trichotomy (field a "division") (field b "division") with h2 | h2 | h2
    · exact Or.inl (Or.inr ⟨h, Or.inl h2⟩)
    · rcases le_total (field a "rollNumber") (field b "rollNumber") with h3 | h3
      · exact Or.inl (Or.inr ⟨h, Or.inr ⟨h2, not_lt.mpr h3⟩⟩)
      · exact Or.inr (Or.inr ⟨h.symm, Or.inr ⟨h2.symm, not_lt.mpr h3⟩⟩)
    · exact Or.inr (Or.inr ⟨h.symm, Or.inl h2⟩)
  · exact Or.inr (Or.inl h)

theorem studentLe_trans {a b c : Obj} (h1 : StudentLe a b) (h2 : StudentLe b c) :
    StudentLe a c := by
  unfold StudentLe at *
  simp only [strLt_iff] at *
  rcases h1 with h1 | ⟨e1, h1⟩
  · rcases h2 with h2 | ⟨e2, h2⟩
    · exact Or.inl (lt_trans h1 h2)
    · exact Or.inl (e2 ▸ h1)
  · rcases h2 with h2 | ⟨e2, h2⟩
    · exact Or.inl (e1 ▸ h2)
    · refine Or.inr ⟨e1.trans e2, ?_⟩
      rcases h1 with h1 | ⟨f1, h1⟩
      · rcases h2 with h2 | ⟨f2, h2⟩
        · exact Or.inl (lt_trans h1 h2)
        · exact Or.inl (f2 ▸ h1)
      · rcases h2 with h2 | ⟨f2, h2⟩
        · exact Or.inl (f1 ▸ h2)
        · exact Or.inr ⟨f1.trans f2, not_lt.mpr (le_trans (not_lt.mp h1) (not_lt.mp h2))⟩

theorem insertSorted_eq {α : Type} (cmp : α → α → Except String Int) (c : α → α → Int)
    (P : α → Prop) (hc : ∀ a b, P a → P b → cmp a b = Except.ok (c a b)) (a : α) (ha : P a)
    (l : List α) (hl : ∀ x ∈ l, P x) :
    insertSorted cmp a l = Except.ok (List.orderedInsert (fun x y => c x y ≤ 0) a l) := by
  induction l with
  | nil => rfl
  | cons b l ih =>
    have hb : P b := hl b (List.mem_cons_self b l)
    have hl2 : ∀ x ∈ l, P x := fun x hx => hl x (List.mem_cons_of_mem b hx)
    simp only [insertSorted, hc a b ha hb, List.orderedInsert, ih hl2]
    split_ifs <;> rfl

theorem jsSort_eq {α : Type} (cmp : α → α → Except String Int) (c : α → α → Int)
    (P : α → Prop) (hc : ∀ a b, P a → P b → cmp a b = Except.ok (c a b))
    (l : List α) (hl : ∀ x ∈ l, P x) :
    jsSort cmp l = Except.ok (List.insertionSort (fun x y => c x y ≤ 0) l) := by
  induction l with
  | nil => rfl
  | cons a l ih =>
    have ha : P a := hl a (List.mem_cons_self a l)
    have hl2 : ∀ x ∈ l, P x := fun x hx => hl x (List.mem_cons_of_mem a hx)
    simp only [jsSort, ih hl2, List.insertionSort]
    apply insertSorted_eq cmp c P hc a ha
    intro x hx
    exact hl2 x ((List.perm_insertionSort _ l).mem_iff.mp hx)

theorem sorted_orderedInsert_of_mem {α : Type} (R S : α → α → Prop) [DecidableRel R] (a : α)
    (l : List α) (hs : l.Sorted S) (hRS : ∀ y ∈ l, (R a y ↔ S a y))
    (htot : ∀ y ∈ l, S a y ∨ S y a) (htr : ∀ x y z, S x y → S y z → S x z) :
    (List.orderedInsert R a l).Sorted S := by
  induction l with
  | nil => simp
  | cons b l ih =>
    have hb := List.sorted_cons.1 hs
    by_cases h : R a b
    · rw [List.orderedInsert, if_pos h]
      have hab : S a b := (hRS b (List.mem_cons_self b l)).1 h
      refine List.sorted_cons.2 ⟨?_, hs⟩
      intro c hc
      rcases List.mem_cons.1 hc with rfl | hc
      · exact hab
      · exact htr _ _ _ hab (hb.1 c hc)
    · rw [List.orderedInsert, if_neg h]
      have hba : S b a := by
        rcases htot b (List.mem_cons_self b l) with h1 | h1
        · exact absurd ((hRS b (List.mem_cons_self b l)).2 h1) h
        · exact h1
      refine List.sorted_cons.2 ⟨?_, ih hb.2 (fun y hy => hRS y (List.mem_cons_of_mem b hy))
        (fun y hy => htot y (List.mem_cons_of_mem b hy))⟩
      intro c hc
      rcases (List.mem_orderedInsert R).1 hc with rfl | hc
      · exact hba
      · exact hb.1 c hc

theorem sorted_insertionSort_of_mem {α : Type} (R S : α → α → Prop) [DecidableRel R]
    (l : List α) (hRS : ∀ x ∈ l, ∀ y ∈ l, (R x y ↔ S x y))
    (htot : ∀ x ∈ l, ∀ y ∈ l, S x y ∨ S y x) (htr : ∀ x y z, S x y → S y z → S x z) :
    (List.insertionSort R l).Sorted S := by
  induction l with
  | nil => simp
  | cons a l ih =>
    have hl : ∀ y ∈ List.insertionSort R l, y ∈ l := fun y hy =>
      (List.perm_insertionSort R l).mem_iff.1 hy
    rw [List.insertionSort]
    refine sorted_orderedInsert_of_mem R S a _
      (ih (fun x hx y hy => hRS x (List.mem_cons_of_mem a hx) y (List.mem_cons_of_mem a hy))
        (fun x hx y hy => htot x (List.mem_cons_of_mem a hx) y (List.mem_cons_of_mem a hy)))
      (fun y hy => hRS a (List.mem_cons_self a l) y (List.mem_cons_of_mem a (hl y hy)))
      (fun y hy => htot a (List.mem_cons_self a l) y (List.mem_cons_of_mem a (hl y hy))) htr

/-- What `sort` with the comparator of `getStudents` gives on records that carry the three
sort fields: a permutation, in the order of the collation when the collation is consistent and
tells the years and divisions apart, and in the order character by character when the
collation agrees with it on the fields of the records. -/
theorem jsSort_students (env : Env) {l : List Obj} (hl : ∀ x ∈ l, IsStudent x) :
    ∃ res, jsSort (studentCompare env) l = Except.ok res ∧ res.Perm l ∧
      (env.Collates → Separates env l → res.Sorted (CollationLe env)) ∧
      (CollatesByCharacter env l → res.Sorted StudentLe) := by
  refine ⟨List.insertionSort (fun x y => studentCmp env x y ≤ 0) l,
    jsSort_eq (studentCompare env) (studentCmp env) IsStudent
      (fun a b => studentCompare_eq env) l hl,
    List.perm_insertionSort _ l, ?_, ?_⟩
  · intro hc hsep
    exact sorted_insertionSort_of_mem _ (CollationLe env) l
      (fun x hx y hy => studentCmp_le_zero_collation hc hsep hx hy)
      (fun x hx y hy => collationLe_total hc hsep hx hy)
      (fun _ _ _ => collationLe_trans hc)
  · intro hch
    exact sorted_insertionSort_of_mem _ StudentLe l
      (fun x hx y hy => studentCmp_le_zero hch hx hy)
      (fun x _ y _ => studentLe_total x y)
      (fun _ _ _ => studentLe_trans)

theorem saveLocal_run (env : Env) (n : StoreName) (records : List Obj) (w : World) :
    saveLocal env n records w =
      if w.indexedDBPresent && env.idbOpenOk w.tick then
        if env.idbRequestOk (w.tick + 1) then
          if records.isEmpty then (Outcome.ok (), (w.advance 2).setStore n [])
          else if records.any (fun r => (Obj.get r "id").isNone) then
            (Outcome.pending, w.advance 2)
          else
            match addAllRequests env (w.tick + 2) records [] with
            | some s => (Outcome.ok (), (w.advance (2 + records.length)).setStore n s)
            | none => (Outcome.ok (), w.advance (2 + records.length))
        else (Outcome.error "clear request failed", w.advance 2)
      else (Outcome.error "Failed to open IndexedDB", w.advance 1) := by
  by_cases h1 : (w.indexedDBPresent && env.idbOpenOk w.tick) = true
  · by_cases h2 : env.idbRequestOk (w.tick + 1) = true
    · by_cases h3 : records.isEmpty = true
      · simp [saveLocal, initDB_run, idbRequest_run, h1, h2, h3]
      · by_cases h4 : records.any (fun r => (Obj.get r "id").isNone) = true
        · simp [saveLocal, initDB_run, idbRequest_run, h1, h2, h3, h4]
        · cases h5 : addAllRequests env (w.tick + 2) records [] with
          | none => simp [saveLocal, initDB_run, idbRequest_run, h1, h2, h3, h4, h5]
          | some s => simp [saveLocal, initDB_run, idbRequest_run, h1, h2, h3, h4, h5]
    · simp [saveLocal, initDB_run, idbRequest_run, h1, h2]
  · simp [saveLocal, initDB_run, idbRequest_run, h1]

@[simp] theorem World.setStore_firebaseConnected (w : World) (n : StoreName) (s : List Obj) :
    (w.setStore n s).firebaseConnected = w.firebaseConnected := by cases n <;> rfl

theorem any_id_isNone_eq_false {records : List Obj}
    (hid : ∀ r ∈ records, (Obj.get r "id").isSome) :
    records.any (fun r => (Obj.get r "id").isNone) = false := by
  rw [List.any_eq_false]
  intro r hr
  obtain ⟨a, ha⟩ := Option.isSome_iff_exists.mp (hid r hr)
  simp [ha]

/-- What a swallowed save leaves of the world: everything but the saved store and the call
counter. -/
theorem saveLocal_swallow (env : Env) (n : StoreName) (records : List Obj) (w : World)
    (hid : ∀ r ∈ records, (Obj.get r "id").isSome) :
    ∃ w2, Eff.handle (saveLocal env n records w) (fun _ => pure ()) = (Outcome.ok (), w2) ∧
      SameRemote w w2 ∧ w2.isOnline = w.isOnline ∧
      w2.indexedDBPresent = w.indexedDBPresent ∧
      w2.firebaseConnected = w.firebaseConnected := by
  have hany := any_id_isNone_eq_false hid
  have key : ∀ o w2, Eff.handle (saveLocal env n records w) (fun _ => pure ()) = (o, w2) →
      o = Outcome.ok () ∧ SameRemote w w2 ∧ w2.isOnline = w.isOnline ∧
      w2.indexedDBPresent = w.indexedDBPresent ∧
      w2.firebaseConnected = w.firebaseConnected := by
    intro o w2 h
    rw [saveLocal_run] at h
    by_cases h1 : (w.indexedDBPresent && env.idbOpenOk w.tick) = true
    · by_cases h2 : env.idbRequestOk (w.tick + 1) = true
      · by_cases h3 : records.isEmpty = true
        · simp [h1, h2, h3] at h
          obtain ⟨rfl, rfl⟩ := h
          simp [SameRemote]
        · cases h5 : addAllRequests env (w.tick + 2) records [] with
          | none =>
            simp [h1, h2, h3, hany, h5] at h
            obtain ⟨rfl, rfl⟩ := h
            simp [SameRemote]
          | some s =>
            simp [h1, h2, h3, hany, h5] at h
            obtain ⟨rfl, rfl⟩ := h
            simp [SameRemote]
      · simp [h1, h2] at h
        obtain ⟨rfl, rfl⟩ := h
        simp [SameRemote]
    · simp [h1] at h
      obtain ⟨rfl, rfl⟩ := h
      simp [SameRemote]
  rcases h : Eff.handle (saveLocal env n records w) (fun _ => pure ()) with ⟨o, w2⟩
  obtain ⟨rfl, hr⟩ := key o w2 h
  exact ⟨w2, rfl, hr⟩

theorem get_set_isSome (o : Obj) (k v k2 : String) (h : (Obj.get o k2).isSome) :
    (Obj.get (Obj.set o k v) k2).isSome := by
  by_cases hk : k2 = k
  · subst hk
    rw [Obj.get_set_same]
    rfl
  · rw [Obj.get_set_other o k v k2 hk]
    exact h

theorem get_spread_isSome (a b : Obj) (k : String) (h : (Obj.get a k).isSome) :
    (Obj.get (spread a b) k).isSome := by
  unfold spread
  induction b generalizing a with
  | nil => exact h
  | cons p b ih =>
    simp only [List.foldl_cons]
    exact ih _ (get_set_isSome a p.1 p.2 k h)

theorem docRecord_id_isSome (d : Doc) : (Obj.get (docRecord d) "id").isSome := by
  unfold docRecord
  apply get_spread_isSome
  simp [Obj.get]

theorem recordsOf_id_isSome (w : World) (n : StoreName) (uid : String) :
    ∀ r ∈ recordsOf w n uid, (Obj.get r "id").isSome := by
  intro r hr
  simp only [recordsOf, List.mem_map] at hr
  obtain ⟨d, -, rfl⟩ := hr
  exact docRecord_id_isSome d

theorem getStudentsRemote_served {env : Env} {uid : String} {w : World}
    (h1 : w.isOnline = true) (h2 : env.probeOk w.tick = true)
    (h3 : env.remoteOk (w.tick + 1) = true) :
    getStudentsRemote env uid w =
      Eff.cont
        (Eff.handle
          (saveLocal env StoreName.students (recordsOf w StoreName.students uid)
            ((w.advance 1).setConnected true |>.advance 1))
          (fun _ => pure ()))
        (fun _ => liftExcept (jsSort (studentCompare env) (recordsOf w StoreName.students uid))) := by
  simp [getStudentsRemote, remoteAvailable_run, h1, h2, h3, getDocs_run, saveLocalStudents,
    recordsOf]

/-! ## Filtering and ordering attendance -/

theorem attendanceCompare_eq (env : Env) (a b : Obj) :
    attendanceCompare env a b = Except.ok (attendanceCmp env a b) := by
  unfold attendanceCompare attendanceCmp
  cases dateValue env (Obj.get b "date") <;> cases dateValue env (Obj.get a "date") <;> rfl

theorem jsSort_attendance (env : Env) (l : List Obj) :
    jsSort (attendanceCompare env) l =
      Except.ok (List.insertionSort (fun x y => attendanceCmp env x y ≤ 0) l) :=
  jsSort_eq (attendanceCompare env) (attendanceCmp env) (fun _ => True)
    (fun a b _ _ => attendanceCompare_eq env a b) l (fun _ _ => trivial)

theorem filterIf_eq (v : Option String) (p : String → Obj → Bool) (l : List Obj) :
    filterIf v p l = l.filter (fun r => decide (FilterOff v) || p (v.getD "") r) := by
  cases v with
  | none => simp [filterIf, FilterOff]
  | some x =>
    by_cases hx : x = ""
    · simp [filterIf, FilterOff, truthy, hx]
    · simp [filterIf, FilterOff, truthy, hx]

theorem applyFilters_eq (filters : Obj) (l : List Obj) :
    applyFilters filters l = l.filter (fun r => decide (Selects filters r)) := by
  simp only [applyFilters, filterIf_eq, List.filter_filter]
  apply List.filter_congr
  intro r _
  rw [Bool.eq_iff_iff]
  simp only [Selects, jsGe, jsLe, dateAtLeast, dateAtMost, Bool.and_eq_true, Bool.or_eq_true,
    decide_eq_true_eq]
  have hyear : ∀ v : Option String,
      (FilterOff v ∨ Obj.get r "year" = some (v.getD "")) ↔
        (FilterOff v ∨ Obj.get r "year" = v) := by
    intro v
    cases v with
    | none => simp [FilterOff]
    | some x => simp
  have hdiv : ∀ v : Option String,
      (FilterOff v ∨ Obj.get r "division" = some (v.getD "")) ↔
        (FilterOff v ∨ Obj.get r "division" = v) := by
    intro v
    cases v with
    | none => simp [FilterOff]
    | some x => simp
  rw [hyear, hdiv]
  cases hr : Obj.get r "date" with
  | none => simp; tauto
  | some d => simp; tauto

theorem getAttendanceRecordsRemote_served {env : Env} {uid : String} {w : World}
    (filters : Obj) (h1 : w.isOnline = true) (h2 : env.probeOk w.tick = true)
    (h3 : env.remoteOk (w.tick + 1) = true) :
    getAttendanceRecordsRemote env uid filters w =
      Eff.cont
        (Eff.handle
          (saveLocal env StoreName.attendance (recordsOf w StoreName.attendance uid)
            ((w.advance 1).setConnected true |>.advance 1))
          (fun _ => pure ()))
        (fun _ => liftExcept (jsSort (attendanceCompare env)
          (applyFilters filters (recordsOf w StoreName.attendance uid)))) := by
  simp [getAttendanceRecordsRemote, remoteAvailable_run, h1, h2, h3, getDocs_run,
    saveLocalAttendanceRecords, recordsOf]

/-! ## Frames: what a computation leaves unchanged -/

theorem keeps_pure {α : Type} {R : World → World → Prop} (hR : Frame R) (a : α) :
    Eff.Keeps R (pure a : Eff α) := by
  intro w o w2 h
  simp at h
  rw [← h.2]
  exact hR.refl w

theorem keeps_throw {α : Type} {R : World → World → Prop} (hR : Frame R) (e : String) :
    Eff.Keeps R (Eff.throw e : Eff α) := by
  intro w o w2 h
  simp at h
  rw [← h.2]
  exact hR.refl w

theorem keeps_hang {α : Type} {R : World → World → Prop} (hR : Frame R) :
    Eff.Keeps R (Eff.hang : Eff α) := by
  intro w o w2 h
  simp at h
  rw [← h.2]
  exact hR.refl w

theorem keeps_getWorld {R : World → World → Prop} (hR : Frame R) :
    Eff.Keeps R Eff.getWorld := by
  intro w o w2 h
  simp at h
  rw [← h.2]
  exact hR.refl w

theorem keeps_next {R : World → World → Prop} (hR : Frame R) : Eff.Keeps R Eff.next := by
  intro w o w2 h
  simp at h
  rw [← h.2]
  exact hR.advance w 1

theorem keeps_modify {R : World → World → Prop} (f : World → World) (hf : ∀ w, R w (f w)) :
    Eff.Keeps R (Eff.modify f) := by
  intro w o w2 h
  simp at h
  rw [← h.2]
  exact hf w

theorem keeps_bind {α β : Type} {R : World → World → Prop} (hR : Frame R) {m : Eff α}
    {f : α → Eff β} (hm : Eff.Keeps R m) (hf : ∀ a, Eff.Keeps R (f a)) :
    Eff.Keeps R (m >>= f) := by
  intro w o w2 h
  rw [Eff.bind_run] at h
  rcases hmw : m w with ⟨o1, w1⟩
  rw [hmw] at h
  have h1 := hm w o1 w1 hmw
  cases o1 with
  | ok a => exact hR.trans _ _ _ h1 (hf a w1 o w2 h)
  | error e =>
    simp at h
    rw [← h.2]
    exact h1
  | pending =>
    simp at h
    rw [← h.2]
    exact h1

theorem keeps_tryCatch {α : Type} {R : World → World → Prop} (hR : Frame R) {m : Eff α}
    {f : String → Eff α} (hm : Eff.Keeps R m) (hf : ∀ e, Eff.Keeps R (f e)) :
    Eff.Keeps R (Eff.tryCatch m f) := by
  intro w o w2 h
  rw [Eff.tryCatch_run] at h
  rcases hmw : m w with ⟨o1, w1⟩
  rw [hmw] at h
  have h1 := hm w o1 w1 hmw
  cases o1 with
  | ok a =>
    simp at h
    rw [← h.2]
    exact h1
  | error e => exact hR.trans _ _ _ h1 (hf e w1 o w2 h)
  | pending =>
    simp at h
    rw [← h.2]
    exact h1

theorem keeps_ite {α : Type} {R : World → World → Prop} (c : Prop) [Decidable c] {a b : Eff α}
    (ha : Eff.Keeps R a) (hb : Eff.Keeps R b) : Eff.Keeps R (if c then a else b) := by
  split
  · exact ha
  · exact hb

theorem keeps_liftExcept {α : Type} {R : World → World → Prop} (hR : Frame R)
    (x : Except String α) : Eff.Keeps R (liftExcept x) := by
  cases x with
  | ok a => exact keeps_pure hR a
  | error e => exact keeps_throw hR e

theorem frame_sameRemote : Frame SameRemote where
  refl := fun _ => ⟨rfl, rfl⟩
  trans := fun _ _ _ => sameRemote_trans
  advance := sameRemote_advance
  setConnected := fun _ _ => ⟨rfl, rfl⟩

theorem frame_sameLocal : Frame SameLocal where
  refl := fun _ => ⟨rfl, rfl, rfl⟩
  trans := fun _ _ _ => sameLocal_trans
  advance := sameLocal_advance
  setConnected := fun _ _ => ⟨rfl, rfl, rfl⟩

theorem keeps_initDB {R : World → World → Prop} (hR : Frame R) (env : Env) :
    Eff.Keeps R (initDB env) := by
  unfold initDB
  refine keeps_bind hR (keeps_next hR) (fun t => ?_)
  refine keeps_bind hR (keeps_getWorld hR) (fun w => ?_)
  exact keeps_ite _ (keeps_pure hR ()) (keeps_throw hR _)

theorem keeps_idbRequest {R : World → World → Prop} (hR : Frame R) (env : Env) :
    Eff.Keeps R (idbRequest env) := by
  unfold idbRequest
  exact keeps_bind hR (keeps_next hR) (fun t => keeps_pure hR _)

theorem keeps_checkFirebaseConnection {R : World → World → Prop} (hR : Frame R) (env : Env) :
    Eff.Keeps R (checkFirebaseConnection env) := by
  unfold checkFirebaseConnection
  refine keeps_bind hR (keeps_next hR) (fun t => ?_)
  refine keeps_ite _ ?_ ?_
  · exact keeps_bind hR (keeps_modify _ (fun w => hR.setConnected w true))
      (fun _ => keeps_pure hR _)
  · exact keeps_bind hR (keeps_modify _ (fun w => hR.setConnected w false))
      (fun _ => keeps_pure hR _)

theorem keeps_remoteAvailable {R : World → World → Prop} (hR : Frame R) (env : Env) :
    Eff.Keeps R (remoteAvailable env) := by
  unfold remoteAvailable
  refine keeps_bind hR (keeps_getWorld hR) (fun w => ?_)
  exact keeps_ite _ (keeps_checkFirebaseConnection hR env) (keeps_pure hR _)

theorem keeps_getDocs {R : World → World → Prop} (hR : Frame R) (env : Env) (n : StoreName)
    (uid : String) : Eff.Keeps R (getDocs env n uid) := by
  unfold getDocs
  refine keeps_bind hR (keeps_next hR) (fun t => ?_)
  refine keeps_ite _ ?_ (keeps_throw hR _)
  exact keeps_bind hR (keeps_getWorld hR) (fun w => keeps_pure hR _)

theorem keeps_getLocalAll {R : World → World → Prop} (hR : Frame R) (env : Env)
    (n : StoreName) : Eff.Keeps R (getLocalAll env n) := by
  unfold getLocalAll
  refine keeps_bind hR ?_ (fun opened => ?_)
  · exact keeps_tryCatch hR (keeps_bind hR (keeps_initDB hR env) (fun _ => keeps_pure hR _))
      (fun _ => keeps_pure hR _)
  · refine keeps_ite _ ?_ (keeps_pure hR _)
    refine keeps_bind hR (keeps_idbRequest hR env) (fun ok => ?_)
    refine keeps_ite _ ?_ (keeps_throw hR _)
    exact keeps_bind hR (keeps_getWorld hR) (fun w => keeps_pure hR _)

theorem sameRemote_setStore (w : World) (n : StoreName) (s : List Obj) :
    SameRemote w (w.setStore n s) := by
  simp [SameRemote]

theorem keeps_saveLocal_sameRemote (env : Env) (n : StoreName) (records : List Obj) :
    Eff.Keeps SameRemote (saveLocal env n records) := by
  have hR := frame_sameRemote
  unfold saveLocal
  refine keeps_bind hR (keeps_initDB hR env) (fun _ => ?_)
  refine keeps_bind hR (keeps_idbRequest hR env) (fun ok => ?_)
  refine keeps_ite _ ?_ (keeps_throw hR _)
  refine keeps_ite _ (keeps_modify _ (fun w => sameRemote_setStore w n [])) ?_
  refine keeps_ite _ (keeps_hang hR) ?_
  refine keeps_bind hR (keeps_getWorld hR) (fun w => ?_)
  refine keeps_bind hR (keeps_modify _ (fun w => hR.advance w _)) (fun _ => ?_)
  cases addAllRequests env w.tick records [] with
  | none => exact keeps_pure hR ()
  | some s => exact keeps_modify _ (fun w => sameRemote_setStore w n s)

theorem keeps_getStudents_sameRemote (env : Env) (uid : String) :
    Eff.Keeps SameRemote (getStudents env uid) := by
  have hR := frame_sameRemote
  unfold getStudents
  refine keeps_tryCatch hR ?_ (fun _ => ?_)
  · unfold getStudentsRemote
    refine keeps_bind hR (keeps_remoteAvailable hR env) (fun up => ?_)
    refine keeps_ite _ ?_ (keeps_throw hR _)
    refine keeps_bind hR (keeps_getDocs hR env _ uid) (fun docs => ?_)
    refine keeps_bind hR ?_ (fun _ => keeps_liftExcept hR _)
    exact keeps_tryCatch hR (keeps_saveLocal_sameRemote env _ _) (fun _ => keeps_pure hR ())
  · unfold getStudentsLocal
    refine keeps_bind hR ?_ (fun sup => ?_)
    · unfold isLocalDBSupported
      exact keeps_bind hR (keeps_getWorld hR) (fun w => keeps_pure hR _)
    · refine keeps_ite _ ?_ (keeps_pure hR _)
      exact keeps_bind hR (keeps_getLocalAll hR env _) (fun l => keeps_liftExcept hR _)
/-! ## Round trip of one student -/

theorem insertSorted_perm {α : Type} (cmp : α → α → Except String Int) (a : α) (l res : List α)
    (h : insertSorted cmp a l = Except.ok res) : res.Perm (a :: l) := by
  induction l generalizing res with
  | nil =>
    simp only [insertSorted, Except.ok.injEq] at h
    rw [← h]
  | cons b l ih =>
    simp only [insertSorted] at h
    cases hc : cmp a b with
    | error e => simp [hc] at h
    | ok c =>
      simp only [hc] at h
      by_cases hle : c ≤ 0
      · simp only [hle, if_true, Except.ok.injEq] at h
        rw [← h]
      · simp only [hle, if_false] at h
        cases hi : insertSorted cmp a l with
        | error e => simp [hi] at h
        | ok rest =>
          simp only [hi, Except.ok.injEq] at h
          rw [← h]
          exact ((ih rest hi).cons b).trans (List.Perm.swap a b l)

theorem jsSort_perm {α : Type} (cmp : α → α → Except String Int) (l res : List α)
    (h : jsSort cmp l = Except.ok res) : res.Perm l := by
  induction l generalizing res with
  | nil =>
    simp only [jsSort, Except.ok.injEq] at h
    rw [← h]
  | cons a l ih =>
    simp only [jsSort] at h
    cases hs : jsSort cmp l with
    | error e => simp [hs] at h
    | ok s =>
      simp only [hs] at h
      exact (insertSorted_perm cmp a s res h).trans ((ih s hs).cons a)

theorem mem_insertDoc (d x : Doc) (l : List Doc) : x ∈ insertDoc d l ↔ x = d ∨ x ∈ l := by
  induction l with
  | nil => simp [insertDoc]
  | cons y ys ih =>
    unfold insertDoc
    split
    · simp
    · simp [ih]; tauto

theorem mem_upsertDoc_self (d : Doc) (l : List Doc) : d ∈ upsertDoc d l := by
  unfold upsertDoc
  rw [mem_insertDoc]
  exact Or.inl rfl

theorem get_eq_none_of_not_mem (o : Obj) (k : String) (h : k ∉ o.map Prod.fst) :
    Obj.get o k = none := by
  induction o with
  | nil => rfl
  | cons p rest ih =>
    obtain ⟨k1, v1⟩ := p
    simp only [List.map_cons, List.mem_cons, not_or] at h
    simp only [Obj.get, Ne.symm h.1, if_false]
    exact ih h.2

theorem get_spread (a b : Obj) (k : String) (hb : Obj.WF b) :
    Obj.get (spread a b) k = (Obj.get b k).orElse (fun _ => Obj.get a k) := by
  unfold spread
  induction b generalizing a with
  | nil => simp [Obj.get]
  | cons p b ih =>
    obtain ⟨k1, v1⟩ := p
    have hnd : Obj.WF b := (List.nodup_cons.mp hb).2
    have hk1 : k1 ∉ b.map Prod.fst := (List.nodup_cons.mp hb).1
    simp only [List.foldl_cons]
    rw [ih _ hnd]
    by_cases hk : k1 = k
    · subst hk
      simp [Obj.get, get_eq_none_of_not_mem b k1 hk1, Obj.get_set_same]
    · simp [Obj.get, hk, Obj.get_set_other a k1 v1 k (Ne.symm hk)]

theorem map_fst_set (o : Obj) (k v : String) :
    (Obj.set o k v).map Prod.fst =
      if k ∈ o.map Prod.fst then o.map Prod.fst else o.map Prod.fst ++ [k] := by
  induction o with
  | nil => simp [Obj.set]
  | cons p rest ih =>
    obtain ⟨k1, v1⟩ := p
    by_cases hk : k1 = k
    · subst hk
      simp [Obj.set]
    · simp only [Obj.set, hk, if_false, List.map_cons, ih, List.mem_cons, Ne.symm hk,
        false_or]
      split <;> simp

theorem wf_set (o : Obj) (k v : String) (h : Obj.WF o) : Obj.WF (Obj.set o k v) := by
  unfold Obj.WF at *
  rw [map_fst_set]
  split
  · exact h
  · rename_i hk
    rw [List.nodup_append]
    refine ⟨h, List.nodup_singleton k, ?_⟩
    intro x hx hx2
    simp only [List.mem_singleton] at hx2
    subst hx2
    exact hk hx

theorem addDoc_run (env : Env) (n : StoreName) (uid : String) (data : Obj) (w : World) :
    addDoc env n uid data w =
      if env.remoteOk w.tick then
        (Outcome.ok (env.newDocId w.tick),
          (w.advance 1).setRemote n (upsertDoc (Doc.mk uid (env.newDocId w.tick) data) (w.remote n)))
      else (Outcome.error "remote write rejected", w.advance 1) := by
  simp only [addDoc, Eff.bind_run, Eff.next_run, Eff.cont_ok, Eff.ite_run, Eff.modify_run,
    Eff.pure_run, Eff.throw_run]
  split_ifs <;> simp

theorem addStudentRemote_served {env : Env} {uid : String} {s : Obj} {w : World}
    (h1 : w.isOnline = true) (h2 : env.probeOk w.tick = true)
    (h3 : env.remoteOk (w.tick + 1) = true) :
    addStudentRemote env uid s w =
      Eff.cont
        (Eff.tryCatch
          (getStudents env uid >>= fun allStudents => saveLocalStudents env allStudents)
          (fun _ => pure ())
          ((((w.advance 1).setConnected true).advance 1).setRemote StoreName.students
            (upsertDoc (Doc.mk uid (env.newDocId (w.tick + 1)) s) w.remoteStudents)))
        (fun _ => pure (docRecord (Doc.mk uid (env.newDocId (w.tick + 1)) s))) := by
  simp [addStudentRemote, remoteAvailable_run, h1, h2, h3, addDoc_run, docRecord, World.remote]

theorem addStudentRemote_ok {env : Env} {uid : String} {s r : Obj} {w w2 : World}
    (h : addStudentRemote env uid s w = (Outcome.ok r, w2)) :
    r = docRecord (Doc.mk uid (env.newDocId (w.tick + 1)) s) ∧
      w2.remoteStudents =
        upsertDoc (Doc.mk uid (env.newDocId (w.tick + 1)) s) w.remoteStudents := by
  by_cases h1 : w.isOnline = true
  · by_cases h2 : env.probeOk w.tick = true
    · by_cases h3 : env.remoteOk (w.tick + 1) = true
      · rw [addStudentRemote_served h1 h2 h3] at h
        have hk : Eff.Keeps SameRemote (Eff.tryCatch
            (getStudents env uid >>= fun allStudents => saveLocalStudents env allStudents)
            (fun _ => pure ())) :=
          keeps_tryCatch frame_sameRemote
            (keeps_bind frame_sameRemote (keeps_getStudents_sameRemote env uid)
              (fun l => keeps_saveLocal_sameRemote env _ l))
            (fun _ => keeps_pure frame_sameRemote ())
        rcases hm : Eff.tryCatch
          (getStudents env uid >>= fun allStudents => saveLocalStudents env allStudents)
          (fun _ => pure ())
          ((((w.advance 1).setConnected true).advance 1).setRemote StoreName.students
            (upsertDoc (Doc.mk uid (env.newDocId (w.tick + 1)) s) w.remoteStudents))
          with ⟨o, w3⟩
        rw [hm] at h
        have hrem := hk _ o w3 hm
        cases o with
        | ok u =>
          simp only [Eff.cont_ok, Eff.pure_run, Prod.mk.injEq, Outcome.ok.injEq] at h
          obtain ⟨rfl, rfl⟩ := h
          refine ⟨rfl, ?_⟩
          rw [hrem.1]
          rfl
        | error e => simp at h
        | pending => simp at h
      · simp [addStudentRemote, remoteAvailable_run, addDoc_run, h1, h2, h3] at h
    · simp [addStudentRemote, remoteAvailable_run, h1, h2] at h
  · simp [addStudentRemote, remoteAvailable_run, h1] at h
theorem getStudentsRemote_ok {env : Env} {uid : String} {res : List Obj} {w w2 : World}
    (h : getStudentsRemote env uid w = (Outcome.ok res, w2)) :
    res.Perm (recordsOf w StoreName.students uid) := by
  by_cases h1 : w.isOnline = true
  · by_cases h2 : env.probeOk w.tick = true
    · by_cases h3 : env.remoteOk (w.tick + 1) = true
      · rw [getStudentsRemote_served h1 h2 h3] at h
        obtain ⟨w3, hsave, -⟩ := saveLocal_swallow env StoreName.students
          (recordsOf w StoreName.students uid) ((w.advance 1).setConnected true |>.advance 1)
          (recordsOf_id_isSome w StoreName.students uid)
        rw [hsave] at h
        cases hs : jsSort (studentCompare env) (recordsOf w StoreName.students uid) with
        | error e => simp [hs] at h
        | ok l =>
          simp [hs] at h
          rw [← h.1]
          exact jsSort_perm _ _ _ hs
      · simp [getStudentsRemote, remoteAvailable_run, getDocs_run, h1, h2, h3] at h
    · simp [getStudentsRemote, remoteAvailable_run, h1, h2] at h
  · simp [getStudentsRemote, remoteAvailable_run, h1] at h

theorem addStudentLocal_present {env : Env} {s r : Obj} {w w3 : World}
    (h : addStudentLocal env s w = (Outcome.ok r, w3)) :
    w.indexedDBPresent = true ∧ w3.indexedDBPresent = true := by
  have hk : Eff.Keeps (fun a b => b.indexedDBPresent = a.indexedDBPresent)
      (addStudentLocal env s) := by
    have hR : Frame (fun a b : World => b.indexedDBPresent = a.indexedDBPresent) :=
      ⟨fun _ => rfl, fun _ _ _ h1 h2 => h2.trans h1, fun _ _ => rfl, fun _ _ => rfl⟩
    unfold addStudentLocal isLocalDBSupported generateLocalId addLocalStudent addLocal
    refine keeps_bind hR (keeps_bind hR (keeps_getWorld hR) (fun _ => keeps_pure hR _))
      (fun sup => ?_)
    refine keeps_ite _ ?_ (keeps_throw hR _)
    refine keeps_bind hR ?_ (fun id => ?_)
    · exact keeps_bind hR (keeps_next hR) (fun _ => keeps_bind hR (keeps_next hR)
        (fun _ => keeps_pure hR _))
    · refine keeps_bind hR ?_ (fun _ => keeps_pure hR _)
      refine keeps_bind hR (keeps_initDB hR env) (fun _ => ?_)
      cases Obj.get (Obj.set s "id" id) "id" with
      | none => exact keeps_throw hR _
      | some k =>
        refine keeps_bind hR (keeps_idbRequest hR env) (fun ok => ?_)
        refine keeps_bind hR (keeps_getWorld hR) (fun w => ?_)
        refine keeps_ite _ (keeps_throw hR _) ?_
        refine keeps_ite _ ?_ (keeps_throw hR _)
        exact keeps_bind hR (keeps_modify _ (fun w => by simp)) (fun _ => keeps_pure hR _)
  have h3 := hk w _ w3 h
  have h1 : w.indexedDBPresent = true := by
    by_contra hc
    simp [addStudentLocal, isLocalDBSupported, hc] at h
  exact ⟨h1, h3.trans h1⟩

theorem list_lt_cons (a b : Char) (l1 l2 : List Char) :
    (a :: l1 < b :: l2) ↔ a < b ∨ (a = b ∧ l1 < l2) := by
  constructor
  · intro h
    cases h with
    | cons h => exact Or.inr ⟨rfl, h⟩
    | rel h => exact Or.inl h
  · rintro (h | ⟨rfl, h⟩)
    · exact List.Lex.rel h
    · exact List.Lex.cons h

theorem list_lt_nil_nil : ¬ (([] : List Char) < []) := by
  intro h
  cases h

theorem char_lt_iff (a b : Char) : a < b ↔ a.toNat < b.toNat := by
  rw [Char.lt_iff_val_lt_val]
  exact Iff.rfl

theorem char_eq_iff (a b : Char) : a = b ↔ a.toNat = b.toNat := by
  constructor
  · intro h
    rw [h]
  · intro h
    apply Char.ext
    exact UInt32.ext (by simpa [Char.toNat, UInt32.toNat] using h)

theorem digitVal_eq_some {c : Char} {a : Nat} (h : digitVal c = some a) :
    c.toNat = 48 + a ∧ a ≤ 9 := by
  unfold digitVal at h
  split at h
  · rename_i hd
    simp only [Option.some.injEq] at h
    simp only [Char.isDigit, Bool.and_eq_true, decide_eq_true_eq, ge_iff_le] at hd
    have h1 : 48 ≤ c.toNat := hd.1
    have h2 : c.toNat ≤ 57 := hd.2
    omega
  · cases h

/-- The shape of a string that `parseIsoDate` reads: eight digits and two hyphens. -/
theorem parseIsoDate_shape {s : String} {y m d : Nat} (h : parseIsoDate s = some (y, m, d)) :
    ∃ c1 c2 c3 c4 c5 c6 c7 c8 : Char, ∃ a1 a2 a3 a4 a5 a6 a7 a8 : Nat,
      s.data = [c1, c2, c3, c4, '-', c5, c6, '-', c7, c8] ∧
      c1.toNat = 48 + a1 ∧ c2.toNat = 48 + a2 ∧ c3.toNat = 48 + a3 ∧ c4.toNat = 48 + a4 ∧
      c5.toNat = 48 + a5 ∧ c6.toNat = 48 + a6 ∧ c7.toNat = 48 + a7 ∧ c8.toNat = 48 + a8 ∧
      a1 ≤ 9 ∧ a2 ≤ 9 ∧ a3 ≤ 9 ∧ a4 ≤ 9 ∧ a5 ≤ 9 ∧ a6 ≤ 9 ∧ a7 ≤ 9 ∧ a8 ≤ 9 ∧
      y = 1000 * a1 + 100 * a2 + 10 * a3 + a4 ∧ m = 10 * a5 + a6 ∧ d = 10 * a7 + a8 ∧
      1 ≤ m ∧ m ≤ 12 ∧ 1 ≤ d ∧ d ≤ daysInMonth y m := by
  unfold parseIsoDate at h
  split at h
  · rename_i y1 y2 y3 y4 s1 m1 m2 s2 d1 d2 hdata
    split at h
    · rename_i a b c e f g i j ha hb hc he hf hg hi hj
      simp only at h
      split_ifs at h with hcond
      simp only [Option.some.injEq, Prod.mk.injEq] at h
      obtain ⟨hs1, hs2, hm1, hm2, hd1, hd2⟩ := hcond
      obtain ⟨rfl, rfl, rfl⟩ := h
      refine ⟨y1, y2, y3, y4, m1, m2, d1, d2, a, b, c, e, f, g, i, j, ?_,
        (digitVal_eq_some ha).1, (digitVal_eq_some hb).1, (digitVal_eq_some hc).1,
        (digitVal_eq_some he).1, (digitVal_eq_some hf).1, (digitVal_eq_some hg).1,
        (digitVal_eq_some hi).1, (digitVal_eq_some hj).1,
        (digitVal_eq_some ha).2, (digitVal_eq_some hb).2, (digitVal_eq_some hc).2,
        (digitVal_eq_some he).2, (digitVal_eq_some hf).2, (digitVal_eq_some hg).2,
        (digitVal_eq_some hi).2, (digitVal_eq_some hj).2, rfl, rfl, rfl, hm1, hm2, hd1, hd2⟩
      rw [hdata, hs1, hs2]
    · cases h
  · cases h
/-- On calendar dates the character order of the strings is the order of the numbers
`YYYYMMDD`. -/
theorem strLt_iso_iff {s t : String} {y m d y2 m2 d2 : Nat}
    (hs : parseIsoDate s = some (y, m, d)) (ht : parseIsoDate t = some (y2, m2, d2)) :
    strLt s t ↔ 10000 * y + 100 * m + d < 10000 * y2 + 100 * m2 + d2 := by
  obtain ⟨c1, c2, c3, c4, c5, c6, c7, c8, a1, a2, a3, a4, a5, a6, a7, a8, hdata,
    e1, e2, e3, e4, e5, e6, e7, e8, b1, b2, b3, b4, b5, b6, b7, b8, hy, hm, hd, -⟩ :=
    parseIsoDate_shape hs
  obtain ⟨k1, k2, k3, k4, k5, k6, k7, k8, p1, p2, p3, p4, p5, p6, p7, p8, hdata2,
    f1, f2, f3, f4, f5, f6, f7, f8, q1, q2, q3, q4, q5, q6, q7, q8, hy2, hm2, hd2, -⟩ :=
    parseIsoDate_shape ht
  unfold strLt
  rw [hdata, hdata2]
  simp only [list_lt_cons, list_lt_nil_nil, char_lt_iff, char_eq_iff, lt_self_iff_false,
    true_and, false_or, and_false, or_false]
  rw [e1, e2, e3, e4, e5, e6, e7, e8, f1, f2, f3, f4, f5, f6, f7, f8, hy, hm, hd, hy2, hm2, hd2]
  omega
theorem dayFromYear_succ (y : Nat) :
    dayFromYear ((y : Int) + 1) =
      dayFromYear (y : Int) + 365 + (if isLeapYear y then 1 else 0) := by
  unfold dayFromYear isLeapYear
  by_cases h4 : y % 4 = 0
  · by_cases h100 : y % 100 = 0
    · by_cases h400 : y % 400 = 0
      · simp [h4, h100, h400]; omega
      · simp [h4, h100, h400]; omega
    · have h400 : ¬ y % 400 = 0 := by omega
      simp [h4, h100, h400]; omega
  · have h100 : ¬ y % 100 = 0 := by omega
    have h400 : ¬ y % 400 = 0 := by omega
    simp [h4, h100, h400]; omega

theorem dayFromYear_lt {y y2 : Nat} (h : y < y2) :
    dayFromYear (y : Int) + 365 + (if isLeapYear y then 1 else 0) ≤ dayFromYear (y2 : Int) := by
  induction y2 with
  | zero => omega
  | succ n ih =>
    have hs := dayFromYear_succ n
    by_cases hn : y = n
    · subst hn
      rw [Nat.cast_succ, hs]
    · have := ih (by omega)
      rw [Nat.cast_succ, hs]
      split_ifs at * <;> omega

theorem daysBeforeMonth_succ (y m : Nat) (h : 1 ≤ m) :
    daysBeforeMonth y (m + 1) = daysBeforeMonth y m + daysInMonth y m := by
  obtain ⟨k, rfl⟩ : ∃ k, m = k + 1 := ⟨m - 1, by omega⟩
  simp [daysBeforeMonth, List.range_succ]

theorem daysBeforeMonth_lt {y m d m2 : Nat} (h1 : 1 ≤ m) (h2 : m < m2)
    (h4 : d ≤ daysInMonth y m) :
    daysBeforeMonth y m + d ≤ daysBeforeMonth y m2 := by
  induction m2 with
  | zero => omega
  | succ n ih =>
    by_cases hn : m = n
    · subst hn
      rw [daysBeforeMonth_succ y m h1]
      omega
    · have h5 := ih (by omega)
      rw [daysBeforeMonth_succ y n (by omega)]
      omega

theorem daysBeforeMonth_thirteen (y : Nat) :
    daysBeforeMonth y 13 = 365 + (if isLeapYear y then 1 else 0) := by
  simp only [daysBeforeMonth, daysInMonth, List.range_succ, List.range_zero]
  split_ifs <;> rfl

theorem daysBeforeMonth_bound {y m d : Nat} (h1 : 1 ≤ m) (h2 : m ≤ 12)
    (h4 : d ≤ daysInMonth y m) :
    daysBeforeMonth y m + d ≤ 365 + (if isLeapYear y then 1 else 0) := by
  rw [← daysBeforeMonth_thirteen]
  exact daysBeforeMonth_lt h1 (by omega) h4

theorem daysInMonth_le (y m : Nat) : daysInMonth y m ≤ 31 := by
  unfold daysInMonth
  split <;> first | omega | (split <;> omega)

/-- A later calendar date has a later time value. -/
theorem utcMs_lt_of_key_lt {y m d y2 m2 d2 : Nat}
    (hm1 : 1 ≤ m) (hm2 : m ≤ 12) (hd1 : 1 ≤ d) (hd2 : d ≤ daysInMonth y m)
    (gm1 : 1 ≤ m2) (gm2 : m2 ≤ 12) (gd1 : 1 ≤ d2) (gd2 : d2 ≤ daysInMonth y2 m2)
    (h : 10000 * y + 100 * m + d < 10000 * y2 + 100 * m2 + d2) :
    utcMs y m d < utcMs y2 m2 d2 := by
  have hd31 : d ≤ 31 := le_trans hd2 (daysInMonth_le y m)
  have gd31 : d2 ≤ 31 := le_trans gd2 (daysInMonth_le y2 m2)
  unfold utcMs
  have key : dayFromYear (y : Int) + (daysBeforeMonth y m : Int) + (d : Int) <
      dayFromYear (y2 : Int) + (daysBeforeMonth y2 m2 : Int) + (d2 : Int) := by
    rcases Nat.lt_trichotomy y y2 with hy | hy | hy
    · have h1 := dayFromYear_lt hy
      have h2 := daysBeforeMonth_bound hm1 hm2 hd2
      split_ifs at h1 h2 <;> omega
    · subst hy
      rcases Nat.lt_trichotomy m m2 with hmm | hmm | hmm
      · have h2 := daysBeforeMonth_lt hm1 hmm hd2
        omega
      · subst hmm
        omega
      · omega
    · omega
  omega

theorem utcMs_lt_iff_strLt {s t : String} {y m d y2 m2 d2 : Nat}
    (hs : parseIsoDate s = some (y, m, d)) (ht : parseIsoDate t = some (y2, m2, d2)) :
    utcMs y m d < utcMs y2 m2 d2 ↔ strLt s t := by
  obtain ⟨_, _, _, _, _, _, _, _, _, _, _, _, _, _, _, _, -, -, -, -, -, -, -, -, -, -, -, -, -,
    -, -, -, -, -, -, -, hm1, hm2, hd1, hd2⟩ := parseIsoDate_shape hs
  obtain ⟨_, _, _, _, _, _, _, _, _, _, _, _, _, _, _, _, -, -, -, -, -, -, -, -, -, -, -, -, -,
    -, -, -, -, -, -, -, gm1, gm2, gd1, gd2⟩ := parseIsoDate_shape ht
  constructor
  · intro h
    by_contra hn
    rw [strLt_iso_iff hs ht] at hn
    rcases Nat.lt_or_eq_of_le (Nat.le_of_not_lt hn) with hlt | heq
    · have := utcMs_lt_of_key_lt gm1 gm2 gd1 gd2 hm1 hm2 hd1 hd2 hlt
      omega
    · have b1 := daysInMonth_le y m
      have b2 := daysInMonth_le y2 m2
      have hy : y2 = y := by omega
      have hm : m2 = m := by omega
      have hd : d2 = d := by omega
      subst hy hm hd
      omega
  · intro h
    rw [strLt_iso_iff hs ht] at h
    exact utcMs_lt_of_key_lt hm1 hm2 hd1 hd2 gm1 gm2 gd1 gd2 h

theorem isoDated_iff {r : Obj} (h : IsoDated r) :
    ∃ s y m d, Obj.get r "date" = some s ∧ parseIsoDate s = some (y, m, d) := by
  unfold IsoDated at h
  split at h
  · rename_i s hs
    obtain ⟨⟨y, m, d⟩, hp⟩ := Option.isSome_iff_exists.mp h
    exact ⟨s, y, m, d, hs, hp⟩
  · exact absurd h id

/-- The comparator of `getAttendanceRecords` on two calendar-dated records: its sign is that of
the descending comparison of the date strings. -/
theorem attendanceCmp_iso {env : Env} {a b : Obj} (ha : IsoDated a) (hb : IsoDated b) :
    (attendanceCmp env a b < 0 ↔ strLt (field b "date") (field a "date")) ∧
      (attendanceCmp env a b = 0 ↔ field a "date" = field b "date") ∧
      (0 < attendanceCmp env a b ↔ strLt (field a "date") (field b "date")) := by
  obtain ⟨s, y, m, d, hs, hps⟩ := isoDated_iff ha
  obtain ⟨t, y2, m2, d2, ht, hpt⟩ := isoDated_iff hb
  have h1 := utcMs_lt_iff_strLt hps hpt
  have h2 := utcMs_lt_iff_strLt hpt hps
  have hcmp : attendanceCmp env a b = utcMs y2 m2 d2 - utcMs y m d := by
    simp [attendanceCmp, dateValue, hs, ht, hps, hpt]
  have hfa : field a "date" = s := by simp [field, hs]
  have hfb : field b "date" = t := by simp [field, ht]
  rw [hcmp, hfa, hfb, ← h1, ← h2]
  refine ⟨by omega, ?_, by omega⟩
  constructor
  · intro h0
    rcases lt_trichotomy s t with hlt | heq | hgt
    · have := h1.mpr ((strLt_iff s t).mpr hlt)
      omega
    · exact heq
    · have := h2.mpr ((strLt_iff t s).mpr hgt)
      omega
  · intro heq
    subst heq
    rw [hps] at hpt
    simp only [Option.some.injEq, Prod.mk.injEq] at hpt
    obtain ⟨rfl, rfl, rfl⟩ := hpt
    omega

theorem dateGe_total (a b : Obj) : DateGe a b ∨ DateGe b a := by
  unfold DateGe
  simp only [strLt_iff, not_lt]
  exact le_total _ _

theorem dateGe_trans {a b c : Obj} (h1 : DateGe a b) (h2 : DateGe b c) : DateGe a c := by
  unfold DateGe at *
  simp only [strLt_iff, not_lt] at *
  exact le_trans h2 h1

theorem insertSorted_eq_rel {α : Type} (cmp : α → α → Except String Int) (r : α → α → Prop)
    [DecidableRel r] (P : α → Prop)
    (hc : ∀ a b, P a → P b → ∃ c, cmp a b = Except.ok c ∧ (c ≤ 0 ↔ r a b)) (a : α) (ha : P a)
    (l : List α) (hl : ∀ x ∈ l, P x) :
    insertSorted cmp a l = Except.ok (List.orderedInsert r a l) := by
  induction l with
  | nil => rfl
  | cons b l ih =>
    have hb : P b := hl b (List.mem_cons_self b l)
    have hl2 : ∀ x ∈ l, P x := fun x hx => hl x (List.mem_cons_of_mem b hx)
    obtain ⟨c, hcab, hiff⟩ := hc a b ha hb
    simp only [insertSorted, hcab, List.orderedInsert, ih hl2]
    by_cases hle : c ≤ 0
    · simp [hle, hiff.mp hle]
    · have hr : ¬ r a b := fun h => hle (hiff.mpr h)
      simp [hle, hr]

theorem jsSort_eq_rel {α : Type} (cmp : α → α → Except String Int) (r : α → α → Prop)
    [DecidableRel r] (P : α → Prop)
    (hc : ∀ a b, P a → P b → ∃ c, cmp a b = Except.ok c ∧ (c ≤ 0 ↔ r a b))
    (l : List α) (hl : ∀ x ∈ l, P x) :
    jsSort cmp l = Except.ok (List.insertionSort r l) := by
  induction l with
  | nil => rfl
  | cons a l ih =>
    have ha : P a := hl a (List.mem_cons_self a l)
    have hl2 : ∀ x ∈ l, P x := fun x hx => hl x (List.mem_cons_of_mem a hx)
    simp only [jsSort, ih hl2, List.insertionSort]
    apply insertSorted_eq_rel cmp r P hc a ha
    intro x hx
    exact hl2 x ((List.perm_insertionSort _ l).mem_iff.mp hx)

theorem jsSort_attendance_iso (env : Env) {l : List Obj} (hl : ∀ x ∈ l, IsoDated x) :
    ∃ res, jsSort (attendanceCompare env) l = Except.ok res ∧ res.Perm l ∧
      res.Sorted DateGe := by
  refine ⟨List.insertionSort DateGe l, ?_, List.perm_insertionSort _ l,
    @List.sorted_insertionSort Obj DateGe _ ⟨dateGe_total⟩ ⟨fun _ _ _ => dateGe_trans⟩ l⟩
  apply jsSort_eq_rel (attendanceCompare env) DateGe IsoDated _ l hl
  intro a b ha hb
  refine ⟨attendanceCmp env a b, attendanceCompare_eq env a b, ?_⟩
  obtain ⟨h1, h2, h3⟩ := @attendanceCmp_iso env _ _ ha hb
  unfold DateGe
  constructor
  · intro hle h
    have := h3.mpr h
    omega
  · intro hn
    by_contra hc
    exact hn (h3.mp (by omega))

/-! ## Mirroring -/

theorem hasKey_insertByKey (r : Obj) (store : List Obj) (k : String) :
    hasKey (insertByKey r store) k = (decide (keyOf r = k) || hasKey store k) := by
  rw [Bool.eq_iff_iff]
  simp only [hasKey, List.any_eq_true, mem_insertByKey, Bool.or_eq_true, decide_eq_true_eq]
  constructor
  · rintro ⟨x, hx | hx, hk⟩
    · subst hx; exact Or.inl hk
    · exact Or.inr ⟨x, hx, hk⟩
  · rintro (h | ⟨x, hx, hk⟩)
    · exact ⟨r, Or.inl rfl, h⟩
    · exact ⟨x, Or.inr hx, hk⟩

theorem perm_insertByKey (r : Obj) (store : List Obj) : (insertByKey r store).Perm (r :: store) := by
  induction store with
  | nil => exact List.Perm.refl _
  | cons x xs ih =>
    unfold insertByKey
    split
    · exact List.Perm.refl _
    · exact (ih.cons x).trans (List.Perm.swap r x xs)

theorem addAllRequests_some (env : Env) (hreq : ∀ t, env.idbRequestOk t = true) (t : Nat)
    (records store : List Obj) (hfresh : ∀ r ∈ records, hasKey store (keyOf r) = false)
    (hnd : DistinctKeys records) :
    ∃ s, addAllRequests env t records store = some s ∧ s.Perm (records ++ store) := by
  induction records generalizing store t with
  | nil => exact ⟨store, rfl, List.Perm.refl _⟩
  | cons r rs ih =>
    have hr : hasKey store (keyOf r) = false := hfresh r (List.mem_cons_self r rs)
    have hnd2 : DistinctKeys rs := (List.nodup_cons.mp hnd).2
    have hnot : keyOf r ∉ rs.map keyOf := (List.nodup_cons.mp hnd).1
    have hfresh2 : ∀ x ∈ rs, hasKey (insertByKey r store) (keyOf x) = false := by
      intro x hx
      rw [hasKey_insertByKey, hfresh x (List.mem_cons_of_mem r hx)]
      have hne : keyOf r ≠ keyOf x := fun h => hnot (h ▸ List.mem_map_of_mem keyOf hx)
      simp [hne]
    obtain ⟨s, hs, hperm⟩ := ih (t + 1) (insertByKey r store) hfresh2 hnd2
    refine ⟨s, ?_, ?_⟩
    · simp [addAllRequests, hr, hreq, hs]
    · refine hperm.trans ?_
      refine (List.Perm.append_left rs (perm_insertByKey r store)).trans ?_
      exact List.perm_middle

/-- A save that meets no failure leaves the saved collection holding exactly the records. -/
theorem saveLocal_ok_perm {env : Env} (hopen : ∀ t, env.idbOpenOk t = true)
    (hreq : ∀ t, env.idbRequestOk t = true) (n : StoreName) {records : List Obj} {w : World}
    (hp : w.indexedDBPresent = true) (hid : ∀ r ∈ records, (Obj.get r "id").isSome)
    (hnd : DistinctKeys records) :
    ∃ s, s.Perm records ∧
      saveLocal env n records w =
        (Outcome.ok (), (w.advance (2 + records.length)).setStore n s) := by
  rw [saveLocal_run]
  by_cases hemp : records.isEmpty = true
  · have hnil : records = [] := List.isEmpty_iff.mp hemp
    subst hnil
    exact ⟨[], List.Perm.refl _, by simp [hp, hopen, hreq]⟩
  · obtain ⟨s, hs, hperm⟩ := addAllRequests_some env hreq (w.tick + 2) records []
      (fun r _ => rfl) hnd
    refine ⟨s, by simpa using hperm, ?_⟩
    simp [hp, hopen, hreq, hemp, any_id_isNone_eq_false hid, hs]

@[simp] theorem World.setStore_store_other (w : World) (n m : StoreName) (s : List Obj)
    (h : m ≠ n) : (w.setStore n s).store m = w.store m := by
  cases n <;> cases m <;> first | rfl | exact absurd rfl h

/-- The same fact with the world after the save kept abstract. -/
theorem saveLocal_ok {env : Env} (hopen : ∀ t, env.idbOpenOk t = true)
    (hreq : ∀ t, env.idbRequestOk t = true) (n : StoreName) {records : List Obj} {w : World}
    (hp : w.indexedDBPresent = true) (hid : ∀ r ∈ records, (Obj.get r "id").isSome)
    (hnd : DistinctKeys records) :
    ∃ w2, saveLocal env n records w = (Outcome.ok (), w2) ∧ (w2.store n).Perm records ∧
      SameRemote w w2 ∧ w2.indexedDBPresent = true ∧ w2.isOnline = w.isOnline ∧
      ∀ m, m ≠ n → w2.store m = w.store m := by
  obtain ⟨s, hs, hsave⟩ := saveLocal_ok_perm hopen hreq n hp hid hnd
  refine ⟨_, hsave, by simpa using hs, by simp [SameRemote], by simpa using hp, by simp, ?_⟩
  intro m hm
  simp [hm]

theorem distinctKeys_perm {l1 l2 : List Obj} (h : l1.Perm l2) (hd : DistinctKeys l2) :
    DistinctKeys l1 := by
  unfold DistinctKeys at *
  exact (h.map keyOf).nodup_iff.mpr hd

theorem sameRemote_recordsOf {w w2 : World} (h : SameRemote w w2) (n : StoreName)
    (uid : String) : recordsOf w2 n uid = recordsOf w n uid := by
  unfold recordsOf
  cases n
  · simp [World.remote, h.1]
  · simp [World.remote, h.2]

/-- What `getStudents` does when every external call succeeds: the browser database ends up
holding the records of the remote collection, whether or not the sort then throws. -/
theorem getStudents_cooperates {env : Env} (hc : env.Cooperates) (uid : String) {w : World}
    (ho : w.isOnline = true) (hp : w.indexedDBPresent = true)
    (hnd : DistinctKeys (recordsOf w StoreName.students uid)) :
    ∃ w3 o, getStudents env uid w = (o, w3) ∧
      w3.localStudents.Perm (recordsOf w StoreName.students uid) ∧ SameRemote w w3 ∧
      w3.indexedDBPresent = true ∧ w3.localAttendance = w.localAttendance ∧
      ((∃ l, o = Outcome.ok l ∧ l.Perm (recordsOf w StoreName.students uid)) ∨
        ∃ e, o = Outcome.error e) := by
  obtain ⟨w3, hsave, hs, hr3, hp3, -, hoth⟩ := saveLocal_ok hc.idbOpen hc.idbRequest
    StoreName.students (w := (w.advance 1).setConnected true |>.advance 1) (by simpa using hp)
    (recordsOf_id_isSome w StoreName.students uid) hnd
  have hr3b : SameRemote w w3 := sameRemote_trans (by simp [SameRemote]) hr3
  have ha3 : w3.localAttendance = w.localAttendance := by
    have := hoth StoreName.attendance (by decide)
    simpa using this
  have hrem := @getStudentsRemote_served env uid w ho (hc.probe w.tick) (hc.remote (w.tick + 1))
  rw [hsave] at hrem
  cases hsort : jsSort (studentCompare env) (recordsOf w StoreName.students uid) with
  | ok l =>
    exact ⟨w3, Outcome.ok l, by simp [getStudents, hrem, hsort], hs, hr3b, hp3, ha3,
      Or.inl ⟨l, rfl, jsSort_perm _ _ _ hsort⟩⟩
  | error e =>
    have hrem2 : getStudentsRemote env uid w = (Outcome.error e, w3) := by
      simp [hrem, hsort]
    have hloc : getStudentsLocal env w3 =
        Eff.cont (Outcome.ok w3.localStudents, w3.advance 2)
          (fun l => liftExcept (jsSort (studentCompare env) l)) := by
      simp [getStudentsLocal, isLocalDBSupported, hp3, getLocalStudents, getLocalAll_run,
        hc.idbOpen, hc.idbRequest]
    cases hsort2 : jsSort (studentCompare env) w3.localStudents with
    | ok l2 =>
      exact ⟨w3.advance 2, Outcome.ok l2, by simp [getStudents, hrem2, hloc, hsort2],
        by simpa using hs, sameRemote_trans hr3b (sameRemote_advance w3 2), by simpa using hp3,
        by simpa using ha3, Or.inl ⟨l2, rfl, (jsSort_perm _ _ _ hsort2).trans hs⟩⟩
    | error e2 =>
      exact ⟨w3.advance 2, Outcome.error e2, by simp [getStudents, hrem2, hloc, hsort2],
        by simpa using hs, sameRemote_trans hr3b (sameRemote_advance w3 2), by simpa using hp3,
        by simpa using ha3, Or.inr ⟨e2, rfl⟩⟩

/-- The mirror step of `addStudent` and `addMultipleStudents` when every external call
succeeds. -/
theorem mirror_students {env : Env} (hc : env.Cooperates) (uid : String) {w : World}
    (ho : w.isOnline = true) (hp : w.indexedDBPresent = true)
    (hnd : DistinctKeys (recordsOf w StoreName.students uid)) :
    ∃ wb, Eff.tryCatch
        (getStudents env uid >>= fun allStudents => saveLocalStudents env allStudents)
        (fun _ => pure ()) w = (Outcome.ok (), wb) ∧
      wb.localStudents.Perm (recordsOf w StoreName.students uid) ∧ SameRemote w wb := by
  obtain ⟨w3, o, hget, hperm, hrem, hp3, -, hcase⟩ := getStudents_cooperates hc uid ho hp hnd
  rcases hcase with ⟨l, rfl, hl⟩ | ⟨e, rfl⟩
  · have hid : ∀ r ∈ l, (Obj.get r "id").isSome := fun r hr =>
      recordsOf_id_isSome w StoreName.students uid r (hl.mem_iff.mp hr)
    obtain ⟨w4, hsave, hs, hr4, -⟩ := saveLocal_ok hc.idbOpen hc.idbRequest StoreName.students
      (w := w3) hp3 hid (distinctKeys_perm hl hnd)
    exact ⟨w4, by simp [hget, saveLocalStudents, hsave], by simpa using hs.trans hl,
      sameRemote_trans hrem hr4⟩
  · exact ⟨w3, by simp [hget], hperm, hrem⟩

/-- The mirror step of `addMultipleAttendanceRecords` when every external call succeeds. -/
theorem mirror_attendance {env : Env} (hc : env.Cooperates) (uid : String) {w : World}
    (ho : w.isOnline = true) (hp : w.indexedDBPresent = true)
    (hnd : DistinctKeys (recordsOf w StoreName.attendance uid)) :
    ∃ wb, Eff.tryCatch
        (getAttendanceRecords env uid [] >>= fun allRecords =>
          saveLocalAttendanceRecords env allRecords)
        (fun _ => pure ()) w = (Outcome.ok (), wb) ∧
      wb.localAttendance.Perm (recordsOf w StoreName.attendance uid) ∧ SameRemote w wb := by
  obtain ⟨w3, hsave, -, hr3, hp3, -, -⟩ := saveLocal_ok hc.idbOpen hc.idbRequest
    StoreName.attendance (w := (w.advance 1).setConnected true |>.advance 1)
    (by simpa using hp) (recordsOf_id_isSome w StoreName.attendance uid) hnd
  have hr3b : SameRemote w w3 := sameRemote_trans (by simp [SameRemote]) hr3
  have hrem := @getAttendanceRecordsRemote_served env uid w [] ho (hc.probe w.tick)
    (hc.remote (w.tick + 1))
  rw [hsave] at hrem
  have hfil : applyFilters [] (recordsOf w StoreName.attendance uid) =
      recordsOf w StoreName.attendance uid := by
    simp [applyFilters, filterIf, Obj.get]
  have hl : (List.insertionSort (fun x y => attendanceCmp env x y ≤ 0)
      (recordsOf w StoreName.attendance uid)).Perm (recordsOf w StoreName.attendance uid) :=
    List.perm_insertionSort _ _
  have hid : ∀ r ∈ List.insertionSort (fun x y => attendanceCmp env x y ≤ 0)
      (recordsOf w StoreName.attendance uid), (Obj.get r "id").isSome := fun r hr =>
    recordsOf_id_isSome w StoreName.attendance uid r (hl.mem_iff.mp hr)
  obtain ⟨w4, hsave4, hs4, hr4, -⟩ := saveLocal_ok hc.idbOpen hc.idbRequest
    StoreName.attendance (w := w3) hp3 hid (distinctKeys_perm hl hnd)
  refine ⟨w4, ?_, by simpa using hs4.trans hl, sameRemote_trans hr3b hr4⟩
  simp [getAttendanceRecords, hrem, hfil, jsSort_attendance, saveLocalAttendanceRecords, hsave4]

theorem keeps_mirror_students (env : Env) (uid : String) :
    Eff.Keeps SameRemote (Eff.tryCatch
      (getStudents env uid >>= fun allStudents => saveLocalStudents env allStudents)
      (fun _ => pure ())) :=
  keeps_tryCatch frame_sameRemote
    (keeps_bind frame_sameRemote (keeps_getStudents_sameRemote env uid)
      (fun l => keeps_saveLocal_sameRemote env _ l))
    (fun _ => keeps_pure frame_sameRemote ())

theorem keeps_getAttendanceRecords_sameRemote (env : Env) (uid : String) (filters : Obj) :
    Eff.Keeps SameRemote (getAttendanceRecords env uid filters) := by
  have hR := frame_sameRemote
  unfold getAttendanceRecords
  refine keeps_tryCatch hR ?_ (fun _ => ?_)
  · unfold getAttendanceRecordsRemote
    refine keeps_bind hR (keeps_remoteAvailable hR env) (fun up => ?_)
    refine keeps_ite _ ?_ (keeps_throw hR _)
    refine keeps_bind hR (keeps_getDocs hR env _ uid) (fun docs => ?_)
    refine keeps_bind hR ?_ (fun _ => keeps_liftExcept hR _)
    exact keeps_tryCatch hR (keeps_saveLocal_sameRemote env _ _) (fun _ => keeps_pure hR ())
  · unfold getAttendanceRecordsLocal
    refine keeps_bind hR ?_ (fun sup => ?_)
    · unfold isLocalDBSupported
      exact keeps_bind hR (keeps_getWorld hR) (fun w => keeps_pure hR _)
    · refine keeps_ite _ ?_ (keeps_pure hR _)
      exact keeps_bind hR (keeps_getLocalAll hR env _) (fun l => keeps_liftExcept hR _)

theorem keeps_mirror_attendance (env : Env) (uid : String) :
    Eff.Keeps SameRemote (Eff.tryCatch
      (getAttendanceRecords env uid [] >>= fun allRecords =>
        saveLocalAttendanceRecords env allRecords)
      (fun _ => pure ())) :=
  keeps_tryCatch frame_sameRemote
    (keeps_bind frame_sameRemote (keeps_getAttendanceRecords_sameRemote env uid [])
      (fun l => keeps_saveLocal_sameRemote env _ l))
    (fun _ => keeps_pure frame_sameRemote ())

/-- A step that is followed by a mirror: if the mirror is the only thing that still runs, the
outcome and the final world are read off the mirror lemma. -/
theorem mirrored_step {β : Type} (uid : String)
    (M : Eff Unit) (n : StoreName) (hk : Eff.Keeps SameRemote M)
    (hM : ∀ w : World, w.isOnline = true → w.indexedDBPresent = true →
      DistinctKeys (recordsOf w n uid) →
      ∃ wb, M w = (Outcome.ok (), wb) ∧ (wb.store n).Perm (recordsOf w n uid) ∧
        SameRemote w wb)
    (wa : World) (ho : wa.isOnline = true) (hp : wa.indexedDBPresent = true) (b : β)
    (o : Outcome β) (w2 : World) (hrun : Eff.cont (M wa) (fun _ => pure b) = (o, w2))
    (hnd : DistinctKeys (recordsOf w2 n uid)) :
    o = Outcome.ok b ∧ InSync w2 n uid ∧ SameRemote wa w2 := by
  rcases hm : M wa with ⟨o1, w1⟩
  have hsr := hk wa o1 w1 hm
  rw [hm] at hrun
  have hw : w1 = w2 := by
    cases o1 <;> simp at hrun <;> exact hrun.2
  subst hw
  rw [sameRemote_recordsOf hsr] at hnd
  obtain ⟨wb, hmb, hperm, -⟩ := hM wa ho hp hnd
  rw [hm] at hmb
  obtain ⟨rfl, rfl⟩ := Prod.mk.inj hmb
  simp at hrun
  refine ⟨hrun.symm, ?_, hsr⟩
  unfold InSync
  rw [sameRemote_recordsOf hsr]
  exact hperm
theorem batchSetCommit_run (env : Env) (n : StoreName) (uid : String) (records : List Obj)
    (w : World) :
    batchSetCommit env n uid records w =
      if env.remoteOk (w.tick + records.length) then
        (Outcome.ok (), (w.advance (records.length + 1)).setRemote n
          ((assignDocIds env uid w.tick records).foldl (fun acc d => upsertDoc d acc)
            (w.remote n)))
      else (Outcome.error "remote commit rejected", w.advance (records.length + 1)) := by
  simp only [batchSetCommit, Eff.bind_run, Eff.getWorld_run, Eff.cont_ok, Eff.modify_run,
    Eff.next_run, World.advance_tick, Eff.ite_run, Eff.throw_run, World.advance_advance]
  split_ifs <;> simp

@[simp] theorem World.setRemote_isOnline (w : World) (n : StoreName) (s : List Doc) :
    (w.setRemote n s).isOnline = w.isOnline := by cases n <;> rfl

@[simp] theorem World.setRemote_indexedDBPresent (w : World) (n : StoreName) (s : List Doc) :
    (w.setRemote n s).indexedDBPresent = w.indexedDBPresent := by cases n <;> rfl

@[simp] theorem World.setRemote_localStudents (w : World) (n : StoreName) (s : List Doc) :
    (w.setRemote n s).localStudents = w.localStudents := by cases n <;> rfl

@[simp] theorem World.setRemote_localAttendance (w : World) (n : StoreName) (s : List Doc) :
    (w.setRemote n s).localAttendance = w.localAttendance := by cases n <;> rfl

@[simp] theorem World.setRemote_store (w : World) (n m : StoreName) (s : List Doc) :
    (w.setRemote n s).store m = w.store m := by cases n <;> cases m <;> rfl

@[simp] theorem World.setRemote_tick (w : World) (n : StoreName) (s : List Doc) :
    (w.setRemote n s).tick = w.tick := by cases n <;> rfl

@[simp] theorem World.setRemote_remote_same (w : World) (n : StoreName) (s : List Doc) :
    (w.setRemote n s).remote n = s := by cases n <;> rfl

theorem addMultipleStudentsRemote_served {env : Env} {uid : String} {l : List Obj} {w : World}
    (h1 : w.isOnline = true) (h2 : env.probeOk w.tick = true)
    (h3 : env.remoteOk (w.tick + 1 + l.length) = true) :
    addMultipleStudentsRemote env uid l w =
      Eff.cont
        (Eff.tryCatch
          (getStudents env uid >>= fun allStudents => saveLocalStudents env allStudents)
          (fun _ => pure ())
          ((((w.advance 1).setConnected true).advance (l.length + 1)).setRemote
            StoreName.students
            ((assignDocIds env uid (w.tick + 1) l).foldl (fun acc d => upsertDoc d acc)
              w.remoteStudents)))
        (fun _ => pure l) := by
  simp [addMultipleStudentsRemote, remoteAvailable_run, h1, h2, h3, batchSetCommit_run,
    World.remote]

theorem addMultipleAttendanceRecordsRemote_served {env : Env} {uid : String} {l : List Obj}
    {w : World} (h1 : w.isOnline = true) (h2 : env.probeOk w.tick = true)
    (h3 : env.remoteOk (w.tick + 1 + l.length) = true) :
    addMultipleAttendanceRecordsRemote env uid l w =
      Eff.cont
        (Eff.tryCatch
          (getAttendanceRecords env uid [] >>= fun allRecords =>
            saveLocalAttendanceRecords env allRecords)
          (fun _ => pure ())
          ((((w.advance 1).setConnected true).advance (l.length + 1)).setRemote
            StoreName.attendance
            ((assignDocIds env uid (w.tick + 1) l).foldl (fun acc d => upsertDoc d acc)
              w.remoteAttendance)))
        (fun _ => pure l) := by
  simp [addMultipleAttendanceRecordsRemote, remoteAvailable_run, h1, h2, h3,
    batchSetCommit_run, World.remote]

/-- A remote step followed by a swallowed mirror, inside the `try` block of a write
operation `op = tryCatch tryBlock fallback`: when every external call succeeds the operation
resolves and the collection is in sync. -/
theorem mirrored_write {β : Type} (uid : String) (M : Eff Unit) (n : StoreName)
    (hk : Eff.Keeps SameRemote M)
    (hM : ∀ w : World, w.isOnline = true → w.indexedDBPresent = true →
      DistinctKeys (recordsOf w n uid) →
      ∃ wb, M w = (Outcome.ok (), wb) ∧ (wb.store n).Perm (recordsOf w n uid) ∧
        SameRemote w wb)
    (hsw : ∀ w (b : β) e w2, Eff.cont (M w) (fun _ => pure b) ≠ (Outcome.error e, w2))
    (tryBlock : Eff β) (fallback : String → Eff β) (w0 wa : World) (b : β)
    (hserved : tryBlock w0 = Eff.cont (M wa) (fun _ => pure b))
    (ho : wa.isOnline = true) (hp : wa.indexedDBPresent = true)
    (o : Outcome β) (w2 : World) (hrun : Eff.tryCatch tryBlock fallback w0 = (o, w2))
    (hnd : DistinctKeys (recordsOf w2 n uid)) :
    o = Outcome.ok b ∧ InSync w2 n uid := by
  rcases hm : tryBlock w0 with ⟨o1, w1⟩
  rw [hm] at hserved
  rw [Eff.tryCatch_run, hm] at hrun
  cases o1 with
  | error e => exact absurd hserved.symm (hsw wa b e w1)
  | ok r1 =>
    simp only [Eff.handle_ok, Prod.mk.injEq] at hrun
    obtain ⟨rfl, rfl⟩ := hrun
    obtain ⟨h1, h2, -⟩ := mirrored_step uid M n hk hM wa ho hp b _ _ hserved.symm hnd
    exact ⟨h1, h2⟩
  | pending =>
    simp only [Eff.handle_pending, Prod.mk.injEq] at hrun
    obtain ⟨rfl, rfl⟩ := hrun
    obtain ⟨h1, h2, -⟩ := mirrored_step uid M n hk hM wa ho hp b _ _ hserved.symm hnd
    exact ⟨h1, h2⟩

theorem tryCatch_swallow_ne_error {β : Type} (m : Eff Unit) (w : World) (b : β) (e : String)
    (w2 : World) :
    Eff.cont (Eff.tryCatch m (fun _ => pure ()) w) (fun _ => pure b) ≠ (Outcome.error e, w2) :=
  Eff.cont_swallow_ne_error (m w) b e w2

/-- The three write operations that re-read the remote collection and save it. -/
theorem full_mirror_in_sync :
    (∀ (env : Env) (uid : String) (data : Obj) (w w2 : World) (o : Outcome Obj),
      env.Cooperates → w.isOnline = true → w.indexedDBPresent = true →
      addStudent env uid data w = (o, w2) →
      DistinctKeys (recordsOf w2 StoreName.students uid) →
      (∃ r, o = Outcome.ok r) ∧ InSync w2 StoreName.students uid) ∧
    (∀ (env : Env) (uid : String) (data : List Obj) (w w2 : World) (o : Outcome (List Obj)),
      env.Cooperates → w.isOnline = true → w.indexedDBPresent = true →
      addMultipleStudents env uid data w = (o, w2) →
      DistinctKeys (recordsOf w2 StoreName.students uid) →
      (∃ r, o = Outcome.ok r) ∧ InSync w2 StoreName.students uid) ∧
    (∀ (env : Env) (uid : String) (data : List Obj) (w w2 : World) (o : Outcome (List Obj)),
      env.Cooperates → w.isOnline = true → w.indexedDBPresent = true →
      addMultipleAttendanceRecords env uid data w = (o, w2) →
      DistinctKeys (recordsOf w2 StoreName.attendance uid) →
      (∃ r, o = Outcome.ok r) ∧ InSync w2 StoreName.attendance uid) := by
  refine ⟨?_, ?_, ?_⟩
  · intro env uid data w w2 o hc ho hp hrun hnd
    simp only [addStudent, Eff.bind_run, withStudentMetadata_run, Eff.cont_ok] at hrun
    obtain ⟨h1, h2⟩ := mirrored_write uid _ StoreName.students (keeps_mirror_students env uid)
      (fun w0 a b c => by simpa using mirror_students hc uid a b c)
      (fun w0 b e w3 => tryCatch_swallow_ne_error _ w0 b e w3)
      _ _ _ _ _
      (addStudentRemote_served (by simpa using ho) (hc.probe _) (hc.remote _))
      (by simpa using ho) (by simpa using hp) o w2 hrun hnd
    exact ⟨⟨_, h1⟩, h2⟩
  · intro env uid data w w2 o hc ho hp hrun hnd
    obtain ⟨l, hl, -⟩ := mapEff_withStudentMetadata_run env data w
    simp only [addMultipleStudents, Eff.bind_run, hl, Eff.cont_ok] at hrun
    obtain ⟨h1, h2⟩ := mirrored_write uid _ StoreName.students (keeps_mirror_students env uid)
      (fun w0 a b c => by simpa using mirror_students hc uid a b c)
      (fun w0 b e w3 => tryCatch_swallow_ne_error _ w0 b e w3)
      _ _ _ _ _
      (addMultipleStudentsRemote_served (by simpa using ho) (hc.probe _) (hc.remote _))
      (by simpa using ho) (by simpa using hp) o w2 hrun hnd
    exact ⟨⟨_, h1⟩, h2⟩
  · intro env uid data w w2 o hc ho hp hrun hnd
    obtain ⟨l, hl, -⟩ := mapEff_withRecordMetadata_run env data w
    simp only [addMultipleAttendanceRecords, Eff.bind_run, hl, Eff.cont_ok] at hrun
    obtain ⟨h1, h2⟩ := mirrored_write uid _ StoreName.attendance
      (keeps_mirror_attendance env uid)
      (fun w0 a b c => by simpa using mirror_attendance hc uid a b c)
      (fun w0 b e w3 => tryCatch_swallow_ne_error _ w0 b e w3)
      _ _ _ _ _
      (addMultipleAttendanceRecordsRemote_served (by simpa using ho) (hc.probe _)
        (hc.remote _))
      (by simpa using ho) (by simpa using hp) o w2 hrun hnd
    exact ⟨⟨_, h1⟩, h2⟩

theorem get_spread_of_get_none (a b : Obj) (k : String) (h : Obj.get b k = none) :
    Obj.get (spread a b) k = Obj.get a k := by
  unfold spread
  induction b generalizing a with
  | nil => rfl
  | cons p b ih =>
    obtain ⟨k1, v1⟩ := p
    have hk : k1 ≠ k := by
      intro hk
      simp [Obj.get, hk] at h
    have hb : Obj.get b k = none := by
      simpa [Obj.get, hk] using h
    simp only [List.foldl_cons]
    rw [ih _ hb, Obj.get_set_other a k1 v1 k (Ne.symm hk)]

theorem keyOf_docRecord {d : Doc} (h : Obj.get d.data "id" = none) :
    keyOf (docRecord d) = d.id := by
  unfold keyOf docRecord
  rw [get_spread_of_get_none _ _ _ h]
  simp [Obj.get]

theorem perm_insertDoc (d : Doc) (l : List Doc) : (insertDoc d l).Perm (d :: l) := by
  induction l with
  | nil => exact List.Perm.refl _
  | cons x xs ih =>
    unfold insertDoc
    split
    · exact List.Perm.refl _
    · exact (ih.cons x).trans (List.Perm.swap d x xs)

/-- Records of the documents of user `uid` in a list of documents. -/
theorem recordsOf_eq (w : World) (n : StoreName) (uid : String) :
    recordsOf w n uid =
      ((w.remote n).filter (fun d => decide (d.user = uid))).map docRecord := rfl

theorem records_removeDoc (docs : List Doc) (uid sid : String)
    (hno : ∀ d ∈ docs, Obj.get d.data "id" = none) :
    ((removeDoc uid sid docs).filter (fun d => decide (d.user = uid))).map docRecord =
      ((docs.filter (fun d => decide (d.user = uid))).map docRecord).filter
        (fun r => !decide (keyOf r = sid)) := by
  rw [List.filter_map]
  congr 1
  unfold removeDoc
  rw [List.filter_filter, List.filter_filter]
  apply List.filter_congr
  intro d hd
  have hk := keyOf_docRecord (hno d hd)
  by_cases hu : d.user = uid
  · by_cases hi : d.id = sid
    · simp [hu, hi, hk]
    · simp [hu, hi, hk]
  · simp [hu]

theorem records_insertDoc (d : Doc) (docs : List Doc) (uid : String) (hu : d.user = uid) :
    (((insertDoc d docs).filter (fun x => decide (x.user = uid))).map docRecord).Perm
      (docRecord d :: (docs.filter (fun x => decide (x.user = uid))).map docRecord) := by
  have h1 := ((perm_insertDoc d docs).filter (fun x => decide (x.user = uid))).map docRecord
  simpa [List.filter_cons, hu] using h1

theorem perm_deleteByKey {l1 l2 : List Obj} (h : l1.Perm l2) (k : String) :
    (deleteByKey l1 k).Perm (l2.filter (fun r => !decide (keyOf r = k))) :=
  h.filter _

theorem noOwnId_removeDoc {docs : List Doc} (uid sid : String)
    (hno : ∀ d ∈ docs, Obj.get d.data "id" = none) :
    ∀ d ∈ removeDoc uid sid docs, Obj.get d.data "id" = none :=
  fun d hd => hno d (List.mem_filter.mp hd).1

/-- Deleting a key on both sides keeps them in step. -/
theorem sync_delete {local1 : List Obj} {docs : List Doc} {uid : String} (sid : String)
    (hs : local1.Perm ((docs.filter (fun d => decide (d.user = uid))).map docRecord))
    (hno : ∀ d ∈ docs, Obj.get d.data "id" = none) :
    (deleteByKey local1 sid).Perm
      (((removeDoc uid sid docs).filter (fun d => decide (d.user = uid))).map docRecord) := by
  rw [records_removeDoc docs uid sid hno]
  exact perm_deleteByKey hs sid
theorem deleteLocalStudent_run (env : Env) (sid : String) (w : World) :
    deleteLocalStudent env sid w =
      if w.indexedDBPresent && env.idbOpenOk w.tick then
        if env.idbRequestOk (w.tick + 1) then
          (Outcome.ok sid,
            (w.advance 2).setStore StoreName.students (deleteByKey w.localStudents sid))
        else (Outcome.error "delete request failed", w.advance 2)
      else (Outcome.error "Failed to open IndexedDB", w.advance 1) := by
  simp only [deleteLocalStudent, Eff.bind_run, initDB_run, idbRequest_run]
  by_cases h1 : (w.indexedDBPresent && env.idbOpenOk w.tick) = true
  · by_cases h2 : env.idbRequestOk (w.tick + 1) = true
    · simp [h1, h2, idbRequest_run]
    · simp [h1, h2, idbRequest_run]
  · simp [h1]

theorem deleteDoc_run (env : Env) (n : StoreName) (uid id : String) (w : World) :
    deleteDoc env n uid id w =
      if env.remoteOk w.tick then
        (Outcome.ok (), (w.advance 1).setRemote n (removeDoc uid id (w.remote n)))
      else (Outcome.error "remote write rejected", w.advance 1) := by
  simp only [deleteDoc, Eff.bind_run, Eff.next_run, Eff.cont_ok, Eff.ite_run, Eff.modify_run,
    Eff.throw_run]
  split_ifs <;> simp

@[simp] theorem World.setStore_remote (w : World) (n m : StoreName) (s : List Obj) :
    (w.setStore n s).remote m = w.remote m := by cases n <;> cases m <;> rfl

@[simp] theorem World.setRemote_remoteStudents (w : World) (s : List Doc) :
    (w.setRemote StoreName.students s).remoteStudents = s := rfl

@[simp] theorem World.setRemote_remoteAttendance (w : World) (s : List Doc) :
    (w.setRemote StoreName.attendance s).remoteAttendance = s := rfl

@[simp] theorem World.remote_students (w : World) :
    w.remote StoreName.students = w.remoteStudents := rfl

@[simp] theorem World.remote_attendance (w : World) :
    w.remote StoreName.attendance = w.remoteAttendance := rfl

/-- The run of `deleteStudent` when every external call succeeds. -/
theorem deleteStudent_cooperates {env : Env} (hc : env.Cooperates) (uid sid : String)
    {w : World} (ho : w.isOnline = true) (hp : w.indexedDBPresent = true) :
    ∃ w2, deleteStudent env uid sid w = (Outcome.ok true, w2) ∧
      w2.localStudents = deleteByKey w.localStudents sid ∧
      w2.remoteStudents = removeDoc uid sid w.remoteStudents := by
  refine ⟨(((((w.advance 1).setConnected true).advance 1).setRemote StoreName.students
    (removeDoc uid sid w.remoteStudents)).advance 2).setStore StoreName.students
    (deleteByKey w.localStudents sid), ?_, by simp, by simp⟩
  simp [deleteStudent, deleteStudentRemote, remoteAvailable_run, ho, hc.probe, hc.remote,
    deleteDoc_run, deleteLocalStudent_run, hp, hc.idbOpen, hc.idbRequest]

theorem batchDeleteCommit_run (env : Env) (n : StoreName) (uid : String) (ids : List String)
    (w : World) :
    batchDeleteCommit env n uid ids w =
      if env.remoteOk w.tick then
        (Outcome.ok (), (w.advance 1).setRemote n
          (ids.foldl (fun acc id => removeDoc uid id acc) (w.remote n)))
      else (Outcome.error "remote commit rejected", w.advance 1) := by
  simp only [batchDeleteCommit, Eff.bind_run, Eff.next_run, Eff.cont_ok, Eff.ite_run,
    Eff.modify_run, Eff.throw_run]
  split_ifs <;> simp

theorem forEff_deleteLocalStudent {env : Env} (hc : env.Cooperates) (ids : List String)
    {w : World} (hp : w.indexedDBPresent = true) :
    ∃ w2, forEff (deleteLocalStudent env) ids w = (Outcome.ok (), w2) ∧
      w2.localStudents = ids.foldl (fun acc id => deleteByKey acc id) w.localStudents ∧
      SameRemote w w2 := by
  induction ids generalizing w with
  | nil => exact ⟨w, rfl, rfl, ⟨rfl, rfl⟩⟩
  | cons id ids ih =>
    obtain ⟨w2, hrun, hloc, hrem⟩ := ih
      (w := (w.advance 2).setStore StoreName.students (deleteByKey w.localStudents id))
      (by simpa using hp)
    refine ⟨w2, ?_, ?_, ?_⟩
    · simp [forEff, deleteLocalStudent_run, hp, hc.idbOpen, hc.idbRequest, hrun]
    · simpa using hloc
    · exact sameRemote_trans (by simp [SameRemote]) hrem

/-- The run of `deleteMultipleStudents` when every external call succeeds. -/
theorem deleteMultipleStudents_cooperates {env : Env} (hc : env.Cooperates) (uid : String)
    (ids : List String) {w : World} (ho : w.isOnline = true)
    (hp : w.indexedDBPresent = true) :
    ∃ w2, deleteMultipleStudents env uid ids w = (Outcome.ok true, w2) ∧
      w2.localStudents = ids.foldl (fun acc id => deleteByKey acc id) w.localStudents ∧
      w2.remoteStudents = ids.foldl (fun acc id => removeDoc uid id acc) w.remoteStudents := by
  obtain ⟨w2, hrun, hloc, hrem⟩ := forEff_deleteLocalStudent hc ids
    (w := (((w.advance 1).setConnected true).advance 1).setRemote StoreName.students
      (ids.foldl (fun acc id => removeDoc uid id acc) w.remoteStudents))
    (by simpa using hp)
  refine ⟨w2, ?_, by simpa using hloc, by simpa using hrem.1⟩
  simp [deleteMultipleStudents, deleteMultipleStudentsRemote, remoteAvailable_run, ho,
    hc.probe, hc.remote, batchDeleteCommit_run, hrun]

/-- Deleting a list of keys on both sides keeps them in step. -/
theorem sync_delete_all {uid : String} (ids : List String) {local1 : List Obj}
    {docs : List Doc}
    (hs : local1.Perm ((docs.filter (fun d => decide (d.user = uid))).map docRecord))
    (hno : ∀ d ∈ docs, Obj.get d.data "id" = none) :
    (ids.foldl (fun acc id => deleteByKey acc id) local1).Perm
      (((ids.foldl (fun acc id => removeDoc uid id acc) docs).filter
        (fun d => decide (d.user = uid))).map docRecord) := by
  induction ids generalizing local1 docs with
  | nil => exact hs
  | cons id ids ih =>
    simp only [List.foldl_cons]
    exact ih (sync_delete id hs hno) (noOwnId_removeDoc uid id hno)

theorem records_removeDoc_fresh (docs : List Doc) (uid sid : String)
    (hno : ∀ d ∈ docs, Obj.get d.data "id" = none)
    (hfresh : ∀ r ∈ (docs.filter (fun d => decide (d.user = uid))).map docRecord,
      keyOf r ≠ sid) :
    ((removeDoc uid sid docs).filter (fun d => decide (d.user = uid))).map docRecord =
      (docs.filter (fun d => decide (d.user = uid))).map docRecord := by
  rw [records_removeDoc docs uid sid hno]
  apply List.filter_eq_self.mpr
  intro r hr
  simp [hfresh r hr]

/-- Adding a document under a new key on the remote side and its record on the local side
keeps them in step. -/
theorem sync_add {local1 : List Obj} {docs : List Doc} {uid : String} (d : Doc)
    (hs : local1.Perm ((docs.filter (fun x => decide (x.user = uid))).map docRecord))
    (hno : ∀ x ∈ docs, Obj.get x.data "id" = none) (hu : d.user = uid)
    (hfresh : hasKey local1 d.id = false) :
    (insertByKey (docRecord d) local1).Perm
      (((upsertDoc d docs).filter (fun x => decide (x.user = uid))).map docRecord) := by
  have hfr : ∀ r ∈ (docs.filter (fun x => decide (x.user = uid))).map docRecord,
      keyOf r ≠ d.id := fun r hr => hasKey_eq_false hfresh r (hs.mem_iff.mpr hr)
  unfold upsertDoc
  refine (perm_insertByKey _ _).trans ?_
  refine List.Perm.trans ?_ (records_insertDoc d _ uid hu).symm
  rw [hu, records_removeDoc_fresh docs uid d.id hno hfr]
  exact hs.cons _

/-- The run of `addAttendanceRecord` when every external call succeeds and the key the remote
store assigns is not yet a key of the browser database. -/
theorem addAttendanceRecord_cooperates {env : Env} (hc : env.Cooperates) (uid : String)
    (data : Obj) {w : World} (ho : w.isOnline = true) (hp : w.indexedDBPresent = true)
    (hdata : Obj.get data "id" = none)
    (hfresh : hasKey w.localAttendance (env.newDocId (w.tick + 2)) = false) :
    ∃ w2, addAttendanceRecord env uid data w =
        (Outcome.ok (docRecord (Doc.mk uid (env.newDocId (w.tick + 2))
          (Obj.set data "createdAt" (env.nowIso w.tick)))), w2) ∧
      w2.localAttendance = insertByKey (docRecord (Doc.mk uid (env.newDocId (w.tick + 2))
        (Obj.set data "createdAt" (env.nowIso w.tick)))) w.localAttendance ∧
      w2.remoteAttendance = upsertDoc (Doc.mk uid (env.newDocId (w.tick + 2))
        (Obj.set data "createdAt" (env.nowIso w.tick))) w.remoteAttendance := by
  have hs : Obj.get (Obj.set data "createdAt" (env.nowIso w.tick)) "id" = none := by
    rw [Obj.get_set_other _ _ _ _ (by decide)]
    exact hdata
  have hk := keyOf_docRecord (d := Doc.mk uid (env.newDocId (w.tick + 2))
    (Obj.set data "createdAt" (env.nowIso w.tick))) hs
  have hid : Obj.get (docRecord (Doc.mk uid (env.newDocId (w.tick + 2))
      (Obj.set data "createdAt" (env.nowIso w.tick)))) "id" =
      some (env.newDocId (w.tick + 2)) := by
    unfold docRecord
    rw [get_spread_of_get_none _ _ _ hs]
    simp [Obj.get]
  refine ⟨(((((w.advance 1).advance 1).setConnected true).advance 1).setRemote
    StoreName.attendance (upsertDoc (Doc.mk uid (env.newDocId (w.tick + 2))
      (Obj.set data "createdAt" (env.nowIso w.tick))) w.remoteAttendance)).advance 2
    |>.setStore StoreName.attendance
      (insertByKey (docRecord (Doc.mk uid (env.newDocId (w.tick + 2))
        (Obj.set data "createdAt" (env.nowIso w.tick)))) w.localAttendance),
    ?_, by simp, by simp⟩
  simp only [addAttendanceRecord, Eff.bind_run, withRecordMetadata_run, Eff.cont_ok,
    Eff.tryCatch_run, addAttendanceRecordRemote, remoteAvailable_run, World.advance_isOnline,
    ho, if_true, World.advance_tick, hc.probe, Eff.ite_run, addDoc_run,
    World.setConnected_tick, hc.remote, addLocalAttendanceRecord, addLocal_run,
    World.setRemote_indexedDBPresent, World.advance_indexedDBPresent,
    World.setConnected_indexedDBPresent, hp, hc.idbOpen, Bool.and_self, World.setRemote_tick,
    World.setRemote_store, World.advance_store, World.setConnected_store,
    World.store_attendance, hc.idbRequest]
  have hid2 : Obj.get (spread [("id", env.newDocId (w.tick + 1 + 1))]
      (Obj.set data "createdAt" (env.nowIso w.tick))) "id" =
      some (env.newDocId (w.tick + 2)) := hid
  simp [hid2, hfresh, docRecord]

theorem set_set_same (o : Obj) (k v1 v : String) :
    Obj.set (Obj.set o k v1) k v = Obj.set o k v := by
  induction o with
  | nil => simp [Obj.set]
  | cons p rest ih =>
    obtain ⟨k1, w1⟩ := p
    by_cases hk : k1 = k
    · simp [Obj.set, hk]
    · simp [Obj.set, hk, ih]

theorem set_set_comm (o : Obj) (k v k1 v1 : String) (hne : k ≠ k1)
    (hk : k ∈ o.map Prod.fst) :
    Obj.set (Obj.set o k1 v1) k v = Obj.set (Obj.set o k v) k1 v1 := by
  induction o with
  | nil => simp at hk
  | cons p rest ih =>
    obtain ⟨k2, w2⟩ := p
    by_cases h1 : k2 = k
    · subst h1
      simp [Obj.set, hne]
    · have hk2 : k ∈ rest.map Prod.fst := by
        simp only [List.map_cons, List.mem_cons] at hk
        rcases hk with hk | hk
        · exact absurd hk.symm h1
        · exact hk
      by_cases h2 : k2 = k1
      · subst h2
        simp [Obj.set, h1]
      · simp [Obj.set, h1, h2, ih hk2]

theorem mem_keys_set (o : Obj) (k v k2 : String) (h : k2 ∈ o.map Prod.fst) :
    k2 ∈ (Obj.set o k v).map Prod.fst := by
  rw [map_fst_set]
  split
  · exact h
  · exact List.mem_append_left _ h

theorem mem_keys_set_self (o : Obj) (k v : String) : k ∈ (Obj.set o k v).map Prod.fst := by
  rw [map_fst_set]
  split
  · assumption
  · simp

/-- Writing a property that `b` does not carry commutes with spreading `b`, once the property
has its place in `a`. -/
theorem spread_set_of_mem (a b : Obj) (k v : String) (hk : k ∈ a.map Prod.fst)
    (hb : k ∉ b.map Prod.fst) : Obj.set (spread a b) k v = spread (Obj.set a k v) b := by
  unfold spread
  induction b generalizing a with
  | nil => rfl
  | cons p b ih =>
    obtain ⟨k1, v1⟩ := p
    simp only [List.map_cons, List.mem_cons, not_or] at hb
    simp only [List.foldl_cons]
    rw [ih (Obj.set a k1 v1) (mem_keys_set a k1 v1 k hk) hb.2,
      set_set_comm a k v k1 v1 hb.1 hk]

theorem spread_set (a b : Obj) (k v : String) (hb : Obj.WF b) :
    spread a (Obj.set b k v) = Obj.set (spread a b) k v := by
  induction b generalizing a with
  | nil => rfl
  | cons p b ih =>
    obtain ⟨k1, v1⟩ := p
    have hwf : Obj.WF b := (List.nodup_cons.mp hb).2
    have hk1 : k1 ∉ b.map Prod.fst := (List.nodup_cons.mp hb).1
    by_cases hk : k1 = k
    · subst hk
      simp only [Obj.set, if_true, spread, List.foldl_cons]
      have h := spread_set_of_mem (Obj.set a k1 v1) b k1 v (mem_keys_set_self a k1 v1) hk1
      unfold spread at h
      rw [h, set_set_same]
    · simp only [Obj.set, hk, if_false]
      have h := ih (Obj.set a k1 v1) hwf
      unfold spread at h ⊢
      simpa using h

theorem spread_assoc (a b c : Obj) (hb : Obj.WF b) :
    spread (spread a b) c = spread a (spread b c) := by
  induction c generalizing b with
  | nil => rfl
  | cons p c ih =>
    obtain ⟨k, v⟩ := p
    have h1 : spread (spread a b) ((k, v) :: c) = spread (Obj.set (spread a b) k v) c := rfl
    have h2 : spread b ((k, v) :: c) = spread (Obj.set b k v) c := rfl
    rw [h1, h2, ← ih (Obj.set b k v) (wf_set b k v hb), spread_set a b k v hb]

theorem updateLocalStudent_run (env : Env) (sid : String) (upd : Obj) (w : World) :
    updateLocalStudent env sid upd w =
      if w.indexedDBPresent && env.idbOpenOk w.tick then
        if env.idbRequestOk (w.tick + 1) then
          match findByKey w.localStudents sid with
          | some ex =>
            if env.idbRequestOk (w.tick + 2) then
              (Outcome.ok (spread ex upd),
                (w.advance 3).setStore StoreName.students
                  (putByKey (spread ex upd) w.localStudents))
            else (Outcome.error "put request failed", w.advance 3)
          | none => (Outcome.error "Student not found", w.advance 2)
        else (Outcome.error "get request failed", w.advance 2)
      else (Outcome.error "Failed to open IndexedDB", w.advance 1) := by
  by_cases h1 : (w.indexedDBPresent && env.idbOpenOk w.tick) = true
  · by_cases h2 : env.idbRequestOk (w.tick + 1) = true
    · cases hf : findByKey w.localStudents sid with
      | none => simp [updateLocalStudent, initDB_run, idbRequest_run, h1, h2, hf]
      | some ex =>
        by_cases h3 : env.idbRequestOk (w.tick + 2) = true
        · simp [updateLocalStudent, initDB_run, idbRequest_run, h1, h2, hf, h3]
        · simp [updateLocalStudent, initDB_run, idbRequest_run, h1, h2, hf, h3]
    · simp [updateLocalStudent, initDB_run, idbRequest_run, h1, h2]
  · simp [updateLocalStudent, initDB_run, idbRequest_run, h1]

theorem updateDoc_run (env : Env) (n : StoreName) (uid id : String) (data : Obj) (w : World) :
    updateDoc env n uid id data w =
      if env.remoteOk w.tick then
        match findDoc uid id (w.remote n) with
        | some d =>
          (Outcome.ok (), (w.advance 1).setRemote n
            (upsertDoc (Doc.mk uid id (spread d.data data)) (w.remote n)))
        | none => (Outcome.error "remote document not found", w.advance 1)
      else (Outcome.error "remote write rejected", w.advance 1) := by
  by_cases h1 : env.remoteOk w.tick = true
  · cases hf : findDoc uid id (w.remote n) with
    | none => simp [updateDoc, h1, hf]
    | some d => simp [updateDoc, h1, hf]
  · simp [updateDoc, h1]

/-- The run of `updateStudent` when every external call succeeds, the document exists and the
browser database holds a record under the key. -/
theorem updateStudent_cooperates {env : Env} (hc : env.Cooperates) (uid sid : String)
    (upd : Obj) {w : World} {d : Doc} {ex : Obj} (ho : w.isOnline = true)
    (hp : w.indexedDBPresent = true) (hd : findDoc uid sid w.remoteStudents = some d)
    (hex : findByKey w.localStudents sid = some ex) :
    ∃ w2, updateStudent env uid sid upd w =
        (Outcome.ok (spread [("id", sid)] (Obj.set upd "updatedAt" (env.nowIso w.tick))),
          w2) ∧
      w2.localStudents =
        putByKey (spread ex (Obj.set upd "updatedAt" (env.nowIso w.tick))) w.localStudents ∧
      w2.remoteStudents =
        upsertDoc (Doc.mk uid sid (spread d.data (Obj.set upd "updatedAt"
          (env.nowIso w.tick)))) w.remoteStudents := by
  refine ⟨(((((w.advance 1).advance 1).setConnected true).advance 1).setRemote
    StoreName.students (upsertDoc (Doc.mk uid sid (spread d.data (Obj.set upd "updatedAt"
      (env.nowIso w.tick)))) w.remoteStudents)).advance 3 |>.setStore StoreName.students
      (putByKey (spread ex (Obj.set upd "updatedAt" (env.nowIso w.tick))) w.localStudents),
    ?_, by simp, by simp⟩
  simp [updateStudent, nowIso, updateStudentRemote, remoteAvailable_run, ho, hc.probe,
    hc.remote, updateDoc_run, hd, updateLocalStudent_run, hp, hc.idbOpen, hc.idbRequest, hex]

theorem findByKey_some {l : List Obj} {k : String} {x : Obj} (h : findByKey l k = some x) :
    x ∈ l ∧ keyOf x = k := by
  unfold findByKey at h
  have h1 := List.find?_some h
  have h2 := List.mem_of_find?_eq_some h
  exact ⟨h2, by simpa using h1⟩

theorem findDoc_some {l : List Doc} {uid id : String} {d : Doc}
    (h : findDoc uid id l = some d) : d ∈ l ∧ d.user = uid ∧ d.id = id := by
  unfold findDoc at h
  have h1 := List.find?_some h
  have h2 := List.mem_of_find?_eq_some h
  simp only [decide_eq_true_eq] at h1
  exact ⟨h2, h1.1, h1.2⟩

theorem findByKey_of_mem {l : List Obj} {x : Obj} (hx : x ∈ l) :
    ∃ y, findByKey l (keyOf x) = some y := by
  unfold findByKey
  have h : (l.find? (fun y => decide (keyOf y = keyOf x))).isSome := by
    rw [List.find?_isSome]
    exact ⟨x, hx, by simp⟩
  exact Option.isSome_iff_exists.mp h

theorem eq_of_keyOf_eq {l : List Obj} (hnd : DistinctKeys l) {x y : Obj} (hx : x ∈ l)
    (hy : y ∈ l) (h : keyOf x = keyOf y) : x = y :=
  List.inj_on_of_nodup_map hnd hx hy h

/-- Laying the same patch over a document and over its record keeps the two sides in step. -/
theorem sync_update {local1 : List Obj} {docs : List Doc} {uid sid : String} {d : Doc}
    {ex patch : Obj}
    (hs : local1.Perm ((docs.filter (fun x => decide (x.user = uid))).map docRecord))
    (hno : ∀ x ∈ docs, Obj.get x.data "id" = none) (hwf : Obj.WF d.data)
    (hnd : DistinctKeys local1) (hpatch : Obj.get patch "id" = none)
    (hd : findDoc uid sid docs = some d) (hex : findByKey local1 sid = some ex) :
    (putByKey (spread ex patch) local1).Perm
      (((upsertDoc (Doc.mk uid sid (spread d.data patch)) docs).filter
        (fun x => decide (x.user = uid))).map docRecord) := by
  obtain ⟨hdm, hdu, hdi⟩ := findDoc_some hd
  obtain ⟨hexm, hexk⟩ := findByKey_some hex
  have hrec : docRecord d ∈ local1 := by
    rw [hs.mem_iff]
    exact List.mem_map_of_mem _ (List.mem_filter.mpr ⟨hdm, by simp [hdu]⟩)
  have hkd : keyOf (docRecord d) = sid := by rw [keyOf_docRecord (hno d hdm), hdi]
  have hexd : ex = docRecord d := eq_of_keyOf_eq hnd hexm hrec (hexk.trans hkd.symm)
  have hnew : spread ex patch = docRecord (Doc.mk uid sid (spread d.data patch)) := by
    rw [hexd]
    unfold docRecord
    rw [spread_assoc _ _ _ hwf, hdi]
  have hknew : keyOf (spread ex patch) = sid := by
    unfold keyOf
    rw [get_spread_of_get_none _ _ _ hpatch]
    exact hexk
  unfold putByKey upsertDoc
  rw [hknew]
  refine (perm_insertByKey _ _).trans ?_
  refine List.Perm.trans ?_ (records_insertDoc _ _ uid rfl).symm
  rw [hnew]
  exact (sync_delete sid hs hno).cons _

theorem sameLocal_setRemote (w : World) (n : StoreName) (s : List Doc) :
    SameLocal w (w.setRemote n s) := by
  cases n <;> exact ⟨rfl, rfl, rfl⟩

theorem keeps_updateDoc_sameLocal (env : Env) (n : StoreName) (uid id : String) (data : Obj) :
    Eff.Keeps SameLocal (updateDoc env n uid id data) := by
  intro w o w2 h
  rw [updateDoc_run] at h
  split at h
  · split at h
    · rw [← (Prod.mk.inj h).2]
      exact sameLocal_trans (sameLocal_advance w 1) (sameLocal_setRemote _ _ _)
    · rw [← (Prod.mk.inj h).2]
      exact sameLocal_advance w 1
  · rw [← (Prod.mk.inj h).2]
    exact sameLocal_advance w 1

theorem keeps_deleteDoc_sameLocal (env : Env) (n : StoreName) (uid id : String) :
    Eff.Keeps SameLocal (deleteDoc env n uid id) := by
  intro w o w2 h
  rw [deleteDoc_run] at h
  split at h
  · rw [← (Prod.mk.inj h).2]
    exact sameLocal_trans (sameLocal_advance w 1) (sameLocal_setRemote _ _ _)
  · rw [← (Prod.mk.inj h).2]
    exact sameLocal_advance w 1

/-- The operation `updateAttendanceRecord` never touches the browser database. -/
theorem keeps_updateAttendanceRecord_sameLocal (env : Env) (uid rid : String) (upd : Obj) :
    Eff.Keeps SameLocal (updateAttendanceRecord env uid rid upd) := by
  unfold updateAttendanceRecord nowIso
  refine keeps_bind frame_sameLocal
    (keeps_bind frame_sameLocal (keeps_next frame_sameLocal)
      (fun _ => keeps_pure frame_sameLocal _)) (fun _ => ?_)
  refine keeps_tryCatch frame_sameLocal ?_ (fun _ => keeps_throw frame_sameLocal _)
  unfold updateAttendanceRecordRemote
  refine keeps_bind frame_sameLocal (keeps_remoteAvailable frame_sameLocal env) (fun up => ?_)
  refine keeps_ite _ ?_ (keeps_throw frame_sameLocal _)
  exact keeps_bind frame_sameLocal (keeps_updateDoc_sameLocal env _ _ _ _)
    (fun _ => keeps_pure frame_sameLocal _)

/-- The operation `deleteAttendanceRecord` never touches the browser database. -/
theorem keeps_deleteAttendanceRecord_sameLocal (env : Env) (uid rid : String) :
    Eff.Keeps SameLocal (deleteAttendanceRecord env uid rid) := by
  unfold deleteAttendanceRecord
  refine keeps_tryCatch frame_sameLocal ?_ (fun _ => keeps_throw frame_sameLocal _)
  unfold deleteAttendanceRecordRemote
  refine keeps_bind frame_sameLocal (keeps_remoteAvailable frame_sameLocal env) (fun up => ?_)
  refine keeps_ite _ ?_ (keeps_throw frame_sameLocal _)
  exact keeps_bind frame_sameLocal (keeps_deleteDoc_sameLocal env _ _ _)
    (fun _ => keeps_pure frame_sameLocal _)

theorem allOk_cooperates : Env.allOk.Cooperates :=
  ⟨fun _ => rfl, fun _ => rfl, fun _ => rfl, fun _ => rfl⟩

/-- A loop over `pre ++ x :: post` whose first failure is at `x` rejects there: the elements of
`post` are never started. -/
theorem forEff_append_error {α β : Type} (f : α → Eff β) (pre post : List α) (x : α)
    {w w1 w2 : World} {e : String} (hpre : forEff f pre w = (Outcome.ok (), w1))
    (hx : f x w1 = (Outcome.error e, w2)) :
    forEff f (pre ++ x :: post) w = (Outcome.error e, w2) := by
  induction pre generalizing w with
  | nil =>
    simp only [forEff, Eff.pure_run] at hpre
    obtain ⟨-, rfl⟩ := Prod.mk.inj hpre
    simp [forEff, hx]
  | cons a pre ih =>
    simp only [forEff, Eff.bind_run] at hpre
    rcases ha : f a w with ⟨o, wa⟩
    rw [ha] at hpre
    cases o with
    | ok b =>
      simp only [Eff.cont_ok] at hpre
      simp [forEff, ha, ih hpre]
    | error e1 => simp at hpre
    | pending => simp at hpre

/-- A completed loop ran every element, in order, each from the world the one before left. -/
theorem forEff_ok_fold {α β : Type} (f : α → Eff β) (R : World → α → World → Prop)
    (hf : ∀ a w b w2, f a w = (Outcome.ok b, w2) → R w a w2)
    (P : World → List α → World → Prop)
    (hnil : ∀ w, P w [] w)
    (hcons : ∀ w a w1 l w2, R w a w1 → P w1 l w2 → P w (a :: l) w2)
    (l : List α) {w w2 : World} (h : forEff f l w = (Outcome.ok (), w2)) : P w l w2 := by
  induction l generalizing w with
  | nil =>
    simp only [forEff, Eff.pure_run] at h
    obtain ⟨-, rfl⟩ := Prod.mk.inj h
    exact hnil w
  | cons a l ih =>
    simp only [forEff, Eff.bind_run] at h
    rcases ha : f a w with ⟨o, wa⟩
    rw [ha] at h
    cases o with
    | ok b =>
      simp only [Eff.cont_ok] at h
      exact hcons w a wa l w2 (hf a w b wa ha) (ih h)
    | error e1 => simp at h
    | pending => simp at h

theorem addLocal_ok {env : Env} {n : StoreName} {r x : Obj} {w w2 : World}
    (h : addLocal env n r w = (Outcome.ok x, w2)) :
    w2.store n = insertByKey r (w.store n) ∧
      (∀ m, m ≠ n → w2.store m = w.store m) ∧ w2.indexedDBPresent = w.indexedDBPresent := by
  rw [addLocal_run] at h
  split at h
  · split at h
    · simp at h
    · split at h
      · simp at h
      · split at h
        · obtain ⟨-, rfl⟩ := Prod.mk.inj h
          refine ⟨by simp, fun m hm => ?_, by simp⟩
          rw [World.setStore_store_other _ _ _ _ hm]
          simp
        · simp at h
  · simp at h

theorem addLocal_error {env : Env} {n : StoreName} {r : Obj} {w w2 : World} {e : String}
    (h : addLocal env n r w = (Outcome.error e, w2)) : SameLocal w w2 := by
  rw [addLocal_run] at h
  split at h
  · split at h
    · obtain ⟨-, rfl⟩ := Prod.mk.inj h
      exact sameLocal_advance w 1
    · split at h
      · obtain ⟨-, rfl⟩ := Prod.mk.inj h
        exact sameLocal_advance w 2
      · split at h
        · simp at h
        · obtain ⟨-, rfl⟩ := Prod.mk.inj h
          exact sameLocal_advance w 2
  · obtain ⟨-, rfl⟩ := Prod.mk.inj h
    exact sameLocal_advance w 1

/-- A completed loop of adds put every record into the store, in the order of the list. -/
theorem forEff_addLocal_ok {env : Env} {n : StoreName} (l : List Obj) {w w2 : World}
    (h : forEff (addLocal env n) l w = (Outcome.ok (), w2)) :
    w2.store n = l.foldl (fun acc r => insertByKey r acc) (w.store n) ∧
      (∀ m, m ≠ n → w2.store m = w.store m) ∧ w2.indexedDBPresent = w.indexedDBPresent := by
  refine forEff_ok_fold (addLocal env n)
    (fun w a w2 => w2.store n = insertByKey a (w.store n) ∧
      (∀ m, m ≠ n → w2.store m = w.store m) ∧ w2.indexedDBPresent = w.indexedDBPresent)
    (fun a w b w2 hab => addLocal_ok hab)
    (fun w l w2 => w2.store n = l.foldl (fun acc r => insertByKey r acc) (w.store n) ∧
      (∀ m, m ≠ n → w2.store m = w.store m) ∧ w2.indexedDBPresent = w.indexedDBPresent)
    (fun w => ⟨rfl, fun _ _ => rfl, rfl⟩) ?_ l h
  intro w a w1 l w2 h1 h2
  refine ⟨?_, fun m hm => (h2.2.1 m hm).trans (h1.2.1 m hm), h2.2.2.trans h1.2.2⟩
  rw [h2.1, h1.1]
  rfl

theorem deleteLocalStudent_ok {env : Env} {k x : String} {w w2 : World}
    (h : deleteLocalStudent env k w = (Outcome.ok x, w2)) :
    w2.localStudents = deleteByKey w.localStudents k ∧
      w2.localAttendance = w.localAttendance ∧ w2.indexedDBPresent = w.indexedDBPresent := by
  rw [deleteLocalStudent_run] at h
  split at h
  · split at h
    · obtain ⟨-, rfl⟩ := Prod.mk.inj h
      exact ⟨by simp, by simp, by simp⟩
    · simp at h
  · simp at h

theorem deleteLocalStudent_error {env : Env} {k : String} {w w2 : World} {e : String}
    (h : deleteLocalStudent env k w = (Outcome.error e, w2)) : SameLocal w w2 := by
  rw [deleteLocalStudent_run] at h
  split at h
  · split at h
    · simp at h
    · obtain ⟨-, rfl⟩ := Prod.mk.inj h
      exact sameLocal_advance w 2
  · obtain ⟨-, rfl⟩ := Prod.mk.inj h
    exact sameLocal_advance w 1

/-- A completed loop of deletes removed every key, in the order of the list. -/
theorem forEff_deleteLocalStudent_ok {env : Env} (l : List String) {w w2 : World}
    (h : forEff (deleteLocalStudent env) l w = (Outcome.ok (), w2)) :
    w2.localStudents = l.foldl (fun acc k => deleteByKey acc k) w.localStudents ∧
      w2.localAttendance = w.localAttendance ∧ w2.indexedDBPresent = w.indexedDBPresent := by
  refine forEff_ok_fold (deleteLocalStudent env)
    (fun w a w2 => w2.localStudents = deleteByKey w.localStudents a ∧
      w2.localAttendance = w.localAttendance ∧ w2.indexedDBPresent = w.indexedDBPresent)
    (fun a w b w2 hab => deleteLocalStudent_ok hab)
    (fun w l w2 => w2.localStudents = l.foldl (fun acc k => deleteByKey acc k) w.localStudents ∧
      w2.localAttendance = w.localAttendance ∧ w2.indexedDBPresent = w.indexedDBPresent)
    (fun w => ⟨rfl, rfl, rfl⟩) ?_ l h
  intro w a w1 l w2 h1 h2
  refine ⟨?_, h2.2.1.trans h1.2.1, h2.2.2.trans h1.2.2⟩
  rw [h2.1, h1.1]
  rfl

theorem keeps_generateLocalId {R : World → World → Prop} (hR : Frame R) (env : Env) :
    Eff.Keeps R (generateLocalId env) := by
  unfold generateLocalId
  exact keeps_bind hR (keeps_next hR) (fun _ => keeps_bind hR (keeps_next hR)
    (fun _ => keeps_pure hR _))

theorem keeps_mapEff {α β : Type} {R : World → World → Prop} (hR : Frame R) {f : α → Eff β}
    (hf : ∀ a, Eff.Keeps R (f a)) (l : List α) : Eff.Keeps R (mapEff f l) := by
  induction l with
  | nil => exact keeps_pure hR _
  | cons a l ih =>
    unfold mapEff
    exact keeps_bind hR (hf a) (fun _ => keeps_bind hR ih (fun _ => keeps_pure hR _))

/-- Drawing the ids of a batch touches neither store. -/
theorem keeps_assignLocalIds {R : World → World → Prop} (hR : Frame R) (env : Env)
    (l : List Obj) :
    Eff.Keeps R (mapEff (fun r => generateLocalId env >>= fun id => pure (Obj.set r "id" id))
      l) :=
  keeps_mapEff hR (fun _ => keeps_bind hR (keeps_generateLocalId hR env)
    (fun _ => keeps_pure hR _)) l

/-- The fallback loop of `addMultipleStudents` stops at the first record the browser database refuses. -/
theorem addMultipleStudents_fallback_stops :
    ∀ (env : Env) (uid : String) (data l pre post : List Obj) (x : Obj)
        (w w1 w2 w3 w4 w5 : World) (e e2 : String),
      w.indexedDBPresent = true →
      mapEff (withStudentMetadata env) data w = (Outcome.ok l, w1) →
      addMultipleStudentsRemote env uid l w1 = (Outcome.error e, w2) →
      mapEff (fun st => generateLocalId env >>= fun id => pure (Obj.set st "id" id)) l w2 =
        (Outcome.ok (pre ++ x :: post), w3) →
      forEff (addLocalStudent env) pre w3 = (Outcome.ok (), w4) →
      addLocalStudent env x w4 = (Outcome.error e2, w5) →
      addMultipleStudents env uid data w = (Outcome.error e2, w5) ∧
        w5.localStudents = pre.foldl (fun acc r => insertByKey r acc) w.localStudents ∧
        w5.localAttendance = w.localAttendance := by
  intro env uid data l pre post x w w1 w2 w3 w4 w5 e e2 hs hm hrem hids hpre hx
  obtain ⟨hl, -⟩ := addMultipleStudentsRemote_error hrem
  obtain ⟨l2, hrun, -⟩ := mapEff_withStudentMetadata_run env data w
  have hw1 : w1 = w.advance (2 * data.length) := by
    rw [hrun] at hm
    exact (Prod.mk.inj hm).2.symm
  subst hw1
  have h12 : SameLocal w w2 := sameLocal_trans (sameLocal_advance w _) hl
  have hp : w2.indexedDBPresent = true := by rw [h12.2.2]; exact hs
  have h23 : SameLocal w2 w3 := keeps_assignLocalIds frame_sameLocal env l w2 _ w3 hids
  have h34 := forEff_addLocal_ok pre hpre
  have h45 : SameLocal w4 w5 := addLocal_error hx
  have hloop := forEff_append_error (addLocalStudent env) pre post x hpre hx
  refine ⟨?_, ?_, ?_⟩
  · simp only [addMultipleStudents, Eff.bind_run, hm, Eff.cont_ok, Eff.tryCatch_run, hrem,
      Eff.handle_error, addMultipleStudentsLocal, isLocalDBSupported, Eff.getWorld_run,
      Eff.pure_run, hp, if_true, hids, hloop, Eff.cont_error]
  · rw [h45.1]
    have := h34.1
    simp only [World.store_students] at this
    rw [this, h23.1, h12.1]
  · rw [h45.2.1]
    have := h34.2.1 StoreName.attendance (by decide)
    simp only [World.store_attendance] at this
    rw [this, h23.2.1, h12.2.1]

/-- The fallback loop of `addMultipleAttendanceRecords` stops at the first record the browser database refuses. -/
theorem addMultipleAttendanceRecords_fallback_stops :
    ∀ (env : Env) (uid : String) (data l pre post : List Obj) (x : Obj)
        (w w1 w2 w3 w4 w5 : World) (e e2 : String),
      w.indexedDBPresent = true →
      mapEff (withRecordMetadata env) data w = (Outcome.ok l, w1) →
      addMultipleAttendanceRecordsRemote env uid l w1 = (Outcome.error e, w2) →
      mapEff (fun r => generateLocalId env >>= fun id => pure (Obj.set r "id" id)) l w2 =
        (Outcome.ok (pre ++ x :: post), w3) →
      forEff (addLocalAttendanceRecord env) pre w3 = (Outcome.ok (), w4) →
      addLocalAttendanceRecord env x w4 = (Outcome.error e2, w5) →
      addMultipleAttendanceRecords env uid data w = (Outcome.error e2, w5) ∧
        w5.localAttendance = pre.foldl (fun acc r => insertByKey r acc) w.localAttendance ∧
        w5.localStudents = w.localStudents := by
  intro env uid data l pre post x w w1 w2 w3 w4 w5 e e2 hs hm hrem hids hpre hx
  obtain ⟨hl, -⟩ := addMultipleAttendanceRecordsRemote_error hrem
  obtain ⟨l2, hrun, -⟩ := mapEff_withRecordMetadata_run env data w
  have hw1 : w1 = w.advance data.length := by
    rw [hrun] at hm
    exact (Prod.mk.inj hm).2.symm
  subst hw1
  have h12 : SameLocal w w2 := sameLocal_trans (sameLocal_advance w _) hl
  have hp : w2.indexedDBPresent = true := by rw [h12.2.2]; exact hs
  have h23 : SameLocal w2 w3 := keeps_assignLocalIds frame_sameLocal env l w2 _ w3 hids
  have h34 := forEff_addLocal_ok pre hpre
  have h45 : SameLocal w4 w5 := addLocal_error hx
  have hloop := forEff_append_error (addLocalAttendanceRecord env) pre post x hpre hx
  refine ⟨?_, ?_, ?_⟩
  · simp only [addMultipleAttendanceRecords, Eff.bind_run, hm, Eff.cont_ok,
      Eff.tryCatch_run, hrem, Eff.handle_error, addMultipleAttendanceRecordsLocal,
      isLocalDBSupported, Eff.getWorld_run, Eff.pure_run, hp, if_true, hids, hloop,
      Eff.cont_error]
  · rw [h45.2.1]
    have := h34.1
    simp only [World.store_attendance] at this
    rw [this, h23.2.1, h12.2.1]
  · rw [h45.1]
    have := h34.2.1 StoreName.students (by decide)
    simp only [World.store_students] at this
    rw [this, h23.1, h12.1]

/-- The fallback loop of `deleteMultipleStudents` stops at the first key the browser database refuses. -/
theorem deleteMultipleStudents_fallback_stops :
    ∀ (env : Env) (uid : String) (pre post : List String) (x : String)
        (w w2 w3 w4 : World) (e e2 : String),
      w.indexedDBPresent = true →
      deleteMultipleStudentsRemote env uid (pre ++ x :: post) w = (Outcome.error e, w2) →
      forEff (deleteLocalStudent env) pre w2 = (Outcome.ok (), w3) →
      deleteLocalStudent env x w3 = (Outcome.error e2, w4) →
      deleteMultipleStudents env uid (pre ++ x :: post) w = (Outcome.error e2, w4) ∧
        w4.localStudents = pre.foldl (fun acc k => deleteByKey acc k) w.localStudents ∧
        w4.localAttendance = w.localAttendance := by
  intro env uid pre post x w w2 w3 w4 e e2 hs hrem hpre hx
  obtain ⟨hl, -⟩ := deleteMultipleStudentsRemote_error hrem
  have hp : w2.indexedDBPresent = true := by rw [hl.2.2]; exact hs
  have h23 := forEff_deleteLocalStudent_ok pre hpre
  have h34 : SameLocal w3 w4 := deleteLocalStudent_error hx
  have hloop := forEff_append_error (deleteLocalStudent env) pre post x hpre hx
  refine ⟨?_, ?_, ?_⟩
  · simp only [deleteMultipleStudents, Eff.bind_run, Eff.tryCatch_run, hrem,
      Eff.handle_error, deleteMultipleStudentsLocal, isLocalDBSupported, Eff.getWorld_run,
      Eff.cont_ok, Eff.pure_run, hp, if_true, hloop, Eff.cont_error]
  · rw [h34.1, h23.1, hl.1]
  · rw [h34.2.1, h23.2.1, hl.2.1]

theorem localKeyed_advance {w : World} (h : LocalKeyed w) (k : Nat) : LocalKeyed (w.advance k) := by
  simpa [LocalKeyed] using h

theorem localKeyed_setConnected {w : World} (h : LocalKeyed w) (c : Bool) :
    LocalKeyed (w.setConnected c) := by
  simpa [LocalKeyed] using h

theorem localKeyed_setRemote {w : World} (h : LocalKeyed w) (n : StoreName) (s : List Doc) :
    LocalKeyed (w.setRemote n s) := by
  simpa [LocalKeyed] using h

theorem localKeyed_setStore {w : World} (h : LocalKeyed w) (n : StoreName) {s : List Obj}
    (hs : Keyed s) : LocalKeyed (w.setStore n s) := by
  cases n
  · exact ⟨by simpa using hs, by simpa using h.2⟩
  · exact ⟨by simpa using h.1, by simpa using hs⟩

theorem localKeyed_store {w : World} (h : LocalKeyed w) (n : StoreName) : Keyed (w.store n) := by
  cases n
  · exact h.1
  · exact h.2

theorem safe_pure {α : Type} {Q : α → Prop} {a : α} (hq : Q a) : Eff.Safe Q (pure a) := by
  intro w hw o w2 h
  simp at h
  obtain ⟨rfl, rfl⟩ := h
  exact ⟨hw, by simp, fun b hb => by cases hb; exact hq⟩

theorem safe_throw {α : Type} {Q : α → Prop} (e : String) : Eff.Safe Q (Eff.throw e) := by
  intro w hw o w2 h
  simp at h
  obtain ⟨rfl, rfl⟩ := h
  exact ⟨hw, by simp, fun b hb => by cases hb⟩

theorem safe_next : Eff.Safe (fun _ => True) Eff.next := by
  intro w hw o w2 h
  simp at h
  obtain ⟨rfl, rfl⟩ := h
  exact ⟨localKeyed_advance hw 1, by simp, fun _ _ => trivial⟩

theorem safe_modify (f : World → World) (hf : ∀ w, LocalKeyed w → LocalKeyed (f w)) :
    Eff.Safe (fun _ => True) (Eff.modify f) := by
  intro w hw o w2 h
  simp at h
  obtain ⟨rfl, rfl⟩ := h
  exact ⟨hf w hw, by simp, fun _ _ => trivial⟩

theorem safe_bind {α β : Type} {Q : α → Prop} {Q2 : β → Prop} {m : Eff α} {f : α → Eff β}
    (hm : Eff.Safe Q m) (hf : ∀ a, Q a → Eff.Safe Q2 (f a)) : Eff.Safe Q2 (m >>= f) := by
  intro w hw o w2 h
  rw [Eff.bind_run] at h
  rcases hmw : m w with ⟨o1, w1⟩
  rw [hmw] at h
  obtain ⟨h1, h2, h3⟩ := hm w hw o1 w1 hmw
  cases o1 with
  | ok a => exact hf a (h3 a rfl) w1 h1 o w2 h
  | error e =>
    simp at h
    obtain ⟨rfl, rfl⟩ := h
    exact ⟨h1, by simp, fun b hb => by cases hb⟩
  | pending => exact absurd rfl h2

theorem safe_tryCatch {α : Type} {Q : α → Prop} {m : Eff α} {f : String → Eff α}
    (hm : Eff.Safe Q m) (hf : ∀ e, Eff.Safe Q (f e)) : Eff.Safe Q (Eff.tryCatch m f) := by
  intro w hw o w2 h
  rw [Eff.tryCatch_run] at h
  rcases hmw : m w with ⟨o1, w1⟩
  rw [hmw] at h
  obtain ⟨h1, h2, h3⟩ := hm w hw o1 w1 hmw
  cases o1 with
  | ok a =>
    simp at h
    obtain ⟨rfl, rfl⟩ := h
    exact ⟨h1, by simp, h3⟩
  | error e => exact hf e w1 h1 o w2 h
  | pending => exact absurd rfl h2

theorem safe_ite {α : Type} {Q : α → Prop} (c : Prop) [Decidable c] {a b : Eff α}
    (ha : Eff.Safe Q a) (hb : Eff.Safe Q b) : Eff.Safe Q (if c then a else b) := by
  split
  · exact ha
  · exact hb

theorem safe_weaken {α : Type} {Q Q2 : α → Prop} {m : Eff α} (hm : Eff.Safe Q m)
    (h : ∀ a, Q a → Q2 a) : Eff.Safe Q2 m := by
  intro w hw o w2 hrun
  obtain ⟨h1, h2, h3⟩ := hm w hw o w2 hrun
  exact ⟨h1, h2, fun a ha => h a (h3 a ha)⟩

theorem safe_liftExcept {α : Type} {Q : α → Prop} (x : Except String α)
    (hx : ∀ a, x = Except.ok a → Q a) : Eff.Safe Q (liftExcept x) := by
  cases x with
  | ok a => exact safe_pure (hx a rfl)
  | error e => exact safe_throw e

/-- A swallowed step that settles resolves. -/
theorem swallow_ok {m : Eff Unit} (hm : Eff.Safe (fun _ => True) m) {w : World}
    (hw : LocalKeyed w) :
    ∃ w2, Eff.tryCatch m (fun _ => pure ()) w = (Outcome.ok (), w2) ∧ LocalKeyed w2 := by
  rcases hmw : m w with ⟨o1, w1⟩
  obtain ⟨h1, h2, -⟩ := hm w hw o1 w1 hmw
  refine ⟨w1, ?_, h1⟩
  rw [Eff.tryCatch_run, hmw]
  cases o1 with
  | ok a => rfl
  | error e => rfl
  | pending => exact absurd rfl h2

theorem safe_getWorld : Eff.Safe (fun _ => True) Eff.getWorld := by
  intro w hw o w2 h
  simp at h
  obtain ⟨rfl, rfl⟩ := h
  exact ⟨hw, by simp, fun _ _ => trivial⟩

theorem safe_initDB (env : Env) : Eff.Safe (fun _ => True) (initDB env) := by
  unfold initDB
  refine safe_bind safe_next (fun t _ => ?_)
  refine safe_bind safe_getWorld (fun w _ => ?_)
  exact safe_ite _ (safe_pure trivial) (safe_throw _)

theorem safe_idbRequest (env : Env) : Eff.Safe (fun _ => True) (idbRequest env) := by
  unfold idbRequest
  exact safe_bind safe_next (fun t _ => safe_pure trivial)

theorem safe_isLocalDBSupported : Eff.Safe (fun _ => True) isLocalDBSupported := by
  unfold isLocalDBSupported
  exact safe_bind safe_getWorld (fun w _ => safe_pure trivial)

theorem safe_remoteAvailable (env : Env) : Eff.Safe (fun _ => True) (remoteAvailable env) := by
  unfold remoteAvailable checkFirebaseConnection
  refine safe_bind safe_getWorld (fun w _ => ?_)
  refine safe_ite _ ?_ (safe_pure trivial)
  refine safe_bind safe_next (fun t _ => ?_)
  refine safe_ite _ ?_ ?_
  · exact safe_bind (safe_modify _ (fun w hw => localKeyed_setConnected hw true))
      (fun _ _ => safe_pure trivial)
  · exact safe_bind (safe_modify _ (fun w hw => localKeyed_setConnected hw false))
      (fun _ _ => safe_pure trivial)

theorem safe_getDocs (env : Env) (n : StoreName) (uid : String) :
    Eff.Safe (fun _ => True) (getDocs env n uid) := by
  intro w hw o w2 h
  rw [getDocs_run] at h
  split at h
  · obtain ⟨rfl, rfl⟩ := Prod.mk.inj h
    exact ⟨localKeyed_advance hw 1, by simp, fun _ _ => trivial⟩
  · obtain ⟨rfl, rfl⟩ := Prod.mk.inj h
    exact ⟨localKeyed_advance hw 1, by simp, fun _ _ => trivial⟩

theorem safe_getLocalAll (env : Env) (n : StoreName) : Eff.Safe Keyed (getLocalAll env n) := by
  intro w hw o w2 h
  rw [getLocalAll_run] at h
  split at h
  · split at h
    · obtain ⟨rfl, rfl⟩ := Prod.mk.inj h
      refine ⟨localKeyed_advance hw 2, by simp, fun a ha => ?_⟩
      cases ha
      exact localKeyed_store hw n
    · obtain ⟨rfl, rfl⟩ := Prod.mk.inj h
      exact ⟨localKeyed_advance hw 2, by simp, fun a ha => by cases ha⟩
  · obtain ⟨rfl, rfl⟩ := Prod.mk.inj h
    refine ⟨localKeyed_advance hw 1, by simp, fun a ha => ?_⟩
    cases ha
    intro r hr
    cases hr

theorem keyed_insertByKey {r : Obj} {l : List Obj} (hr : (Obj.get r "id").isSome = true)
    (hl : Keyed l) : Keyed (insertByKey r l) := by
  intro x hx
  rcases (mem_insertByKey r x l).mp hx with rfl | h
  · exact hr
  · exact hl x h

theorem keyed_addAllRequests (env : Env) (t : Nat) (records store s : List Obj)
    (hr : Keyed records) (hs : Keyed store)
    (h : addAllRequests env t records store = some s) : Keyed s := by
  induction records generalizing t store with
  | nil =>
    simp only [addAllRequests] at h
    cases h
    exact hs
  | cons r rs ih =>
    simp only [addAllRequests] at h
    split at h
    · cases h
    · exact ih (t + 1) (insertByKey r store) (fun x hx => hr x (List.mem_cons_of_mem _ hx))
        (keyed_insertByKey (hr r (List.mem_cons_self _ _)) hs) h

theorem safe_saveLocal (env : Env) (n : StoreName) {records : List Obj} (hr : Keyed records) :
    Eff.Safe (fun _ => True) (saveLocal env n records) := by
  intro w hw o w2 h
  have hany := @any_id_isNone_eq_false records (fun r hx => hr r hx)
  rw [saveLocal_run] at h
  split at h
  · split at h
    · split at h
      · obtain ⟨rfl, rfl⟩ := Prod.mk.inj h
        refine ⟨localKeyed_setStore (localKeyed_advance hw 2) n ?_, by simp,
          fun _ _ => trivial⟩
        intro r hx
        cases hx
      · rw [hany] at h
        simp only [Bool.false_eq_true, if_false] at h
        split at h
        · rename_i s hs
          obtain ⟨rfl, rfl⟩ := Prod.mk.inj h
          refine ⟨localKeyed_setStore (localKeyed_advance hw _) n ?_, by simp,
            fun _ _ => trivial⟩
          exact keyed_addAllRequests env _ records [] s hr (fun r hx => by cases hx) hs
        · obtain ⟨rfl, rfl⟩ := Prod.mk.inj h
          exact ⟨localKeyed_advance hw _, by simp, fun _ _ => trivial⟩
    · obtain ⟨rfl, rfl⟩ := Prod.mk.inj h
      exact ⟨localKeyed_advance hw 2, by simp, fun _ _ => trivial⟩
  · obtain ⟨rfl, rfl⟩ := Prod.mk.inj h
    exact ⟨localKeyed_advance hw 1, by simp, fun _ _ => trivial⟩

theorem keyed_of_perm {l l2 : List Obj} (h : l2.Perm l) (hl : Keyed l) : Keyed l2 :=
  fun r hr => hl r (h.mem_iff.mp hr)

theorem keyed_jsSort {cmp : Obj → Obj → Except String Int} {l : List Obj} (hl : Keyed l) :
    ∀ a, jsSort cmp l = Except.ok a → Keyed a :=
  fun a ha => keyed_of_perm (jsSort_perm cmp l a ha) hl

theorem keyed_filterIf (v : Option String) (p : String → Obj → Bool) {l : List Obj}
    (hl : Keyed l) : Keyed (filterIf v p l) := by
  unfold filterIf
  split
  · split
    · exact fun r hr => hl r (List.mem_filter.mp hr).1
    · exact hl
  · exact hl

theorem keyed_applyFilters (filters : Obj) {l : List Obj} (hl : Keyed l) :
    Keyed (applyFilters filters l) := by
  unfold applyFilters
  exact keyed_filterIf _ _ (keyed_filterIf _ _ (keyed_filterIf _ _ (keyed_filterIf _ _ hl)))

theorem keyed_docRecords (docs : List Doc) : Keyed (docs.map docRecord) := by
  intro r hr
  obtain ⟨d, -, rfl⟩ := List.mem_map.mp hr
  exact docRecord_id_isSome d

/-- The read `getStudents` settles, and what it resolves with is keyed. -/
theorem safe_getStudents (env : Env) (uid : String) : Eff.Safe Keyed (getStudents env uid) := by
  unfold getStudents
  refine safe_tryCatch ?_ (fun _ => ?_)
  · unfold getStudentsRemote
    refine safe_bind (safe_remoteAvailable env) (fun up _ => ?_)
    refine safe_ite _ ?_ (safe_throw _)
    refine safe_bind (safe_getDocs env _ uid) (fun docs _ => ?_)
    refine safe_bind (safe_tryCatch (safe_saveLocal env _ (keyed_docRecords docs))
      (fun _ => safe_pure trivial)) (fun _ _ => ?_)
    exact safe_liftExcept _ (keyed_jsSort (keyed_docRecords docs))
  · unfold getStudentsLocal
    refine safe_bind safe_isLocalDBSupported (fun s _ => ?_)
    refine safe_ite _ ?_ (safe_pure (fun r hr => by cases hr))
    refine safe_bind (safe_getLocalAll env _) (fun l hl => ?_)
    exact safe_liftExcept _ (keyed_jsSort hl)

/-- The read `getAttendanceRecords` settles, and what it resolves with is keyed. -/
theorem safe_getAttendanceRecords (env : Env) (uid : String) (filters : Obj) :
    Eff.Safe Keyed (getAttendanceRecords env uid filters) := by
  unfold getAttendanceRecords
  refine safe_tryCatch ?_ (fun _ => ?_)
  · unfold getAttendanceRecordsRemote
    refine safe_bind (safe_remoteAvailable env) (fun up _ => ?_)
    refine safe_ite _ ?_ (safe_throw _)
    refine safe_bind (safe_getDocs env _ uid) (fun docs _ => ?_)
    refine safe_bind (safe_tryCatch (safe_saveLocal env _ (keyed_docRecords docs))
      (fun _ => safe_pure trivial)) (fun _ _ => ?_)
    exact safe_liftExcept _ (keyed_jsSort (keyed_applyFilters _ (keyed_docRecords docs)))
  · unfold getAttendanceRecordsLocal
    refine safe_bind safe_isLocalDBSupported (fun s _ => ?_)
    refine safe_ite _ ?_ (safe_pure (fun r hr => by cases hr))
    refine safe_bind (safe_getLocalAll env _) (fun l hl => ?_)
    exact safe_liftExcept _ (keyed_jsSort (keyed_applyFilters _ hl))

/-- The mirror step of `addStudent` and `addMultipleStudents` settles. -/
theorem safe_mirror_students (env : Env) (uid : String) :
    Eff.Safe (fun _ => True)
      (getStudents env uid >>= fun allStudents => saveLocalStudents env allStudents) :=
  safe_bind (safe_getStudents env uid) (fun _ hl => safe_saveLocal env _ hl)

/-- The mirror step of `addMultipleAttendanceRecords` settles. -/
theorem safe_mirror_attendance (env : Env) (uid : String) :
    Eff.Safe (fun _ => True)
      (getAttendanceRecords env uid [] >>= fun allRecords =>
        saveLocalAttendanceRecords env allRecords) :=
  safe_bind (safe_getAttendanceRecords env uid []) (fun _ hl => safe_saveLocal env _ hl)

theorem updateLocalStudent_settles (env : Env) (sid : String) (upd : Obj) (w : World) :
    (updateLocalStudent env sid upd w).1 ≠ Outcome.pending := by
  rw [updateLocalStudent_run]
  split
  · split
    · split
      · split <;> simp
      · simp
    · simp
  · simp

theorem deleteLocalStudent_settles (env : Env) (sid : String) (w : World) :
    (deleteLocalStudent env sid w).1 ≠ Outcome.pending := by
  rw [deleteLocalStudent_run]
  split
  · split <;> simp
  · simp

theorem addLocal_settles (env : Env) (n : StoreName) (r : Obj) (w : World) :
    (addLocal env n r w).1 ≠ Outcome.pending := by
  rw [addLocal_run]
  split
  · split
    · simp
    · split
      · simp
      · split <;> simp
  · simp

theorem forEff_settles {α β : Type} (f : α → Eff β)
    (hf : ∀ a w, (f a w).1 ≠ Outcome.pending) (l : List α) (w : World) :
    (forEff f l w).1 ≠ Outcome.pending := by
  induction l generalizing w with
  | nil => simp [forEff]
  | cons a l ih =>
    simp only [forEff, Eff.bind_run]
    rcases ha : f a w with ⟨o, wa⟩
    have h1 := hf a w
    rw [ha] at h1
    cases o with
    | ok b => simpa using ih wa
    | error e => simp
    | pending => exact absurd rfl h1

/-- A swallowed step that settles resolves, whatever it did. -/
theorem swallow_of_settles (m : Eff Unit) (w : World) (h : (m w).1 ≠ Outcome.pending) :
    ∃ w2, Eff.tryCatch m (fun _ => pure ()) w = (Outcome.ok (), w2) := by
  rcases hm : m w with ⟨o, w1⟩
  rw [hm] at h
  refine ⟨w1, ?_⟩
  rw [Eff.tryCatch_run, hm]
  cases o with
  | ok a => rfl
  | error e => rfl
  | pending => exact absurd rfl h

theorem discard_settles {α : Type} (m : Eff α) (w : World) (h : (m w).1 ≠ Outcome.pending) :
    ((m >>= fun _ => (pure () : Eff Unit)) w).1 ≠ Outcome.pending := by
  rw [Eff.bind_run]
  rcases hm : m w with ⟨o, w1⟩
  rw [hm] at h
  cases o with
  | ok a => simp
  | error e => simp
  | pending => exact absurd rfl h

/-- Served by the remote store, `getStudents` resolves with the sorted remote records,
whatever the save into the browser database does. -/
theorem getStudents_served_value {env : Env} (hu : env.RemoteUp) (uid : String) {w : World}
    (ho : w.isOnline = true) {s : List Obj}
    (hs : jsSort (studentCompare env) (recordsOf w StoreName.students uid) = Except.ok s) :
    (getStudents env uid w).1 = Outcome.ok s := by
  obtain ⟨w2, h2, -⟩ := saveLocal_swallow env StoreName.students
    (recordsOf w StoreName.students uid) ((w.advance 1).setConnected true |>.advance 1)
    (recordsOf_id_isSome w StoreName.students uid)
  rw [getStudents, Eff.tryCatch_run,
    getStudentsRemote_served ho (hu.probe _) (hu.remote _), h2, hs]
  rfl

/-- Served by the remote store, `getAttendanceRecords` resolves with the filtered and sorted
remote records, whatever the save into the browser database does. -/
theorem getAttendanceRecords_served_value {env : Env} (hu : env.RemoteUp) (uid : String)
    (filters : Obj) {w : World} (ho : w.isOnline = true) {s : List Obj}
    (hs : jsSort (attendanceCompare env)
      (applyFilters filters (recordsOf w StoreName.attendance uid)) = Except.ok s) :
    (getAttendanceRecords env uid filters w).1 = Outcome.ok s := by
  obtain ⟨w2, h2, -⟩ := saveLocal_swallow env StoreName.attendance
    (recordsOf w StoreName.attendance uid) ((w.advance 1).setConnected true |>.advance 1)
    (recordsOf_id_isSome w StoreName.attendance uid)
  rw [getAttendanceRecords, Eff.tryCatch_run,
    getAttendanceRecordsRemote_served filters ho (hu.probe _) (hu.remote _), h2, hs]
  rfl

theorem addStudent_served_value {env : Env} (hu : env.RemoteUp) (uid : String) (data : Obj)
    {w : World} (ho : w.isOnline = true) (hk : LocalKeyed w) :
    (addStudent env uid data w).1 =
      Outcome.ok (docRecord (Doc.mk uid (env.newDocId (w.tick + 3))
        (Obj.set (Obj.set data "createdAt" (env.nowIso w.tick)) "updatedAt"
          (env.nowIso (w.tick + 1))))) := by
  simp only [addStudent, Eff.bind_run, withStudentMetadata_run, Eff.cont_ok, Eff.tryCatch_run]
  rw [addStudentRemote_served (by simpa using ho) (hu.probe _) (hu.remote _)]
  obtain ⟨w2, h2, -⟩ := swallow_ok (safe_mirror_students env uid)
    (w := (((w.advance 2).advance 1).setConnected true |>.advance 1).setRemote
      StoreName.students (upsertDoc (Doc.mk uid (env.newDocId ((w.advance 2).tick + 1))
        (Obj.set (Obj.set data "createdAt" (env.nowIso w.tick)) "updatedAt"
          (env.nowIso (w.tick + 1)))) (w.advance 2).remoteStudents))
    (localKeyed_setRemote (localKeyed_advance (localKeyed_setConnected
      (localKeyed_advance (localKeyed_advance hk 2) 1) true) 1) _ _)
  rw [h2]
  simp [Nat.add_assoc]

theorem addMultipleStudents_served_value {env : Env} (hu : env.RemoteUp) (uid : String)
    (data : List Obj) {w w1 : World} {l : List Obj} (ho : w.isOnline = true) (hk : LocalKeyed w)
    (hm : mapEff (withStudentMetadata env) data w = (Outcome.ok l, w1)) :
    (addMultipleStudents env uid data w).1 = Outcome.ok l := by
  obtain ⟨l2, hrun, -⟩ := mapEff_withStudentMetadata_run env data w
  rw [hrun] at hm
  obtain ⟨hl, rfl⟩ := Prod.mk.inj hm
  cases hl
  simp only [addMultipleStudents, Eff.bind_run, hrun, Eff.cont_ok, Eff.tryCatch_run]
  rw [addMultipleStudentsRemote_served (by simpa using ho) (hu.probe _) (hu.remote _)]
  obtain ⟨w2, h2, -⟩ := swallow_ok (safe_mirror_students env uid)
    (w := ((((w.advance (2 * data.length)).advance 1).setConnected true).advance
      (l.length + 1)).setRemote StoreName.students
        ((assignDocIds env uid ((w.advance (2 * data.length)).tick + 1) l).foldl
          (fun acc d => upsertDoc d acc) (w.advance (2 * data.length)).remoteStudents))
    (localKeyed_setRemote (localKeyed_advance (localKeyed_setConnected
      (localKeyed_advance (localKeyed_advance hk _) 1) true) _) _ _)
  rw [h2]
  rfl

theorem addMultipleAttendanceRecords_served_value {env : Env} (hu : env.RemoteUp)
    (uid : String) (data : List Obj) {w w1 : World} {l : List Obj} (ho : w.isOnline = true)
    (hk : LocalKeyed w)
    (hm : mapEff (withRecordMetadata env) data w = (Outcome.ok l, w1)) :
    (addMultipleAttendanceRecords env uid data w).1 = Outcome.ok l := by
  obtain ⟨l2, hrun, -⟩ := mapEff_withRecordMetadata_run env data w
  rw [hrun] at hm
  obtain ⟨hl, rfl⟩ := Prod.mk.inj hm
  cases hl
  simp only [addMultipleAttendanceRecords, Eff.bind_run, hrun, Eff.cont_ok, Eff.tryCatch_run]
  rw [addMultipleAttendanceRecordsRemote_served (by simpa using ho) (hu.probe _)
    (hu.remote _)]
  obtain ⟨w2, h2, -⟩ := swallow_ok (safe_mirror_attendance env uid)
    (w := ((((w.advance data.length).advance 1).setConnected true).advance
      (l.length + 1)).setRemote StoreName.attendance
        ((assignDocIds env uid ((w.advance data.length).tick + 1) l).foldl
          (fun acc d => upsertDoc d acc) (w.advance data.length).remoteAttendance))
    (localKeyed_setRemote (localKeyed_advance (localKeyed_setConnected
      (localKeyed_advance (localKeyed_advance hk _) 1) true) _) _ _)
  rw [h2]
  rfl

theorem served_value_of_settles {α β : Type} (r : Outcome α × World)
    (h : r.1 ≠ Outcome.pending) (v : β) (fb : String → Eff β) :
    (Eff.handle (Eff.cont (Eff.handle (Eff.cont r (fun _ => (pure () : Eff Unit)))
      (fun _ => pure ())) (fun _ => pure v)) fb).1 = Outcome.ok v := by
  obtain ⟨o, w⟩ := r
  cases o with
  | ok a => rfl
  | error e => rfl
  | pending => exact absurd rfl h

theorem served_value_of_settles_unit {β : Type} (r : Outcome Unit × World)
    (h : r.1 ≠ Outcome.pending) (v : β) (fb : String → Eff β) :
    (Eff.handle (Eff.cont (Eff.handle r (fun _ => pure ())) (fun _ => pure v)) fb).1 =
      Outcome.ok v := by
  obtain ⟨o, w⟩ := r
  cases o with
  | ok a => rfl
  | error e => rfl
  | pending => exact absurd rfl h

theorem updateStudent_served_value {env : Env} (hu : env.RemoteUp) (uid sid : String)
    (upd : Obj) {w : World} (ho : w.isOnline = true)
    (hd : (findDoc uid sid w.remoteStudents).isSome = true) :
    (updateStudent env uid sid upd w).1 =
      Outcome.ok (spread [("id", sid)] (Obj.set upd "updatedAt" (env.nowIso w.tick))) := by
  obtain ⟨d, hd⟩ := Option.isSome_iff_exists.mp hd
  simp [updateStudent, nowIso, updateStudentRemote, remoteAvailable_run, ho, hu.probe,
    hu.remote, updateDoc_run, hd]
  exact served_value_of_settles _ (updateLocalStudent_settles _ _ _ _) _ _

theorem deleteStudent_served_value {env : Env} (hu : env.RemoteUp) (uid sid : String)
    {w : World} (ho : w.isOnline = true) :
    (deleteStudent env uid sid w).1 = Outcome.ok true := by
  simp [deleteStudent, deleteStudentRemote, remoteAvailable_run, ho, hu.probe,
    hu.remote, deleteDoc_run]
  exact served_value_of_settles _ (deleteLocalStudent_settles _ _ _) _ _

theorem deleteMultipleStudents_served_value {env : Env} (hu : env.RemoteUp) (uid : String)
    (ids : List String) {w : World} (ho : w.isOnline = true) :
    (deleteMultipleStudents env uid ids w).1 = Outcome.ok true := by
  simp [deleteMultipleStudents, deleteMultipleStudentsRemote, remoteAvailable_run, ho,
    hu.probe, hu.remote, batchDeleteCommit_run]
  exact served_value_of_settles_unit _ (forEff_settles _ (deleteLocalStudent_settles env) _ _)
    _ _

theorem addAttendanceRecord_served_value {env : Env} (hu : env.RemoteUp) (uid : String)
    (data : Obj) {w : World} (ho : w.isOnline = true) :
    (addAttendanceRecord env uid data w).1 =
      Outcome.ok (docRecord (Doc.mk uid (env.newDocId (w.tick + 2))
        (Obj.set data "createdAt" (env.nowIso w.tick)))) := by
  simp [addAttendanceRecord, withRecordMetadata_run, addAttendanceRecordRemote,
    remoteAvailable_run, ho, hu.probe, hu.remote, addDoc_run, docRecord,
    addLocalAttendanceRecord]
  exact served_value_of_settles _ (addLocal_settles _ _ _ _) _ _

theorem mirrorFails_remoteUp : Env.mirrorFails.RemoteUp := ⟨fun _ => rfl, fun _ => rfl⟩

theorem mirrorRefuses_remoteUp : Env.mirrorRefuses.RemoteUp := ⟨fun _ => rfl, fun _ => rfl⟩

theorem allOk_remoteUp : Env.allOk.RemoteUp := ⟨fun _ => rfl, fun _ => rfl⟩

theorem addAllRequests_eq (env : Env) (t : Nat) (records store s : List Obj)
    (h : addAllRequests env t records store = some s) :
    s = records.foldl (fun acc r => insertByKey r acc) store := by
  induction records generalizing t store with
  | nil =>
    simp only [addAllRequests] at h
    cases h
    rfl
  | cons r rs ih =>
    simp only [addAllRequests] at h
    split at h
    · cases h
    · exact ih (t + 1) (insertByKey r store) h

/-- A save that meets no failure leaves the store holding the records, in key order. -/
theorem saveLocal_ok_exact {env : Env} (hopen : ∀ t, env.idbOpenOk t = true)
    (hreq : ∀ t, env.idbRequestOk t = true) (n : StoreName) {records : List Obj} {w : World}
    (hp : w.indexedDBPresent = true) (hid : ∀ r ∈ records, (Obj.get r "id").isSome)
    (hnd : DistinctKeys records) :
    saveLocal env n records w =
      (Outcome.ok (), (w.advance (2 + records.length)).setStore n (storeOf records)) := by
  rw [saveLocal_run]
  by_cases hemp : records.isEmpty = true
  · have hnil : records = [] := List.isEmpty_iff.mp hemp
    subst hnil
    simp [hp, hopen, hreq, storeOf]
  · obtain ⟨s, hs, -⟩ := addAllRequests_some env hreq (w.tick + 2) records []
      (fun r _ => rfl) hnd
    have hse := addAllRequests_eq env _ records [] s hs
    simp [hp, hopen, hreq, hemp, any_id_isNone_eq_false hid, hs, hse, storeOf]

theorem storeOf_perm {records : List Obj} : (storeOf records).Perm records := by
  have key : ∀ (l store : List Obj),
      (l.foldl (fun acc r => insertByKey r acc) store).Perm (l ++ store) := by
    intro l
    induction l with
    | nil => intro store; exact List.Perm.refl _
    | cons r rs ih =>
      intro store
      simp only [List.foldl_cons]
      refine (ih (insertByKey r store)).trans ?_
      refine (List.Perm.append_left rs (perm_insertByKey r store)).trans ?_
      exact List.perm_middle
  simpa [storeOf] using key records []

theorem frame_sameData : Frame SameData where
  refl := fun w => ⟨frame_sameLocal.refl w, frame_sameRemote.refl w, rfl⟩
  trans := fun a b c h1 h2 =>
    ⟨sameLocal_trans h1.1 h2.1, sameRemote_trans h1.2.1 h2.2.1, h2.2.2.trans h1.2.2⟩
  advance := fun w k => ⟨sameLocal_advance w k, sameRemote_advance w k, by simp⟩
  setConnected := fun w c =>
    ⟨frame_sameLocal.setConnected w c, frame_sameRemote.setConnected w c, by simp⟩

theorem keeps_isLocalDBSupported {R : World → World → Prop} (hR : Frame R) :
    Eff.Keeps R isLocalDBSupported := by
  unfold isLocalDBSupported
  exact keeps_bind hR (keeps_getWorld hR) (fun _ => keeps_pure hR _)

theorem keeps_getStudentsLocal {R : World → World → Prop} (hR : Frame R) (env : Env) :
    Eff.Keeps R (getStudentsLocal env) := by
  unfold getStudentsLocal getLocalStudents
  refine keeps_bind hR (keeps_isLocalDBSupported hR) (fun s => ?_)
  refine keeps_ite _ ?_ (keeps_pure hR _)
  exact keeps_bind hR (keeps_getLocalAll hR env _) (fun l => keeps_liftExcept hR _)

theorem keeps_getAttendanceRecordsLocal {R : World → World → Prop} (hR : Frame R) (env : Env)
    (filters : Obj) : Eff.Keeps R (getAttendanceRecordsLocal env filters) := by
  unfold getAttendanceRecordsLocal getLocalAttendanceRecords
  refine keeps_bind hR (keeps_isLocalDBSupported hR) (fun s => ?_)
  refine keeps_ite _ ?_ (keeps_pure hR _)
  exact keeps_bind hR (keeps_getLocalAll hR env _) (fun l => keeps_liftExcept hR _)

/-- A read served by the remote store whose mirror meets no failure: afterwards the browser
database collection is the store of the remote records, nothing else changed. -/
theorem getStudents_mirror_exact {env : Env} (hc : env.Cooperates) (uid : String) {w : World}
    (ho : w.isOnline = true) (hp : w.indexedDBPresent = true)
    (hnd : DistinctKeys (recordsOf w StoreName.students uid)) :
    (getStudents env uid w).2.localStudents = storeOf (recordsOf w StoreName.students uid) ∧
      (getStudents env uid w).2.localAttendance = w.localAttendance ∧
      SameRemote w (getStudents env uid w).2 ∧
      (getStudents env uid w).2.isOnline = true ∧
      (getStudents env uid w).2.indexedDBPresent = true := by
  have hsave := saveLocal_ok_exact hc.idbOpen hc.idbRequest StoreName.students
    (w := (w.advance 1).setConnected true |>.advance 1) (by simpa using hp)
    (recordsOf_id_isSome w StoreName.students uid) hnd
  have hrem := @getStudentsRemote_served env uid w ho (hc.probe w.tick) (hc.remote (w.tick + 1))
  rw [hsave] at hrem
  obtain ⟨W, hW⟩ : ∃ W, W = ((((w.advance 1).setConnected true).advance 1).advance
      (2 + (recordsOf w StoreName.students uid).length)).setStore StoreName.students
        (storeOf (recordsOf w StoreName.students uid)) := ⟨_, rfl⟩
  rw [← hW] at hrem
  have hW1 : W.localStudents = storeOf (recordsOf w StoreName.students uid) := by
    rw [hW]; simp
  have hW2 : W.localAttendance = w.localAttendance := by rw [hW]; simp
  have hW3 : SameRemote w W := by rw [hW]; simp [SameRemote]
  have hW4 : W.isOnline = true := by rw [hW]; simpa using ho
  have hW5 : W.indexedDBPresent = true := by rw [hW]; simpa using hp
  clear hW hsave
  cases hsort : jsSort (studentCompare env) (recordsOf w StoreName.students uid) with
  | ok l =>
    have : getStudents env uid w = (Outcome.ok l, W) := by
      simp [getStudents, hrem, hsort]
    rw [this]
    exact ⟨hW1, hW2, hW3, hW4, hW5⟩
  | error e =>
    have hrem2 : getStudentsRemote env uid w = (Outcome.error e, W) := by
      simp [hrem, hsort]
    rcases hl : getStudentsLocal env W with ⟨o, w4⟩
    have hk := keeps_getStudentsLocal frame_sameData env W o w4 hl
    have : getStudents env uid w = (o, w4) := by
      simp [getStudents, hrem2, hl]
    rw [this]
    obtain ⟨⟨h1, h2, h3⟩, h45, h6⟩ := hk
    exact ⟨h1.trans hW1, h2.trans hW2, sameRemote_trans hW3 h45, h6.trans hW4, h3.trans hW5⟩

/-- The same for `getAttendanceRecords`, whatever the filters: the mirror saves the records
before they are filtered. -/
theorem getAttendanceRecords_mirror_exact {env : Env} (hc : env.Cooperates) (uid : String)
    (filters : Obj) {w : World} (ho : w.isOnline = true) (hp : w.indexedDBPresent = true)
    (hnd : DistinctKeys (recordsOf w StoreName.attendance uid)) :
    (getAttendanceRecords env uid filters w).2.localAttendance =
        storeOf (recordsOf w StoreName.attendance uid) ∧
      (getAttendanceRecords env uid filters w).2.localStudents = w.localStudents ∧
      SameRemote w (getAttendanceRecords env uid filters w).2 ∧
      (getAttendanceRecords env uid filters w).2.isOnline = true ∧
      (getAttendanceRecords env uid filters w).2.indexedDBPresent = true := by
  have hsave := saveLocal_ok_exact hc.idbOpen hc.idbRequest StoreName.attendance
    (w := (w.advance 1).setConnected true |>.advance 1) (by simpa using hp)
    (recordsOf_id_isSome w StoreName.attendance uid) hnd
  have hrem := @getAttendanceRecordsRemote_served env uid w filters ho (hc.probe w.tick)
    (hc.remote (w.tick + 1))
  rw [hsave] at hrem
  obtain ⟨W, hW⟩ : ∃ W, W = ((((w.advance 1).setConnected true).advance 1).advance
      (2 + (recordsOf w StoreName.attendance uid).length)).setStore StoreName.attendance
        (storeOf (recordsOf w StoreName.attendance uid)) := ⟨_, rfl⟩
  rw [← hW] at hrem
  have hW1 : W.localAttendance = storeOf (recordsOf w StoreName.attendance uid) := by
    rw [hW]; simp
  have hW2 : W.localStudents = w.localStudents := by rw [hW]; simp
  have hW3 : SameRemote w W := by rw [hW]; simp [SameRemote]
  have hW4 : W.isOnline = true := by rw [hW]; simpa using ho
  have hW5 : W.indexedDBPresent = true := by rw [hW]; simpa using hp
  clear hW hsave
  cases hsort : jsSort (attendanceCompare env)
      (applyFilters filters (recordsOf w StoreName.attendance uid)) with
  | ok l =>
    have : getAttendanceRecords env uid filters w = (Outcome.ok l, W) := by
      simp [getAttendanceRecords, hrem, hsort]
    rw [this]
    exact ⟨hW1, hW2, hW3, hW4, hW5⟩
  | error e =>
    have hrem2 : getAttendanceRecordsRemote env uid filters w = (Outcome.error e, W) := by
      simp [hrem, hsort]
    rcases hl : getAttendanceRecordsLocal env filters W with ⟨o, w4⟩
    have hk := keeps_getAttendanceRecordsLocal frame_sameData env filters W o w4 hl
    have : getAttendanceRecords env uid filters w = (o, w4) := by
      simp [getAttendanceRecords, hrem2, hl]
    rw [this]
    obtain ⟨⟨h1, h2, h3⟩, h45, h6⟩ := hk
    exact ⟨h2.trans hW1, h1.trans hW2, sameRemote_trans hW3 h45, h6.trans hW4, h3.trans hW5⟩

/-- Reading again changes nothing the first read left. -/
theorem readStudentsAgain_fixed {env : Env} (hc : env.Cooperates) (uid : String) (k : Nat)
    {w : World} (ho : w.isOnline = true) (hp : w.indexedDBPresent = true)
    (hnd : DistinctKeys (recordsOf w StoreName.students uid))
    (hl : w.localStudents = storeOf (recordsOf w StoreName.students uid)) :
    (readStudentsAgain env uid k w).localStudents = w.localStudents ∧
      (readStudentsAgain env uid k w).localAttendance = w.localAttendance ∧
      SameRemote w (readStudentsAgain env uid k w) := by
  induction k generalizing w with
  | zero => exact ⟨rfl, rfl, rfl, rfl⟩
  | succ k ih =>
    obtain ⟨h1, h2, h3, h4, h5⟩ := getStudents_mirror_exact hc uid ho hp hnd
    have hrec := sameRemote_recordsOf h3 StoreName.students uid
    have hnd2 : DistinctKeys (recordsOf (getStudents env uid w).2 StoreName.students uid) := by
      rw [hrec]; exact hnd
    obtain ⟨i1, i2, i3⟩ := ih h4 h5 hnd2 (by rw [hrec]; exact h1)
    simp only [readStudentsAgain]
    exact ⟨i1.trans (h1.trans hl.symm), i2.trans h2, sameRemote_trans h3 i3⟩

theorem readAttendanceAgain_fixed {env : Env} (hc : env.Cooperates) (uid : String)
    (filters : Obj) (k : Nat) {w : World} (ho : w.isOnline = true)
    (hp : w.indexedDBPresent = true)
    (hnd : DistinctKeys (recordsOf w StoreName.attendance uid))
    (hl : w.localAttendance = storeOf (recordsOf w StoreName.attendance uid)) :
    (readAttendanceAgain env uid filters k w).localAttendance = w.localAttendance ∧
      (readAttendanceAgain env uid filters k w).localStudents = w.localStudents ∧
      SameRemote w (readAttendanceAgain env uid filters k w) := by
  induction k generalizing w with
  | zero => exact ⟨rfl, rfl, rfl, rfl⟩
  | succ k ih =>
    obtain ⟨h1, h2, h3, h4, h5⟩ := getAttendanceRecords_mirror_exact hc uid filters ho hp hnd
    have hrec := sameRemote_recordsOf h3 StoreName.attendance uid
    have hnd2 : DistinctKeys
        (recordsOf (getAttendanceRecords env uid filters w).2 StoreName.attendance uid) := by
      rw [hrec]; exact hnd
    obtain ⟨i1, i2, i3⟩ := ih h4 h5 hnd2 (by rw [hrec]; exact h1)
    simp only [readAttendanceAgain]
    exact ⟨i1.trans (h1.trans hl.symm), i2.trans h2, sameRemote_trans h3 i3⟩

theorem findByKey_insertByKey_self (r : Obj) (l : List Obj)
    (h : ∀ x ∈ l, keyOf x ≠ keyOf r) : findByKey (insertByKey r l) (keyOf r) = some r := by
  induction l with
  | nil => simp [insertByKey, findByKey]
  | cons y ys ih =>
    have hy : keyOf y ≠ keyOf r := h y (List.mem_cons_self _ _)
    have hys : ∀ x ∈ ys, keyOf x ≠ keyOf r := fun x hx => h x (List.mem_cons_of_mem _ hx)
    unfold insertByKey
    split
    · simp [findByKey]
    · have := ih hys
      unfold findByKey at this ⊢
      rw [List.find?_cons_of_neg _ (by simpa using hy)]
      exact this

theorem mem_deleteByKey (x : Obj) (l : List Obj) (k : String) :
    x ∈ deleteByKey l k ↔ x ∈ l ∧ keyOf x ≠ k := by
  simp [deleteByKey, List.mem_filter]

theorem findByKey_putByKey_self (r : Obj) (l : List Obj) :
    findByKey (putByKey r l) (keyOf r) = some r := by
  unfold putByKey
  exact findByKey_insertByKey_self r _ (fun x hx => ((mem_deleteByKey x l _).mp hx).2)

theorem mem_putByKey_other (r x : Obj) (l : List Obj) (h : keyOf x ≠ keyOf r) :
    x ∈ putByKey r l ↔ x ∈ l := by
  unfold putByKey
  rw [mem_insertByKey, mem_deleteByKey]
  constructor
  · rintro (rfl | ⟨h1, -⟩)
    · exact absurd rfl h
    · exact h1
  · intro h1
    exact Or.inr ⟨h1, h⟩

theorem keyOf_spread_of_patch (ex patch : Obj) (sid : String) (hwf : Obj.WF patch)
    (hex : keyOf ex = sid) (hp : Obj.get patch "id" = none ∨ Obj.get patch "id" = some sid) :
    keyOf (spread ex patch) = sid := by
  unfold keyOf at *
  rw [get_spread ex patch "id" hwf]
  rcases hp with h | h
  · rw [h]
    exact hex
  · rw [h]
    rfl

theorem hasKey_iff_of_keyed {store : List Obj} (hs : Keyed store) (k : String) :
    hasKey store k = true ↔ ∃ x ∈ store, Obj.get x "id" = some k := by
  unfold hasKey
  rw [List.any_eq_true]
  constructor
  · rintro ⟨x, hx, hk⟩
    refine ⟨x, hx, ?_⟩
    obtain ⟨v, hv⟩ := Option.isSome_iff_exists.mp (hs x hx)
    have : keyOf x = k := by simpa using hk
    unfold keyOf at this
    rw [hv] at this ⊢
    simpa using this
  · rintro ⟨x, hx, hk⟩
    refine ⟨x, hx, ?_⟩
    simp [keyOf, hk]

theorem deleteByKey_idem (l : List Obj) (k : String) :
    deleteByKey (deleteByKey l k) k = deleteByKey l k := by
  unfold deleteByKey
  rw [List.filter_filter]
  simp

theorem callCount_append (a b : List SubLog) : callCount (a ++ b) = callCount a + callCount b := by
  simp [callCount, List.filter_append]

theorem deliverLocal_log (env : Env) (kind : SubKind) (w : World) :
    ∃ l, (deliverLocal env kind w).2 = [SubLog.called l] := by
  unfold deliverLocal
  rcases h : getLocalAll env kind.store w with ⟨o, w2⟩
  cases o with
  | ok records =>
    simp only
    cases kind.view env records with
    | ok v => exact ⟨v, rfl⟩
    | error e => exact ⟨[], rfl⟩
  | error e => exact ⟨[], rfl⟩
  | pending =>
    rw [getLocalAll_run] at h
    split at h
    · split at h <;> simp at h
    · simp at h

theorem onSnapshotNext_fields (env : Env) (w : World) (s : Subscription) :
    (onSnapshotNext env w s).2.handle = s.handle ∧
      (onSnapshotNext env w s).2.listening = s.listening ∧
      (onSnapshotNext env w s).2.pendingReads = s.pendingReads ∧
      ((onSnapshotNext env w s).2.log = s.log ∨
        ∃ l, (onSnapshotNext env w s).2.log = s.log ++ [SubLog.called l]) := by
  unfold onSnapshotNext
  simp only
  cases s.kind.view env (recordsOf w s.kind.store s.uid) with
  | ok v => exact ⟨rfl, rfl, rfl, Or.inr ⟨v, rfl⟩⟩
  | error e => exact ⟨rfl, rfl, rfl, Or.inl rfl⟩

theorem callCount_deliverLocal (env : Env) (kind : SubKind) (w : World) :
    callCount (deliverLocal env kind w).2 = 1 := by
  obtain ⟨l, hl⟩ := deliverLocal_log env kind w
  rw [hl]
  simp [callCount]

/-- One event on a subscription whose listener is detached: the log grows by the invocations of
the handle and by one call for each read that settles. -/
theorem subStep_quiet (env : Env) (ev : SubEvent) (st : World × Subscription)
    (hq : st.2.listening = false) :
    ∃ extra, (subStep env ev st).2.log = st.2.log ++ extra ∧
      callCount extra + (subStep env ev st).2.pendingReads = st.2.pendingReads ∧
      (subStep env ev st).2.listening = false := by
  cases ev with
  | snapshot => exact ⟨[], by simp [subStep, hq], by simp [subStep, hq, callCount], by simp [subStep, hq]⟩
  | channelError =>
    exact ⟨[], by simp [subStep, hq], by simp [subStep, hq, callCount], by simp [subStep, hq]⟩
  | cancel =>
    refine ⟨[SubLog.cancelled], ?_, ?_, ?_⟩
    · unfold subStep
      cases st.2.handle <;> rfl
    · unfold subStep
      cases st.2.handle <;> simp [callCount]
    · unfold subStep
      cases st.2.handle
      · rfl
      · exact hq
  | readSettles =>
    by_cases hp : 0 < st.2.pendingReads
    · refine ⟨(deliverLocal env st.2.kind st.1).2, by simp [subStep, hp], ?_,
        by simp [subStep, hp, hq]⟩
      simp only [subStep, hp, if_true]
      rw [callCount_deliverLocal]
      omega
    · refine ⟨[], by simp [subStep, hp], ?_, by simp [subStep, hp, hq]⟩
      simp [subStep, hp, callCount]

theorem subRun_cons (env : Env) (ev : SubEvent) (evs : List SubEvent)
    (st : World × Subscription) :
    subRun env (ev :: evs) st = subRun env evs (subStep env ev st) := rfl

theorem subRun_append (env : Env) (evs1 evs2 : List SubEvent) (st : World × Subscription) :
    subRun env (evs1 ++ evs2) st = subRun env evs2 (subRun env evs1 st) := by
  simp [subRun, List.foldl_append]

/-- Any events on a subscription whose listener is detached. -/
theorem subRun_quiet (env : Env) (evs : List SubEvent) (st : World × Subscription)
    (hq : st.2.listening = false) :
    ∃ extra, (subRun env evs st).2.log = st.2.log ++ extra ∧
      callCount extra + (subRun env evs st).2.pendingReads = st.2.pendingReads ∧
      (subRun env evs st).2.listening = false := by
  induction evs generalizing st with
  | nil => exact ⟨[], by simp [subRun], by simp [subRun, callCount], by simpa [subRun] using hq⟩
  | cons ev evs ih =>
    obtain ⟨e1, h1, h2, h3⟩ := subStep_quiet env ev st hq
    obtain ⟨e2, i1, i2, i3⟩ := ih (subStep env ev st) h3
    refine ⟨e1 ++ e2, ?_, ?_, ?_⟩
    · rw [subRun_cons, i1, h1, List.append_assoc]
    · rw [subRun_cons, callCount_append]
      omega
    · rw [subRun_cons]
      exact i3

/-- The invocation of the handle: the world is untouched, the log gets the invocation, the
listener is detached afterwards whichever handle it was. -/
theorem subStep_cancel (env : Env) (st : World × Subscription)
    (hinv : st.2.handle = Handle.noop → st.2.listening = false) :
    (subStep env SubEvent.cancel st).1 = st.1 ∧
      (subStep env SubEvent.cancel st).2.log = st.2.log ++ [SubLog.cancelled] ∧
      (subStep env SubEvent.cancel st).2.pendingReads = st.2.pendingReads ∧
      (subStep env SubEvent.cancel st).2.listening = false := by
  unfold subStep
  cases hh : st.2.handle with
  | unsubscribe => exact ⟨rfl, rfl, rfl, rfl⟩
  | noop => exact ⟨rfl, rfl, rfl, hinv hh⟩

theorem onSnapshotError_fields (w : World) (s : Subscription) :
    (onSnapshotError w s).2.listening = false ∧
      ((onSnapshotError w s).2.log = s.log ∨
        ∃ l, (onSnapshotError w s).2.log = s.log ++ [SubLog.called l]) := by
  unfold onSnapshotError
  split
  · exact ⟨rfl, Or.inl rfl⟩
  · exact ⟨rfl, Or.inr ⟨[], rfl⟩⟩

theorem subStep_handle (env : Env) (ev : SubEvent) (st : World × Subscription)
    (hinv : st.2.handle = Handle.noop → st.2.listening = false) :
    (subStep env ev st).2.handle = Handle.noop → (subStep env ev st).2.listening = false := by
  cases ev with
  | snapshot =>
    by_cases hl : st.2.listening = true
    · obtain ⟨h1, h2, -, -⟩ := onSnapshotNext_fields env st.1 st.2
      simp only [subStep, hl, if_true]
      rw [h1, h2]
      exact hinv
    · simp only [subStep, hl]
      exact hinv
  | channelError =>
    by_cases hl : st.2.listening = true
    · simp only [subStep, hl, if_true]
      exact fun _ => (onSnapshotError_fields st.1 st.2).1
    · simp only [subStep, hl]
      exact hinv
  | cancel => exact fun _ => (subStep_cancel env st hinv).2.2.2
  | readSettles =>
    by_cases hp : 0 < st.2.pendingReads
    · simp only [subStep, hp, if_true]
      exact hinv
    · simp only [subStep, hp]
      exact hinv

theorem subRun_handle (env : Env) (evs : List SubEvent) (st : World × Subscription)
    (hinv : st.2.handle = Handle.noop → st.2.listening = false) :
    (subRun env evs st).2.handle = Handle.noop → (subRun env evs st).2.listening = false := by
  induction evs generalizing st with
  | nil => exact hinv
  | cons ev evs ih =>
    rw [subRun_cons]
    exact ih _ (subStep_handle env ev st hinv)

theorem subscribe_handle (kind : SubKind) (uid : String) (opens : Bool) (w : World) :
    (subscribe kind uid opens w).2.handle = Handle.noop →
      (subscribe kind uid opens w).2.listening = false := by
  unfold subscribe
  split
  · intro h
    cases h
  · split <;> exact fun _ => rfl

/-- The log before the handle is first invoked holds calls only. -/
theorem subStep_no_cancel (env : Env) (ev : SubEvent) (st : World × Subscription)
    (hev : ev ≠ SubEvent.cancel) (hl : SubLog.cancelled ∉ st.2.log) :
    SubLog.cancelled ∉ (subStep env ev st).2.log := by
  cases ev with
  | snapshot =>
    by_cases hls : st.2.listening = true
    · simp only [subStep, hls, if_true]
      obtain ⟨-, -, -, h4 | ⟨l, h4⟩⟩ := onSnapshotNext_fields env st.1 st.2
      · rw [h4]
        exact hl
      · rw [h4]
        simpa using hl
    · simp only [subStep, hls]
      exact hl
  | channelError =>
    by_cases hls : st.2.listening = true
    · simp only [subStep, hls, if_true]
      obtain ⟨-, h4 | ⟨l, h4⟩⟩ := onSnapshotError_fields st.1 st.2
      · rw [h4]
        exact hl
      · rw [h4]
        simpa using hl
    · simp only [subStep, hls]
      exact hl
  | cancel => exact absurd rfl hev
  | readSettles =>
    by_cases hp : 0 < st.2.pendingReads
    · simp only [subStep, hp, if_true]
      obtain ⟨l, hd⟩ := deliverLocal_log env st.2.kind st.1
      rw [hd]
      simpa using hl
    · simp only [subStep, hp]
      exact hl

theorem subRun_no_cancel (env : Env) (evs : List SubEvent) (st : World × Subscription)
    (hev : SubEvent.cancel ∉ evs) (hl : SubLog.cancelled ∉ st.2.log) :
    SubLog.cancelled ∉ (subRun env evs st).2.log := by
  induction evs generalizing st with
  | nil => exact hl
  | cons ev evs ih =>
    rw [subRun_cons]
    exact ih _ (fun h => hev (List.mem_cons_of_mem _ h))
      (subStep_no_cancel env ev st (fun h => hev (h ▸ List.mem_cons_self _ _)) hl)

theorem subscribe_log (kind : SubKind) (uid : String) (opens : Bool) (w : World) :
    SubLog.cancelled ∉ (subscribe kind uid opens w).2.log := by
  unfold subscribe
  split
  · simp
  · split <;> simp

theorem callsAfterCancel_of_first (log extra : List SubLog) (h : SubLog.cancelled ∉ log) :
    callsAfterCancel (log ++ SubLog.cancelled :: extra) = callCount extra := by
  unfold callsAfterCancel
  induction log with
  | nil => simp [callCount]
  | cons x xs ih =>
    have hx : x ≠ SubLog.cancelled := fun hx => h (hx ▸ List.mem_cons_self _ _)
    have hxs : SubLog.cancelled ∉ xs := fun hxs => h (List.mem_cons_of_mem _ hxs)
    simp only [List.cons_append, List.dropWhile_cons, hx, ne_eq, not_false_eq_true,
      decide_True, if_true]
    exact ih hxs

theorem subscribe_fallback_unsupported (kind : SubKind) (uid : String) (opens : Bool)
    (w : World) (hno : (w.isOnline && w.firebaseConnected && opens) = false)
    (hidb : w.indexedDBPresent = false) :
    subscribe kind uid opens w =
      (w, { kind := kind, uid := uid, handle := Handle.noop, listening := false,
            pendingReads := 0, log := [SubLog.called []] }) := by
  simp [subscribe, hno, hidb]

theorem subscribe_fallback_supported (kind : SubKind) (uid : String) (opens : Bool)
    (w : World) (hno : (w.isOnline && w.firebaseConnected && opens) = false)
    (hidb : w.indexedDBPresent = true) :
    subscribe kind uid opens w =
      (w, { kind := kind, uid := uid, handle := Handle.noop, listening := false,
            pendingReads := 1, log := [] }) := by
  simp [subscribe, hno, hidb]

theorem subscribe_opened (kind : SubKind) (uid : String) (opens : Bool)
    (w : World) (hyes : (w.isOnline && w.firebaseConnected && opens) = true) :
    subscribe kind uid opens w =
      (w, { kind := kind, uid := uid, handle := Handle.unsubscribe, listening := true,
            pendingReads := 0, log := [] }) := by
  simp [subscribe, hyes]

theorem subscribe_kind (kind : SubKind) (uid : String) (opens : Bool) (w : World) :
    (subscribe kind uid opens w).2.kind = kind ∧ (subscribe kind uid opens w).2.uid = uid := by
  unfold subscribe
  split
  · exact ⟨rfl, rfl⟩
  · split <;> exact ⟨rfl, rfl⟩

theorem subStep_kind (env : Env) (ev : SubEvent) (st : World × Subscription) :
    (subStep env ev st).2.kind = st.2.kind ∧ (subStep env ev st).2.uid = st.2.uid := by
  cases ev with
  | snapshot =>
    by_cases hl : st.2.listening = true
    · simp only [subStep, hl, if_true]
      unfold onSnapshotNext
      simp only
      cases st.2.kind.view env (recordsOf st.1 st.2.kind.store st.2.uid) <;> exact ⟨rfl, rfl⟩
    · simp only [subStep, hl]
      exact ⟨rfl, rfl⟩
  | channelError =>
    by_cases hl : st.2.listening = true
    · simp only [subStep, hl, if_true]
      unfold onSnapshotError
      split <;> exact ⟨rfl, rfl⟩
    · simp only [subStep, hl]
      exact ⟨rfl, rfl⟩
  | cancel =>
    unfold subStep
    cases st.2.handle <;> exact ⟨rfl, rfl⟩
  | readSettles =>
    by_cases hp : 0 < st.2.pendingReads
    · simp [subStep, hp]
    · simp [subStep, hp]

theorem subRun_kind (env : Env) (evs : List SubEvent) (st : World × Subscription) :
    (subRun env evs st).2.kind = st.2.kind ∧ (subRun env evs st).2.uid = st.2.uid := by
  induction evs generalizing st with
  | nil => exact ⟨rfl, rfl⟩
  | cons ev evs ih =>
    rw [subRun_cons]
    exact ⟨(ih _).1.trans (subStep_kind env ev st).1, (ih _).2.trans (subStep_kind env ev st).2⟩

/-- While the listener is attached no read of the browser database is pending. -/
theorem subStep_listening (env : Env) (ev : SubEvent) (st : World × Subscription)
    (hinv : st.2.listening = true → st.2.pendingReads = 0) :
    (subStep env ev st).2.listening = true → (subStep env ev st).2.pendingReads = 0 := by
  cases ev with
  | snapshot =>
    by_cases hl : st.2.listening = true
    · obtain ⟨-, h2, h3, -⟩ := onSnapshotNext_fields env st.1 st.2
      simp only [subStep, hl, if_true]
      rw [h2, h3]
      exact hinv
    · simp only [subStep, hl]
      exact hinv
  | channelError =>
    by_cases hl : st.2.listening = true
    · simp only [subStep, hl, if_true]
      intro h
      rw [(onSnapshotError_fields st.1 st.2).1] at h
      cases h
    · simp only [subStep, hl]
      exact hinv
  | cancel =>
    unfold subStep
    cases st.2.handle
    · intro h
      cases h
    · exact hinv
  | readSettles =>
    by_cases hp : 0 < st.2.pendingReads
    · simp only [subStep, hp, if_true]
      intro h
      have := hinv h
      omega
    · simp only [subStep, hp]
      exact hinv

theorem subRun_listening (env : Env) (evs : List SubEvent) (st : World × Subscription)
    (hinv : st.2.listening = true → st.2.pendingReads = 0) :
    (subRun env evs st).2.listening = true → (subRun env evs st).2.pendingReads = 0 := by
  induction evs generalizing st with
  | nil => exact hinv
  | cons ev evs ih =>
    rw [subRun_cons]
    exact ih _ (subStep_listening env ev st hinv)

theorem subscribe_listening (kind : SubKind) (uid : String) (opens : Bool) (w : World) :
    (subscribe kind uid opens w).2.listening = true →
      (subscribe kind uid opens w).2.pendingReads = 0 := by
  unfold subscribe
  split
  · exact fun _ => rfl
  · split <;> (intro h; cases h)

/-- The error listener on an attached channel with no read pending. -/
theorem subStep_channelError (env : Env) (st : World × Subscription)
    (hl : st.2.listening = true) :
    (subStep env SubEvent.channelError st).1 = st.1.setConnected false ∧
      (subStep env SubEvent.channelError st).2.listening = false ∧
      (st.1.indexedDBPresent = false →
        (subStep env SubEvent.channelError st).2.log = st.2.log ++ [SubLog.called []] ∧
        (subStep env SubEvent.channelError st).2.pendingReads = st.2.pendingReads) ∧
      (st.1.indexedDBPresent = true →
        (subStep env SubEvent.channelError st).2.log = st.2.log ∧
        (subStep env SubEvent.channelError st).2.pendingReads = st.2.pendingReads + 1) := by
  simp only [subStep, hl, if_true]
  unfold onSnapshotError
  by_cases hi : st.1.indexedDBPresent = true
  · simp [hi]
  · simp [hi]

/-- A read that settles: its continuation runs on the world as it is then. -/
theorem subStep_readSettles (env : Env) (st : World × Subscription)
    (hp : 0 < st.2.pendingReads) :
    (subStep env SubEvent.readSettles st).1 = (deliverLocal env st.2.kind st.1).1 ∧
      (subStep env SubEvent.readSettles st).2.log =
        st.2.log ++ (deliverLocal env st.2.kind st.1).2 ∧
      (subStep env SubEvent.readSettles st).2.pendingReads = st.2.pendingReads - 1 ∧
      (subStep env SubEvent.readSettles st).2.listening = st.2.listening := by
  simp [subStep, hp]

theorem subRun_nil (env : Env) (st : World × Subscription) : subRun env [] st = st := rfl

theorem subStep_handle_eq (env : Env) (ev : SubEvent) (st : World × Subscription) :
    (subStep env ev st).2.handle = st.2.handle := by
  cases ev with
  | snapshot =>
    by_cases hl : st.2.listening = true
    · simp only [subStep, hl, if_true]
      exact (onSnapshotNext_fields env st.1 st.2).1
    · simp [subStep, hl]
  | channelError =>
    by_cases hl : st.2.listening = true
    · simp only [subStep, hl, if_true]
      unfold onSnapshotError
      split <;> rfl
    · simp [subStep, hl]
  | cancel =>
    unfold subStep
    cases h : st.2.handle <;> simp [h]
  | readSettles =>
    by_cases hp : 0 < st.2.pendingReads
    · simp [subStep, hp]
    · simp [subStep, hp]

theorem subRun_handle_eq (env : Env) (evs : List SubEvent) (st : World × Subscription) :
    (subRun env evs st).2.handle = st.2.handle := by
  induction evs generalizing st with
  | nil => rfl
  | cons ev evs ih =>
    rw [subRun_cons]
    exact (ih _).trans (subStep_handle_eq env ev st)

theorem subStep_noop_cancel (env : Env) (st : World × Subscription)
    (hh : st.2.handle = Handle.noop) :
    (subStep env SubEvent.cancel st).1 = st.1 ∧
      (subStep env SubEvent.cancel st).2.listening = st.2.listening ∧
      (subStep env SubEvent.cancel st).2.pendingReads = st.2.pendingReads ∧
      (subStep env SubEvent.cancel st).2.log = st.2.log ++ [SubLog.cancelled] := by
  simp [subStep, hh]

/-- Invoking the handle `() => {}` any number of times: only the log tells. -/
theorem subRun_noop_cancels (env : Env) (k : Nat) (st : World × Subscription)
    (hh : st.2.handle = Handle.noop) :
    (subRun env (List.replicate k SubEvent.cancel) st).1 = st.1 ∧
      (subRun env (List.replicate k SubEvent.cancel) st).2.listening = st.2.listening ∧
      (subRun env (List.replicate k SubEvent.cancel) st).2.pendingReads =
        st.2.pendingReads ∧
      (subRun env (List.replicate k SubEvent.cancel) st).2.log =
        st.2.log ++ List.replicate k SubLog.cancelled := by
  induction k generalizing st with
  | zero => simp [subRun]
  | succ k ih =>
    obtain ⟨h1, h2, h3, h4⟩ := subStep_noop_cancel env st hh
    obtain ⟨i1, i2, i3, i4⟩ := ih (subStep env SubEvent.cancel st)
      ((subStep_handle_eq env SubEvent.cancel st).trans hh)
    rw [List.replicate_succ, subRun_cons]
    refine ⟨i1.trans h1, i2.trans h2, i3.trans h3, ?_⟩
    rw [i4, h4, List.append_assoc]
    rfl

theorem Obj.get_erase_same (o : Obj) (k : String) : Obj.get (Obj.erase o k) k = none := by
  induction o with
  | nil => rfl
  | cons p rest ih =>
    obtain ⟨k1, v1⟩ := p
    by_cases h : k1 = k
    · simpa [Obj.erase, h] using ih
    · have : Obj.erase ((k1, v1) :: rest) k = (k1, v1) :: Obj.erase rest k := by
        simp [Obj.erase, h]
      rw [this]
      simp [Obj.get, h, ih]

theorem Obj.get_erase_other (o : Obj) (k k2 : String) (h : k2 ≠ k) :
    Obj.get (Obj.erase o k) k2 = Obj.get o k2 := by
  induction o with
  | nil => rfl
  | cons p rest ih =>
    obtain ⟨k1, v1⟩ := p
    by_cases h1 : k1 = k
    · have : Obj.erase ((k1, v1) :: rest) k = Obj.erase rest k := by
        simp [Obj.erase, h1]
      rw [this, ih]
      have hne : k1 ≠ k2 := fun h2 => h (h2 ▸ h1)
      simp [Obj.get, hne]
    · have : Obj.erase ((k1, v1) :: rest) k = (k1, v1) :: Obj.erase rest k := by
        simp [Obj.erase, h1]
      rw [this]
      by_cases h2 : k1 = k2
      · simp [Obj.get, h2]
      · simp [Obj.get, h2, ih]

theorem get_withoutDates (filters : Obj) :
    Obj.get (withoutDates filters) "year" = Obj.get filters "year" ∧
      Obj.get (withoutDates filters) "division" = Obj.get filters "division" ∧
      Obj.get (withoutDates filters) "startDate" = none ∧
      Obj.get (withoutDates filters) "endDate" = none := by
  unfold withoutDates
  refine ⟨?_, ?_, ?_, ?_⟩
  · rw [Obj.get_erase_other _ _ _ (by decide), Obj.get_erase_other _ _ _ (by decide)]
  · rw [Obj.get_erase_other _ _ _ (by decide), Obj.get_erase_other _ _ _ (by decide)]
  · rw [Obj.get_erase_other _ _ _ (by decide), Obj.get_erase_same]
  · rw [Obj.get_erase_same]

/-- The filter of the subscription is the filter of the read without the two dates. -/
theorem applyClassFilters_eq (filters : Obj) (records : List Obj) :
    applyClassFilters filters records = applyFilters (withoutDates filters) records := by
  obtain ⟨h1, h2, h3, h4⟩ := get_withoutDates filters
  unfold applyClassFilters applyFilters
  simp only [h1, h2, h3, h4]
  rfl

theorem applyClassFilters_filter (filters : Obj) (l : List Obj) :
    applyClassFilters filters l = l.filter (fun r => decide (ClassSelects filters r)) := by
  simp only [applyClassFilters, filterIf_eq, List.filter_filter]
  apply List.filter_congr
  intro r _
  rw [Bool.eq_iff_iff]
  simp only [ClassSelects, Bool.and_eq_true, Bool.or_eq_true, decide_eq_true_eq]
  have hyear : ∀ v : Option String,
      (FilterOff v ∨ Obj.get r "year" = some (v.getD "")) ↔
        (FilterOff v ∨ Obj.get r "year" = v) := by
    intro v
    cases v with
    | none => simp [FilterOff]
    | some x => simp
  have hdiv : ∀ v : Option String,
      (FilterOff v ∨ Obj.get r "division" = some (v.getD "")) ↔
        (FilterOff v ∨ Obj.get r "division" = v) := by
    intro v
    cases v with
    | none => simp [FilterOff]
    | some x => simp
  rw [hyear, hdiv]
  tauto

/-- The read `getAttendanceRecords` served by the browser database, the database opening and
its requests served. -/
theorem getAttendanceRecords_local_value {env : Env} (uid : String) (filters : Obj)
    {w : World} (hu : RemoteUnreachable env w) (hp : w.indexedDBPresent = true)
    (hopen : ∀ t, env.idbOpenOk t = true) (hreq : ∀ t, env.idbRequestOk t = true) :
    (getAttendanceRecords env uid filters w).1 =
      (liftExcept (jsSort (attendanceCompare env) (applyFilters filters w.localAttendance))
        w).1 := by
  obtain ⟨e, w2, hrem, hl, -⟩ := getAttendanceRecordsRemote_unreachable uid filters hu
  have hp2 : w2.indexedDBPresent = true := by rw [hl.2.2]; exact hp
  rw [getAttendanceRecords, Eff.tryCatch_run, hrem]
  simp only [Eff.handle_error, getAttendanceRecordsLocal, Eff.bind_run, isLocalDBSupported,
    Eff.getWorld_run, Eff.cont_ok, Eff.pure_run, hp2, if_true, getLocalAttendanceRecords,
    getLocalAll_run, hopen, hreq, Bool.and_self, World.store_attendance, hl.2.1]
  rw [jsSort_attendance]
  rfl

theorem flag_pure {α : Type} (a : α) : Eff.Keeps SameFlag (pure a : Eff α) := by
  intro w o w2 h
  simp at h
  rw [← h.2]
  rfl

theorem flag_throw {α : Type} (e : String) : Eff.Keeps SameFlag (Eff.throw e : Eff α) := by
  intro w o w2 h
  simp at h
  rw [← h.2]
  rfl

theorem flag_hang {α : Type} : Eff.Keeps SameFlag (Eff.hang : Eff α) := by
  intro w o w2 h
  simp at h
  rw [← h.2]
  rfl

theorem flag_getWorld : Eff.Keeps SameFlag Eff.getWorld := by
  intro w o w2 h
  simp at h
  rw [← h.2]
  rfl

theorem flag_next : Eff.Keeps SameFlag Eff.next := by
  intro w o w2 h
  simp at h
  rw [← h.2]
  simp [SameFlag]

theorem flag_modify (f : World → World) (hf : ∀ w, (f w).firebaseConnected = w.firebaseConnected) :
    Eff.Keeps SameFlag (Eff.modify f) := by
  intro w o w2 h
  simp at h
  rw [← h.2]
  exact hf w

theorem flag_bind {α β : Type} {m : Eff α} {f : α → Eff β} (hm : Eff.Keeps SameFlag m)
    (hf : ∀ a, Eff.Keeps SameFlag (f a)) : Eff.Keeps SameFlag (m >>= f) := by
  intro w o w2 h
  rw [Eff.bind_run] at h
  rcases hmw : m w with ⟨o1, w1⟩
  rw [hmw] at h
  have h1 := hm w o1 w1 hmw
  cases o1 with
  | ok a => exact (hf a w1 o w2 h).trans h1
  | error e =>
    simp at h
    rw [← h.2]
    exact h1
  | pending =>
    simp at h
    rw [← h.2]
    exact h1

theorem flag_tryCatch {α : Type} {m : Eff α} {f : String → Eff α}
    (hm : Eff.Keeps SameFlag m) (hf : ∀ e, Eff.Keeps SameFlag (f e)) :
    Eff.Keeps SameFlag (Eff.tryCatch m f) := by
  intro w o w2 h
  rw [Eff.tryCatch_run] at h
  rcases hmw : m w with ⟨o1, w1⟩
  rw [hmw] at h
  have h1 := hm w o1 w1 hmw
  cases o1 with
  | ok a =>
    simp at h
    rw [← h.2]
    exact h1
  | error e => exact (hf e w1 o w2 h).trans h1
  | pending =>
    simp at h
    rw [← h.2]
    exact h1

theorem flag_ite {α : Type} (c : Prop) [Decidable c] {a b : Eff α}
    (ha : Eff.Keeps SameFlag a) (hb : Eff.Keeps SameFlag b) :
    Eff.Keeps SameFlag (if c then a else b) := by
  split
  · exact ha
  · exact hb

theorem flag_liftExcept {α : Type} (x : Except String α) :
    Eff.Keeps SameFlag (liftExcept x) := by
  cases x with
  | ok a => exact flag_pure a
  | error e => exact flag_throw e

theorem flag_mapEff {α β : Type} {f : α → Eff β} (hf : ∀ a, Eff.Keeps SameFlag (f a))
    (l : List α) : Eff.Keeps SameFlag (mapEff f l) := by
  induction l with
  | nil => exact flag_pure _
  | cons a l ih =>
    unfold mapEff
    exact flag_bind (hf a) (fun _ => flag_bind ih (fun _ => flag_pure _))

theorem flag_forEff {α β : Type} {f : α → Eff β} (hf : ∀ a, Eff.Keeps SameFlag (f a))
    (l : List α) : Eff.Keeps SameFlag (forEff f l) := by
  induction l with
  | nil => exact flag_pure _
  | cons a l ih =>
    unfold forEff
    exact flag_bind (hf a) (fun _ => ih)

theorem flag_initDB (env : Env) : Eff.Keeps SameFlag (initDB env) := by
  unfold initDB
  refine flag_bind flag_next (fun t => flag_bind flag_getWorld (fun w => ?_))
  exact flag_ite _ (flag_pure ()) (flag_throw _)

theorem flag_idbRequest (env : Env) : Eff.Keeps SameFlag (idbRequest env) := by
  unfold idbRequest
  exact flag_bind flag_next (fun t => flag_pure _)

theorem flag_isLocalDBSupported : Eff.Keeps SameFlag isLocalDBSupported := by
  unfold isLocalDBSupported
  exact flag_bind flag_getWorld (fun _ => flag_pure _)

theorem flag_getLocalAll (env : Env) (n : StoreName) : Eff.Keeps SameFlag (getLocalAll env n) := by
  intro w o w2 h
  rw [getLocalAll_run] at h
  split at h
  · split at h <;> (rw [← (Prod.mk.inj h).2]; simp [SameFlag])
  · rw [← (Prod.mk.inj h).2]; simp [SameFlag]

theorem flag_setStore (w : World) (n : StoreName) (s : List Obj) :
    (w.setStore n s).firebaseConnected = w.firebaseConnected := by simp

theorem flag_setRemote (w : World) (n : StoreName) (s : List Doc) :
    (w.setRemote n s).firebaseConnected = w.firebaseConnected := by cases n <;> rfl

theorem flag_addLocal (env : Env) (n : StoreName) (r : Obj) :
    Eff.Keeps SameFlag (addLocal env n r) := by
  intro w o w2 h
  rw [addLocal_run] at h
  split at h
  · split at h
    · rw [← (Prod.mk.inj h).2]; simp [SameFlag]
    · split at h
      · rw [← (Prod.mk.inj h).2]; simp [SameFlag]
      · split at h <;> (rw [← (Prod.mk.inj h).2]; simp [SameFlag])
  · rw [← (Prod.mk.inj h).2]; simp [SameFlag]

theorem flag_updateLocalStudent (env : Env) (sid : String) (upd : Obj) :
    Eff.Keeps SameFlag (updateLocalStudent env sid upd) := by
  intro w o w2 h
  rw [updateLocalStudent_run] at h
  split at h
  · split at h
    · split at h
      · split at h <;> (rw [← (Prod.mk.inj h).2]; simp [SameFlag])
      · rw [← (Prod.mk.inj h).2]; simp [SameFlag]
    · rw [← (Prod.mk.inj h).2]; simp [SameFlag]
  · rw [← (Prod.mk.inj h).2]; simp [SameFlag]

theorem flag_deleteLocalStudent (env : Env) (sid : String) :
    Eff.Keeps SameFlag (deleteLocalStudent env sid) := by
  intro w o w2 h
  rw [deleteLocalStudent_run] at h
  split at h
  · split at h <;> (rw [← (Prod.mk.inj h).2]; simp [SameFlag])
  · rw [← (Prod.mk.inj h).2]; simp [SameFlag]

theorem flag_saveLocal (env : Env) (n : StoreName) (records : List Obj) :
    Eff.Keeps SameFlag (saveLocal env n records) := by
  intro w o w2 h
  rw [saveLocal_run] at h
  split at h
  · split at h
    · split at h
      · rw [← (Prod.mk.inj h).2]; simp [SameFlag]
      · split at h
        · rw [← (Prod.mk.inj h).2]; simp [SameFlag]
        · split at h <;> (rw [← (Prod.mk.inj h).2]; simp [SameFlag])
    · rw [← (Prod.mk.inj h).2]; simp [SameFlag]
  · rw [← (Prod.mk.inj h).2]; simp [SameFlag]

theorem flag_getDocs (env : Env) (n : StoreName) (uid : String) :
    Eff.Keeps SameFlag (getDocs env n uid) := by
  intro w o w2 h
  rw [getDocs_run] at h
  split at h <;> (rw [← (Prod.mk.inj h).2]; simp [SameFlag])

theorem flag_addDoc (env : Env) (n : StoreName) (uid : String) (data : Obj) :
    Eff.Keeps SameFlag (addDoc env n uid data) := by
  intro w o w2 h
  rw [addDoc_run] at h
  split at h <;> (rw [← (Prod.mk.inj h).2]; simp [SameFlag, flag_setRemote])

theorem flag_updateDoc (env : Env) (n : StoreName) (uid id : String) (data : Obj) :
    Eff.Keeps SameFlag (updateDoc env n uid id data) := by
  intro w o w2 h
  rw [updateDoc_run] at h
  split at h
  · split at h <;> (rw [← (Prod.mk.inj h).2]; simp [SameFlag, flag_setRemote])
  · rw [← (Prod.mk.inj h).2]; simp [SameFlag]

theorem flag_deleteDoc (env : Env) (n : StoreName) (uid id : String) :
    Eff.Keeps SameFlag (deleteDoc env n uid id) := by
  intro w o w2 h
  rw [deleteDoc_run] at h
  split at h <;> (rw [← (Prod.mk.inj h).2]; simp [SameFlag, flag_setRemote])

theorem flag_batchSetCommit (env : Env) (n : StoreName) (uid : String) (l : List Obj) :
    Eff.Keeps SameFlag (batchSetCommit env n uid l) := by
  intro w o w2 h
  rw [batchSetCommit_run] at h
  split at h <;> (rw [← (Prod.mk.inj h).2]; simp [SameFlag, flag_setRemote])

theorem flag_batchDeleteCommit (env : Env) (n : StoreName) (uid : String) (l : List String) :
    Eff.Keeps SameFlag (batchDeleteCommit env n uid l) := by
  intro w o w2 h
  rw [batchDeleteCommit_run] at h
  split at h <;> (rw [← (Prod.mk.inj h).2]; simp [SameFlag, flag_setRemote])

theorem flag_generateLocalId (env : Env) : Eff.Keeps SameFlag (generateLocalId env) := by
  unfold generateLocalId
  exact flag_bind flag_next (fun _ => flag_bind flag_next (fun _ => flag_pure _))

theorem flag_nowIso (env : Env) : Eff.Keeps SameFlag (nowIso env) := by
  unfold nowIso
  exact flag_bind flag_next (fun _ => flag_pure _)

/-- The shape of every `try` block: the flag after the call is the outcome of the probe when
the browser is online, and untouched when it is not. -/
theorem flag_after_probe {α : Type} (env : Env) (body : Bool → Eff α) (fb : String → Eff α)
    (hbody : ∀ b, Eff.Keeps SameFlag (body b)) (hfb : ∀ e, Eff.Keeps SameFlag (fb e))
    (w : World) :
    (Eff.tryCatch (remoteAvailable env >>= body) fb w).2.firebaseConnected =
      if w.isOnline then env.probeOk w.tick else w.firebaseConnected := by
  have hk : ∀ (b : Bool) (w1 : World),
      (Eff.handle (body b w1) fb).2.firebaseConnected = w1.firebaseConnected := by
    intro b w1
    rcases hb : body b w1 with ⟨o, w2⟩
    have h1 := hbody b w1 o w2 hb
    cases o with
    | ok a => exact h1
    | pending => exact h1
    | error e =>
      rcases hf : fb e w2 with ⟨o3, w3⟩
      have h2 := hfb e w2 o3 w3 hf
      simp only [Eff.handle_error, hf]
      exact h2.trans h1
  rw [Eff.tryCatch_run, Eff.bind_run, remoteAvailable_run]
  by_cases ho : w.isOnline = true
  · by_cases hp : env.probeOk w.tick = true
    · simp only [ho, hp, if_true, Eff.cont_ok]
      rw [hk]
      simp
    · have hp2 : env.probeOk w.tick = false := by simpa using hp
      simp only [ho, hp2, if_true, Eff.cont_ok]
      simp only [Bool.false_eq_true, if_false, Eff.cont_ok]
      rw [hk]
      simp
  · have ho2 : w.isOnline = false := by simpa using ho
    simp only [ho2, Bool.false_eq_true, if_false, Eff.cont_ok]
    rw [hk]

theorem flag_assignIds (env : Env) (l : List Obj) :
    Eff.Keeps SameFlag (mapEff (fun r => do
      let id ← generateLocalId env
      pure (Obj.set r "id" id)) l) :=
  flag_mapEff (fun _ => flag_bind (flag_generateLocalId _) (fun _ => flag_pure _)) _

theorem flag_forAddLocalStudent (env : Env) (l : List Obj) :
    Eff.Keeps SameFlag (forEff (addLocalStudent env) l) :=
  flag_forEff (fun _ => flag_addLocal _ _ _) _

theorem flag_forAddLocalAttendanceRecord (env : Env) (l : List Obj) :
    Eff.Keeps SameFlag (forEff (addLocalAttendanceRecord env) l) :=
  flag_forEff (fun _ => flag_addLocal _ _ _) _

theorem flag_forDeleteLocalStudent (env : Env) (l : List String) :
    Eff.Keeps SameFlag (forEff (deleteLocalStudent env) l) :=
  flag_forEff (fun _ => flag_deleteLocalStudent _ _) _

theorem flag_saveLocalStudents (env : Env) (l : List Obj) :
    Eff.Keeps SameFlag (saveLocalStudents env l) := flag_saveLocal env _ l

theorem flag_saveLocalAttendanceRecords (env : Env) (l : List Obj) :
    Eff.Keeps SameFlag (saveLocalAttendanceRecords env l) := flag_saveLocal env _ l

theorem flag_getLocalStudents (env : Env) : Eff.Keeps SameFlag (getLocalStudents env) :=
  flag_getLocalAll env _

theorem flag_getLocalAttendanceRecords (env : Env) :
    Eff.Keeps SameFlag (getLocalAttendanceRecords env) := flag_getLocalAll env _

theorem flag_addLocalStudent (env : Env) (r : Obj) :
    Eff.Keeps SameFlag (addLocalStudent env r) := flag_addLocal env _ r

theorem flag_addLocalAttendanceRecord (env : Env) (r : Obj) :
    Eff.Keeps SameFlag (addLocalAttendanceRecord env r) := flag_addLocal env _ r

theorem flag_getStudentsLocal (env : Env) :
    Eff.Keeps SameFlag (getStudentsLocal env) := by
  unfold getStudentsLocal
  repeat (first
    | with_reducible exact flag_pure _ | with_reducible exact flag_throw _
    | with_reducible exact flag_isLocalDBSupported
    | with_reducible exact flag_getDocs _ _ _ | with_reducible exact flag_saveLocalStudents _ _
    | with_reducible exact flag_saveLocalAttendanceRecords _ _
    | with_reducible exact flag_liftExcept _
    | with_reducible exact flag_getLocalStudents _
    | with_reducible exact flag_getLocalAttendanceRecords _
    | with_reducible exact flag_addDoc _ _ _ _ | with_reducible exact flag_updateDoc _ _ _ _ _
    | with_reducible exact flag_deleteDoc _ _ _ _
    | with_reducible exact flag_batchSetCommit _ _ _ _
    | with_reducible exact flag_batchDeleteCommit _ _ _ _
    | with_reducible exact flag_addLocalStudent _ _
    | with_reducible exact flag_addLocalAttendanceRecord _ _
    | with_reducible exact flag_updateLocalStudent _ _ _
    | with_reducible exact flag_deleteLocalStudent _ _
    | with_reducible exact flag_generateLocalId _ | with_reducible exact flag_nowIso _
    | with_reducible exact flag_assignIds _ _
    | with_reducible exact flag_forAddLocalStudent _ _
    | with_reducible exact flag_forAddLocalAttendanceRecord _ _
    | with_reducible exact flag_forDeleteLocalStudent _ _
    | with_reducible apply flag_bind | with_reducible apply flag_tryCatch
    | with_reducible apply flag_ite | intro _)

theorem flag_getAttendanceRecordsLocal (env : Env) (filters : Obj) :
    Eff.Keeps SameFlag (getAttendanceRecordsLocal env filters) := by
  unfold getAttendanceRecordsLocal
  repeat (first
    | with_reducible exact flag_pure _ | with_reducible exact flag_throw _
    | with_reducible exact flag_isLocalDBSupported
    | with_reducible exact flag_getDocs _ _ _ | with_reducible exact flag_saveLocalStudents _ _
    | with_reducible exact flag_saveLocalAttendanceRecords _ _
    | with_reducible exact flag_liftExcept _
    | with_reducible exact flag_getLocalStudents _
    | with_reducible exact flag_getLocalAttendanceRecords _
    | with_reducible exact flag_addDoc _ _ _ _ | with_reducible exact flag_updateDoc _ _ _ _ _
    | with_reducible exact flag_deleteDoc _ _ _ _
    | with_reducible exact flag_batchSetCommit _ _ _ _
    | with_reducible exact flag_batchDeleteCommit _ _ _ _
    | with_reducible exact flag_addLocalStudent _ _
    | with_reducible exact flag_addLocalAttendanceRecord _ _
    | with_reducible exact flag_updateLocalStudent _ _ _
    | with_reducible exact flag_deleteLocalStudent _ _
    | with_reducible exact flag_generateLocalId _ | with_reducible exact flag_nowIso _
    | with_reducible exact flag_assignIds _ _
    | with_reducible exact flag_forAddLocalStudent _ _
    | with_reducible exact flag_forAddLocalAttendanceRecord _ _
    | with_reducible exact flag_forDeleteLocalStudent _ _
    | with_reducible apply flag_bind | with_reducible apply flag_tryCatch
    | with_reducible apply flag_ite | intro _)

theorem flag_addStudentLocal (env : Env) (s : Obj) :
    Eff.Keeps SameFlag (addStudentLocal env s) := by
  unfold addStudentLocal
  repeat (first
    | with_reducible exact flag_pure _ | with_reducible exact flag_throw _
    | with_reducible exact flag_isLocalDBSupported
    | with_reducible exact flag_getDocs _ _ _ | with_reducible exact flag_saveLocalStudents _ _
    | with_reducible exact flag_saveLocalAttendanceRecords _ _
    | with_reducible exact flag_liftExcept _
    | with_reducible exact flag_getLocalStudents _
    | with_reducible exact flag_getLocalAttendanceRecords _
    | with_reducible exact flag_addDoc _ _ _ _ | with_reducible exact flag_updateDoc _ _ _ _ _
    | with_reducible exact flag_deleteDoc _ _ _ _
    | with_reducible exact flag_batchSetCommit _ _ _ _
    | with_reducible exact flag_batchDeleteCommit _ _ _ _
    | with_reducible exact flag_addLocalStudent _ _
    | with_reducible exact flag_addLocalAttendanceRecord _ _
    | with_reducible exact flag_updateLocalStudent _ _ _
    | with_reducible exact flag_deleteLocalStudent _ _
    | with_reducible exact flag_generateLocalId _ | with_reducible exact flag_nowIso _
    | with_reducible exact flag_assignIds _ _
    | with_reducible exact flag_forAddLocalStudent _ _
    | with_reducible exact flag_forAddLocalAttendanceRecord _ _
    | with_reducible exact flag_forDeleteLocalStudent _ _
    | with_reducible apply flag_bind | with_reducible apply flag_tryCatch
    | with_reducible apply flag_ite | intro _)

theorem flag_addMultipleStudentsLocal (env : Env) (l : List Obj) :
    Eff.Keeps SameFlag (addMultipleStudentsLocal env l) := by
  unfold addMultipleStudentsLocal
  repeat (first
    | with_reducible exact flag_pure _ | with_reducible exact flag_throw _
    | with_reducible exact flag_isLocalDBSupported
    | with_reducible exact flag_getDocs _ _ _ | with_reducible exact flag_saveLocalStudents _ _
    | with_reducible exact flag_saveLocalAttendanceRecords _ _
    | with_reducible exact flag_liftExcept _
    | with_reducible exact flag_getLocalStudents _
    | with_reducible exact flag_getLocalAttendanceRecords _
    | with_reducible exact flag_addDoc _ _ _ _ | with_reducible exact flag_updateDoc _ _ _ _ _
    | with_reducible exact flag_deleteDoc _ _ _ _
    | with_reducible exact flag_batchSetCommit _ _ _ _
    | with_reducible exact flag_batchDeleteCommit _ _ _ _
    | with_reducible exact flag_addLocalStudent _ _
    | with_reducible exact flag_addLocalAttendanceRecord _ _
    | with_reducible exact flag_updateLocalStudent _ _ _
    | with_reducible exact flag_deleteLocalStudent _ _
    | with_reducible exact flag_generateLocalId _ | with_reducible exact flag_nowIso _
    | with_reducible exact flag_assignIds _ _
    | with_reducible exact flag_forAddLocalStudent _ _
    | with_reducible exact flag_forAddLocalAttendanceRecord _ _
    | with_reducible exact flag_forDeleteLocalStudent _ _
    | with_reducible apply flag_bind | with_reducible apply flag_tryCatch
    | with_reducible apply flag_ite | intro _)

theorem flag_updateStudentLocal (env : Env) (sid : String) (upd : Obj) :
    Eff.Keeps SameFlag (updateStudentLocal env sid upd) := by
  unfold updateStudentLocal
  repeat (first
    | with_reducible exact flag_pure _ | with_reducible exact flag_throw _
    | with_reducible exact flag_isLocalDBSupported
    | with_reducible exact flag_getDocs _ _ _ | with_reducible exact flag_saveLocalStudents _ _
    | with_reducible exact flag_saveLocalAttendanceRecords _ _
    | with_reducible exact flag_liftExcept _
    | with_reducible exact flag_getLocalStudents _
    | with_reducible exact flag_getLocalAttendanceRecords _
    | with_reducible exact flag_addDoc _ _ _ _ | with_reducible exact flag_updateDoc _ _ _ _ _
    | with_reducible exact flag_deleteDoc _ _ _ _
    | with_reducible exact flag_batchSetCommit _ _ _ _
    | with_reducible exact flag_batchDeleteCommit _ _ _ _
    | with_reducible exact flag_addLocalStudent _ _
    | with_reducible exact flag_addLocalAttendanceRecord _ _
    | with_reducible exact flag_updateLocalStudent _ _ _
    | with_reducible exact flag_deleteLocalStudent _ _
    | with_reducible exact flag_generateLocalId _ | with_reducible exact flag_nowIso _
    | with_reducible exact flag_assignIds _ _
    | with_reducible exact flag_forAddLocalStudent _ _
    | with_reducible exact flag_forAddLocalAttendanceRecord _ _
    | with_reducible exact flag_forDeleteLocalStudent _ _
    | with_reducible apply flag_bind | with_reducible apply flag_tryCatch
    | with_reducible apply flag_ite | intro _)

theorem flag_addAttendanceRecordLocal (env : Env) (r : Obj) :
    Eff.Keeps SameFlag (addAttendanceRecordLocal env r) := by
  unfold addAttendanceRecordLocal
  repeat (first
    | with_reducible exact flag_pure _ | with_reducible exact flag_throw _
    | with_reducible exact flag_isLocalDBSupported
    | with_reducible exact flag_getDocs _ _ _ | with_reducible exact flag_saveLocalStudents _ _
    | with_reducible exact flag_saveLocalAttendanceRecords _ _
    | with_reducible exact flag_liftExcept _
    | with_reducible exact flag_getLocalStudents _
    | with_reducible exact flag_getLocalAttendanceRecords _
    | with_reducible exact flag_addDoc _ _ _ _ | with_reducible exact flag_updateDoc _ _ _ _ _
    | with_reducible exact flag_deleteDoc _ _ _ _
    | with_reducible exact flag_batchSetCommit _ _ _ _
    | with_reducible exact flag_batchDeleteCommit _ _ _ _
    | with_reducible exact flag_addLocalStudent _ _
    | with_reducible exact flag_addLocalAttendanceRecord _ _
    | with_reducible exact flag_updateLocalStudent _ _ _
    | with_reducible exact flag_deleteLocalStudent _ _
    | with_reducible exact flag_generateLocalId _ | with_reducible exact flag_nowIso _
    | with_reducible exact flag_assignIds _ _
    | with_reducible exact flag_forAddLocalStudent _ _
    | with_reducible exact flag_forAddLocalAttendanceRecord _ _
    | with_reducible exact flag_forDeleteLocalStudent _ _
    | with_reducible apply flag_bind | with_reducible apply flag_tryCatch
    | with_reducible apply flag_ite | intro _)

theorem flag_addMultipleAttendanceRecordsLocal (env : Env) (l : List Obj) :
    Eff.Keeps SameFlag (addMultipleAttendanceRecordsLocal env l) := by
  unfold addMultipleAttendanceRecordsLocal
  repeat (first
    | with_reducible exact flag_pure _ | with_reducible exact flag_throw _
    | with_reducible exact flag_isLocalDBSupported
    | with_reducible exact flag_getDocs _ _ _ | with_reducible exact flag_saveLocalStudents _ _
    | with_reducible exact flag_saveLocalAttendanceRecords _ _
    | with_reducible exact flag_liftExcept _
    | with_reducible exact flag_getLocalStudents _
    | with_reducible exact flag_getLocalAttendanceRecords _
    | with_reducible exact flag_addDoc _ _ _ _ | with_reducible exact flag_updateDoc _ _ _ _ _
    | with_reducible exact flag_deleteDoc _ _ _ _
    | with_reducible exact flag_batchSetCommit _ _ _ _
    | with_reducible exact flag_batchDeleteCommit _ _ _ _
    | with_reducible exact flag_addLocalStudent _ _
    | with_reducible exact flag_addLocalAttendanceRecord _ _
    | with_reducible exact flag_updateLocalStudent _ _ _
    | with_reducible exact flag_deleteLocalStudent _ _
    | with_reducible exact flag_generateLocalId _ | with_reducible exact flag_nowIso _
    | with_reducible exact flag_assignIds _ _
    | with_reducible exact flag_forAddLocalStudent _ _
    | with_reducible exact flag_forAddLocalAttendanceRecord _ _
    | with_reducible exact flag_forDeleteLocalStudent _ _
    | with_reducible apply flag_bind | with_reducible apply flag_tryCatch
    | with_reducible apply flag_ite | intro _)

theorem flag_deleteStudentLocal (env : Env) (sid : String) :
    Eff.Keeps SameFlag (deleteStudentLocal env sid) := by
  unfold deleteStudentLocal
  repeat (first
    | with_reducible exact flag_pure _ | with_reducible exact flag_throw _
    | with_reducible exact flag_isLocalDBSupported
    | with_reducible exact flag_getDocs _ _ _ | with_reducible exact flag_saveLocalStudents _ _
    | with_reducible exact flag_saveLocalAttendanceRecords _ _
    | with_reducible exact flag_liftExcept _
    | with_reducible exact flag_getLocalStudents _
    | with_reducible exact flag_getLocalAttendanceRecords _
    | with_reducible exact flag_addDoc _ _ _ _ | with_reducible exact flag_updateDoc _ _ _ _ _
    | with_reducible exact flag_deleteDoc _ _ _ _
    | with_reducible exact flag_batchSetCommit _ _ _ _
    | with_reducible exact flag_batchDeleteCommit _ _ _ _
    | with_reducible exact flag_addLocalStudent _ _
    | with_reducible exact flag_addLocalAttendanceRecord _ _
    | with_reducible exact flag_updateLocalStudent _ _ _
    | with_reducible exact flag_deleteLocalStudent _ _
    | with_reducible exact flag_generateLocalId _ | with_reducible exact flag_nowIso _
    | with_reducible exact flag_assignIds _ _
    | with_reducible exact flag_forAddLocalStudent _ _
    | with_reducible exact flag_forAddLocalAttendanceRecord _ _
    | with_reducible exact flag_forDeleteLocalStudent _ _
    | with_reducible apply flag_bind | with_reducible apply flag_tryCatch
    | with_reducible apply flag_ite | intro _)

theorem flag_deleteMultipleStudentsLocal (env : Env) (ids : List String) :
    Eff.Keeps SameFlag (deleteMultipleStudentsLocal env ids) := by
  unfold deleteMultipleStudentsLocal
  repeat (first
    | with_reducible exact flag_pure _ | with_reducible exact flag_throw _
    | with_reducible exact flag_isLocalDBSupported
    | with_reducible exact flag_getDocs _ _ _ | with_reducible exact flag_saveLocalStudents _ _
    | with_reducible exact flag_saveLocalAttendanceRecords _ _
    | with_reducible exact flag_liftExcept _
    | with_reducible exact flag_getLocalStudents _
    | with_reducible exact flag_getLocalAttendanceRecords _
    | with_reducible exact flag_addDoc _ _ _ _ | with_reducible exact flag_updateDoc _ _ _ _ _
    | with_reducible exact flag_deleteDoc _ _ _ _
    | with_reducible exact flag_batchSetCommit _ _ _ _
    | with_reducible exact flag_batchDeleteCommit _ _ _ _
    | with_reducible exact flag_addLocalStudent _ _
    | with_reducible exact flag_addLocalAttendanceRecord _ _
    | with_reducible exact flag_updateLocalStudent _ _ _
    | with_reducible exact flag_deleteLocalStudent _ _
    | with_reducible exact flag_generateLocalId _ | with_reducible exact flag_nowIso _
    | with_reducible exact flag_assignIds _ _
    | with_reducible exact flag_forAddLocalStudent _ _
    | with_reducible exact flag_forAddLocalAttendanceRecord _ _
    | with_reducible exact flag_forDeleteLocalStudent _ _
    | with_reducible apply flag_bind | with_reducible apply flag_tryCatch
    | with_reducible apply flag_ite | intro _)

theorem flag_try_getStudents (env : Env) (uid : String) (b : Bool) :
    Eff.Keeps SameFlag (if b = true then (do
      let docs ← getDocs env StoreName.students uid
      let students := docs.map docRecord
      Eff.tryCatch (saveLocalStudents env students) (fun _ => pure ())
      liftExcept (jsSort (studentCompare env) students)) else Eff.throw "Firebase unavailable") := by
  repeat (first
    | with_reducible exact flag_pure _ | with_reducible exact flag_throw _
    | with_reducible exact flag_isLocalDBSupported
    | with_reducible exact flag_getDocs _ _ _ | with_reducible exact flag_saveLocalStudents _ _
    | with_reducible exact flag_saveLocalAttendanceRecords _ _
    | with_reducible exact flag_liftExcept _
    | with_reducible exact flag_getLocalStudents _
    | with_reducible exact flag_getLocalAttendanceRecords _
    | with_reducible exact flag_addDoc _ _ _ _ | with_reducible exact flag_updateDoc _ _ _ _ _
    | with_reducible exact flag_deleteDoc _ _ _ _
    | with_reducible exact flag_batchSetCommit _ _ _ _
    | with_reducible exact flag_batchDeleteCommit _ _ _ _
    | with_reducible exact flag_addLocalStudent _ _
    | with_reducible exact flag_addLocalAttendanceRecord _ _
    | with_reducible exact flag_updateLocalStudent _ _ _
    | with_reducible exact flag_deleteLocalStudent _ _
    | with_reducible exact flag_generateLocalId _ | with_reducible exact flag_nowIso _
    | with_reducible exact flag_assignIds _ _
    | with_reducible exact flag_forAddLocalStudent _ _
    | with_reducible exact flag_forAddLocalAttendanceRecord _ _
    | with_reducible exact flag_forDeleteLocalStudent _ _
    | with_reducible apply flag_bind | with_reducible apply flag_tryCatch
    | with_reducible apply flag_ite | intro _)

theorem flag_try_getAttendanceRecords (env : Env) (uid : String) (filters : Obj) (b : Bool) :
    Eff.Keeps SameFlag (if b = true then (do
      let docs ← getDocs env StoreName.attendance uid
      let records := docs.map docRecord
      Eff.tryCatch (saveLocalAttendanceRecords env records) (fun _ => pure ())
      liftExcept (jsSort (attendanceCompare env) (applyFilters filters records))) else Eff.throw "Firebase unavailable") := by
  repeat (first
    | with_reducible exact flag_pure _ | with_reducible exact flag_throw _
    | with_reducible exact flag_isLocalDBSupported
    | with_reducible exact flag_getDocs _ _ _ | with_reducible exact flag_saveLocalStudents _ _
    | with_reducible exact flag_saveLocalAttendanceRecords _ _
    | with_reducible exact flag_liftExcept _
    | with_reducible exact flag_getLocalStudents _
    | with_reducible exact flag_getLocalAttendanceRecords _
    | with_reducible exact flag_addDoc _ _ _ _ | with_reducible exact flag_updateDoc _ _ _ _ _
    | with_reducible exact flag_deleteDoc _ _ _ _
    | with_reducible exact flag_batchSetCommit _ _ _ _
    | with_reducible exact flag_batchDeleteCommit _ _ _ _
    | with_reducible exact flag_addLocalStudent _ _
    | with_reducible exact flag_addLocalAttendanceRecord _ _
    | with_reducible exact flag_updateLocalStudent _ _ _
    | with_reducible exact flag_deleteLocalStudent _ _
    | with_reducible exact flag_generateLocalId _ | with_reducible exact flag_nowIso _
    | with_reducible exact flag_assignIds _ _
    | with_reducible exact flag_forAddLocalStudent _ _
    | with_reducible exact flag_forAddLocalAttendanceRecord _ _
    | with_reducible exact flag_forDeleteLocalStudent _ _
    | with_reducible apply flag_bind | with_reducible apply flag_tryCatch
    | with_reducible apply flag_ite | intro _)

theorem flag_try_updateStudent (env : Env) (uid sid : String) (upd : Obj) (b : Bool) :
    Eff.Keeps SameFlag (if b = true then (do
      updateDoc env StoreName.students uid sid upd
      Eff.tryCatch
        (do
          let _ ← updateLocalStudent env sid upd
          pure ())
        (fun _ => pure ())
      pure (spread [("id", sid)] upd)) else Eff.throw "Firebase unavailable") := by
  repeat (first
    | with_reducible exact flag_pure _ | with_reducible exact flag_throw _
    | with_reducible exact flag_isLocalDBSupported
    | with_reducible exact flag_getDocs _ _ _ | with_reducible exact flag_saveLocalStudents _ _
    | with_reducible exact flag_saveLocalAttendanceRecords _ _
    | with_reducible exact flag_liftExcept _
    | with_reducible exact flag_getLocalStudents _
    | with_reducible exact flag_getLocalAttendanceRecords _
    | with_reducible exact flag_addDoc _ _ _ _ | with_reducible exact flag_updateDoc _ _ _ _ _
    | with_reducible exact flag_deleteDoc _ _ _ _
    | with_reducible exact flag_batchSetCommit _ _ _ _
    | with_reducible exact flag_batchDeleteCommit _ _ _ _
    | with_reducible exact flag_addLocalStudent _ _
    | with_reducible exact flag_addLocalAttendanceRecord _ _
    | with_reducible exact flag_updateLocalStudent _ _ _
    | with_reducible exact flag_deleteLocalStudent _ _
    | with_reducible exact flag_generateLocalId _ | with_reducible exact flag_nowIso _
    | with_reducible exact flag_assignIds _ _
    | with_reducible exact flag_forAddLocalStudent _ _
    | with_reducible exact flag_forAddLocalAttendanceRecord _ _
    | with_reducible exact flag_forDeleteLocalStudent _ _
    | with_reducible apply flag_bind | with_reducible apply flag_tryCatch
    | with_reducible apply flag_ite | intro _)

theorem flag_try_addAttendanceRecord (env : Env) (uid : String) (r : Obj) (b : Bool) :
    Eff.Keeps SameFlag (if b = true then (do
      let docId ← addDoc env StoreName.attendance uid r
      let firebaseRecord := spread [("id", docId)] r
      Eff.tryCatch
        (do
          let _ ← addLocalAttendanceRecord env firebaseRecord
          pure ())
        (fun _ => pure ())
      pure firebaseRecord) else Eff.throw "Firebase unavailable") := by
  repeat (first
    | with_reducible exact flag_pure _ | with_reducible exact flag_throw _
    | with_reducible exact flag_isLocalDBSupported
    | with_reducible exact flag_getDocs _ _ _ | with_reducible exact flag_saveLocalStudents _ _
    | with_reducible exact flag_saveLocalAttendanceRecords _ _
    | with_reducible exact flag_liftExcept _
    | with_reducible exact flag_getLocalStudents _
    | with_reducible exact flag_getLocalAttendanceRecords _
    | with_reducible exact flag_addDoc _ _ _ _ | with_reducible exact flag_updateDoc _ _ _ _ _
    | with_reducible exact flag_deleteDoc _ _ _ _
    | with_reducible exact flag_batchSetCommit _ _ _ _
    | with_reducible exact flag_batchDeleteCommit _ _ _ _
    | with_reducible exact flag_addLocalStudent _ _
    | with_reducible exact flag_addLocalAttendanceRecord _ _
    | with_reducible exact flag_updateLocalStudent _ _ _
    | with_reducible exact flag_deleteLocalStudent _ _
    | with_reducible exact flag_generateLocalId _ | with_reducible exact flag_nowIso _
    | with_reducible exact flag_assignIds _ _
    | with_reducible exact flag_forAddLocalStudent _ _
    | with_reducible exact flag_forAddLocalAttendanceRecord _ _
    | with_reducible exact flag_forDeleteLocalStudent _ _
    | with_reducible apply flag_bind | with_reducible apply flag_tryCatch
    | with_reducible apply flag_ite | intro _)

theorem flag_try_updateAttendanceRecord (env : Env) (uid rid : String) (upd : Obj) (b : Bool) :
    Eff.Keeps SameFlag (if b = true then (do
      updateDoc env StoreName.attendance uid rid upd
      pure (spread [("id", rid)] upd)) else Eff.throw "Firebase unavailable") := by
  repeat (first
    | with_reducible exact flag_pure _ | with_reducible exact flag_throw _
    | with_reducible exact flag_isLocalDBSupported
    | with_reducible exact flag_getDocs _ _ _ | with_reducible exact flag_saveLocalStudents _ _
    | with_reducible exact flag_saveLocalAttendanceRecords _ _
    | with_reducible exact flag_liftExcept _
    | with_reducible exact flag_getLocalStudents _
    | with_reducible exact flag_getLocalAttendanceRecords _
    | with_reducible exact flag_addDoc _ _ _ _ | with_reducible exact flag_updateDoc _ _ _ _ _
    | with_reducible exact flag_deleteDoc _ _ _ _
    | with_reducible exact flag_batchSetCommit _ _ _ _
    | with_reducible exact flag_batchDeleteCommit _ _ _ _
    | with_reducible exact flag_addLocalStudent _ _
    | with_reducible exact flag_addLocalAttendanceRecord _ _
    | with_reducible exact flag_updateLocalStudent _ _ _
    | with_reducible exact flag_deleteLocalStudent _ _
    | with_reducible exact flag_generateLocalId _ | with_reducible exact flag_nowIso _
    | with_reducible exact flag_assignIds _ _
    | with_reducible exact flag_forAddLocalStudent _ _
    | with_reducible exact flag_forAddLocalAttendanceRecord _ _
    | with_reducible exact flag_forDeleteLocalStudent _ _
    | with_reducible apply flag_bind | with_reducible apply flag_tryCatch
    | with_reducible apply flag_ite | intro _)

theorem flag_try_deleteAttendanceRecord (env : Env) (uid rid : String) (b : Bool) :
    Eff.Keeps SameFlag (if b = true then (do
      deleteDoc env StoreName.attendance uid rid
      pure rid) else Eff.throw "Firebase unavailable") := by
  repeat (first
    | with_reducible exact flag_pure _ | with_reducible exact flag_throw _
    | with_reducible exact flag_isLocalDBSupported
    | with_reducible exact flag_getDocs _ _ _ | with_reducible exact flag_saveLocalStudents _ _
    | with_reducible exact flag_saveLocalAttendanceRecords _ _
    | with_reducible exact flag_liftExcept _
    | with_reducible exact flag_getLocalStudents _
    | with_reducible exact flag_getLocalAttendanceRecords _
    | with_reducible exact flag_addDoc _ _ _ _ | with_reducible exact flag_updateDoc _ _ _ _ _
    | with_reducible exact flag_deleteDoc _ _ _ _
    | with_reducible exact flag_batchSetCommit _ _ _ _
    | with_reducible exact flag_batchDeleteCommit _ _ _ _
    | with_reducible exact flag_addLocalStudent _ _
    | with_reducible exact flag_addLocalAttendanceRecord _ _
    | with_reducible exact flag_updateLocalStudent _ _ _
    | with_reducible exact flag_deleteLocalStudent _ _
    | with_reducible exact flag_generateLocalId _ | with_reducible exact flag_nowIso _
    | with_reducible exact flag_assignIds _ _
    | with_reducible exact flag_forAddLocalStudent _ _
    | with_reducible exact flag_forAddLocalAttendanceRecord _ _
    | with_reducible exact flag_forDeleteLocalStudent _ _
    | with_reducible apply flag_bind | with_reducible apply flag_tryCatch
    | with_reducible apply flag_ite | intro _)

theorem flag_try_deleteStudent (env : Env) (uid sid : String) (b : Bool) :
    Eff.Keeps SameFlag (if b = true then (do
      deleteDoc env StoreName.students uid sid
      Eff.tryCatch
        (do
          let _ ← deleteLocalStudent env sid
          pure ())
        (fun _ => pure ())
      pure true) else Eff.throw "Firebase unavailable") := by
  repeat (first
    | with_reducible exact flag_pure _ | with_reducible exact flag_throw _
    | with_reducible exact flag_isLocalDBSupported
    | with_reducible exact flag_getDocs _ _ _ | with_reducible exact flag_saveLocalStudents _ _
    | with_reducible exact flag_saveLocalAttendanceRecords _ _
    | with_reducible exact flag_liftExcept _
    | with_reducible exact flag_getLocalStudents _
    | with_reducible exact flag_getLocalAttendanceRecords _
    | with_reducible exact flag_addDoc _ _ _ _ | with_reducible exact flag_updateDoc _ _ _ _ _
    | with_reducible exact flag_deleteDoc _ _ _ _
    | with_reducible exact flag_batchSetCommit _ _ _ _
    | with_reducible exact flag_batchDeleteCommit _ _ _ _
    | with_reducible exact flag_addLocalStudent _ _
    | with_reducible exact flag_addLocalAttendanceRecord _ _
    | with_reducible exact flag_updateLocalStudent _ _ _
    | with_reducible exact flag_deleteLocalStudent _ _
    | with_reducible exact flag_generateLocalId _ | with_reducible exact flag_nowIso _
    | with_reducible exact flag_assignIds _ _
    | with_reducible exact flag_forAddLocalStudent _ _
    | with_reducible exact flag_forAddLocalAttendanceRecord _ _
    | with_reducible exact flag_forDeleteLocalStudent _ _
    | with_reducible apply flag_bind | with_reducible apply flag_tryCatch
    | with_reducible apply flag_ite | intro _)

theorem flag_try_deleteMultipleStudents (env : Env) (uid : String) (ids : List String) (b : Bool) :
    Eff.Keeps SameFlag (if b = true then (do
      batchDeleteCommit env StoreName.students uid ids
      Eff.tryCatch (forEff (deleteLocalStudent env) ids) (fun _ => pure ())
      pure true) else Eff.throw "Firebase unavailable") := by
  repeat (first
    | with_reducible exact flag_pure _ | with_reducible exact flag_throw _
    | with_reducible exact flag_isLocalDBSupported
    | with_reducible exact flag_getDocs _ _ _ | with_reducible exact flag_saveLocalStudents _ _
    | with_reducible exact flag_saveLocalAttendanceRecords _ _
    | with_reducible exact flag_liftExcept _
    | with_reducible exact flag_getLocalStudents _
    | with_reducible exact flag_getLocalAttendanceRecords _
    | with_reducible exact flag_addDoc _ _ _ _ | with_reducible exact flag_updateDoc _ _ _ _ _
    | with_reducible exact flag_deleteDoc _ _ _ _
    | with_reducible exact flag_batchSetCommit _ _ _ _
    | with_reducible exact flag_batchDeleteCommit _ _ _ _
    | with_reducible exact flag_addLocalStudent _ _
    | with_reducible exact flag_addLocalAttendanceRecord _ _
    | with_reducible exact flag_updateLocalStudent _ _ _
    | with_reducible exact flag_deleteLocalStudent _ _
    | with_reducible exact flag_generateLocalId _ | with_reducible exact flag_nowIso _
    | with_reducible exact flag_assignIds _ _
    | with_reducible exact flag_forAddLocalStudent _ _
    | with_reducible exact flag_forAddLocalAttendanceRecord _ _
    | with_reducible exact flag_forDeleteLocalStudent _ _
    | with_reducible apply flag_bind | with_reducible apply flag_tryCatch
    | with_reducible apply flag_ite | intro _)

theorem getStudents_flag (env : Env) (uid : String) (w : World) :
    (getStudents env uid w).2.firebaseConnected = flagAfterProbe env w :=
  flag_after_probe env _ _ (flag_try_getStudents env uid) (fun _ => flag_getStudentsLocal env) w

theorem getAttendanceRecords_flag (env : Env) (uid : String) (filters : Obj) (w : World) :
    (getAttendanceRecords env uid filters w).2.firebaseConnected = flagAfterProbe env w :=
  flag_after_probe env _ _ (flag_try_getAttendanceRecords env uid filters)
    (fun _ => flag_getAttendanceRecordsLocal env filters) w

theorem deleteStudent_flag (env : Env) (uid sid : String) (w : World) :
    (deleteStudent env uid sid w).2.firebaseConnected = flagAfterProbe env w :=
  flag_after_probe env _ _ (flag_try_deleteStudent env uid sid)
    (fun _ => flag_deleteStudentLocal env sid) w

theorem deleteMultipleStudents_flag (env : Env) (uid : String) (ids : List String) (w : World) :
    (deleteMultipleStudents env uid ids w).2.firebaseConnected = flagAfterProbe env w :=
  flag_after_probe env _ _ (flag_try_deleteMultipleStudents env uid ids)
    (fun _ => flag_deleteMultipleStudentsLocal env ids) w

theorem deleteAttendanceRecord_flag (env : Env) (uid rid : String) (w : World) :
    (deleteAttendanceRecord env uid rid w).2.firebaseConnected = flagAfterProbe env w :=
  flag_after_probe env _ _ (flag_try_deleteAttendanceRecord env uid rid)
    (fun _ => flag_throw _) w

theorem updateStudent_flag (env : Env) (uid sid : String) (upd : Obj) (w : World) :
    (updateStudent env uid sid upd w).2.firebaseConnected =
      flagAfterProbe env (w.advance 1) := by
  have h := flag_after_probe env _ _
    (flag_try_updateStudent env uid sid (Obj.set upd "updatedAt" (env.nowIso w.tick)))
    (fun _ => flag_updateStudentLocal env sid (Obj.set upd "updatedAt" (env.nowIso w.tick)))
    (w.advance 1)
  simpa [updateStudent, nowIso, updateStudentRemote, flagAfterProbe] using h

theorem updateAttendanceRecord_flag (env : Env) (uid rid : String) (upd : Obj) (w : World) :
    (updateAttendanceRecord env uid rid upd w).2.firebaseConnected =
      flagAfterProbe env (w.advance 1) := by
  have h := flag_after_probe env _ _
    (flag_try_updateAttendanceRecord env uid rid (Obj.set upd "updatedAt" (env.nowIso w.tick)))
    (fun _ => flag_throw "Failed to update attendance record. Please try again.")
    (w.advance 1)
  simpa [updateAttendanceRecord, nowIso, updateAttendanceRecordRemote, flagAfterProbe] using h

theorem addAttendanceRecord_flag (env : Env) (uid : String) (r : Obj) (w : World) :
    (addAttendanceRecord env uid r w).2.firebaseConnected =
      flagAfterProbe env (w.advance 1) := by
  have h := flag_after_probe env _ _
    (flag_try_addAttendanceRecord env uid (Obj.set r "createdAt" (env.nowIso w.tick)))
    (fun _ => flag_addAttendanceRecordLocal env (Obj.set r "createdAt" (env.nowIso w.tick)))
    (w.advance 1)
  simpa [addAttendanceRecord, withRecordMetadata_run, addAttendanceRecordRemote,
    flagAfterProbe] using h

theorem flag_cont_of_keeps {α β : Type} (x : Outcome α × World) (f : α → Eff β)
    (hf : ∀ a, Eff.Keeps SameFlag (f a)) :
    (Eff.cont x f).2.firebaseConnected = x.2.firebaseConnected := by
  rcases x with ⟨o, w1⟩
  cases o with
  | ok a =>
    rcases h : f a w1 with ⟨o2, w2⟩
    simp only [Eff.cont_ok, h]
    exact hf a w1 o2 w2 h
  | error e => simp
  | pending => simp

theorem flag_handle_of_keeps {α : Type} (x : Outcome α × World) (f : String → Eff α)
    (hf : ∀ e, Eff.Keeps SameFlag (f e)) :
    (Eff.handle x f).2.firebaseConnected = x.2.firebaseConnected := by
  rcases x with ⟨o, w1⟩
  cases o with
  | ok a => simp
  | error e =>
    rcases h : f e w1 with ⟨o2, w2⟩
    simp only [Eff.handle_error, h]
    exact hf e w1 o2 w2 h
  | pending => simp

/-- The mirror step `getStudents` then `saveLocalStudents`, swallowed: the flag afterwards is
the one the nested `getStudents` leaves. -/
theorem mirror_students_flag (env : Env) (uid : String) (w : World) :
    (Eff.tryCatch (getStudents env uid >>= fun all => saveLocalStudents env all)
      (fun _ => pure ()) w).2.firebaseConnected = flagAfterProbe env w := by
  rw [Eff.tryCatch_run, flag_handle_of_keeps _ _ (fun _ => flag_pure ()), Eff.bind_run,
    flag_cont_of_keeps _ _ (fun l => flag_saveLocalStudents env l), getStudents_flag]

theorem mirror_attendance_flag (env : Env) (uid : String) (w : World) :
    (Eff.tryCatch (getAttendanceRecords env uid [] >>= fun all =>
        saveLocalAttendanceRecords env all)
      (fun _ => pure ()) w).2.firebaseConnected = flagAfterProbe env w := by
  rw [Eff.tryCatch_run, flag_handle_of_keeps _ _ (fun _ => flag_pure ()), Eff.bind_run,
    flag_cont_of_keeps _ _ (fun l => flag_saveLocalAttendanceRecords env l),
    getAttendanceRecords_flag]

/-- The flag after `addStudent` when the browser is online: the outcome of the probe of the
operation when that probe or the write fails, and the outcome of the probe of the nested
`getStudents` when the write succeeds. -/
theorem addStudent_flag (env : Env) (uid : String) (s : Obj) (w : World)
    (ho : w.isOnline = true) :
    (addStudent env uid s w).2.firebaseConnected =
      if env.probeOk (w.tick + 2) && env.remoteOk (w.tick + 3) then env.probeOk (w.tick + 4)
      else env.probeOk (w.tick + 2) := by
  simp only [addStudent, Eff.bind_run, withStudentMetadata_run, Eff.cont_ok, Eff.tryCatch_run]
  rw [flag_handle_of_keeps _ _ (fun _ => flag_addStudentLocal env _)]
  by_cases hp : env.probeOk (w.tick + 2) = true
  · by_cases hr : env.remoteOk (w.tick + 3) = true
    · rw [addStudentRemote_served (by simpa using ho) (by simpa using hp) (by simpa using hr),
        flag_cont_of_keeps _ _ (fun _ => flag_pure _), mirror_students_flag]
      simp [flagAfterProbe, ho, hp, hr, Nat.add_assoc]
    · have hr2 : env.remoteOk (w.tick + 3) = false := by simpa using hr
      simp [addStudentRemote, remoteAvailable_run, addDoc_run, ho, hp, hr2, Nat.add_assoc]
  · have hp2 : env.probeOk (w.tick + 2) = false := by simpa using hp
    simp [addStudentRemote, remoteAvailable_run, ho, hp2]
theorem addMultipleStudents_flag (env : Env) (uid : String) (data : List Obj) (w : World)
    (ho : w.isOnline = true) :
    (addMultipleStudents env uid data w).2.firebaseConnected =
      if env.probeOk (w.tick + 2 * data.length) &&
          env.remoteOk (w.tick + 2 * data.length + 1 + data.length) then
        env.probeOk (w.tick + 2 * data.length + 1 + data.length + 1)
      else env.probeOk (w.tick + 2 * data.length) := by
  obtain ⟨l, hl, hlen⟩ := mapEff_withStudentMetadata_run env data w
  simp only [addMultipleStudents, Eff.bind_run, hl, Eff.cont_ok, Eff.tryCatch_run]
  rw [flag_handle_of_keeps _ _ (fun _ => flag_addMultipleStudentsLocal env _)]
  by_cases hp : env.probeOk (w.tick + 2 * data.length) = true
  · by_cases hr : env.remoteOk (w.tick + 2 * data.length + 1 + data.length) = true
    · rw [addMultipleStudentsRemote_served (by simpa using ho) (by simpa using hp)
          (by simpa [hlen] using hr),
        flag_cont_of_keeps _ _ (fun _ => flag_pure _), mirror_students_flag]
      have hr3 : env.remoteOk (w.tick + (2 * data.length + (1 + data.length))) = true := by
        simpa [Nat.add_assoc] using hr
      simp [flagAfterProbe, ho, hp, hr, hr3, hlen, Nat.add_assoc]
    · have hr2 : env.remoteOk (w.tick + 2 * data.length + 1 + data.length) = false := by
        simpa using hr
      have hr3 : env.remoteOk (w.tick + (2 * data.length + (1 + data.length))) = false := by
        simpa [Nat.add_assoc] using hr2
      simp [addMultipleStudentsRemote, remoteAvailable_run, batchSetCommit_run, ho, hp, hr2,
        hr3, hlen, Nat.add_assoc]
  · have hp2 : env.probeOk (w.tick + 2 * data.length) = false := by simpa using hp
    simp [addMultipleStudentsRemote, remoteAvailable_run, ho, hp2]

theorem addMultipleAttendanceRecords_flag (env : Env) (uid : String) (data : List Obj)
    (w : World) (ho : w.isOnline = true) :
    (addMultipleAttendanceRecords env uid data w).2.firebaseConnected =
      if env.probeOk (w.tick + data.length) &&
          env.remoteOk (w.tick + data.length + 1 + data.length) then
        env.probeOk (w.tick + data.length + 1 + data.length + 1)
      else env.probeOk (w.tick + data.length) := by
  obtain ⟨l, hl, hlen⟩ := mapEff_withRecordMetadata_run env data w
  simp only [addMultipleAttendanceRecords, Eff.bind_run, hl, Eff.cont_ok, Eff.tryCatch_run]
  rw [flag_handle_of_keeps _ _ (fun _ => flag_addMultipleAttendanceRecordsLocal env _)]
  by_cases hp : env.probeOk (w.tick + data.length) = true
  · by_cases hr : env.remoteOk (w.tick + data.length + 1 + data.length) = true
    · rw [addMultipleAttendanceRecordsRemote_served (by simpa using ho) (by simpa using hp)
          (by simpa [hlen] using hr),
        flag_cont_of_keeps _ _ (fun _ => flag_pure _), mirror_attendance_flag]
      have hr3 : env.remoteOk (w.tick + (data.length + (1 + data.length))) = true := by
        simpa [Nat.add_assoc] using hr
      simp [flagAfterProbe, ho, hp, hr, hr3, hlen, Nat.add_assoc]
    · have hr2 : env.remoteOk (w.tick + data.length + 1 + data.length) = false := by
        simpa using hr
      have hr3 : env.remoteOk (w.tick + (data.length + (1 + data.length))) = false := by
        simpa [Nat.add_assoc] using hr2
      simp [addMultipleAttendanceRecordsRemote, remoteAvailable_run, batchSetCommit_run, ho, hp,
        hr2, hr3, hlen, Nat.add_assoc]
  · have hp2 : env.probeOk (w.tick + data.length) = false := by simpa using hp
    simp [addMultipleAttendanceRecordsRemote, remoteAvailable_run, ho, hp2]

theorem mem_recordsOf {w : World} {n : StoreName} {uid : String} {r : Obj}
    (h : r ∈ recordsOf w n uid) : ∃ d ∈ w.remote n, d.user = uid ∧ r = docRecord d := by
  simp only [recordsOf, List.mem_map, List.mem_filter, decide_eq_true_eq] at h
  obtain ⟨d, ⟨hd, hu⟩, rfl⟩ := h
  exact ⟨d, hd, hu, rfl⟩

/-- The value `getStudents` resolves with when the probe and the remote read succeed and the
comparator does not throw: the sorted records of the documents of the user. -/
theorem getStudents_remote_value {env : Env} (uid : String) {w : World}
    (h1 : w.isOnline = true) (h2 : env.probeOk w.tick = true)
    (h3 : env.remoteOk (w.tick + 1) = true) {s : List Obj}
    (hs : jsSort (studentCompare env) (recordsOf w StoreName.students uid) = Except.ok s) :
    (getStudents env uid w).1 = Outcome.ok s := by
  obtain ⟨w2, hsave, -⟩ := saveLocal_swallow env StoreName.students
    (recordsOf w StoreName.students uid) ((w.advance 1).setConnected true |>.advance 1)
    (recordsOf_id_isSome w StoreName.students uid)
  rw [getStudents, Eff.tryCatch_run, getStudentsRemote_served h1 h2 h3, hsave, hs]
  rfl

/-- The value `getAttendanceRecords` resolves with when the probe and the remote read
succeed. -/
theorem getAttendanceRecords_remote_value {env : Env} (uid : String) (filters : Obj)
    {w : World} (h1 : w.isOnline = true) (h2 : env.probeOk w.tick = true)
    (h3 : env.remoteOk (w.tick + 1) = true) :
    (getAttendanceRecords env uid filters w).1 =
      Outcome.ok (List.insertionSort (fun x y => attendanceCmp env x y ≤ 0)
        (applyFilters filters (recordsOf w StoreName.attendance uid))) := by
  obtain ⟨w2, hsave, -⟩ := saveLocal_swallow env StoreName.attendance
    (recordsOf w StoreName.attendance uid) ((w.advance 1).setConnected true |>.advance 1)
    (recordsOf_id_isSome w StoreName.attendance uid)
  rw [getAttendanceRecords, Eff.tryCatch_run, getAttendanceRecordsRemote_served filters h1 h2 h3,
    hsave, jsSort_attendance]
  rfl

/-- When the remote store is unreachable the `try` block of `getStudents` does not look at the
user identifier. -/
theorem getStudentsRemote_any_user {env : Env} {w : World} (u v : String)
    (h : RemoteUnreachable env w) :
    getStudentsRemote env u w = getStudentsRemote env v w := by
  simp only [getStudentsRemote, Eff.bind_run, remoteAvailable_run, getDocs_run]
  by_cases h1 : w.isOnline = true
  · by_cases h2 : env.probeOk w.tick = true
    · have h3 : env.remoteOk (w.tick + 1) = false := by
        rcases h with h | h | h
        · rw [h1] at h; cases h
        · rw [h2] at h; cases h
        · exact h
      simp [h1, h2, h3, getDocs_run]
    · simp [h1, h2]
  · simp [h1]

theorem getAttendanceRecordsRemote_any_user {env : Env} {w : World} (u v : String)
    (filters : Obj) (h : RemoteUnreachable env w) :
    getAttendanceRecordsRemote env u filters w = getAttendanceRecordsRemote env v filters w := by
  simp only [getAttendanceRecordsRemote, Eff.bind_run, remoteAvailable_run, getDocs_run]
  by_cases h1 : w.isOnline = true
  · by_cases h2 : env.probeOk w.tick = true
    · have h3 : env.remoteOk (w.tick + 1) = false := by
        rcases h with h | h | h
        · rw [h1] at h; cases h
        · rw [h2] at h; cases h
        · exact h
      simp [h1, h2, h3, getDocs_run]
    · simp [h1, h2]
  · simp [h1]

/-- The value `getStudents` resolves with on the fallback path when the browser database
works: the sorted content of the whole local collection. -/
theorem getStudents_local_value {env : Env} (uid : String)
    {w : World} (hu : RemoteUnreachable env w) (hp : w.indexedDBPresent = true)
    (hopen : ∀ t, env.idbOpenOk t = true) (hreq : ∀ t, env.idbRequestOk t = true) :
    (getStudents env uid w).1 = (liftExcept (jsSort (studentCompare env) w.localStudents) w).1 := by
  obtain ⟨e, w2, hrem, hl, -⟩ := getStudentsRemote_unreachable uid hu
  have hp2 : w2.indexedDBPresent = true := by rw [hl.2.2]; exact hp
  rw [getStudents, Eff.tryCatch_run, hrem]
  simp only [Eff.handle_error, getStudentsLocal, Eff.bind_run, isLocalDBSupported,
    Eff.getWorld_run, Eff.cont_ok, Eff.pure_run, hp2, if_true, getLocalStudents,
    getLocalAll_run, hopen, hreq, Bool.and_self, World.store_students, hl.1]
  cases jsSort (studentCompare env) w.localStudents <;> rfl

theorem submitCheck_of_completed (students : List Obj) {formData : Obj}
    (h : CompletedForm formData) :
    submitCheck students formData =
      if ∃ s ∈ students, Obj.get s "rollNumber" = Obj.get formData "rollNumber" then
        SubmitCheck.duplicate
      else SubmitCheck.accepted := by
  obtain ⟨h1, h2, h3, h4⟩ := h
  simp only [submitCheck, h1, h2, h3, h4, Bool.not_true, Bool.or_self, Bool.false_eq_true,
    if_false]
  cases hf : students.find? (fun s =>
      decide (Obj.get s "rollNumber" = Obj.get formData "rollNumber")) with
  | none =>
    rw [List.find?_eq_none] at hf
    have hno : ¬ ∃ s ∈ students, Obj.get s "rollNumber" = Obj.get formData "rollNumber" := by
      rintro ⟨s, hs, heq⟩
      exact hf s hs (by simpa using heq)
    simp [hno]
  | some x =>
    have hx := List.find?_some hf
    have hmem := List.mem_of_find?_eq_some hf
    have hyes : ∃ s ∈ students, Obj.get s "rollNumber" = Obj.get formData "rollNumber" :=
      ⟨x, hmem, by simpa using hx⟩
    simp [hyes]

theorem mem_filteredStudents_of_selected {roster : List Obj} {selectedClass : Obj}
    (hy : truthy (Obj.get selectedClass "year") = true)
    (hd : truthy (Obj.get selectedClass "division") = true) (s : Obj) :
    s ∈ filteredStudents roster selectedClass ↔
      s ∈ roster ∧ Obj.get s "year" = Obj.get selectedClass "year" ∧
        Obj.get s "division" = Obj.get selectedClass "division" := by
  simp [filteredStudents, hy, hd]

theorem filteredStudents_of_unselected {roster : List Obj} {selectedClass : Obj}
    (h : truthy (Obj.get selectedClass "year") = false ∨
      truthy (Obj.get selectedClass "division") = false) :
    filteredStudents roster selectedClass = roster := by
  rcases h with h | h <;> simp [filteredStudents, h]

theorem addLocal_remote (env : Env) (n : StoreName) (r : Obj) (w : World) :
    (addLocal env n r w).2.remoteStudents = w.remoteStudents ∧
      (addLocal env n r w).2.remoteAttendance = w.remoteAttendance ∧
      (addLocal env n r w).2.isOnline = w.isOnline := by
  rw [addLocal_run]
  split
  · split
    · simp
    · split
      · simp
      · split <;> simp
  · simp

/-- The call `addAttendanceRecord` when the browser is online and the probe and the write
succeed: it resolves with the record of the new document, which is written under the key the
remote store assigned; the local copy is best effort. -/
theorem addAttendanceRecord_remote_run {env : Env} (uid : String) (data : Obj) {w : World}
    (ho : w.isOnline = true) (hp : env.probeOk (w.tick + 1) = true)
    (hr : env.remoteOk (w.tick + 2) = true) :
    ∃ w1, addAttendanceRecord env uid data w =
        (Outcome.ok (docRecord (Doc.mk uid (env.newDocId (w.tick + 2))
          (Obj.set data "createdAt" (env.nowIso w.tick)))), w1) ∧
      w1.remoteAttendance = upsertDoc (Doc.mk uid (env.newDocId (w.tick + 2))
        (Obj.set data "createdAt" (env.nowIso w.tick))) w.remoteAttendance ∧
      w1.remoteStudents = w.remoteStudents ∧ w1.isOnline = true := by
  obtain ⟨W, hW⟩ : ∃ W, W = ((((w.advance 2).setConnected true).advance 1).setRemote
    StoreName.attendance (upsertDoc (Doc.mk uid (env.newDocId (w.tick + 2))
      (Obj.set data "createdAt" (env.nowIso w.tick))) w.remoteAttendance)) := ⟨_, rfl⟩
  have hrun : addAttendanceRecord env uid data w =
      Eff.handle (Eff.cont (Eff.handle (Eff.cont
        (addLocal env StoreName.attendance (docRecord (Doc.mk uid (env.newDocId (w.tick + 2))
          (Obj.set data "createdAt" (env.nowIso w.tick)))) W) (fun _ => (pure () : Eff Unit)))
        (fun _ => pure ()))
        (fun _ => pure (docRecord (Doc.mk uid (env.newDocId (w.tick + 2))
          (Obj.set data "createdAt" (env.nowIso w.tick))))))
        (fun _ => addAttendanceRecordLocal env (Obj.set data "createdAt" (env.nowIso w.tick))) := by
    rw [hW]
    simp [addAttendanceRecord, withRecordMetadata_run, addAttendanceRecordRemote,
      remoteAvailable_run, ho, hp, hr, addDoc_run, docRecord, addLocalAttendanceRecord,
      Eff.tryCatch_run, Eff.bind_run, World.remote, World.advance_advance]
  have hrem := addLocal_remote env StoreName.attendance
    (docRecord (Doc.mk uid (env.newDocId (w.tick + 2))
      (Obj.set data "createdAt" (env.nowIso w.tick)))) W
  have hset := addLocal_settles env StoreName.attendance
    (docRecord (Doc.mk uid (env.newDocId (w.tick + 2))
      (Obj.set data "createdAt" (env.nowIso w.tick)))) W
  rcases hl : addLocal env StoreName.attendance
    (docRecord (Doc.mk uid (env.newDocId (w.tick + 2))
      (Obj.set data "createdAt" (env.nowIso w.tick)))) W with ⟨o, w1⟩
  rw [hl] at hrem hset hrun
  have hWr : W.remoteAttendance = upsertDoc (Doc.mk uid (env.newDocId (w.tick + 2))
      (Obj.set data "createdAt" (env.nowIso w.tick))) w.remoteAttendance := by
    rw [hW]; simp [World.setRemote]
  have hWs : W.remoteStudents = w.remoteStudents := by rw [hW]; simp [World.setRemote]
  have hWo : W.isOnline = true := by rw [hW]; simpa using ho
  refine ⟨w1, ?_, hrem.2.1.trans hWr, hrem.1.trans hWs, hrem.2.2.trans hWo⟩
  rw [hrun]
  cases o with
  | ok a => rfl
  | error e => rfl
  | pending => exact absurd rfl hset

theorem addAttendanceRecordRemote_unreachable {env : Env} {w : World} (uid : String)
    (s : Obj) (h : RemoteUnreachable env w) :
    ∃ e w2, addAttendanceRecordRemote env uid s w = (Outcome.error e, w2) ∧
      SameLocal w w2 ∧ SameRemote w w2 := by
  have key : ∀ o w2, addAttendanceRecordRemote env uid s w = (o, w2) →
      ∃ e, o = Outcome.error e := by
    intro o w2 hrun
    simp only [addAttendanceRecordRemote, Eff.bind_run, remoteAvailable_run] at hrun
    by_cases h1 : w.isOnline = true
    · by_cases h2 : env.probeOk w.tick = true
      · have h3 : env.remoteOk (w.tick + 1) = false := by
          rcases h with h | h | h
          · rw [h1] at h; cases h
          · rw [h2] at h; cases h
          · exact h
        simp [h1, h2, h3, addDoc_run] at hrun
        exact ⟨_, hrun.1.symm⟩
      · simp [h1, h2] at hrun
        exact ⟨_, hrun.1.symm⟩
    · simp [h1] at hrun
      exact ⟨_, hrun.1.symm⟩
  rcases hrun : addAttendanceRecordRemote env uid s w with ⟨o, w2⟩
  obtain ⟨e, rfl⟩ := key o w2 hrun
  obtain ⟨hl, hr⟩ := addAttendanceRecordRemote_error hrun
  exact ⟨e, w2, rfl, hl, hr⟩

/-- The call `addAttendanceRecord` served by the fallback: when it resolves, the record it
resolves with carries a fresh `local_` key and is inserted into the local collection. -/
theorem addAttendanceRecord_fallback_ok {env : Env} {uid : String} {data r : Obj}
    {w w1 : World} (hu : RemoteUnreachable env (w.advance 1))
    (h : addAttendanceRecord env uid data w = (Outcome.ok r, w1)) :
    ∃ rest : String,
      r = Obj.set (Obj.set data "createdAt" (env.nowIso w.tick)) "id" ("local_" ++ rest) ∧
      hasKey w.localAttendance ("local_" ++ rest) = false ∧
      w1.localAttendance = insertByKey r w.localAttendance ∧ SameRemote w w1 := by
  obtain ⟨e, w2, hrem, hl, hr⟩ := addAttendanceRecordRemote_unreachable uid
    (Obj.set data "createdAt" (env.nowIso w.tick)) hu
  simp only [addAttendanceRecord, Eff.bind_run, withRecordMetadata_run, Eff.cont_ok,
    Eff.tryCatch_run, hrem, Eff.handle_error] at h
  obtain ⟨rest, h1, h2, h3, -, h5⟩ := addAttendanceRecordLocal_ok h
  have hl2 : w2.localAttendance = w.localAttendance := by simpa using hl.2.1
  refine ⟨rest, h1, by rw [← hl2]; exact h2, by rw [h3, hl2], ?_⟩
  exact sameRemote_trans (sameRemote_trans (sameRemote_advance w 1) hr) h5

theorem perm_upsertDoc_of_new (d : Doc) (l : List Doc)
    (h : findDoc d.user d.id l = none) : (upsertDoc d l).Perm (d :: l) := by
  unfold upsertDoc
  refine (perm_insertDoc _ _).trans ?_
  have : removeDoc d.user d.id l = l := by
    unfold removeDoc
    rw [List.filter_eq_self]
    intro x hx
    unfold findDoc at h
    rw [List.find?_eq_none] at h
    have hx2 := h x hx
    simp only [decide_eq_true_eq] at hx2
    simp only [Bool.not_eq_true', decide_eq_false_iff_not]
    exact hx2
  rw [this]

theorem addStudent_flag_offline (env : Env) (uid : String) (s : Obj) (w : World)
    (ho : w.isOnline = false) :
    (addStudent env uid s w).2.firebaseConnected = w.firebaseConnected := by
  simp only [addStudent, Eff.bind_run, withStudentMetadata_run, Eff.cont_ok, Eff.tryCatch_run]
  rw [flag_handle_of_keeps _ _ (fun _ => flag_addStudentLocal env _)]
  simp [addStudentRemote, remoteAvailable_run, ho]

theorem addMultipleStudents_flag_offline (env : Env) (uid : String) (data : List Obj)
    (w : World) (ho : w.isOnline = false) :
    (addMultipleStudents env uid data w).2.firebaseConnected = w.firebaseConnected := by
  obtain ⟨l, hl, -⟩ := mapEff_withStudentMetadata_run env data w
  simp only [addMultipleStudents, Eff.bind_run, hl, Eff.cont_ok, Eff.tryCatch_run]
  rw [flag_handle_of_keeps _ _ (fun _ => flag_addMultipleStudentsLocal env _)]
  simp [addMultipleStudentsRemote, remoteAvailable_run, ho]

theorem addMultipleAttendanceRecords_flag_offline (env : Env) (uid : String)
    (data : List Obj) (w : World) (ho : w.isOnline = false) :
    (addMultipleAttendanceRecords env uid data w).2.firebaseConnected =
      w.firebaseConnected := by
  obtain ⟨l, hl, -⟩ := mapEff_withRecordMetadata_run env data w
  simp only [addMultipleAttendanceRecords, Eff.bind_run, hl, Eff.cont_ok, Eff.tryCatch_run]
  rw [flag_handle_of_keeps _ _ (fun _ => flag_addMultipleAttendanceRecordsLocal env _)]
  simp [addMultipleAttendanceRecordsRemote, remoteAvailable_run, ho]

/-! ## C1 -/

/-- C1: when the `try` block of `addStudent` (of `addAttendanceRecord`) rejects and the `catch`
block resolves, that is the browser database is supported and accepts the insert, the call
resolves with a record that is in the browser database afterwards, whose id starts with
`local_` and differs from the id of every record the collection held before the call. -/
theorem C1_fallback_add_stores_record :
    (∀ (env : Env) (uid : String) (data s r : Obj) (w w1 w2 w3 : World) (e : String),
      withStudentMetadata env data w = (Outcome.ok s, w1) →
      addStudentRemote env uid s w1 = (Outcome.error e, w2) →
      addStudentLocal env s w2 = (Outcome.ok r, w3) →
      addStudent env uid data w = (Outcome.ok r, w3) ∧ r ∈ w3.localStudents ∧
        (∃ rest, Obj.get r "id" = some ("local_" ++ rest)) ∧
        ∀ x ∈ w.localStudents, Obj.get x "id" ≠ Obj.get r "id") ∧
    (∀ (env : Env) (uid : String) (data s r : Obj) (w w1 w2 w3 : World) (e : String),
      withRecordMetadata env data w = (Outcome.ok s, w1) →
      addAttendanceRecordRemote env uid s w1 = (Outcome.error e, w2) →
      addAttendanceRecordLocal env s w2 = (Outcome.ok r, w3) →
      addAttendanceRecord env uid data w = (Outcome.ok r, w3) ∧ r ∈ w3.localAttendance ∧
        (∃ rest, Obj.get r "id" = some ("local_" ++ rest)) ∧
        ∀ x ∈ w.localAttendance, Obj.get x "id" ≠ Obj.get r "id") := by
  constructor
  · intro env uid data s r w w1 w2 w3 e hm hrem hloc
    have hrun : addStudent env uid data w = (Outcome.ok r, w3) := by
      simp [addStudent, hm, hrem, hloc]
    obtain ⟨hsame, -⟩ := addStudentRemote_error hrem
    obtain ⟨rest, hr, hkey, hstore, -, -⟩ := addStudentLocal_ok hloc
    rw [withStudentMetadata_run] at hm
    obtain ⟨-, rfl⟩ := Prod.mk.inj hm
    have hl2 : w2.localStudents = w.localStudents := by
      have := hsame.1
      simpa using this
    have hid : Obj.get r "id" = some ("local_" ++ rest) := by
      rw [hr, Obj.get_set_same]
    refine ⟨hrun, ?_, ⟨rest, hid⟩, ?_⟩
    · rw [hstore, mem_insertByKey]
      exact Or.inl rfl
    · intro x hx
      rw [hid]
      rw [hl2] at hkey
      exact get_id_ne_of_keyOf_ne (hasKey_eq_false hkey x hx)
  · intro env uid data s r w w1 w2 w3 e hm hrem hloc
    have hrun : addAttendanceRecord env uid data w = (Outcome.ok r, w3) := by
      simp [addAttendanceRecord, hm, hrem, hloc]
    obtain ⟨hsame, -⟩ := addAttendanceRecordRemote_error hrem
    obtain ⟨rest, hr, hkey, hstore, -, -⟩ := addAttendanceRecordLocal_ok hloc
    rw [withRecordMetadata_run] at hm
    obtain ⟨-, rfl⟩ := Prod.mk.inj hm
    have hl2 : w2.localAttendance = w.localAttendance := by
      have := hsame.2.1
      simpa using this
    have hid : Obj.get r "id" = some ("local_" ++ rest) := by
      rw [hr, Obj.get_set_same]
    refine ⟨hrun, ?_, ⟨rest, hid⟩, ?_⟩
    · rw [hstore, mem_insertByKey]
      exact Or.inl rfl
    · intro x hx
      rw [hid]
      rw [hl2] at hkey
      exact get_id_ne_of_keyOf_ne (hasKey_eq_false hkey x hx)

/-- C1 at the sample student and the sample attendance record, the probe failing. -/
theorem C1_fallback_add_stores_record_witness :
    (addStudent Env.probeFails "u1" sampleStudent World.empty =
        (Outcome.ok sampleStudentLocal,
          { World.offlineAt 7 with localStudents := [sampleStudentLocal] }) ∧
      sampleStudentLocal ∈
        ({ World.offlineAt 7 with localStudents := [sampleStudentLocal] } : World).localStudents ∧
      (∃ rest, Obj.get sampleStudentLocal "id" = some ("local_" ++ rest)) ∧
      ∀ x ∈ World.empty.localStudents, Obj.get x "id" ≠ Obj.get sampleStudentLocal "id") ∧
    (addAttendanceRecord Env.probeFails "u1" sampleAttendance World.empty =
        (Outcome.ok sampleAttendanceLocal,
          { World.offlineAt 6 with localAttendance := [sampleAttendanceLocal] }) ∧
      sampleAttendanceLocal ∈
        ({ World.offlineAt 6 with localAttendance := [sampleAttendanceLocal] } :
          World).localAttendance ∧
      (∃ rest, Obj.get sampleAttendanceLocal "id" = some ("local_" ++ rest)) ∧
      ∀ x ∈ World.empty.localAttendance, Obj.get x "id" ≠ Obj.get sampleAttendanceLocal "id") :=
  ⟨C1_fallback_add_stores_record.1 Env.probeFails "u1" sampleStudent sampleStudentStamped
      sampleStudentLocal World.empty (World.empty.advance 2) (World.offlineAt 3)
      { World.offlineAt 7 with localStudents := [sampleStudentLocal] } "Firebase unavailable"
      (by decide) (by decide) (by decide),
   C1_fallback_add_stores_record.2 Env.probeFails "u1" sampleAttendance sampleAttendanceStamped
      sampleAttendanceLocal World.empty (World.empty.advance 1) (World.offlineAt 2)
      { World.offlineAt 6 with localAttendance := [sampleAttendanceLocal] } "Firebase unavailable"
      (by decide) (by decide) (by decide)⟩

/-! ## C4 -/

/-- C4: for each of the seven write operations that have a fallback, when the `try` block
rejects and `isLocalDBSupported()` is false the operation rejects with an error, and the remote
store and the browser database are what they were before the call. -/
theorem C4_no_backend_fails_unchanged :
    (∀ (env : Env) (uid : String) (data s : Obj) (w w1 w2 : World) (e : String),
      w.indexedDBPresent = false →
      withStudentMetadata env data w = (Outcome.ok s, w1) →
      addStudentRemote env uid s w1 = (Outcome.error e, w2) →
      addStudent env uid data w =
          (Outcome.error "Failed to add student. Please check your connection and try again.",
            w2) ∧
        SameLocal w w2 ∧ SameRemote w w2) ∧
    (∀ (env : Env) (uid : String) (data l : List Obj) (w w1 w2 : World) (e : String),
      w.indexedDBPresent = false →
      mapEff (withStudentMetadata env) data w = (Outcome.ok l, w1) →
      addMultipleStudentsRemote env uid l w1 = (Outcome.error e, w2) →
      addMultipleStudents env uid data w =
          (Outcome.error "Failed to add students. Please check your connection and try again.",
            w2) ∧
        SameLocal w w2 ∧ SameRemote w w2) ∧
    (∀ (env : Env) (uid sid : String) (upd : Obj) (w w2 : World) (e : String),
      w.indexedDBPresent = false →
      updateStudentRemote env uid sid (Obj.set upd "updatedAt" (env.nowIso w.tick))
          (w.advance 1) = (Outcome.error e, w2) →
      updateStudent env uid sid upd w =
          (Outcome.error "Failed to update student. Please try again.", w2) ∧
        SameLocal w w2 ∧ SameRemote w w2) ∧
    (∀ (env : Env) (uid sid : String) (w w2 : World) (e : String),
      w.indexedDBPresent = false →
      deleteStudentRemote env uid sid w = (Outcome.error e, w2) →
      deleteStudent env uid sid w =
          (Outcome.error "Unable to delete student: no storage available", w2) ∧
        SameLocal w w2 ∧ SameRemote w w2) ∧
    (∀ (env : Env) (uid : String) (ids : List String) (w w2 : World) (e : String),
      w.indexedDBPresent = false →
      deleteMultipleStudentsRemote env uid ids w = (Outcome.error e, w2) →
      deleteMultipleStudents env uid ids w =
          (Outcome.error "Unable to delete students: no storage available", w2) ∧
        SameLocal w w2 ∧ SameRemote w w2) ∧
    (∀ (env : Env) (uid : String) (data s : Obj) (w w1 w2 : World) (e : String),
      w.indexedDBPresent = false →
      withRecordMetadata env data w = (Outcome.ok s, w1) →
      addAttendanceRecordRemote env uid s w1 = (Outcome.error e, w2) →
      addAttendanceRecord env uid data w =
          (Outcome.error "Failed to save attendance. Please try again.", w2) ∧
        SameLocal w w2 ∧ SameRemote w w2) ∧
    (∀ (env : Env) (uid : String) (data l : List Obj) (w w1 w2 : World) (e : String),
      w.indexedDBPresent = false →
      mapEff (withRecordMetadata env) data w = (Outcome.ok l, w1) →
      addMultipleAttendanceRecordsRemote env uid l w1 = (Outcome.error e, w2) →
      addMultipleAttendanceRecords env uid data w =
          (Outcome.error "Failed to save attendance records. Please try again.", w2) ∧
        SameLocal w w2 ∧ SameRemote w w2) := by
  refine ⟨?_, ?_, ?_, ?_, ?_, ?_, ?_⟩
  · intro env uid data s w w1 w2 e hns hm hrem
    obtain ⟨hl, hr⟩ := addStudentRemote_error hrem
    have hw1 : w1 = w.advance 2 := by
      rw [withStudentMetadata_run] at hm
      exact (Prod.mk.inj hm).2.symm
    subst hw1
    have hl2 := sameLocal_trans (sameLocal_advance w 2) hl
    refine ⟨?_, hl2, sameRemote_trans (sameRemote_advance w 2) hr⟩
    have hp : w2.indexedDBPresent = false := by rw [hl2.2.2, hns]
    simp [addStudent, hm, hrem, addStudentLocal, isLocalDBSupported, hp]
  · intro env uid data l w w1 w2 e hns hm hrem
    obtain ⟨hl, hr⟩ := addMultipleStudentsRemote_error hrem
    obtain ⟨l2, hrun, -⟩ := mapEff_withStudentMetadata_run env data w
    have hw1 : w1 = w.advance (2 * data.length) := by
      rw [hrun] at hm
      exact (Prod.mk.inj hm).2.symm
    subst hw1
    have hl2 := sameLocal_trans (sameLocal_advance w _) hl
    refine ⟨?_, hl2, sameRemote_trans (sameRemote_advance w _) hr⟩
    have hp : w2.indexedDBPresent = false := by rw [hl2.2.2, hns]
    simp [addMultipleStudents, hm, hrem, addMultipleStudentsLocal, isLocalDBSupported, hp]
  · intro env uid sid upd w w2 e hns hrem
    obtain ⟨hl, hr⟩ := updateStudentRemote_error hrem
    have hl2 := sameLocal_trans (sameLocal_advance w 1) hl
    refine ⟨?_, hl2, sameRemote_trans (sameRemote_advance w 1) hr⟩
    have hp : w2.indexedDBPresent = false := by rw [hl2.2.2, hns]
    simp [updateStudent, nowIso, hrem, updateStudentLocal, isLocalDBSupported, hp]
  · intro env uid sid w w2 e hns hrem
    obtain ⟨hl, hr⟩ := deleteStudentRemote_error hrem
    refine ⟨?_, hl, hr⟩
    have hp : w2.indexedDBPresent = false := by rw [hl.2.2, hns]
    simp [deleteStudent, hrem, deleteStudentLocal, isLocalDBSupported, hp]
  · intro env uid ids w w2 e hns hrem
    obtain ⟨hl, hr⟩ := deleteMultipleStudentsRemote_error hrem
    refine ⟨?_, hl, hr⟩
    have hp : w2.indexedDBPresent = false := by rw [hl.2.2, hns]
    simp [deleteMultipleStudents, hrem, deleteMultipleStudentsLocal, isLocalDBSupported, hp]
  · intro env uid data s w w1 w2 e hns hm hrem
    obtain ⟨hl, hr⟩ := addAttendanceRecordRemote_error hrem
    have hw1 : w1 = w.advance 1 := by
      rw [withRecordMetadata_run] at hm
      exact (Prod.mk.inj hm).2.symm
    subst hw1
    have hl2 := sameLocal_trans (sameLocal_advance w 1) hl
    refine ⟨?_, hl2, sameRemote_trans (sameRemote_advance w 1) hr⟩
    have hp : w2.indexedDBPresent = false := by rw [hl2.2.2, hns]
    simp [addAttendanceRecord, hm, hrem, addAttendanceRecordLocal, isLocalDBSupported, hp]
  · intro env uid data l w w1 w2 e hns hm hrem
    obtain ⟨hl, hr⟩ := addMultipleAttendanceRecordsRemote_error hrem
    obtain ⟨l2, hrun, -⟩ := mapEff_withRecordMetadata_run env data w
    have hw1 : w1 = w.advance data.length := by
      rw [hrun] at hm
      exact (Prod.mk.inj hm).2.symm
    subst hw1
    have hl2 := sameLocal_trans (sameLocal_advance w _) hl
    refine ⟨?_, hl2, sameRemote_trans (sameRemote_advance w _) hr⟩
    have hp : w2.indexedDBPresent = false := by rw [hl2.2.2, hns]
    simp [addMultipleAttendanceRecords, hm, hrem, addMultipleAttendanceRecordsLocal,
      isLocalDBSupported, hp]

/-- C4 at sample inputs for each of the seven operations, without `indexedDB`. -/
theorem C4_no_backend_fails_unchanged_witness :
    addStudent Env.probeFails "u1" sampleStudent (World.noIdbAt true 0) =
        (Outcome.error "Failed to add student. Please check your connection and try again.",
          World.noIdbAt false 3) ∧
      addMultipleStudents Env.probeFails "u1" [sampleStudent] (World.noIdbAt true 0) =
        (Outcome.error "Failed to add students. Please check your connection and try again.",
          World.noIdbAt false 3) ∧
      updateStudent Env.probeFails "u1" "s1" [("name", "Asha K")] (World.noIdbAt true 0) =
        (Outcome.error "Failed to update student. Please try again.", World.noIdbAt false 2) ∧
      deleteStudent Env.probeFails "u1" "s1" (World.noIdbAt true 0) =
        (Outcome.error "Unable to delete student: no storage available",
          World.noIdbAt false 1) ∧
      deleteMultipleStudents Env.probeFails "u1" ["s1", "s2"] (World.noIdbAt true 0) =
        (Outcome.error "Unable to delete students: no storage available",
          World.noIdbAt false 1) ∧
      addAttendanceRecord Env.probeFails "u1" sampleAttendance (World.noIdbAt true 0) =
        (Outcome.error "Failed to save attendance. Please try again.", World.noIdbAt false 2) ∧
      addMultipleAttendanceRecords Env.probeFails "u1" [sampleAttendance]
          (World.noIdbAt true 0) =
        (Outcome.error "Failed to save attendance records. Please try again.",
          World.noIdbAt false 2) :=
  ⟨(C4_no_backend_fails_unchanged.1 Env.probeFails "u1" sampleStudent sampleStudentStamped
      (World.noIdbAt true 0) (World.noIdbAt true 2) (World.noIdbAt false 3)
      "Firebase unavailable" (by decide) (by decide) (by decide)).1,
   (C4_no_backend_fails_unchanged.2.1 Env.probeFails "u1" [sampleStudent]
      [sampleStudentStamped] (World.noIdbAt true 0) (World.noIdbAt true 2)
      (World.noIdbAt false 3) "Firebase unavailable" (by decide) (by decide) (by decide)).1,
   (C4_no_backend_fails_unchanged.2.2.1 Env.probeFails "u1" "s1" [("name", "Asha K")]
      (World.noIdbAt true 0) (World.noIdbAt false 2) "Firebase unavailable" (by decide)
      (by decide)).1,
   (C4_no_backend_fails_unchanged.2.2.2.1 Env.probeFails "u1" "s1" (World.noIdbAt true 0)
      (World.noIdbAt false 1) "Firebase unavailable" (by decide) (by decide)).1,
   (C4_no_backend_fails_unchanged.2.2.2.2.1 Env.probeFails "u1" ["s1", "s2"]
      (World.noIdbAt true 0) (World.noIdbAt false 1) "Firebase unavailable" (by decide)
      (by decide)).1,
   (C4_no_backend_fails_unchanged.2.2.2.2.2.1 Env.probeFails "u1" sampleAttendance
      sampleAttendanceStamped (World.noIdbAt true 0) (World.noIdbAt true 1)
      (World.noIdbAt false 2) "Firebase unavailable" (by decide) (by decide) (by decide)).1,
   (C4_no_backend_fails_unchanged.2.2.2.2.2.2 Env.probeFails "u1" [sampleAttendance]
      [sampleAttendanceStamped] (World.noIdbAt true 0) (World.noIdbAt true 1)
      (World.noIdbAt false 2) "Firebase unavailable" (by decide) (by decide) (by decide)).1⟩

/-! ## C3 -/

/-- C3 (as stated, refuted): with the remote store unreachable and the browser database
supported and holding the record, `updateAttendanceRecord` and `deleteAttendanceRecord` reject
and leave the browser database as it was: they do not fall back. -/
theorem C3_attendance_update_delete_do_not_fall_back :
    (World.withLocalAttendance true 0).indexedDBPresent = true ∧
      updateAttendanceRecord Env.probeFails "u1" "local_1709805600002_k3j9x2m1q"
          [("status", "absent")] (World.withLocalAttendance true 0) =
        (Outcome.error "Failed to update attendance record. Please try again.",
          World.withLocalAttendance false 2) ∧
      deleteAttendanceRecord Env.probeFails "u1" "local_1709805600002_k3j9x2m1q"
          (World.withLocalAttendance true 0) =
        (Outcome.error "Failed to delete attendance record. Please try again.",
          World.withLocalAttendance false 1) := by
  decide
/-- C3 (amended): for the seven write operations that have a `catch` block with a fallback,
when the `try` block rejects and the browser database is supported the call ends as the
equivalent browser database operation does, run after the failed attempt (for a delete the
resolved value is `true`); `updateAttendanceRecord` and `deleteAttendanceRecord` reject whenever
their `try` block rejects, and leave both stores as they were. -/
theorem C3_fallback_runs_local_operation :
    (∀ (env : Env) (uid : String) (data s : Obj) (w w1 w2 : World) (e : String),
      w.indexedDBPresent = true →
      withStudentMetadata env data w = (Outcome.ok s, w1) →
      addStudentRemote env uid s w1 = (Outcome.error e, w2) →
      addStudent env uid data w =
        (generateLocalId env >>= fun id => addLocalStudent env (Obj.set s "id" id)) w2) ∧
    (∀ (env : Env) (uid : String) (data l : List Obj) (w w1 w2 : World) (e : String),
      w.indexedDBPresent = true →
      mapEff (withStudentMetadata env) data w = (Outcome.ok l, w1) →
      addMultipleStudentsRemote env uid l w1 = (Outcome.error e, w2) →
      addMultipleStudents env uid data w =
        (mapEff (fun st => generateLocalId env >>= fun id => pure (Obj.set st "id" id)) l >>=
          fun ls => forEff (addLocalStudent env) ls >>= fun _ => pure ls) w2) ∧
    (∀ (env : Env) (uid sid : String) (upd : Obj) (w w2 : World) (e : String),
      w.indexedDBPresent = true →
      updateStudentRemote env uid sid (Obj.set upd "updatedAt" (env.nowIso w.tick))
          (w.advance 1) = (Outcome.error e, w2) →
      updateStudent env uid sid upd w =
        updateLocalStudent env sid (Obj.set upd "updatedAt" (env.nowIso w.tick)) w2) ∧
    (∀ (env : Env) (uid sid : String) (w w2 : World) (e : String),
      w.indexedDBPresent = true →
      deleteStudentRemote env uid sid w = (Outcome.error e, w2) →
      deleteStudent env uid sid w = (deleteLocalStudent env sid >>= fun _ => pure true) w2) ∧
    (∀ (env : Env) (uid : String) (ids : List String) (w w2 : World) (e : String),
      w.indexedDBPresent = true →
      deleteMultipleStudentsRemote env uid ids w = (Outcome.error e, w2) →
      deleteMultipleStudents env uid ids w =
        (forEff (deleteLocalStudent env) ids >>= fun _ => pure true) w2) ∧
    (∀ (env : Env) (uid : String) (data s : Obj) (w w1 w2 : World) (e : String),
      w.indexedDBPresent = true →
      withRecordMetadata env data w = (Outcome.ok s, w1) →
      addAttendanceRecordRemote env uid s w1 = (Outcome.error e, w2) →
      addAttendanceRecord env uid data w =
        (generateLocalId env >>= fun id =>
          addLocalAttendanceRecord env (Obj.set s "id" id)) w2) ∧
    (∀ (env : Env) (uid : String) (data l : List Obj) (w w1 w2 : World) (e : String),
      w.indexedDBPresent = true →
      mapEff (withRecordMetadata env) data w = (Outcome.ok l, w1) →
      addMultipleAttendanceRecordsRemote env uid l w1 = (Outcome.error e, w2) →
      addMultipleAttendanceRecords env uid data w =
        (mapEff (fun r => generateLocalId env >>= fun id => pure (Obj.set r "id" id)) l >>=
          fun ls => forEff (addLocalAttendanceRecord env) ls >>= fun _ => pure ls) w2) ∧
    (∀ (env : Env) (uid rid : String) (upd : Obj) (w w2 : World) (e : String),
      updateAttendanceRecordRemote env uid rid (Obj.set upd "updatedAt" (env.nowIso w.tick))
          (w.advance 1) = (Outcome.error e, w2) →
      updateAttendanceRecord env uid rid upd w =
          (Outcome.error "Failed to update attendance record. Please try again.", w2) ∧
        SameLocal w w2 ∧ SameRemote w w2) ∧
    (∀ (env : Env) (uid rid : String) (w w2 : World) (e : String),
      deleteAttendanceRecordRemote env uid rid w = (Outcome.error e, w2) →
      deleteAttendanceRecord env uid rid w =
          (Outcome.error "Failed to delete attendance record. Please try again.", w2) ∧
        SameLocal w w2 ∧ SameRemote w w2) := by
  refine ⟨?_, ?_, ?_, ?_, ?_, ?_, ?_, ?_, ?_⟩
  · intro env uid data s w w1 w2 e hs hm hrem
    obtain ⟨hl, -⟩ := addStudentRemote_error hrem
    have hw1 : w1 = w.advance 2 := by
      rw [withStudentMetadata_run] at hm
      exact (Prod.mk.inj hm).2.symm
    subst hw1
    have hp : w2.indexedDBPresent = true := by rw [hl.2.2]; simpa using hs
    simp only [addStudent, Eff.bind_run, hm, Eff.cont_ok, Eff.tryCatch_run, hrem,
      Eff.handle_error, addStudentLocal, isLocalDBSupported, Eff.getWorld_run, Eff.pure_run,
      hp, if_true, generateLocalId_run, addLocalStudent, addLocal_cont_pure]
  · intro env uid data l w w1 w2 e hs hm hrem
    obtain ⟨hl, -⟩ := addMultipleStudentsRemote_error hrem
    obtain ⟨l2, hrun, -⟩ := mapEff_withStudentMetadata_run env data w
    have hw1 : w1 = w.advance (2 * data.length) := by
      rw [hrun] at hm
      exact (Prod.mk.inj hm).2.symm
    subst hw1
    have hp : w2.indexedDBPresent = true := by rw [hl.2.2]; simpa using hs
    simp only [addMultipleStudents, Eff.bind_run, hm, Eff.cont_ok, Eff.tryCatch_run, hrem,
      Eff.handle_error, addMultipleStudentsLocal, isLocalDBSupported, Eff.getWorld_run,
      Eff.pure_run, hp, if_true]
  · intro env uid sid upd w w2 e hs hrem
    obtain ⟨hl, -⟩ := updateStudentRemote_error hrem
    have hp : w2.indexedDBPresent = true := by rw [hl.2.2]; simpa using hs
    simp only [updateStudent, nowIso, Eff.bind_run, Eff.next_run, Eff.cont_ok, Eff.pure_run,
      Eff.tryCatch_run, hrem, Eff.handle_error, updateStudentLocal, isLocalDBSupported,
      Eff.getWorld_run, hp, if_true]
    rcases hu : updateLocalStudent env sid (Obj.set upd "updatedAt" (env.nowIso w.tick)) w2
      with ⟨o, w3⟩
    cases o <;> rfl
  · intro env uid sid w w2 e hs hrem
    obtain ⟨hl, -⟩ := deleteStudentRemote_error hrem
    have hp : w2.indexedDBPresent = true := by rw [hl.2.2]; exact hs
    simp only [deleteStudent, Eff.bind_run, Eff.tryCatch_run, hrem, Eff.handle_error,
      deleteStudentLocal, isLocalDBSupported, Eff.getWorld_run, Eff.cont_ok, Eff.pure_run, hp,
      if_true]
  · intro env uid ids w w2 e hs hrem
    obtain ⟨hl, -⟩ := deleteMultipleStudentsRemote_error hrem
    have hp : w2.indexedDBPresent = true := by rw [hl.2.2]; exact hs
    simp only [deleteMultipleStudents, Eff.bind_run, Eff.tryCatch_run, hrem, Eff.handle_error,
      deleteMultipleStudentsLocal, isLocalDBSupported, Eff.getWorld_run, Eff.cont_ok,
      Eff.pure_run, hp, if_true]
  · intro env uid data s w w1 w2 e hs hm hrem
    obtain ⟨hl, -⟩ := addAttendanceRecordRemote_error hrem
    have hw1 : w1 = w.advance 1 := by
      rw [withRecordMetadata_run] at hm
      exact (Prod.mk.inj hm).2.symm
    subst hw1
    have hp : w2.indexedDBPresent = true := by rw [hl.2.2]; simpa using hs
    simp only [addAttendanceRecord, Eff.bind_run, hm, Eff.cont_ok, Eff.tryCatch_run, hrem,
      Eff.handle_error, addAttendanceRecordLocal, isLocalDBSupported, Eff.getWorld_run,
      Eff.pure_run, hp, if_true, generateLocalId_run, addLocalAttendanceRecord,
      addLocal_cont_pure]
  · intro env uid data l w w1 w2 e hs hm hrem
    obtain ⟨hl, -⟩ := addMultipleAttendanceRecordsRemote_error hrem
    obtain ⟨l2, hrun, -⟩ := mapEff_withRecordMetadata_run env data w
    have hw1 : w1 = w.advance data.length := by
      rw [hrun] at hm
      exact (Prod.mk.inj hm).2.symm
    subst hw1
    have hp : w2.indexedDBPresent = true := by rw [hl.2.2]; simpa using hs
    simp only [addMultipleAttendanceRecords, Eff.bind_run, hm, Eff.cont_ok, Eff.tryCatch_run,
      hrem, Eff.handle_error, addMultipleAttendanceRecordsLocal, isLocalDBSupported,
      Eff.getWorld_run, Eff.pure_run, hp, if_true]
  · intro env uid rid upd w w2 e hrem
    obtain ⟨hl, hr⟩ := updateAttendanceRecordRemote_error hrem
    refine ⟨?_, sameLocal_trans (sameLocal_advance w 1) hl, sameRemote_trans (sameRemote_advance w 1) hr⟩
    simp [updateAttendanceRecord, nowIso, hrem]
  · intro env uid rid w w2 e hrem
    obtain ⟨hl, hr⟩ := deleteAttendanceRecordRemote_error hrem
    refine ⟨?_, hl, hr⟩
    simp [deleteAttendanceRecord, hrem]

/-- C3 (amended) at sample inputs for each of the nine operations, the probe failing. -/
theorem C3_fallback_runs_local_operation_witness :
    addStudent Env.probeFails "u1" sampleStudent World.empty =
        (Outcome.ok sampleStudentLocal, World.withLocalStudent false 7) ∧
      addMultipleStudents Env.probeFails "u1" [sampleStudent] World.empty =
        (Outcome.ok [sampleStudentLocal], World.withLocalStudent false 7) ∧
      updateStudent Env.probeFails "u1" "local_1709805600003_k3j9x2m1q" [("name", "Asha K")]
          (World.withLocalStudent true 0) =
        (Outcome.ok sampleStudentRenamed,
          { World.offlineAt 5 with localStudents := [sampleStudentRenamed] }) ∧
      deleteStudent Env.probeFails "u1" "local_1709805600003_k3j9x2m1q"
          (World.withLocalStudent true 0) = (Outcome.ok true, World.offlineAt 3) ∧
      deleteMultipleStudents Env.probeFails "u1" ["local_1709805600003_k3j9x2m1q", "zz"]
          (World.withLocalStudent true 0) = (Outcome.ok true, World.offlineAt 5) ∧
      addAttendanceRecord Env.probeFails "u1" sampleAttendance World.empty =
        (Outcome.ok sampleAttendanceLocal, World.withLocalAttendance false 6) ∧
      addMultipleAttendanceRecords Env.probeFails "u1" [sampleAttendance] World.empty =
        (Outcome.ok [sampleAttendanceLocal], World.withLocalAttendance false 6) ∧
      updateAttendanceRecord Env.probeFails "u1" "a1" [("status", "absent")] World.empty =
        (Outcome.error "Failed to update attendance record. Please try again.",
          World.offlineAt 2) ∧
      deleteAttendanceRecord Env.probeFails "u1" "a1" World.empty =
        (Outcome.error "Failed to delete attendance record. Please try again.",
          World.offlineAt 1) :=
  ⟨(C3_fallback_runs_local_operation.1 Env.probeFails "u1" sampleStudent sampleStudentStamped
      World.empty (World.empty.advance 2) (World.offlineAt 3) "Firebase unavailable"
      (by decide) (by decide) (by decide)).trans (by decide),
   (C3_fallback_runs_local_operation.2.1 Env.probeFails "u1" [sampleStudent]
      [sampleStudentStamped] World.empty (World.empty.advance 2) (World.offlineAt 3)
      "Firebase unavailable" (by decide) (by decide) (by decide)).trans (by decide),
   (C3_fallback_runs_local_operation.2.2.1 Env.probeFails "u1"
      "local_1709805600003_k3j9x2m1q" [("name", "Asha K")] (World.withLocalStudent true 0)
      (World.withLocalStudent false 2) "Firebase unavailable" (by decide)
      (by decide)).trans (by decide),
   (C3_fallback_runs_local_operation.2.2.2.1 Env.probeFails "u1"
      "local_1709805600003_k3j9x2m1q" (World.withLocalStudent true 0)
      (World.withLocalStudent false 1) "Firebase unavailable" (by decide)
      (by decide)).trans (by decide),
   (C3_fallback_runs_local_operation.2.2.2.2.1 Env.probeFails "u1"
      ["local_1709805600003_k3j9x2m1q", "zz"] (World.withLocalStudent true 0)
      (World.withLocalStudent false 1) "Firebase unavailable" (by decide)
      (by decide)).trans (by decide),
   (C3_fallback_runs_local_operation.2.2.2.2.2.1 Env.probeFails "u1" sampleAttendance
      sampleAttendanceStamped World.empty (World.empty.advance 1) (World.offlineAt 2)
      "Firebase unavailable" (by decide) (by decide) (by decide)).trans (by decide),
   (C3_fallback_runs_local_operation.2.2.2.2.2.2.1 Env.probeFails "u1" [sampleAttendance]
      [sampleAttendanceStamped] World.empty (World.empty.advance 1) (World.offlineAt 2)
      "Firebase unavailable" (by decide) (by decide) (by decide)).trans (by decide),
   (C3_fallback_runs_local_operation.2.2.2.2.2.2.2.1 Env.probeFails "u1" "a1"
      [("status", "absent")] World.empty (World.offlineAt 2) "Firebase unavailable"
      (by decide)).1,
   (C3_fallback_runs_local_operation.2.2.2.2.2.2.2.2 Env.probeFails "u1" "a1" World.empty
      (World.offlineAt 1) "Firebase unavailable" (by decide)).1⟩

/-! ## C5 -/

/-- C5 (the code at the failing input): offline from the remote store, with the browser
database supported and opened, a `getAll` request that errors makes `getStudents` and
`getAttendanceRecords` reject: `getLocalStudents` returns the request promise without awaiting
it, so the rejection passes by its `catch`, and the facade does not catch it either. -/
theorem C5_read_rejects_when_local_request_errors :
    getStudents Env.readFails "u1" (World.withLocalStudent true 0) =
        (Outcome.error "getAll request failed", World.withLocalStudent false 3) ∧
      getAttendanceRecords Env.readFails "u1" [] (World.withLocalAttendance true 0) =
        (Outcome.error "getAll request failed", World.withLocalAttendance false 3) := by
  decide

/-! ## C6 -/

/-- With the remote store unreachable and the browser database unsupported, or supported,
empty and serving its requests, `getStudents` and `getAttendanceRecords` (for every filters
object) resolve with the empty sequence. -/
theorem read_degrades_to_empty_when_served :
    (∀ (env : Env) (uid : String) (w : World),
      RemoteUnreachable env w →
      (w.indexedDBPresent = false ∨
        (w.localStudents = [] ∧ ∀ t, env.idbRequestOk t = true)) →
      ∃ w2, getStudents env uid w = (Outcome.ok [], w2)) ∧
    (∀ (env : Env) (uid : String) (filters : Obj) (w : World),
      RemoteUnreachable env w →
      (w.indexedDBPresent = false ∨
        (w.localAttendance = [] ∧ ∀ t, env.idbRequestOk t = true)) →
      ∃ w2, getAttendanceRecords env uid filters w = (Outcome.ok [], w2)) := by
  constructor
  · intro env uid w hun hloc
    obtain ⟨e, w2, hrem, hl, -⟩ := getStudentsRemote_unreachable uid hun
    simp only [getStudents, Eff.tryCatch_run, hrem, Eff.handle_error, getStudentsLocal,
      Eff.bind_run, isLocalDBSupported, Eff.getWorld_run, Eff.cont_ok, getLocalStudents,
      getLocalAll_run, Eff.ite_run, Eff.pure_run]
    rcases hloc with hns | ⟨hemp, hreq⟩
    · rw [hl.2.2, hns]
      exact ⟨w2, by simp⟩
    · by_cases hp : w2.indexedDBPresent = true
      · by_cases ho : env.idbOpenOk w2.tick = true
        · refine ⟨w2.advance 2, ?_⟩
          simp [hp, ho, hreq, hl.1, hemp, jsSort]
        · refine ⟨w2.advance 1, ?_⟩
          simp [hp, ho, jsSort]
      · exact ⟨w2, by simp [hp]⟩
  · intro env uid filters w hun hloc
    obtain ⟨e, w2, hrem, hl, -⟩ := getAttendanceRecordsRemote_unreachable uid filters hun
    simp only [getAttendanceRecords, Eff.tryCatch_run, hrem, Eff.handle_error,
      getAttendanceRecordsLocal, Eff.bind_run, isLocalDBSupported, Eff.getWorld_run,
      Eff.cont_ok, getLocalAttendanceRecords, getLocalAll_run, Eff.ite_run, Eff.pure_run]
    have hf : applyFilters filters [] = [] := applyFilters_nil filters
    rcases hloc with hns | ⟨hemp, hreq⟩
    · rw [hl.2.2, hns]
      exact ⟨w2, by simp⟩
    · by_cases hp : w2.indexedDBPresent = true
      · by_cases ho : env.idbOpenOk w2.tick = true
        · refine ⟨w2.advance 2, ?_⟩
          simp [hp, ho, hreq, hl.2.1, hemp, hf, jsSort]
        · refine ⟨w2.advance 1, ?_⟩
          simp [hp, ho, hf, jsSort]
      · exact ⟨w2, by simp [hp]⟩

/-- C6 (the code at the failing input): the probe rejects, the browser database is supported
and both of its collections are empty, and the `getAll` request errors. `getStudents` and
`getAttendanceRecords` reject with the error of the request, where the same reads resolve with
the empty sequence when the request is served: `getLocalStudents` and
`getLocalAttendanceRecords` return the request promise without awaiting it, so its rejection
passes by their `catch`, which returns `[]`, and the `catch` block of the facade awaits it
unguarded. -/
theorem C6_empty_store_read_rejects_when_request_errors :
    Env.readFails.probeOk World.empty.tick = false ∧
      World.empty.indexedDBPresent = true ∧
      World.empty.localStudents = [] ∧ World.empty.localAttendance = [] ∧
      getStudents Env.readFails "u1" World.empty =
        (Outcome.error "getAll request failed", World.offlineAt 3) ∧
      getAttendanceRecords Env.readFails "u1" [("year", "FirstYear")] World.empty =
        (Outcome.error "getAll request failed", World.offlineAt 3) ∧
      getStudents Env.probeFails "u1" World.empty = (Outcome.ok [], World.offlineAt 3) ∧
      getAttendanceRecords Env.probeFails "u1" [("year", "FirstYear")] World.empty =
        (Outcome.ok [], World.offlineAt 3) := by
  decide

/-! ## C7 -/

/-- C7: `getStudents` resolves with a permutation of the collection of the backend that serves
it (the remote collection of the user when the remote store answers, the browser database
when it is unreachable), ordered ascending by year, then division, then rollNumber, each
compared as strings by `localeCompare` and never as numbers. For every consistent collation of
the host that tells the years and the divisions of the records apart the result is in the order
of that collation; where the collation agrees with the comparison character by character on the
sort fields of the records, it is in the order character by character. In every collation that
puts `SecondYear` after `FirstYear` and `2` after `10`, the three students of the example come
out as FirstYear/A/10, FirstYear/A/2, SecondYear/B/5. -/
theorem C7_getStudents_sorted_permutation :
    (∀ (env : Env) (uid : String) (w : World),
      w.isOnline = true → env.probeOk w.tick = true → env.remoteOk (w.tick + 1) = true →
      (∀ r ∈ recordsOf w StoreName.students uid, IsStudent r) →
      ∃ res w2, getStudents env uid w = (Outcome.ok res, w2) ∧
        res.Perm (recordsOf w StoreName.students uid) ∧
        (env.Collates → Separates env (recordsOf w StoreName.students uid) →
          res.Sorted (CollationLe env)) ∧
        (CollatesByCharacter env (recordsOf w StoreName.students uid) →
          res.Sorted StudentLe)) ∧
    (∀ (env : Env) (uid : String) (w : World),
      RemoteUnreachable env w → w.indexedDBPresent = true →
      (∀ t, env.idbOpenOk t = true) → (∀ t, env.idbRequestOk t = true) →
      (∀ r ∈ w.localStudents, IsStudent r) →
      ∃ res w2, getStudents env uid w = (Outcome.ok res, w2) ∧
        res.Perm w.localStudents ∧
        (env.Collates → Separates env w.localStudents → res.Sorted (CollationLe env)) ∧
        (CollatesByCharacter env w.localStudents → res.Sorted StudentLe)) ∧
    (∀ (env : Env) (w : World),
      w.isOnline = true → env.probeOk w.tick = true → env.remoteOk (w.tick + 1) = true →
      w.remoteStudents = rosterDocs →
      0 < env.collate "SecondYear" "FirstYear" → 0 < env.collate "2" "10" →
      (getStudents env "u1" w).1 =
        Outcome.ok
          [[("id", "d3"), ("year", "FirstYear"), ("division", "A"), ("rollNumber", "10")],
           [("id", "d2"), ("year", "FirstYear"), ("division", "A"), ("rollNumber", "2")],
           [("id", "d1"), ("year", "SecondYear"), ("division", "B"), ("rollNumber", "5")]]) := by
  refine ⟨?_, ?_, ?_⟩
  · intro env uid w h1 h2 h3 hst
    obtain ⟨res, hsort, hperm, hcol, hchar⟩ := jsSort_students env hst
    obtain ⟨w2, hsave, -⟩ := saveLocal_swallow env StoreName.students
      (recordsOf w StoreName.students uid) ((w.advance 1).setConnected true |>.advance 1)
      (recordsOf_id_isSome w StoreName.students uid)
    refine ⟨res, w2, ?_, hperm, hcol, hchar⟩
    simp [getStudents, getStudentsRemote_served h1 h2 h3, hsave, hsort]
  · intro env uid w hun hp hopen hreq hst
    obtain ⟨e, w2, hrem, hl, -⟩ := getStudentsRemote_unreachable uid hun
    have hst2 : ∀ r ∈ w2.localStudents, IsStudent r := by rw [hl.1]; exact hst
    obtain ⟨res, hsort, hperm, hcol, hchar⟩ := jsSort_students env hst2
    rw [hl.1] at hperm hcol hchar
    refine ⟨res, w2.advance 2, ?_, hperm, hcol, hchar⟩
    have hp2 : w2.indexedDBPresent = true := by rw [hl.2.2, hp]
    simp [getStudents, hrem, getStudentsLocal, isLocalDBSupported, hp2, getLocalStudents,
      getLocalAll_run, hopen, hreq, hsort]
  · intro env w h1 h2 h3 hw hy hr
    apply getStudents_remote_value "u1" h1 h2 h3
    have hrec : recordsOf w StoreName.students "u1" = rosterDocs.map docRecord := by
      simp [recordsOf, World.remote, hw, rosterDocs]
    rw [hrec]
    have hy2 : ¬ env.collate "SecondYear" "FirstYear" ≤ 0 := by omega
    have hr2 : ¬ env.collate "2" "10" ≤ 0 := by omega
    simp [rosterDocs, docRecord, spread, Obj.set, jsSort, insertSorted, studentCompare,
      localeCompareProp, localeCompare, Obj.get, hy2, hr2]

/-- C7 at the three students of the example, served by the remote store and served by the
browser database, with strings collated character by character. -/
theorem C7_getStudents_sorted_permutation_witness :
    (∃ res w2, getStudents Env.allOk "u1" World.withRoster = (Outcome.ok res, w2) ∧
        res.Perm (recordsOf World.withRoster StoreName.students "u1") ∧
        res.Sorted (CollationLe Env.allOk) ∧ res.Sorted StudentLe) ∧
      (∃ res w2, getStudents Env.probeFails "u1"
          (World.offlineHolding (rosterDocs.map docRecord) [] 0) = (Outcome.ok res, w2) ∧
        res.Perm (World.offlineHolding (rosterDocs.map docRecord) [] 0).localStudents ∧
        res.Sorted (CollationLe Env.probeFails) ∧ res.Sorted StudentLe) ∧
      (getStudents Env.allOk "u1" World.withRoster).1 =
        Outcome.ok
          [[("id", "d3"), ("year", "FirstYear"), ("division", "A"), ("rollNumber", "10")],
           [("id", "d2"), ("year", "FirstYear"), ("division", "A"), ("rollNumber", "2")],
           [("id", "d1"), ("year", "SecondYear"), ("division", "B"), ("rollNumber", "5")]] := by
  refine ⟨?_, ?_, ?_⟩
  · obtain ⟨res, w2, h1, h2, h3, h4⟩ :=
      C7_getStudents_sorted_permutation.1 Env.allOk "u1" World.withRoster rfl rfl rfl
        (by decide)
    exact ⟨res, w2, h1, h2,
      h3 (codePointCompare_collates _ rfl)
        (separates_of_byCharacter (codePointCompare_collates _ rfl)
          (codePointCompare_byCharacter _ rfl _)),
      h4 (codePointCompare_byCharacter _ rfl _)⟩
  · obtain ⟨res, w2, h1, h2, h3, h4⟩ :=
      C7_getStudents_sorted_permutation.2.1 Env.probeFails "u1"
        (World.offlineHolding (rosterDocs.map docRecord) [] 0)
        (Or.inr (Or.inl rfl)) rfl (fun _ => rfl) (fun _ => rfl) (by decide)
    exact ⟨res, w2, h1, h2,
      h3 (codePointCompare_collates _ rfl)
        (separates_of_byCharacter (codePointCompare_collates _ rfl)
          (codePointCompare_byCharacter _ rfl _)),
      h4 (codePointCompare_byCharacter _ rfl _)⟩
  · exact C7_getStudents_sorted_permutation.2.2 Env.allOk World.withRoster rfl rfl rfl rfl
      (by decide) (by decide)

/-! ## C9 -/

/-- C9: on the remote path and on the fallback path alike, `getAttendanceRecords` resolves
with a permutation of the records `r` of the collection of the serving backend (the documents
of the user in the remote store, the local collection in the fallback) for which each of
`filters.year`, `filters.division`, `filters.startDate`, `filters.endDate` is unset, or
`r.year = filters.year`, `r.division = filters.division`, `r.date >= filters.startDate`,
`r.date <= filters.endDate` respectively. A filter is unset when it is absent or the empty
string, the value the app holds for a class that is not selected. -/
theorem C9_getAttendanceRecords_selection :
    (∀ (env : Env) (uid : String) (filters : Obj) (w : World),
      w.isOnline = true → env.probeOk w.tick = true → env.remoteOk (w.tick + 1) = true →
      ∃ res w2, getAttendanceRecords env uid filters w = (Outcome.ok res, w2) ∧
        res.Perm ((recordsOf w StoreName.attendance uid).filter
          (fun r => decide (Selects filters r)))) ∧
    (∀ (env : Env) (uid : String) (filters : Obj) (w : World),
      RemoteUnreachable env w → w.indexedDBPresent = true →
      (∀ t, env.idbOpenOk t = true) → (∀ t, env.idbRequestOk t = true) →
      ∃ res w2, getAttendanceRecords env uid filters w = (Outcome.ok res, w2) ∧
        res.Perm (w.localAttendance.filter (fun r => decide (Selects filters r)))) := by
  constructor
  · intro env uid filters w h1 h2 h3
    obtain ⟨w2, hsave, -⟩ := saveLocal_swallow env StoreName.attendance
      (recordsOf w StoreName.attendance uid) ((w.advance 1).setConnected true |>.advance 1)
      (recordsOf_id_isSome w StoreName.attendance uid)
    refine ⟨_, w2, ?_, List.perm_insertionSort (fun x y => attendanceCmp env x y ≤ 0) _⟩
    simp [getAttendanceRecords, getAttendanceRecordsRemote_served filters h1 h2 h3, hsave,
      jsSort_attendance, applyFilters_eq]
  · intro env uid filters w hun hp hopen hreq
    obtain ⟨e, w2, hrem, hl, -⟩ := getAttendanceRecordsRemote_unreachable uid filters hun
    have hp2 : w2.indexedDBPresent = true := by rw [hl.2.2, hp]
    refine ⟨_, w2.advance 2, ?_,
      List.perm_insertionSort (fun x y => attendanceCmp env x y ≤ 0) _⟩
    simp [getAttendanceRecords, hrem, getAttendanceRecordsLocal, isLocalDBSupported, hp2,
      getLocalAttendanceRecords, getLocalAll_run, hopen, hreq, jsSort_attendance,
      applyFilters_eq, hl.2.1]

/-- C9 at the sample records: served by the remote store with a year filter that drops one of
the two records of the user, and by the browser database with an empty year filter. -/
theorem C9_getAttendanceRecords_selection_witness :
    (∃ res w2, getAttendanceRecords Env.allOk "u1" [("year", "FirstYear")]
          World.withRemoteAttendance = (Outcome.ok res, w2) ∧
        res.Perm ((recordsOf World.withRemoteAttendance StoreName.attendance "u1").filter
          (fun r => decide (Selects [("year", "FirstYear")] r)))) ∧
      (∃ res w2, getAttendanceRecords Env.probeFails "u1" [("year", "")]
          (World.withLocalAttendance true 0) = (Outcome.ok res, w2) ∧
        res.Perm ((World.withLocalAttendance true 0).localAttendance.filter
          (fun r => decide (Selects [("year", "")] r)))) :=
  ⟨C9_getAttendanceRecords_selection.1 Env.allOk "u1" [("year", "FirstYear")]
      World.withRemoteAttendance rfl rfl rfl,
   C9_getAttendanceRecords_selection.2 Env.probeFails "u1" [("year", "")]
      (World.withLocalAttendance true 0) (Or.inr (Or.inl rfl)) rfl (fun _ => rfl)
      (fun _ => rfl)⟩

/-! ## C10 -/

/-- C10: a student added and then read back through the same backend. When `addStudent` is
served by the remote store and the `try` block of the following `getStudents` resolves, or
when `addStudent` falls back to the browser database and the following `getStudents` finds the
remote store unreachable and the database opens, the sequence read contains a record that
agrees with the input on every property other than `id`, `createdAt` and `updatedAt`, and
whose `id` is the `id` of the record `addStudent` returned. -/
theorem C10_add_then_get_round_trip :
    (∀ (env : Env) (uid : String) (data s r : Obj) (res : List Obj) (w w1 w2 w3 : World),
      Obj.WF data →
      withStudentMetadata env data w = (Outcome.ok s, w1) →
      addStudentRemote env uid s w1 = (Outcome.ok r, w2) →
      getStudentsRemote env uid w2 = (Outcome.ok res, w3) →
      addStudent env uid data w = (Outcome.ok r, w2) ∧
        getStudents env uid w2 = (Outcome.ok res, w3) ∧
        ∃ x ∈ res,
          (∀ k, k ≠ "id" → k ≠ "createdAt" → k ≠ "updatedAt" →
            Obj.get x k = Obj.get data k) ∧
          Obj.get x "id" = Obj.get r "id") ∧
    (∀ (env : Env) (uid : String) (data s r : Obj) (res : List Obj) (w w1 w2 w3 w5 : World)
      (e : String),
      withStudentMetadata env data w = (Outcome.ok s, w1) →
      addStudentRemote env uid s w1 = (Outcome.error e, w2) →
      addStudentLocal env s w2 = (Outcome.ok r, w3) →
      RemoteUnreachable env w3 → (∀ t, env.idbOpenOk t = true) →
      getStudents env uid w3 = (Outcome.ok res, w5) →
      addStudent env uid data w = (Outcome.ok r, w3) ∧
        ∃ x ∈ res,
          (∀ k, k ≠ "id" → k ≠ "createdAt" → k ≠ "updatedAt" →
            Obj.get x k = Obj.get data k) ∧
          Obj.get x "id" = Obj.get r "id") := by
  constructor
  · intro env uid data s r res w w1 w2 w3 hwf hm hadd hget
    have hs : s = Obj.set (Obj.set data "createdAt" (env.nowIso w.tick)) "updatedAt"
        (env.nowIso (w.tick + 1)) := by
      rw [withStudentMetadata_run] at hm
      exact (Outcome.ok.inj (Prod.mk.inj hm).1).symm
    obtain ⟨hr, hrem⟩ := addStudentRemote_ok hadd
    have hperm := getStudentsRemote_ok hget
    refine ⟨by simp [addStudent, hm, hadd], by simp [getStudents, hget], r, ?_, ?_, rfl⟩
    · rw [hperm.mem_iff, hr]
      simp only [recordsOf, List.mem_map, List.mem_filter, World.remote, hrem]
      exact ⟨_, ⟨mem_upsertDoc_self _ _, by simp⟩, rfl⟩
    · intro k hk1 hk2 hk3
      have hswf : Obj.WF s := by
        rw [hs]
        exact wf_set _ _ _ (wf_set _ _ _ hwf)
      rw [hr, docRecord, get_spread _ _ _ hswf]
      have hsk : Obj.get s k = Obj.get data k := by
        rw [hs, Obj.get_set_other _ _ _ _ hk3, Obj.get_set_other _ _ _ _ hk2]
      rw [hsk]
      cases Obj.get data k with
      | none => simp [Obj.get, Ne.symm hk1]
      | some v => rfl
  · intro env uid data s r res w w1 w2 w3 w5 e hm hrem hloc hun hopen hget
    have hs : s = Obj.set (Obj.set data "createdAt" (env.nowIso w.tick)) "updatedAt"
        (env.nowIso (w.tick + 1)) := by
      rw [withStudentMetadata_run] at hm
      exact (Outcome.ok.inj (Prod.mk.inj hm).1).symm
    obtain ⟨rest, hr, -, hstore, -, -⟩ := addStudentLocal_ok hloc
    obtain ⟨-, hp3⟩ := addStudentLocal_present hloc
    obtain ⟨e2, w4, hrem2, hl4, -⟩ := getStudentsRemote_unreachable uid hun
    have hp4 : w4.indexedDBPresent = true := by rw [hl4.2.2, hp3]
    refine ⟨by simp [addStudent, hm, hrem, hloc], r, ?_, ?_, rfl⟩
    · simp only [getStudents, Eff.tryCatch_run, hrem2, Eff.handle_error, getStudentsLocal,
        Eff.bind_run, isLocalDBSupported, Eff.getWorld_run, Eff.pure_run, Eff.cont_ok, hp4,
        if_true, getLocalStudents, getLocalAll_run, hopen, Bool.and_self] at hget
      by_cases hreq : env.idbRequestOk (w4.tick + 1) = true
      · simp only [hreq, if_true, Eff.cont_ok, World.store_students] at hget
        cases hsort : jsSort (studentCompare env) w4.localStudents with
        | error e3 => simp [hsort] at hget
        | ok l =>
          simp [hsort] at hget
          rw [← hget.1, (jsSort_perm _ _ _ hsort).mem_iff, hl4.1, hstore, mem_insertByKey]
          exact Or.inl rfl
      · simp [hreq] at hget
    · intro k hk1 hk2 hk3
      rw [hr, Obj.get_set_other _ _ _ _ hk1, hs, Obj.get_set_other _ _ _ _ hk3,
        Obj.get_set_other _ _ _ _ hk2]

/-- C10 at the sample student: added and read back through the remote store, and added and
read back through the browser database. -/
theorem C10_add_then_get_round_trip_witness :
    (addStudent Env.allOk "u1" sampleStudent World.empty =
        (Outcome.ok sampleStudentRemote, World.afterRemoteAdd 12) ∧
      getStudents Env.allOk "u1" (World.afterRemoteAdd 12) =
        (Outcome.ok [sampleStudentRemote], World.afterRemoteAdd 17) ∧
      ∃ x ∈ [sampleStudentRemote],
        (∀ k, k ≠ "id" → k ≠ "createdAt" → k ≠ "updatedAt" →
          Obj.get x k = Obj.get sampleStudent k) ∧
        Obj.get x "id" = Obj.get sampleStudentRemote "id") ∧
    (addStudent Env.probeFails "u1" sampleStudent World.empty =
        (Outcome.ok sampleStudentLocal, World.withLocalStudent false 7) ∧
      ∃ x ∈ [sampleStudentLocal],
        (∀ k, k ≠ "id" → k ≠ "createdAt" → k ≠ "updatedAt" →
          Obj.get x k = Obj.get sampleStudent k) ∧
        Obj.get x "id" = Obj.get sampleStudentLocal "id") :=
  ⟨C10_add_then_get_round_trip.1 Env.allOk "u1" sampleStudent sampleStudentStamped
      sampleStudentRemote [sampleStudentRemote] World.empty (World.empty.advance 2)
      (World.afterRemoteAdd 12) (World.afterRemoteAdd 17) (by decide) (by decide) (by decide)
      (by decide),
   C10_add_then_get_round_trip.2 Env.probeFails "u1" sampleStudent sampleStudentStamped
      sampleStudentLocal [sampleStudentLocal] World.empty (World.empty.advance 2)
      (World.offlineAt 3) (World.withLocalStudent false 7) (World.withLocalStudent false 10)
      "Firebase unavailable" (by decide) (by decide) (by decide) (Or.inr (Or.inl rfl))
      (fun _ => rfl) (by decide)⟩

/-! ## C8 -/

/-- C8: on records whose dates are calendar dates `YYYY-MM-DD`, the comparator of
`getAttendanceRecords` (a difference of time values) has the sign of the descending
character-by-character comparison of the date strings, and on both paths the read resolves
with the selected records in non-increasing order of date. -/
theorem C8_attendance_descending_by_date :
    (∀ (env : Env) (a b : Obj), IsoDated a → IsoDated b →
      ∃ c, attendanceCompare env a b = Except.ok c ∧
        (c < 0 ↔ strLt (field b "date") (field a "date")) ∧
        (c = 0 ↔ field a "date" = field b "date") ∧
        (0 < c ↔ strLt (field a "date") (field b "date"))) ∧
    (∀ (env : Env) (uid : String) (filters : Obj) (w : World),
      w.isOnline = true → env.probeOk w.tick = true → env.remoteOk (w.tick + 1) = true →
      (∀ r ∈ recordsOf w StoreName.attendance uid, IsoDated r) →
      ∃ res w2, getAttendanceRecords env uid filters w = (Outcome.ok res, w2) ∧
        res.Perm ((recordsOf w StoreName.attendance uid).filter
          (fun r => decide (Selects filters r))) ∧
        res.Sorted DateGe) ∧
    (∀ (env : Env) (uid : String) (filters : Obj) (w : World),
      RemoteUnreachable env w → w.indexedDBPresent = true →
      (∀ t, env.idbOpenOk t = true) → (∀ t, env.idbRequestOk t = true) →
      (∀ r ∈ w.localAttendance, IsoDated r) →
      ∃ res w2, getAttendanceRecords env uid filters w = (Outcome.ok res, w2) ∧
        res.Perm (w.localAttendance.filter (fun r => decide (Selects filters r))) ∧
        res.Sorted DateGe) := by
  refine ⟨?_, ?_, ?_⟩
  · intro env a b ha hb
    exact ⟨attendanceCmp env a b, attendanceCompare_eq env a b, attendanceCmp_iso ha hb⟩
  · intro env uid filters w h1 h2 h3 hiso
    obtain ⟨w2, hsave, -⟩ := saveLocal_swallow env StoreName.attendance
      (recordsOf w StoreName.attendance uid) ((w.advance 1).setConnected true |>.advance 1)
      (recordsOf_id_isSome w StoreName.attendance uid)
    have hsel : ∀ x ∈ (recordsOf w StoreName.attendance uid).filter
        (fun r => decide (Selects filters r)), IsoDated x :=
      fun x hx => hiso x (List.mem_filter.mp hx).1
    obtain ⟨res, hsort, hperm, hsorted⟩ := jsSort_attendance_iso env hsel
    refine ⟨res, w2, ?_, hperm, hsorted⟩
    simp [getAttendanceRecords, getAttendanceRecordsRemote_served filters h1 h2 h3, hsave,
      applyFilters_eq, hsort]
  · intro env uid filters w hun hp hopen hreq hiso
    obtain ⟨e, w2, hrem, hl, -⟩ := getAttendanceRecordsRemote_unreachable uid filters hun
    have hp2 : w2.indexedDBPresent = true := by rw [hl.2.2, hp]
    have hsel : ∀ x ∈ w.localAttendance.filter (fun r => decide (Selects filters r)),
        IsoDated x :=
      fun x hx => hiso x (List.mem_filter.mp hx).1
    obtain ⟨res, hsort, hperm, hsorted⟩ := jsSort_attendance_iso env hsel
    refine ⟨res, w2.advance 2, ?_, hperm, hsorted⟩
    simp [getAttendanceRecords, hrem, getAttendanceRecordsLocal, isLocalDBSupported, hp2,
      getLocalAttendanceRecords, getLocalAll_run, hopen, hreq, applyFilters_eq, hl.2.1, hsort]

/-- C8 at the sample records: the comparator on two dated records, the read served by the
remote store and the read served by the browser database. -/
theorem C8_attendance_descending_by_date_witness :
    (∃ c, attendanceCompare Env.allOk sampleAttendanceLocal
          [("date", "2024-03-08")] = Except.ok c ∧
        (c < 0 ↔ strLt (field [("date", "2024-03-08")] "date")
          (field sampleAttendanceLocal "date")) ∧
        (c = 0 ↔ field sampleAttendanceLocal "date" = field [("date", "2024-03-08")] "date") ∧
        (0 < c ↔ strLt (field sampleAttendanceLocal "date")
          (field [("date", "2024-03-08")] "date"))) ∧
      (∃ res w2, getAttendanceRecords Env.allOk "u1" [] World.withRemoteAttendance =
          (Outcome.ok res, w2) ∧
        res.Perm ((recordsOf World.withRemoteAttendance StoreName.attendance "u1").filter
          (fun r => decide (Selects [] r))) ∧
        res.Sorted DateGe) ∧
      (∃ res w2, getAttendanceRecords Env.probeFails "u1" []
          (World.withLocalAttendance true 0) = (Outcome.ok res, w2) ∧
        res.Perm ((World.withLocalAttendance true 0).localAttendance.filter
          (fun r => decide (Selects [] r))) ∧
        res.Sorted DateGe) :=
  ⟨C8_attendance_descending_by_date.1 Env.allOk sampleAttendanceLocal [("date", "2024-03-08")]
      (by decide) (by decide),
   C8_attendance_descending_by_date.2.1 Env.allOk "u1" [] World.withRemoteAttendance rfl rfl
      rfl (by decide),
   C8_attendance_descending_by_date.2.2 Env.probeFails "u1" []
      (World.withLocalAttendance true 0) (Or.inr (Or.inl rfl)) rfl (fun _ => rfl)
      (fun _ => rfl) (by decide)⟩

/-! ## C2 -/

/-- C2 (as stated, refuted): the five operations complete on the remote path and every
browser database operation they issue succeeds, yet the collection of the browser database
differs from the remote one on return. `deleteAttendanceRecord` issues no browser database
operation, so the deleted record stays there; `updateStudent` writes its one record only, so a
record an earlier fallback left in the browser database stays there; `addStudent`,
`addMultipleStudents` and `addMultipleAttendanceRecords` write to the remote store and then
re-read through `getStudents` or `getAttendanceRecords`, whose own probe rejects here, so that
what they save is the content of the browser database, without the new documents. -/
theorem C2_mirror_leaves_difference :
    (InSync World.attendanceMirrored StoreName.attendance "u1" ∧
      (deleteAttendanceRecord Env.allOk "u1" "a1" World.attendanceMirrored).1 =
        Outcome.ok "a1" ∧
      ¬ InSync (deleteAttendanceRecord Env.allOk "u1" "a1" World.attendanceMirrored).2
        StoreName.attendance "u1") ∧
    ((updateStudent Env.allOk "u1" "doc3" [("name", "Asha K")] World.withLeftover).1 =
        Outcome.ok
          [("id", "doc3"), ("name", "Asha K"), ("updatedAt", "2024-03-07T10:00:00.000Z")] ∧
      ¬ InSync (updateStudent Env.allOk "u1" "doc3" [("name", "Asha K")] World.withLeftover).2
        StoreName.students "u1") ∧
    ((addStudent (Env.probeUntil 3) "u1" sampleStudent World.empty).1 =
        Outcome.ok sampleStudentRemote ∧
      (addStudent (Env.probeUntil 3) "u1" sampleStudent World.empty).2.remoteStudents =
        [Doc.mk "u1" "doc3" sampleStudentStamped] ∧
      (addStudent (Env.probeUntil 3) "u1" sampleStudent World.empty).2.localStudents = [] ∧
      ¬ InSync (addStudent (Env.probeUntil 3) "u1" sampleStudent World.empty).2
        StoreName.students "u1") ∧
    ((addMultipleStudents (Env.probeUntil 3) "u1" [sampleStudent] World.empty).1 =
        Outcome.ok [sampleStudentStamped] ∧
      (addMultipleStudents (Env.probeUntil 3) "u1" [sampleStudent]
        World.empty).2.remoteStudents = [Doc.mk "u1" "doc3" sampleStudentStamped] ∧
      (addMultipleStudents (Env.probeUntil 3) "u1" [sampleStudent]
        World.empty).2.localStudents = [] ∧
      ¬ InSync (addMultipleStudents (Env.probeUntil 3) "u1" [sampleStudent] World.empty).2
        StoreName.students "u1") ∧
    ((addMultipleAttendanceRecords (Env.probeUntil 3) "u1" [sampleAttendance]
        World.empty).1 = Outcome.ok [sampleAttendanceStamped] ∧
      (addMultipleAttendanceRecords (Env.probeUntil 3) "u1" [sampleAttendance]
        World.empty).2.remoteAttendance = [Doc.mk "u1" "doc2" sampleAttendanceStamped] ∧
      (addMultipleAttendanceRecords (Env.probeUntil 3) "u1" [sampleAttendance]
        World.empty).2.localAttendance = [] ∧
      ¬ InSync (addMultipleAttendanceRecords (Env.probeUntil 3) "u1" [sampleAttendance]
        World.empty).2 StoreName.attendance "u1") := by
  decide

/-- C2 (amended): when every external call succeeds (the probe and the remote write of the
operation, the probe and the remote read of the re-read where there is one, the opening of the
browser database and every request on it), the browser is online and `indexedDB` exists,
(1) `addStudent`, `addMultipleStudents` and `addMultipleAttendanceRecords`, which re-read the
remote collection and save it, resolve with the browser database collection holding exactly
the records of the remote collection (whose keys are distinct); (2) `updateStudent`,
`deleteStudent`, `deleteMultipleStudents` and `addAttendanceRecord`, which repeat their one
change on the browser database, resolve and keep the two collections equal when they were equal
before (no document carrying an `id` field of its own; for the update the document exists,
has no repeated field and the patch has no `id`; for the add the data has no `id` and the new
document key is not yet a key of the browser database); (3) `updateAttendanceRecord` and
`deleteAttendanceRecord` leave the browser database as it was. -/
theorem C2_mirror_after_remote_write :
    (∀ (env : Env) (uid : String) (data : Obj) (w w2 : World) (o : Outcome Obj),
      env.Cooperates → w.isOnline = true → w.indexedDBPresent = true →
      addStudent env uid data w = (o, w2) →
      DistinctKeys (recordsOf w2 StoreName.students uid) →
      (∃ r, o = Outcome.ok r) ∧ InSync w2 StoreName.students uid) ∧
    (∀ (env : Env) (uid : String) (data : List Obj) (w w2 : World) (o : Outcome (List Obj)),
      env.Cooperates → w.isOnline = true → w.indexedDBPresent = true →
      addMultipleStudents env uid data w = (o, w2) →
      DistinctKeys (recordsOf w2 StoreName.students uid) →
      (∃ r, o = Outcome.ok r) ∧ InSync w2 StoreName.students uid) ∧
    (∀ (env : Env) (uid : String) (data : List Obj) (w w2 : World) (o : Outcome (List Obj)),
      env.Cooperates → w.isOnline = true → w.indexedDBPresent = true →
      addMultipleAttendanceRecords env uid data w = (o, w2) →
      DistinctKeys (recordsOf w2 StoreName.attendance uid) →
      (∃ r, o = Outcome.ok r) ∧ InSync w2 StoreName.attendance uid) ∧
    (∀ (env : Env) (uid sid : String) (upd : Obj) (w : World) (d : Doc),
      env.Cooperates → w.isOnline = true → w.indexedDBPresent = true →
      InSync w StoreName.students uid → NoOwnId w StoreName.students →
      DistinctKeys w.localStudents → findDoc uid sid w.remoteStudents = some d →
      Obj.WF d.data → Obj.get upd "id" = none →
      ∃ r w2, updateStudent env uid sid upd w = (Outcome.ok r, w2) ∧
        InSync w2 StoreName.students uid) ∧
    (∀ (env : Env) (uid sid : String) (w : World),
      env.Cooperates → w.isOnline = true → w.indexedDBPresent = true →
      InSync w StoreName.students uid → NoOwnId w StoreName.students →
      ∃ w2, deleteStudent env uid sid w = (Outcome.ok true, w2) ∧
        InSync w2 StoreName.students uid) ∧
    (∀ (env : Env) (uid : String) (ids : List String) (w : World),
      env.Cooperates → w.isOnline = true → w.indexedDBPresent = true →
      InSync w StoreName.students uid → NoOwnId w StoreName.students →
      ∃ w2, deleteMultipleStudents env uid ids w = (Outcome.ok true, w2) ∧
        InSync w2 StoreName.students uid) ∧
    (∀ (env : Env) (uid : String) (data : Obj) (w : World),
      env.Cooperates → w.isOnline = true → w.indexedDBPresent = true →
      InSync w StoreName.attendance uid → NoOwnId w StoreName.attendance →
      Obj.get data "id" = none →
      hasKey w.localAttendance (env.newDocId (w.tick + 2)) = false →
      ∃ r w2, addAttendanceRecord env uid data w = (Outcome.ok r, w2) ∧
        InSync w2 StoreName.attendance uid) ∧
    (∀ (env : Env) (uid rid : String) (upd : Obj) (w w2 : World) (o : Outcome Obj),
      updateAttendanceRecord env uid rid upd w = (o, w2) → SameLocal w w2) ∧
    (∀ (env : Env) (uid rid : String) (w w2 : World) (o : Outcome String),
      deleteAttendanceRecord env uid rid w = (o, w2) → SameLocal w w2) := by
  refine ⟨full_mirror_in_sync.1, full_mirror_in_sync.2.1, full_mirror_in_sync.2.2,
    ?_, ?_, ?_, ?_, ?_, ?_⟩
  · intro env uid sid upd w d hc ho hp hs hno hnd hd hwf hupd
    obtain ⟨hdm, hdu, hdi⟩ := findDoc_some hd
    have hs2 : w.localStudents.Perm
        ((w.remoteStudents.filter (fun x => decide (x.user = uid))).map docRecord) := hs
    have hrec : docRecord d ∈ w.localStudents := by
      rw [hs2.mem_iff]
      exact List.mem_map_of_mem _ (List.mem_filter.mpr ⟨hdm, by simp [hdu]⟩)
    obtain ⟨ex, hex⟩ := findByKey_of_mem hrec
    rw [keyOf_docRecord (hno d hdm), hdi] at hex
    obtain ⟨w2, hrun, hloc, hrem⟩ := updateStudent_cooperates hc uid sid upd ho hp hd hex
    refine ⟨_, w2, hrun, ?_⟩
    have hpatch : Obj.get (Obj.set upd "updatedAt" (env.nowIso w.tick)) "id" = none := by
      rw [Obj.get_set_other _ _ _ _ (by decide)]
      exact hupd
    have := sync_update hs2 hno hwf hnd hpatch hd hex
    unfold InSync
    rw [recordsOf_eq]
    simpa [World.store, hloc, hrem] using this
  · intro env uid sid w hc ho hp hs hno
    obtain ⟨w2, hrun, hloc, hrem⟩ := deleteStudent_cooperates hc uid sid ho hp
    refine ⟨w2, hrun, ?_⟩
    have := @sync_delete _ _ uid sid (show w.localStudents.Perm _ from hs) hno
    unfold InSync
    rw [recordsOf_eq]
    simpa [World.store, hloc, hrem] using this
  · intro env uid ids w hc ho hp hs hno
    obtain ⟨w2, hrun, hloc, hrem⟩ := deleteMultipleStudents_cooperates hc uid ids ho hp
    refine ⟨w2, hrun, ?_⟩
    have := @sync_delete_all uid ids _ _ (show w.localStudents.Perm _ from hs) hno
    unfold InSync
    rw [recordsOf_eq]
    simpa [World.store, hloc, hrem] using this
  · intro env uid data w hc ho hp hs hno hdata hfresh
    obtain ⟨w2, hrun, hloc, hrem⟩ :=
      addAttendanceRecord_cooperates hc uid data ho hp hdata hfresh
    refine ⟨_, w2, hrun, ?_⟩
    have := @sync_add _ _ uid (Doc.mk uid (env.newDocId (w.tick + 2))
      (Obj.set data "createdAt" (env.nowIso w.tick)))
      (show w.localAttendance.Perm _ from hs) hno rfl hfresh
    unfold InSync
    rw [recordsOf_eq]
    simpa [World.store, hloc, hrem] using this
  · intro env uid rid upd w w2 o h
    exact keeps_updateAttendanceRecord_sameLocal env uid rid upd w o w2 h
  · intro env uid rid w w2 o h
    exact keeps_deleteAttendanceRecord_sameLocal env uid rid w o w2 h
/-- C2: the amended statement at concrete inputs, every external call succeeding. -/
theorem C2_mirror_after_remote_write_witness :
    InSync (World.afterRemoteAdd 12) StoreName.students "u1" ∧
      InSync (addMultipleStudents Env.allOk "u1" [sampleStudent] World.empty).2
        StoreName.students "u1" ∧
      InSync (addMultipleAttendanceRecords Env.allOk "u1" [sampleAttendance] World.empty).2
        StoreName.attendance "u1" ∧
      (∃ r w2, updateStudent Env.allOk "u1" "doc3" [("name", "Asha K")]
          (World.afterRemoteAdd 0) = (Outcome.ok r, w2) ∧ InSync w2 StoreName.students "u1") ∧
      (∃ w2, deleteStudent Env.allOk "u1" "doc3" (World.afterRemoteAdd 0) =
          (Outcome.ok true, w2) ∧ InSync w2 StoreName.students "u1") ∧
      (∃ w2, deleteMultipleStudents Env.allOk "u1" ["doc3", "zz"] (World.afterRemoteAdd 0) =
          (Outcome.ok true, w2) ∧ InSync w2 StoreName.students "u1") ∧
      (∃ r w2, addAttendanceRecord Env.allOk "u1" sampleAttendance World.attendanceMirrored =
          (Outcome.ok r, w2) ∧ InSync w2 StoreName.attendance "u1") ∧
      SameLocal World.attendanceMirrored
        (updateAttendanceRecord Env.allOk "u1" "a1" [("status", "absent")]
          World.attendanceMirrored).2 ∧
      SameLocal World.attendanceMirrored
        (deleteAttendanceRecord Env.allOk "u1" "a1" World.attendanceMirrored).2 :=
  ⟨(C2_mirror_after_remote_write.1 Env.allOk "u1" sampleStudent World.empty
      (World.afterRemoteAdd 12) (Outcome.ok sampleStudentRemote) allOk_cooperates
      (by decide) (by decide) (by decide) (by decide)).2,
   (C2_mirror_after_remote_write.2.1 Env.allOk "u1" [sampleStudent] World.empty _ _
      allOk_cooperates (by decide) (by decide) rfl (by decide)).2,
   (C2_mirror_after_remote_write.2.2.1 Env.allOk "u1" [sampleAttendance] World.empty _ _
      allOk_cooperates (by decide) (by decide) rfl (by decide)).2,
   C2_mirror_after_remote_write.2.2.2.1 Env.allOk "u1" "doc3" [("name", "Asha K")]
      (World.afterRemoteAdd 0) (Doc.mk "u1" "doc3" sampleStudentStamped) allOk_cooperates
      (by decide) (by decide) (by decide) (by decide) (by decide) (by decide) (by decide)
      (by decide),
   C2_mirror_after_remote_write.2.2.2.2.1 Env.allOk "u1" "doc3" (World.afterRemoteAdd 0)
      allOk_cooperates (by decide) (by decide) (by decide) (by decide),
   C2_mirror_after_remote_write.2.2.2.2.2.1 Env.allOk "u1" ["doc3", "zz"]
      (World.afterRemoteAdd 0) allOk_cooperates (by decide) (by decide) (by decide)
      (by decide),
   C2_mirror_after_remote_write.2.2.2.2.2.2.1 Env.allOk "u1" sampleAttendance
      World.attendanceMirrored allOk_cooperates (by decide) (by decide) (by decide)
      (by decide) (by decide) (by decide),
   C2_mirror_after_remote_write.2.2.2.2.2.2.2.1 Env.allOk "u1" "a1" [("status", "absent")]
      World.attendanceMirrored _ _ rfl,
   C2_mirror_after_remote_write.2.2.2.2.2.2.2.2 Env.allOk "u1" "a1"
      World.attendanceMirrored _ _ rfl⟩

/-! ## C11 -/

/-- C11 (the code at the failing input): on the remote path `addMultipleStudents` and
`addMultipleAttendanceRecords` create one document per record under a server-assigned key
(`doc3`, `doc2`) and return the records in input order, but as they were sent: the returned
record has no `id` at all. The single add of the same student returns it with its `id`. -/
theorem C11_remote_batch_add_returns_no_id :
    ((addMultipleStudents Env.allOk "u1" [sampleStudent] World.empty).1 =
        Outcome.ok [sampleStudentStamped] ∧
      (addMultipleStudents Env.allOk "u1" [sampleStudent] World.empty).2.remoteStudents =
        [Doc.mk "u1" "doc3" sampleStudentStamped] ∧
      Obj.get sampleStudentStamped "id" = none) ∧
    ((addMultipleAttendanceRecords Env.allOk "u1" [sampleAttendance] World.empty).1 =
        Outcome.ok [sampleAttendanceStamped] ∧
      (addMultipleAttendanceRecords Env.allOk "u1" [sampleAttendance]
          World.empty).2.remoteAttendance =
        [Doc.mk "u1" "doc2" sampleAttendanceStamped] ∧
      Obj.get sampleAttendanceStamped "id" = none) ∧
    ((addStudent Env.allOk "u1" sampleStudent World.empty).1 =
        Outcome.ok sampleStudentRemote ∧
      Obj.get sampleStudentRemote "id" = some "doc3") := by
  decide

/-! ## C12 -/

/-- C12 (as stated, refuted): a batch of three on the fallback path, the browser database
refusing the insert of the second record only. The call rejects, and afterwards the browser
database holds the first record alone: the third was never attempted. -/
theorem C12_second_insert_failure_ends_the_batch :
    (addMultipleStudents (Env.requestFailsAt 16) "u1"
          [sampleStudent, sampleStudentB, sampleStudentC] World.empty =
        (Outcome.error "add request failed",
          World.offlineHolding [localCopy sampleStudent 7] [] 17)) ∧
      (addMultipleAttendanceRecords (Env.requestFailsAt 13) "u1"
          [sampleAttendance, sampleAttendance, sampleAttendance] World.empty =
        (Outcome.error "add request failed",
          World.offlineHolding [] [localAttendanceCopy 4] 14)) ∧
      (addMultipleStudents Env.probeFails "u1"
          [sampleStudent, sampleStudentB, sampleStudentC] World.empty).1 =
        Outcome.ok [localCopy sampleStudent 7, localCopy sampleStudentB 9,
          localCopy sampleStudentC 11] := by
  decide

/-- C12 (amended): for a batch of three on the fallback path whose local records are `a`, `b`,
`c`, when the insert of `a` succeeds and the insert of `b` fails, the call rejects with the error
of that insert, in the world the failed insert left (so `c` is never attempted), and the
collection is the prior collection with `a` added. -/
theorem C12_three_record_batch_stops_at_second :
    (∀ (env : Env) (uid : String) (data l : List Obj) (a b c : Obj)
        (w w1 w2 w3 w4 w5 : World) (e e2 : String),
      w.indexedDBPresent = true →
      mapEff (withStudentMetadata env) data w = (Outcome.ok l, w1) →
      addMultipleStudentsRemote env uid l w1 = (Outcome.error e, w2) →
      mapEff (fun st => generateLocalId env >>= fun id => pure (Obj.set st "id" id)) l w2 =
        (Outcome.ok [a, b, c], w3) →
      addLocalStudent env a w3 = (Outcome.ok a, w4) →
      addLocalStudent env b w4 = (Outcome.error e2, w5) →
      addMultipleStudents env uid data w = (Outcome.error e2, w5) ∧
        w5.localStudents = insertByKey a w.localStudents ∧
        (∀ r, r ∈ w5.localStudents ↔ r = a ∨ r ∈ w.localStudents)) ∧
    (∀ (env : Env) (uid : String) (data l : List Obj) (a b c : Obj)
        (w w1 w2 w3 w4 w5 : World) (e e2 : String),
      w.indexedDBPresent = true →
      mapEff (withRecordMetadata env) data w = (Outcome.ok l, w1) →
      addMultipleAttendanceRecordsRemote env uid l w1 = (Outcome.error e, w2) →
      mapEff (fun r => generateLocalId env >>= fun id => pure (Obj.set r "id" id)) l w2 =
        (Outcome.ok [a, b, c], w3) →
      addLocalAttendanceRecord env a w3 = (Outcome.ok a, w4) →
      addLocalAttendanceRecord env b w4 = (Outcome.error e2, w5) →
      addMultipleAttendanceRecords env uid data w = (Outcome.error e2, w5) ∧
        w5.localAttendance = insertByKey a w.localAttendance ∧
        (∀ r, r ∈ w5.localAttendance ↔ r = a ∨ r ∈ w.localAttendance)) := by
  refine ⟨?_, ?_⟩
  · intro env uid data l a b c w w1 w2 w3 w4 w5 e e2 hs hm hrem hids ha hb
    have hpre : forEff (addLocalStudent env) [a] w3 = (Outcome.ok (), w4) := by
      simp [forEff, ha]
    obtain ⟨h1, h2, -⟩ := addMultipleStudents_fallback_stops env uid data l [a] [c] b
      w w1 w2 w3 w4 w5 e e2 hs hm hrem hids hpre hb
    refine ⟨h1, h2, fun r => ?_⟩
    rw [h2]
    exact mem_insertByKey a r w.localStudents
  · intro env uid data l a b c w w1 w2 w3 w4 w5 e e2 hs hm hrem hids ha hb
    have hpre : forEff (addLocalAttendanceRecord env) [a] w3 = (Outcome.ok (), w4) := by
      simp [forEff, ha]
    obtain ⟨h1, h2, -⟩ := addMultipleAttendanceRecords_fallback_stops env uid data l [a] [c] b
      w w1 w2 w3 w4 w5 e e2 hs hm hrem hids hpre hb
    refine ⟨h1, h2, fun r => ?_⟩
    rw [h2]
    exact mem_insertByKey a r w.localAttendance

/-- C12 (amended) at the batches of the refutation. -/
theorem C12_three_record_batch_stops_at_second_witness :
    (addMultipleStudents (Env.requestFailsAt 16) "u1"
          [sampleStudent, sampleStudentB, sampleStudentC] World.empty =
        (Outcome.error "add request failed",
          World.offlineHolding [localCopy sampleStudent 7] [] 17)) ∧
      (addMultipleAttendanceRecords (Env.requestFailsAt 13) "u1"
          [sampleAttendance, sampleAttendance, sampleAttendance] World.empty =
        (Outcome.error "add request failed",
          World.offlineHolding [] [localAttendanceCopy 4] 14)) :=
  ⟨(C12_three_record_batch_stops_at_second.1 (Env.requestFailsAt 16) "u1"
      [sampleStudent, sampleStudentB, sampleStudentC]
      [stampedCopy sampleStudent, stampedCopy sampleStudentB, stampedCopy sampleStudentC]
      (localCopy sampleStudent 7) (localCopy sampleStudentB 9) (localCopy sampleStudentC 11)
      World.empty (World.empty.advance 6) (World.offlineAt 7) (World.offlineAt 13)
      (World.offlineHolding [localCopy sampleStudent 7] [] 15)
      (World.offlineHolding [localCopy sampleStudent 7] [] 17)
      "Firebase unavailable" "add request failed"
      (by decide) (by decide) (by decide) (by decide) (by decide) (by decide)).1,
   (C12_three_record_batch_stops_at_second.2 (Env.requestFailsAt 13) "u1"
      [sampleAttendance, sampleAttendance, sampleAttendance]
      [sampleAttendanceStamped, sampleAttendanceStamped, sampleAttendanceStamped]
      (localAttendanceCopy 4) (localAttendanceCopy 6) (localAttendanceCopy 8)
      World.empty (World.empty.advance 3) (World.offlineAt 4) (World.offlineAt 10)
      (World.offlineHolding [] [localAttendanceCopy 4] 12)
      (World.offlineHolding [] [localAttendanceCopy 4] 14)
      "Firebase unavailable" "add request failed"
      (by decide) (by decide) (by decide) (by decide) (by decide) (by decide)).1⟩
/-! ## C13 -/

/-- C13: on the fallback path of a batch add or batch delete, when the browser database
operation on the element `x` that follows the elements `pre` fails, the call rejects with that
error in the world the failed attempt left (the elements after `x` are never started), and the
collection holds exactly what applying `pre`, in order, to the prior collection gives: nothing
is rolled back. -/
theorem C13_fallback_batch_keeps_applied_elements :
    (∀ (env : Env) (uid : String) (data l pre post : List Obj) (x : Obj)
        (w w1 w2 w3 w4 w5 : World) (e e2 : String),
      w.indexedDBPresent = true →
      mapEff (withStudentMetadata env) data w = (Outcome.ok l, w1) →
      addMultipleStudentsRemote env uid l w1 = (Outcome.error e, w2) →
      mapEff (fun st => generateLocalId env >>= fun id => pure (Obj.set st "id" id)) l w2 =
        (Outcome.ok (pre ++ x :: post), w3) →
      forEff (addLocalStudent env) pre w3 = (Outcome.ok (), w4) →
      addLocalStudent env x w4 = (Outcome.error e2, w5) →
      addMultipleStudents env uid data w = (Outcome.error e2, w5) ∧
        w5.localStudents = pre.foldl (fun acc r => insertByKey r acc) w.localStudents ∧
        w5.localAttendance = w.localAttendance) ∧
    (∀ (env : Env) (uid : String) (data l pre post : List Obj) (x : Obj)
        (w w1 w2 w3 w4 w5 : World) (e e2 : String),
      w.indexedDBPresent = true →
      mapEff (withRecordMetadata env) data w = (Outcome.ok l, w1) →
      addMultipleAttendanceRecordsRemote env uid l w1 = (Outcome.error e, w2) →
      mapEff (fun r => generateLocalId env >>= fun id => pure (Obj.set r "id" id)) l w2 =
        (Outcome.ok (pre ++ x :: post), w3) →
      forEff (addLocalAttendanceRecord env) pre w3 = (Outcome.ok (), w4) →
      addLocalAttendanceRecord env x w4 = (Outcome.error e2, w5) →
      addMultipleAttendanceRecords env uid data w = (Outcome.error e2, w5) ∧
        w5.localAttendance = pre.foldl (fun acc r => insertByKey r acc) w.localAttendance ∧
        w5.localStudents = w.localStudents) ∧
    (∀ (env : Env) (uid : String) (pre post : List String) (x : String)
        (w w2 w3 w4 : World) (e e2 : String),
      w.indexedDBPresent = true →
      deleteMultipleStudentsRemote env uid (pre ++ x :: post) w = (Outcome.error e, w2) →
      forEff (deleteLocalStudent env) pre w2 = (Outcome.ok (), w3) →
      deleteLocalStudent env x w3 = (Outcome.error e2, w4) →
      deleteMultipleStudents env uid (pre ++ x :: post) w = (Outcome.error e2, w4) ∧
        w4.localStudents = pre.foldl (fun acc k => deleteByKey acc k) w.localStudents ∧
        w4.localAttendance = w.localAttendance) :=
  ⟨addMultipleStudents_fallback_stops, addMultipleAttendanceRecords_fallback_stops,
    deleteMultipleStudents_fallback_stops⟩

/-- C13 at concrete batches of three, the browser database refusing the second request. -/
theorem C13_fallback_batch_keeps_applied_elements_witness :
    (addMultipleStudents (Env.requestFailsAt 16) "u1"
          [sampleStudent, sampleStudentB, sampleStudentC] World.empty =
        (Outcome.error "add request failed",
          World.offlineHolding [localCopy sampleStudent 7] [] 17)) ∧
      (addMultipleAttendanceRecords (Env.requestFailsAt 13) "u1"
          [sampleAttendance, sampleAttendance, sampleAttendance] World.empty =
        (Outcome.error "add request failed",
          World.offlineHolding [] [localAttendanceCopy 4] 14)) ∧
      (deleteMultipleStudents (Env.requestFailsAt 4) "u1"
          ["local_1709805600007_k3j9x2m1q", "local_1709805600009_k3j9x2m1q",
            "local_1709805600011_k3j9x2m1q"]
          (World.offlineHolding [localCopy sampleStudent 7, localCopy sampleStudentB 9,
            localCopy sampleStudentC 11] [] 0) =
        (Outcome.error "delete request failed",
          World.offlineHolding [localCopy sampleStudentB 9, localCopy sampleStudentC 11]
            [] 5)) :=
  ⟨(C13_fallback_batch_keeps_applied_elements.1 (Env.requestFailsAt 16) "u1"
      [sampleStudent, sampleStudentB, sampleStudentC]
      [stampedCopy sampleStudent, stampedCopy sampleStudentB, stampedCopy sampleStudentC]
      [localCopy sampleStudent 7] [localCopy sampleStudentC 11] (localCopy sampleStudentB 9)
      World.empty (World.empty.advance 6) (World.offlineAt 7) (World.offlineAt 13)
      (World.offlineHolding [localCopy sampleStudent 7] [] 15)
      (World.offlineHolding [localCopy sampleStudent 7] [] 17)
      "Firebase unavailable" "add request failed"
      (by decide) (by decide) (by decide) (by decide) (by decide) (by decide)).1,
   (C13_fallback_batch_keeps_applied_elements.2.1 (Env.requestFailsAt 13) "u1"
      [sampleAttendance, sampleAttendance, sampleAttendance]
      [sampleAttendanceStamped, sampleAttendanceStamped, sampleAttendanceStamped]
      [localAttendanceCopy 4] [localAttendanceCopy 8] (localAttendanceCopy 6)
      World.empty (World.empty.advance 3) (World.offlineAt 4) (World.offlineAt 10)
      (World.offlineHolding [] [localAttendanceCopy 4] 12)
      (World.offlineHolding [] [localAttendanceCopy 4] 14)
      "Firebase unavailable" "add request failed"
      (by decide) (by decide) (by decide) (by decide) (by decide) (by decide)).1,
   (C13_fallback_batch_keeps_applied_elements.2.2 (Env.requestFailsAt 4) "u1"
      ["local_1709805600007_k3j9x2m1q"] ["local_1709805600011_k3j9x2m1q"]
      "local_1709805600009_k3j9x2m1q"
      (World.offlineHolding [localCopy sampleStudent 7, localCopy sampleStudentB 9,
        localCopy sampleStudentC 11] [] 0)
      (World.offlineHolding [localCopy sampleStudent 7, localCopy sampleStudentB 9,
        localCopy sampleStudentC 11] [] 1)
      (World.offlineHolding [localCopy sampleStudentB 9, localCopy sampleStudentC 11] [] 3)
      (World.offlineHolding [localCopy sampleStudentB 9, localCopy sampleStudentC 11] [] 5)
      "Firebase unavailable" "delete request failed"
      (by decide) (by decide) (by decide) (by decide)).1⟩

/-! ## C14 -/

/-- C14: when the browser is online and the remote store answers every call, each read or write
operation that mirrors into the browser database resolves with the value fixed by the remote
step alone. The statement holds for every behaviour of the browser database (`indexedDB`
missing, the open or any request failing, any content of keyed records), so a failing mirror
step gives the caller the same value as a succeeding one; for the reads the remote records are
assumed to sort without a TypeError, and where the mirror re-reads the collection the object
stores are assumed keyed, as `indexedDB` keeps them. -/
theorem C14_mirror_failure_never_reaches_caller :
    (∀ (env : Env) (uid : String) (w : World) (s : List Obj),
      env.RemoteUp → w.isOnline = true →
      jsSort (studentCompare env) (recordsOf w StoreName.students uid) = Except.ok s →
      (getStudents env uid w).1 = Outcome.ok s) ∧
    (∀ (env : Env) (uid : String) (filters : Obj) (w : World) (s : List Obj),
      env.RemoteUp → w.isOnline = true →
      jsSort (attendanceCompare env)
        (applyFilters filters (recordsOf w StoreName.attendance uid)) = Except.ok s →
      (getAttendanceRecords env uid filters w).1 = Outcome.ok s) ∧
    (∀ (env : Env) (uid : String) (data : Obj) (w : World),
      env.RemoteUp → w.isOnline = true → LocalKeyed w →
      (addStudent env uid data w).1 =
        Outcome.ok (docRecord (Doc.mk uid (env.newDocId (w.tick + 3))
          (Obj.set (Obj.set data "createdAt" (env.nowIso w.tick)) "updatedAt"
            (env.nowIso (w.tick + 1)))))) ∧
    (∀ (env : Env) (uid : String) (data l : List Obj) (w w1 : World),
      env.RemoteUp → w.isOnline = true → LocalKeyed w →
      mapEff (withStudentMetadata env) data w = (Outcome.ok l, w1) →
      (addMultipleStudents env uid data w).1 = Outcome.ok l) ∧
    (∀ (env : Env) (uid sid : String) (upd : Obj) (w : World),
      env.RemoteUp → w.isOnline = true →
      (findDoc uid sid w.remoteStudents).isSome = true →
      (updateStudent env uid sid upd w).1 =
        Outcome.ok (spread [("id", sid)] (Obj.set upd "updatedAt" (env.nowIso w.tick)))) ∧
    (∀ (env : Env) (uid sid : String) (w : World),
      env.RemoteUp → w.isOnline = true →
      (deleteStudent env uid sid w).1 = Outcome.ok true) ∧
    (∀ (env : Env) (uid : String) (ids : List String) (w : World),
      env.RemoteUp → w.isOnline = true →
      (deleteMultipleStudents env uid ids w).1 = Outcome.ok true) ∧
    (∀ (env : Env) (uid : String) (data : Obj) (w : World),
      env.RemoteUp → w.isOnline = true →
      (addAttendanceRecord env uid data w).1 =
        Outcome.ok (docRecord (Doc.mk uid (env.newDocId (w.tick + 2))
          (Obj.set data "createdAt" (env.nowIso w.tick))))) ∧
    (∀ (env : Env) (uid : String) (data l : List Obj) (w w1 : World),
      env.RemoteUp → w.isOnline = true → LocalKeyed w →
      mapEff (withRecordMetadata env) data w = (Outcome.ok l, w1) →
      (addMultipleAttendanceRecords env uid data w).1 = Outcome.ok l) :=
  ⟨fun _ uid _ _ hu ho hs => getStudents_served_value hu uid ho hs,
   fun _ uid filters _ _ hu ho hs => getAttendanceRecords_served_value hu uid filters ho hs,
   fun _ uid data _ hu ho hk => addStudent_served_value hu uid data ho hk,
   fun _ uid data _ _ _ hu ho hk hm => addMultipleStudents_served_value hu uid data ho hk hm,
   fun _ uid sid upd _ hu ho hd => updateStudent_served_value hu uid sid upd ho hd,
   fun _ uid sid _ hu ho => deleteStudent_served_value hu uid sid ho,
   fun _ uid ids _ hu ho => deleteMultipleStudents_served_value hu uid ids ho,
   fun _ uid data _ hu ho => addAttendanceRecord_served_value hu uid data ho,
   fun _ uid data _ _ _ hu ho hk hm =>
     addMultipleAttendanceRecords_served_value hu uid data ho hk hm⟩

/-- C14 at concrete inputs: with a browser database that cannot be opened, or that refuses every
request, each operation resolves with the value it resolves with when the mirror succeeds. -/
theorem C14_mirror_failure_never_reaches_caller_witness :
    (getStudents Env.mirrorFails "u1" World.withRoster).1 =
        (getStudents Env.allOk "u1" World.withRoster).1 ∧
      (getAttendanceRecords Env.mirrorRefuses "u1" [("year", "FirstYear")]
          World.withRemoteAttendance).1 =
        Outcome.ok [sampleAttendanceRemote] ∧
      (addStudent Env.mirrorFails "u1" sampleStudent World.empty).1 =
        Outcome.ok sampleStudentRemote ∧
      (addMultipleStudents Env.mirrorRefuses "u1" [sampleStudent] World.empty).1 =
        Outcome.ok [sampleStudentStamped] ∧
      (updateStudent Env.mirrorFails "u1" "doc3" [("name", "Asha K")]
          World.withLeftover).1 =
        Outcome.ok
          [("id", "doc3"), ("name", "Asha K"), ("updatedAt", "2024-03-07T10:00:00.000Z")] ∧
      (deleteStudent Env.mirrorRefuses "u1" "doc3" World.withLeftover).1 = Outcome.ok true ∧
      (deleteMultipleStudents Env.mirrorRefuses "u1" ["doc3", "zz"] World.withLeftover).1 =
        Outcome.ok true ∧
      (addAttendanceRecord Env.mirrorFails "u1" sampleAttendance World.empty).1 =
        Outcome.ok (("id", "doc2") :: sampleAttendanceStamped) ∧
      (addMultipleAttendanceRecords Env.mirrorFails "u1" [sampleAttendance] World.empty).1 =
        Outcome.ok [sampleAttendanceStamped] :=
  ⟨(C14_mirror_failure_never_reaches_caller.1 Env.mirrorFails "u1" World.withRoster
      (rosterDocs.reverse.map docRecord) mirrorFails_remoteUp (by decide) rfl).trans
    (by decide),
   C14_mirror_failure_never_reaches_caller.2.1 Env.mirrorRefuses "u1" [("year", "FirstYear")]
      World.withRemoteAttendance [sampleAttendanceRemote] mirrorRefuses_remoteUp (by decide)
      rfl,
   C14_mirror_failure_never_reaches_caller.2.2.1 Env.mirrorFails "u1" sampleStudent
      World.empty mirrorFails_remoteUp (by decide) (by decide),
   C14_mirror_failure_never_reaches_caller.2.2.2.1 Env.mirrorRefuses "u1" [sampleStudent]
      [sampleStudentStamped] World.empty (World.empty.advance 2) mirrorRefuses_remoteUp
      (by decide) (by decide) (by decide),
   C14_mirror_failure_never_reaches_caller.2.2.2.2.1 Env.mirrorFails "u1" "doc3"
      [("name", "Asha K")] World.withLeftover mirrorFails_remoteUp (by decide) (by decide),
   C14_mirror_failure_never_reaches_caller.2.2.2.2.2.1 Env.mirrorRefuses "u1" "doc3"
      World.withLeftover mirrorRefuses_remoteUp (by decide),
   C14_mirror_failure_never_reaches_caller.2.2.2.2.2.2.1 Env.mirrorRefuses "u1"
      ["doc3", "zz"] World.withLeftover mirrorRefuses_remoteUp (by decide),
   C14_mirror_failure_never_reaches_caller.2.2.2.2.2.2.2.1 Env.mirrorFails "u1"
      sampleAttendance World.empty mirrorFails_remoteUp (by decide),
   C14_mirror_failure_never_reaches_caller.2.2.2.2.2.2.2.2 Env.mirrorFails "u1"
      [sampleAttendance] [sampleAttendanceStamped] World.empty (World.empty.advance 1)
      mirrorFails_remoteUp (by decide) (by decide) (by decide)⟩

/-! ## C15 -/

/-- C15: when every external call succeeds, for every prior content of the browser database and
every remote collection whose records have distinct keys, after one `getStudents` (or
`getAttendanceRecords`, with any filters) the browser database collection holds exactly the
remote records, and after `k` further reads of the unchanged remote collection it is the same
list as after the first one. -/
theorem C15_mirror_idempotent :
    (∀ (env : Env) (uid : String) (w : World) (k : Nat),
      env.Cooperates → w.isOnline = true → w.indexedDBPresent = true →
      DistinctKeys (recordsOf w StoreName.students uid) →
      InSync (getStudents env uid w).2 StoreName.students uid ∧
        recordsOf (getStudents env uid w).2 StoreName.students uid =
          recordsOf w StoreName.students uid ∧
        (readStudentsAgain env uid k (getStudents env uid w).2).localStudents =
          (getStudents env uid w).2.localStudents ∧
        recordsOf (readStudentsAgain env uid k (getStudents env uid w).2)
          StoreName.students uid = recordsOf w StoreName.students uid) ∧
    (∀ (env : Env) (uid : String) (filters : Obj) (w : World) (k : Nat),
      env.Cooperates → w.isOnline = true → w.indexedDBPresent = true →
      DistinctKeys (recordsOf w StoreName.attendance uid) →
      InSync (getAttendanceRecords env uid filters w).2 StoreName.attendance uid ∧
        recordsOf (getAttendanceRecords env uid filters w).2 StoreName.attendance uid =
          recordsOf w StoreName.attendance uid ∧
        (readAttendanceAgain env uid filters k
            (getAttendanceRecords env uid filters w).2).localAttendance =
          (getAttendanceRecords env uid filters w).2.localAttendance ∧
        recordsOf (readAttendanceAgain env uid filters k
            (getAttendanceRecords env uid filters w).2) StoreName.attendance uid =
          recordsOf w StoreName.attendance uid) := by
  refine ⟨?_, ?_⟩
  · intro env uid w k hc ho hp hnd
    obtain ⟨h1, -, h3, h4, h5⟩ := getStudents_mirror_exact hc uid ho hp hnd
    have hrec := sameRemote_recordsOf h3 StoreName.students uid
    obtain ⟨i1, -, i3⟩ := readStudentsAgain_fixed hc uid k h4 h5 (by rw [hrec]; exact hnd)
      (by rw [hrec]; exact h1)
    refine ⟨?_, hrec, i1, (sameRemote_recordsOf i3 StoreName.students uid).trans hrec⟩
    unfold InSync
    rw [hrec, World.store_students, h1]
    exact storeOf_perm
  · intro env uid filters w k hc ho hp hnd
    obtain ⟨h1, -, h3, h4, h5⟩ := getAttendanceRecords_mirror_exact hc uid filters ho hp hnd
    have hrec := sameRemote_recordsOf h3 StoreName.attendance uid
    obtain ⟨i1, -, i3⟩ := readAttendanceAgain_fixed hc uid filters k h4 h5
      (by rw [hrec]; exact hnd) (by rw [hrec]; exact h1)
    refine ⟨?_, hrec, i1, (sameRemote_recordsOf i3 StoreName.attendance uid).trans hrec⟩
    unfold InSync
    rw [hrec, World.store_attendance, h1]
    exact storeOf_perm

/-- C15 at a browser database that holds a record the remote store does not have, and at the
attendance of two users: one read leaves the remote records of the user, three more change
nothing. -/
theorem C15_mirror_idempotent_witness :
    ((getStudents Env.allOk "u1" World.withLeftover).2.localStudents = [sampleStudentRemote] ∧
      (readStudentsAgain Env.allOk "u1" 3
        (getStudents Env.allOk "u1" World.withLeftover).2).localStudents =
          [sampleStudentRemote]) ∧
    (InSync (getAttendanceRecords Env.allOk "u1" [("year", "FirstYear")]
        World.withRemoteAttendance).2 StoreName.attendance "u1" ∧
      (readAttendanceAgain Env.allOk "u1" [("year", "FirstYear")] 3
        (getAttendanceRecords Env.allOk "u1" [("year", "FirstYear")]
          World.withRemoteAttendance).2).localAttendance =
        (getAttendanceRecords Env.allOk "u1" [("year", "FirstYear")]
          World.withRemoteAttendance).2.localAttendance) :=
  ⟨⟨by decide,
      (C15_mirror_idempotent.1 Env.allOk "u1" World.withLeftover 3 allOk_cooperates
        (by decide) (by decide) (by decide)).2.2.1.trans (by decide)⟩,
   ⟨(C15_mirror_idempotent.2 Env.allOk "u1" [("year", "FirstYear")]
        World.withRemoteAttendance 3 allOk_cooperates (by decide) (by decide) (by decide)).1,
    (C15_mirror_idempotent.2 Env.allOk "u1" [("year", "FirstYear")]
        World.withRemoteAttendance 3 allOk_cooperates (by decide) (by decide)
        (by decide)).2.2.1⟩⟩

/-! ## C16 -/

/-- C16 (the code at the failing input): the browser database holds the sample student; the
list to save has two records with the same `id` and a third with another. The promise of
`saveLocalStudents` resolves, but the error event of the refused `add` is not cancelled, so the
transaction aborts: `clear` and the two accepted `add`s are undone. The store holds the prior
record and none of the listed ones. The same for `saveLocalAttendanceRecords`. -/
theorem C16_duplicate_id_rolls_back_the_save :
    (saveLocalStudents Env.allOk
        [[("id", "s1"), ("name", "Asha")], [("id", "s1"), ("name", "Bala")],
          [("id", "s2"), ("name", "Chitra")]]
        (World.withLocalStudent true 0)).1 = Outcome.ok () ∧
      (saveLocalStudents Env.allOk
        [[("id", "s1"), ("name", "Asha")], [("id", "s1"), ("name", "Bala")],
          [("id", "s2"), ("name", "Chitra")]]
        (World.withLocalStudent true 0)).2.localStudents = [sampleStudentLocal] ∧
      (saveLocalAttendanceRecords Env.allOk
        [[("id", "a1"), ("date", "2024-03-07")], [("id", "a1"), ("date", "2024-03-08")]]
        (World.withLocalAttendance true 0)).1 = Outcome.ok () ∧
      (saveLocalAttendanceRecords Env.allOk
        [[("id", "a1"), ("date", "2024-03-07")], [("id", "a1"), ("date", "2024-03-08")]]
        (World.withLocalAttendance true 0)).2.localAttendance = [sampleAttendanceLocal] ∧
      (saveLocalStudents Env.allOk
        [[("id", "s1"), ("name", "Asha")], [("id", "s2"), ("name", "Chitra")]]
        (World.withLocalStudent true 0)).2.localStudents =
          [[("id", "s1"), ("name", "Asha")], [("id", "s2"), ("name", "Chitra")]] := by
  decide

/-! ## C17 -/

/-- C17 (as stated, refuted): the patch carries an `id` other than the key. The merged record
is stored under the key of the patch: the store still holds the old record under `k1`, and the
record that was under `k2` is replaced. -/
theorem C17_patch_with_other_id_moves_the_record :
    (updateLocalStudent Env.allOk "k1" [("id", "k2"), ("name", "Zoya")]
        World.withTwoLocal).1 = Outcome.ok [("id", "k2"), ("name", "Zoya")] ∧
      findByKey (updateLocalStudent Env.allOk "k1" [("id", "k2"), ("name", "Zoya")]
        World.withTwoLocal).2.localStudents "k1" = some [("id", "k1"), ("name", "Asha")] ∧
      [("id", "k2"), ("name", "Bala")] ∈ World.withTwoLocal.localStudents ∧
      [("id", "k2"), ("name", "Bala")] ∉
        (updateLocalStudent Env.allOk "k1" [("id", "k2"), ("name", "Zoya")]
          World.withTwoLocal).2.localStudents := by
  decide

/-- C17 (amended): with the database opening and its requests served, for a patch that does not
change the `id` (it has none, or the key itself): if a student is stored under the key,
`updateLocalStudent` resolves with that record with the patch laid over it (each property of the
patch overwrites, every other property stays), the store then holds this record under the key and
the records under other keys are the same as before; if no student is stored under the key it
rejects with `Student not found` and the stores are as before. -/
theorem C17_updateLocalStudent_merges_in_place :
    ∀ (env : Env) (sid : String) (patch : Obj) (w : World),
      w.indexedDBPresent = true → env.idbOpenOk w.tick = true →
      env.idbRequestOk (w.tick + 1) = true → env.idbRequestOk (w.tick + 2) = true →
      (∀ ex, findByKey w.localStudents sid = some ex → Obj.WF patch →
        (Obj.get patch "id" = none ∨ Obj.get patch "id" = some sid) →
        ∃ w2, updateLocalStudent env sid patch w = (Outcome.ok (spread ex patch), w2) ∧
          (∀ k, Obj.get (spread ex patch) k =
            (Obj.get patch k).orElse (fun _ => Obj.get ex k)) ∧
          findByKey w2.localStudents sid = some (spread ex patch) ∧
          (∀ r, keyOf r ≠ sid → (r ∈ w2.localStudents ↔ r ∈ w.localStudents)) ∧
          w2.localAttendance = w.localAttendance) ∧
      (findByKey w.localStudents sid = none →
        ∃ w2, updateLocalStudent env sid patch w =
            (Outcome.error "Student not found", w2) ∧ SameLocal w w2) := by
  intro env sid patch w hp ho h1 h2
  refine ⟨?_, ?_⟩
  · intro ex hex hwf hid
    have hk : keyOf (spread ex patch) = sid :=
      keyOf_spread_of_patch ex patch sid hwf (findByKey_some hex).2 hid
    refine ⟨(w.advance 3).setStore StoreName.students
      (putByKey (spread ex patch) w.localStudents), ?_, ?_, ?_, ?_, ?_⟩
    · rw [updateLocalStudent_run]
      simp [hp, ho, h1, h2, hex]
    · exact fun k => get_spread ex patch k hwf
    · have := findByKey_putByKey_self (spread ex patch) w.localStudents
      rw [hk] at this
      simpa using this
    · intro r hr
      have := mem_putByKey_other (spread ex patch) r w.localStudents (by rw [hk]; exact hr)
      simpa using this
    · simp
  · intro hnone
    refine ⟨w.advance 2, ?_, sameLocal_advance w 2⟩
    rw [updateLocalStudent_run]
    simp [hp, ho, h1, hnone]

/-- C17 (amended) at the two-student store: renaming the student under `k1`, and a key that is
not there. -/
theorem C17_updateLocalStudent_merges_in_place_witness :
    (∃ w2, updateLocalStudent Env.allOk "k1" [("name", "Zoya")] World.withTwoLocal =
        (Outcome.ok [("id", "k1"), ("name", "Zoya")], w2) ∧
      findByKey w2.localStudents "k1" = some [("id", "k1"), ("name", "Zoya")]) ∧
    (∃ w2, updateLocalStudent Env.allOk "k9" [("name", "Zoya")] World.withTwoLocal =
        (Outcome.error "Student not found", w2) ∧ SameLocal World.withTwoLocal w2) :=
  ⟨(fun ⟨w2, h1, _, h3, _⟩ => ⟨w2, h1, h3⟩)
      ((C17_updateLocalStudent_merges_in_place Env.allOk "k1" [("name", "Zoya")]
        World.withTwoLocal (by decide) (by decide) (by decide) (by decide)).1
        [("id", "k1"), ("name", "Asha")] (by decide) (by decide) (by decide)),
   (C17_updateLocalStudent_merges_in_place Env.allOk "k9" [("name", "Zoya")]
      World.withTwoLocal (by decide) (by decide) (by decide) (by decide)).2 (by decide)⟩

/-! ## C18 -/

/-- C18: with the database opening and the `add` request served, for a keyed collection and a
record that carries an `id`: `addLocalStudent` and `addLocalAttendanceRecord` reject exactly when
a record of the collection has the same `id`, and then both stores are as before; otherwise they
resolve with the record, and the collection is the prior one with that record added, the other
store as before. -/
theorem C18_addLocal_fails_iff_key_exists :
    ∀ (env : Env) (n : StoreName) (record : Obj) (k : String) (w : World),
      w.indexedDBPresent = true → env.idbOpenOk w.tick = true →
      env.idbRequestOk (w.tick + 1) = true → Keyed (w.store n) →
      Obj.get record "id" = some k →
      ((∃ e w2, addLocal env n record w = (Outcome.error e, w2)) ↔
        ∃ x ∈ w.store n, Obj.get x "id" = some k) ∧
      (∀ e w2, addLocal env n record w = (Outcome.error e, w2) → SameLocal w w2) ∧
      ((¬ ∃ x ∈ w.store n, Obj.get x "id" = some k) →
        ∃ w2, addLocal env n record w = (Outcome.ok record, w2) ∧
          (w2.store n).Perm (record :: w.store n) ∧
          (∀ x, x ∈ w2.store n ↔ x = record ∨ x ∈ w.store n) ∧
          ∀ m, m ≠ n → w2.store m = w.store m) := by
  intro env n record k w hp ho hr hkd hid
  have hiff := hasKey_iff_of_keyed hkd k
  have hrun := addLocal_run env n record w
  simp only [hp, ho, Bool.and_self, if_true, hid, hr] at hrun
  refine ⟨?_, fun e w2 h => addLocal_error h, ?_⟩
  · constructor
    · rintro ⟨e, w2, h⟩
      rw [← hiff]
      by_contra hno
      rw [hrun] at h
      simp [hno] at h
    · intro hx
      rw [← hiff] at hx
      exact ⟨"ConstraintError", w.advance 2, by rw [hrun]; simp [hx]⟩
  · intro hno
    rw [← hiff] at hno
    refine ⟨(w.advance 2).setStore n (insertByKey record (w.store n)), ?_, ?_, ?_, ?_⟩
    · rw [hrun]
      simp [hno]
    · simpa using perm_insertByKey record (w.store n)
    · intro x
      simpa using mem_insertByKey record x (w.store n)
    · intro m hm
      simp [hm]

/-- C18 at the two-student store: a new key, and a key that is taken. -/
theorem C18_addLocal_fails_iff_key_exists_witness :
    (∃ w2, addLocalStudent Env.allOk [("id", "k3"), ("name", "Chitra")] World.withTwoLocal =
        (Outcome.ok [("id", "k3"), ("name", "Chitra")], w2) ∧
      (w2.store StoreName.students).Perm
        ([("id", "k3"), ("name", "Chitra")] :: World.withTwoLocal.store StoreName.students)) ∧
    (∃ e w2, addLocalStudent Env.allOk [("id", "k2"), ("name", "Chitra")] World.withTwoLocal =
        (Outcome.error e, w2)) :=
  ⟨(fun ⟨w2, h1, h2, _⟩ => ⟨w2, h1, h2⟩)
      ((C18_addLocal_fails_iff_key_exists Env.allOk StoreName.students
        [("id", "k3"), ("name", "Chitra")] "k3" World.withTwoLocal (by decide) (by decide)
        (by decide) (by decide) (by decide)).2.2 (by decide)),
   (C18_addLocal_fails_iff_key_exists Env.allOk StoreName.students
      [("id", "k2"), ("name", "Chitra")] "k2" World.withTwoLocal (by decide) (by decide)
      (by decide) (by decide) (by decide)).1.mpr (by decide)⟩

/-! ## C19 -/

/-- C19: with the database opening and the `delete` request served, `deleteLocalStudent`
resolves with the key whether or not a student is stored under it; afterwards no record has that
key, the records under other keys are the same, in the same order, and attendance is untouched;
a second delete of the same key leaves the collection as the first one did. -/
theorem C19_deleteLocalStudent_idempotent :
    ∀ (env : Env) (sid : String) (w : World),
      w.indexedDBPresent = true → env.idbOpenOk w.tick = true →
      env.idbRequestOk (w.tick + 1) = true →
      ∃ w2, deleteLocalStudent env sid w = (Outcome.ok sid, w2) ∧
        (∀ r ∈ w2.localStudents, keyOf r ≠ sid) ∧
        w2.localStudents = w.localStudents.filter (fun r => !decide (keyOf r = sid)) ∧
        (∀ r, keyOf r ≠ sid → (r ∈ w2.localStudents ↔ r ∈ w.localStudents)) ∧
        w2.localAttendance = w.localAttendance ∧
        (env.idbOpenOk w2.tick = true → env.idbRequestOk (w2.tick + 1) = true →
          ∃ w3, deleteLocalStudent env sid w2 = (Outcome.ok sid, w3) ∧
            w3.localStudents = w2.localStudents ∧ w3.localAttendance = w2.localAttendance) := by
  intro env sid w hp ho hr
  refine ⟨(w.advance 2).setStore StoreName.students (deleteByKey w.localStudents sid),
    ?_, ?_, ?_, ?_, ?_, ?_⟩
  · rw [deleteLocalStudent_run]
    simp [hp, ho, hr]
  · intro r hrm
    have : r ∈ deleteByKey w.localStudents sid := by simpa using hrm
    exact ((mem_deleteByKey r _ _).mp this).2
  · simp [deleteByKey]
  · intro r hk
    have := mem_deleteByKey r w.localStudents sid
    simp only [World.setStore_localStudents]
    rw [this]
    exact ⟨fun h => h.1, fun h => ⟨h, hk⟩⟩
  · simp
  · intro ho2 hr2
    refine ⟨((w.advance 2).setStore StoreName.students
      (deleteByKey w.localStudents sid) |>.advance 2).setStore StoreName.students
      (deleteByKey (deleteByKey w.localStudents sid) sid), ?_, ?_, ?_⟩
    · rw [deleteLocalStudent_run]
      have hp2 : ((w.advance 2).setStore StoreName.students
          (deleteByKey w.localStudents sid)).indexedDBPresent = true := by simpa using hp
      simp only [hp2, ho2, hr2, Bool.and_self, if_true, World.setStore_localStudents]
    · simp [deleteByKey_idem]
    · simp

/-- C19 at the two-student store: a key that is there and one that is not. -/
theorem C19_deleteLocalStudent_idempotent_witness :
    (∃ w2, deleteLocalStudent Env.allOk "k1" World.withTwoLocal = (Outcome.ok "k1", w2) ∧
      w2.localStudents = [[("id", "k2"), ("name", "Bala")]]) ∧
    (∃ w2, deleteLocalStudent Env.allOk "k9" World.withTwoLocal = (Outcome.ok "k9", w2) ∧
      w2.localStudents = World.withTwoLocal.localStudents) :=
  ⟨(fun ⟨w2, h1, _, h3, _⟩ => ⟨w2, h1, h3.trans (by decide)⟩)
      (C19_deleteLocalStudent_idempotent Env.allOk "k1" World.withTwoLocal (by decide)
        (by decide) (by decide)),
   (fun ⟨w2, h1, _, h3, _⟩ => ⟨w2, h1, h3.trans (by decide)⟩)
      (C19_deleteLocalStudent_idempotent Env.allOk "k9" World.withTwoLocal (by decide)
        (by decide) (by decide))⟩

/-! ## C20 -/

/-- C20 (as stated, refuted): the handle is invoked while a read of the browser database is
pending, and the callback is invoked after it. First the fallback taken at setup
(`firebaseConnected` is false), for both subscriptions; then a channel that errors, whose handle
is invoked before the read it started settles. -/
theorem C20_pending_read_calls_back_after_cancel :
    (subRun Env.allOk [SubEvent.cancel, SubEvent.readSettles]
        (subscribeToStudents "u1" true (World.withLocalStudent false 0))).2.log =
      [SubLog.cancelled, SubLog.called [sampleStudentLocal]] ∧
    (subRun Env.allOk [SubEvent.cancel, SubEvent.readSettles]
        (subscribeToAttendanceRecords "u1" [] true (World.withLocalAttendance false 0))).2.log =
      [SubLog.cancelled, SubLog.called [sampleAttendanceLocal]] ∧
    (subRun Env.allOk [SubEvent.channelError, SubEvent.cancel, SubEvent.readSettles]
        (subscribeToAttendanceRecords "u1" [] true World.attendanceMirrored)).2.log =
      [SubLog.cancelled, SubLog.called [sampleAttendanceRemote]] ∧
    callsAfterCancel (subRun Env.allOk [SubEvent.cancel, SubEvent.readSettles]
        (subscribeToStudents "u1" true (World.withLocalStudent false 0))).2.log = 1 := by
  decide

/-- C20 (amended): for a subscription set up by `subscribeToStudents` or
`subscribeToAttendanceRecords` on any path, after any events `before`: invoking the handle leaves
the world as it is and does not invoke the callback; once it has been invoked, the listener is
detached, and the callback is invoked exactly once for each read of the browser database that
had been started before and settles afterwards, and never otherwise: the calls after the
invocation plus the reads still pending equal the reads pending when the handle was invoked. -/
theorem C20_only_started_reads_call_back_after_cancel :
    (∀ (env : Env) (kind : SubKind) (uid : String) (opens : Bool) (w : World)
        (before after : List SubEvent),
      (subStep env SubEvent.cancel (subRun env before (subscribe kind uid opens w))).1 =
          (subRun env before (subscribe kind uid opens w)).1 ∧
        ∃ extra,
          (subRun env (before ++ SubEvent.cancel :: after) (subscribe kind uid opens w)).2.log =
            (subRun env before (subscribe kind uid opens w)).2.log ++
              SubLog.cancelled :: extra ∧
          callCount extra +
              (subRun env (before ++ SubEvent.cancel :: after)
                (subscribe kind uid opens w)).2.pendingReads =
            (subRun env before (subscribe kind uid opens w)).2.pendingReads ∧
          (subRun env (before ++ SubEvent.cancel :: after)
            (subscribe kind uid opens w)).2.listening = false) ∧
    (∀ (env : Env) (kind : SubKind) (uid : String) (opens : Bool) (w : World)
        (before after : List SubEvent),
      SubEvent.cancel ∉ before →
      callsAfterCancel
          (subRun env (before ++ SubEvent.cancel :: after)
            (subscribe kind uid opens w)).2.log +
          (subRun env (before ++ SubEvent.cancel :: after)
            (subscribe kind uid opens w)).2.pendingReads =
        (subRun env before (subscribe kind uid opens w)).2.pendingReads) := by
  have key : ∀ (env : Env) (kind : SubKind) (uid : String) (opens : Bool) (w : World)
      (before after : List SubEvent),
      (subStep env SubEvent.cancel (subRun env before (subscribe kind uid opens w))).1 =
          (subRun env before (subscribe kind uid opens w)).1 ∧
        ∃ extra,
          (subRun env (before ++ SubEvent.cancel :: after) (subscribe kind uid opens w)).2.log =
            (subRun env before (subscribe kind uid opens w)).2.log ++
              SubLog.cancelled :: extra ∧
          callCount extra +
              (subRun env (before ++ SubEvent.cancel :: after)
                (subscribe kind uid opens w)).2.pendingReads =
            (subRun env before (subscribe kind uid opens w)).2.pendingReads ∧
          (subRun env (before ++ SubEvent.cancel :: after)
            (subscribe kind uid opens w)).2.listening = false := by
    intro env kind uid opens w before after
    have hinv := subRun_handle env before _ (subscribe_handle kind uid opens w)
    obtain ⟨c1, c2, c3, c4⟩ := subStep_cancel env _ hinv
    obtain ⟨extra, q1, q2, q3⟩ := subRun_quiet env after _ c4
    refine ⟨c1, extra, ?_, ?_, ?_⟩
    · rw [subRun_append, subRun_cons, q1, c2, List.append_assoc]
      rfl
    · rw [subRun_append, subRun_cons, ← c3]
      exact q2
    · rw [subRun_append, subRun_cons]
      exact q3
  refine ⟨key, ?_⟩
  intro env kind uid opens w before after hb
  obtain ⟨-, extra, h1, h2, -⟩ := key env kind uid opens w before after
  rw [h1, callsAfterCancel_of_first _ _
    (subRun_no_cancel env before _ hb (subscribe_log kind uid opens w))]
  exact h2

/-- C20 (amended) on the remote path: a snapshot, the handle, then a snapshot, a channel error
and a read that settles. Nothing was pending when the handle was invoked, so the callback is not
invoked after it. -/
theorem C20_only_started_reads_call_back_after_cancel_witness :
    callsAfterCancel
        (subRun Env.allOk
          ([SubEvent.snapshot] ++ SubEvent.cancel ::
            [SubEvent.snapshot, SubEvent.channelError, SubEvent.readSettles])
          (subscribe SubKind.students "u1" true World.withRoster)).2.log +
        (subRun Env.allOk
          ([SubEvent.snapshot] ++ SubEvent.cancel ::
            [SubEvent.snapshot, SubEvent.channelError, SubEvent.readSettles])
          (subscribe SubKind.students "u1" true World.withRoster)).2.pendingReads = 0 :=
  C20_only_started_reads_call_back_after_cancel.2 Env.allOk SubKind.students "u1" true
    World.withRoster [SubEvent.snapshot]
    [SubEvent.snapshot, SubEvent.channelError, SubEvent.readSettles] (by decide)

/-! ## C21 -/

/-- C21: for both subscriptions (`kind`), with events in any order.
(1) The channel is not opened at setup and `indexedDB` is missing: the callback is invoked with
`[]` before the function returns, and never again.
(2) The channel is not opened at setup and `indexedDB` exists: one read is started; the callback
is invoked once, when that read settles, and never otherwise.
(3) An attached channel reports an error: from then on the callback is invoked exactly once
more, at once with `[]` when `indexedDB` is missing, else when the read that was started
settles.
(4) What the callback gets when a read settles: the view of the records read when the read
resolves (`[]` when the view throws), `[]` when the read rejects.
(5) The view of students that carry the three sort fields is a permutation of them, in the
order of the collation of the host (year, then division, then rollNumber) for every consistent
collation that tells their years and divisions apart, and in the order character by character
where the collation agrees with it on their fields. The view of attendance records with
calendar dates holds exactly the records whose year is `filters.year` and whose division is
`filters.division`, a filter that is unset or empty letting every record pass, in descending
date order. -/
theorem C21_fallback_calls_back_exactly_once :
    (∀ (env : Env) (kind : SubKind) (uid : String) (opens : Bool) (w : World)
        (evs : List SubEvent),
      (w.isOnline && w.firebaseConnected && opens) = false → w.indexedDBPresent = false →
      (subscribe kind uid opens w).2.log = [SubLog.called []] ∧
        (subRun env evs (subscribe kind uid opens w)).2.pendingReads = 0 ∧
        callCount (subRun env evs (subscribe kind uid opens w)).2.log = 1) ∧
    (∀ (env : Env) (kind : SubKind) (uid : String) (opens : Bool) (w : World)
        (evs : List SubEvent),
      (w.isOnline && w.firebaseConnected && opens) = false → w.indexedDBPresent = true →
      (subscribe kind uid opens w).2.log = [] ∧
        callCount (subRun env evs (subscribe kind uid opens w)).2.log +
          (subRun env evs (subscribe kind uid opens w)).2.pendingReads = 1 ∧
        (subRun env [SubEvent.readSettles] (subscribe kind uid opens w)).2.log =
          (deliverLocal env kind w).2) ∧
    (∀ (env : Env) (kind : SubKind) (uid : String) (opens : Bool) (w : World)
        (before after : List SubEvent),
      (subRun env before (subscribe kind uid opens w)).2.listening = true →
      callCount (subRun env (before ++ SubEvent.channelError :: after)
            (subscribe kind uid opens w)).2.log +
          (subRun env (before ++ SubEvent.channelError :: after)
            (subscribe kind uid opens w)).2.pendingReads =
        callCount (subRun env before (subscribe kind uid opens w)).2.log + 1 ∧
      ((subRun env before (subscribe kind uid opens w)).1.indexedDBPresent = false →
        (subRun env (before ++ [SubEvent.channelError]) (subscribe kind uid opens w)).2.log =
          (subRun env before (subscribe kind uid opens w)).2.log ++ [SubLog.called []]) ∧
      ((subRun env before (subscribe kind uid opens w)).1.indexedDBPresent = true →
        (subRun env (before ++ [SubEvent.channelError, SubEvent.readSettles])
            (subscribe kind uid opens w)).2.log =
          (subRun env before (subscribe kind uid opens w)).2.log ++
            (deliverLocal env kind
              ((subRun env before (subscribe kind uid opens w)).1.setConnected false)).2)) ∧
    (∀ (env : Env) (kind : SubKind) (w w2 : World) (records view : List Obj),
      getLocalAll env kind.store w = (Outcome.ok records, w2) →
      ((kind.view env records = Except.ok view →
          (deliverLocal env kind w).2 = [SubLog.called view]) ∧
        ((∃ e, kind.view env records = Except.error e) →
          (deliverLocal env kind w).2 = [SubLog.called []]))) ∧
    (∀ (env : Env) (kind : SubKind) (w w2 : World) (e : String),
      getLocalAll env kind.store w = (Outcome.error e, w2) →
      (deliverLocal env kind w).2 = [SubLog.called []]) ∧
    (∀ (env : Env) (records : List Obj), (∀ r ∈ records, IsStudent r) →
      ∃ view, SubKind.students.view env records = Except.ok view ∧ view.Perm records ∧
        (env.Collates → Separates env records → view.Sorted (CollationLe env)) ∧
        (CollatesByCharacter env records → view.Sorted StudentLe)) ∧
    (∀ (env : Env) (filters : Obj) (records : List Obj), (∀ r ∈ records, IsoDated r) →
      ∃ view, (SubKind.attendance filters).view env records = Except.ok view ∧
        view.Perm (records.filter (fun r => decide (ClassSelects filters r))) ∧
        (∀ r, r ∈ view ↔ r ∈ records ∧
          (FilterOff (Obj.get filters "year") ∨ Obj.get r "year" = Obj.get filters "year") ∧
          (FilterOff (Obj.get filters "division") ∨
            Obj.get r "division" = Obj.get filters "division")) ∧
        view.Sorted DateGe) := by
  refine ⟨?_, ?_, ?_, ?_, ?_, ?_, ?_⟩
  · intro env kind uid opens w evs hno hidb
    rw [subscribe_fallback_unsupported kind uid opens w hno hidb]
    obtain ⟨extra, q1, q2, -⟩ := subRun_quiet env evs
      (w, { kind := kind, uid := uid, handle := Handle.noop, listening := false,
            pendingReads := 0, log := [SubLog.called []] }) rfl
    simp only at q1 q2
    refine ⟨rfl, by omega, ?_⟩
    rw [q1, callCount_append]
    have : callCount [SubLog.called []] = 1 := by decide
    omega
  · intro env kind uid opens w evs hno hidb
    rw [subscribe_fallback_supported kind uid opens w hno hidb]
    obtain ⟨extra, q1, q2, -⟩ := subRun_quiet env evs
      (w, { kind := kind, uid := uid, handle := Handle.noop, listening := false,
            pendingReads := 1, log := [] }) rfl
    simp only at q1 q2
    refine ⟨rfl, ?_, ?_⟩
    · rw [q1]
      simpa using q2
    · rw [subRun_cons, subRun_nil]
      exact (subStep_readSettles env _ Nat.one_pos).2.1
  · intro env kind uid opens w before after hl
    have hpend := subRun_listening env before _ (subscribe_listening kind uid opens w) hl
    have hk := (subRun_kind env before (subscribe kind uid opens w)).1.trans
      (subscribe_kind kind uid opens w).1
    obtain ⟨e1, e2, e3, e4⟩ := subStep_channelError env _ hl
    refine ⟨?_, ?_, ?_⟩
    · obtain ⟨extra, q1, q2, -⟩ := subRun_quiet env after _ e2
      rw [subRun_append, subRun_cons, q1, callCount_append]
      by_cases hi : (subRun env before (subscribe kind uid opens w)).1.indexedDBPresent = true
      · obtain ⟨f1, f2⟩ := e4 hi
        rw [f1]
        rw [f2] at q2
        omega
      · have hi2 : (subRun env before (subscribe kind uid opens w)).1.indexedDBPresent =
            false := by simpa using hi
        obtain ⟨f1, f2⟩ := e3 hi2
        rw [f1, callCount_append]
        rw [f2] at q2
        have : callCount [SubLog.called []] = 1 := by decide
        omega
    · intro hi
      rw [subRun_append]
      exact (e3 hi).1
    · intro hi
      obtain ⟨f1, f2⟩ := e4 hi
      rw [subRun_append, subRun_cons, subRun_cons, subRun_nil]
      have hp : 0 < (subStep env SubEvent.channelError
          (subRun env before (subscribe kind uid opens w))).2.pendingReads := by
        rw [f2]; omega
      have hk2 := (subStep_kind env SubEvent.channelError
        (subRun env before (subscribe kind uid opens w))).1.trans hk
      rw [(subStep_readSettles env _ hp).2.1, f1, e1, hk2]
  · intro env kind w w2 records view hread
    constructor
    · intro hv
      simp [deliverLocal, hread, hv]
    · rintro ⟨e, hv⟩
      simp [deliverLocal, hread, hv]
  · intro env kind w w2 e hread
    simp [deliverLocal, hread]
  · intro env records hst
    exact jsSort_students env hst
  · intro env filters records hiso
    have hf : ∀ r ∈ applyClassFilters filters records, IsoDated r := by
      intro r hr
      apply hiso
      rw [applyClassFilters_filter] at hr
      exact (List.mem_filter.mp hr).1
    obtain ⟨view, hv, hperm, hsorted⟩ := jsSort_attendance_iso env hf
    rw [applyClassFilters_filter] at hperm
    refine ⟨view, hv, hperm, ?_, hsorted⟩
    intro r
    rw [hperm.mem_iff, List.mem_filter, decide_eq_true_eq]
    rfl

/-- C21 at concrete subscriptions: without `indexedDB`; with the sample student in the browser
database; on a channel that errors after its first snapshot; with three attendance records of
two years in the browser database and the year filter set to FirstYear; and the views of the
roster and of those three records. -/
theorem C21_fallback_calls_back_exactly_once_witness :
    callCount (subRun Env.allOk [SubEvent.readSettles, SubEvent.cancel, SubEvent.snapshot]
        (subscribe SubKind.students "u1" true (World.noIdbAt false 0))).2.log = 1 ∧
    (subRun Env.allOk [SubEvent.readSettles]
        (subscribe SubKind.students "u1" true (World.withLocalStudent false 0))).2.log =
      [SubLog.called [sampleStudentLocal]] ∧
    callCount (subRun Env.allOk [SubEvent.readSettles, SubEvent.snapshot, SubEvent.readSettles]
          (subscribe SubKind.students "u1" true (World.withLocalStudent false 0))).2.log +
        (subRun Env.allOk [SubEvent.readSettles, SubEvent.snapshot, SubEvent.readSettles]
          (subscribe SubKind.students "u1" true
            (World.withLocalStudent false 0))).2.pendingReads = 1 ∧
    (subRun Env.allOk ([SubEvent.snapshot] ++ [SubEvent.channelError, SubEvent.readSettles])
        (subscribe (SubKind.attendance []) "u1" true World.attendanceMirrored)).2.log =
      [SubLog.called [sampleAttendanceRemote], SubLog.called [sampleAttendanceRemote]] ∧
    (subRun Env.allOk ([SubEvent.snapshot] ++ [SubEvent.channelError])
        (subscribe SubKind.students "u1" true
          { World.withRoster with indexedDBPresent := false })).2.log =
      [SubLog.called (rosterDocs.reverse.map docRecord), SubLog.called []] ∧
    (subRun Env.allOk [SubEvent.readSettles]
        (subscribe (SubKind.attendance [("year", "FirstYear")]) "u1" true
          (World.offlineHolding []
            (World.withRemoteAttendance.remoteAttendance.map docRecord) 0))).2.log =
      [SubLog.called
        [("id", "a3") :: [("studentId", "s9"), ("year", "FirstYear"), ("division", "A"),
          ("date", "2024-03-09"), ("status", "present")],
         sampleAttendanceRemote]] ∧
    (∃ view, SubKind.students.view Env.allOk (rosterDocs.map docRecord) = Except.ok view ∧
      view.Perm (rosterDocs.map docRecord) ∧ view.Sorted (CollationLe Env.allOk) ∧
      view.Sorted StudentLe) ∧
    (∃ view, (SubKind.attendance [("year", "FirstYear")]).view Env.allOk
        (World.withRemoteAttendance.remoteAttendance.map docRecord) = Except.ok view ∧
      view.Perm ((World.withRemoteAttendance.remoteAttendance.map docRecord).filter
        (fun r => decide (ClassSelects [("year", "FirstYear")] r))) ∧
      (∀ r, r ∈ view ↔ r ∈ World.withRemoteAttendance.remoteAttendance.map docRecord ∧
        (FilterOff (Obj.get [("year", "FirstYear")] "year") ∨
          Obj.get r "year" = Obj.get [("year", "FirstYear")] "year") ∧
        (FilterOff (Obj.get [("year", "FirstYear")] "division") ∨
          Obj.get r "division" = Obj.get [("year", "FirstYear")] "division")) ∧
      view.Sorted DateGe) := by
  refine ⟨?_, ?_, ?_, ?_, ?_, ?_, ?_, ?_⟩
  · exact (C21_fallback_calls_back_exactly_once.1 Env.allOk SubKind.students "u1" true
      (World.noIdbAt false 0) [SubEvent.readSettles, SubEvent.cancel, SubEvent.snapshot]
      (by decide) (by decide)).2.2
  · exact (C21_fallback_calls_back_exactly_once.2.1 Env.allOk SubKind.students "u1" true
      (World.withLocalStudent false 0) [] (by decide) (by decide)).2.2.trans (by decide)
  · exact (C21_fallback_calls_back_exactly_once.2.1 Env.allOk SubKind.students "u1" true
      (World.withLocalStudent false 0)
      [SubEvent.readSettles, SubEvent.snapshot, SubEvent.readSettles] (by decide)
      (by decide)).2.1
  · exact ((C21_fallback_calls_back_exactly_once.2.2.1 Env.allOk (SubKind.attendance []) "u1"
      true World.attendanceMirrored [SubEvent.snapshot] [] (by decide)).2.2 (by decide)).trans
      (by decide)
  · exact ((C21_fallback_calls_back_exactly_once.2.2.1 Env.allOk SubKind.students "u1" true
      { World.withRoster with indexedDBPresent := false } [SubEvent.snapshot] []
      (by decide)).2.1 (by decide)).trans (by decide)
  · exact (C21_fallback_calls_back_exactly_once.2.1 Env.allOk
      (SubKind.attendance [("year", "FirstYear")]) "u1" true
      (World.offlineHolding [] (World.withRemoteAttendance.remoteAttendance.map docRecord) 0)
      [] (by decide) (by decide)).2.2.trans (by decide)
  · obtain ⟨view, h1, h2, h3, h4⟩ :=
      C21_fallback_calls_back_exactly_once.2.2.2.2.2.1 Env.allOk (rosterDocs.map docRecord)
        (by decide)
    exact ⟨view, h1, h2,
      h3 (codePointCompare_collates _ rfl)
        (separates_of_byCharacter (codePointCompare_collates _ rfl)
          (codePointCompare_byCharacter _ rfl _)),
      h4 (codePointCompare_byCharacter _ rfl _)⟩
  · exact C21_fallback_calls_back_exactly_once.2.2.2.2.2.2 Env.allOk [("year", "FirstYear")]
      (World.withRemoteAttendance.remoteAttendance.map docRecord) (by decide)

/-! ## C22 -/

/-- C22: setting up a subscription changes nothing of the world and always returns a handle:
the `unsubscribe` of the listener when the channel was opened (`isOnline`, `firebaseConnected`
and `onSnapshot` returning), the function `() => {}` on every other path, with or without
`indexedDB`. After any events, invoking the handle `() => {}` any number of times leaves the
world (both stores, both remote collections, the connection flags) and the state of the
subscription as they are; only the log of invocations grows. -/
theorem C22_setup_returns_handle_and_fallback_handle_is_noop :
    (∀ (kind : SubKind) (uid : String) (opens : Bool) (w : World),
      (subscribe kind uid opens w).1 = w ∧
        ((w.isOnline && w.firebaseConnected && opens) = true →
          (subscribe kind uid opens w).2.handle = Handle.unsubscribe ∧
            (subscribe kind uid opens w).2.listening = true) ∧
        ((w.isOnline && w.firebaseConnected && opens) = false →
          (subscribe kind uid opens w).2.handle = Handle.noop ∧
            (subscribe kind uid opens w).2.listening = false)) ∧
    (∀ (env : Env) (kind : SubKind) (uid : String) (opens : Bool) (w : World)
        (evs : List SubEvent) (k : Nat),
      (w.isOnline && w.firebaseConnected && opens) = false →
      (subRun env (evs ++ List.replicate k SubEvent.cancel) (subscribe kind uid opens w)).1 =
          (subRun env evs (subscribe kind uid opens w)).1 ∧
        (subRun env (evs ++ List.replicate k SubEvent.cancel)
            (subscribe kind uid opens w)).2.listening = false ∧
        (subRun env (evs ++ List.replicate k SubEvent.cancel)
            (subscribe kind uid opens w)).2.pendingReads =
          (subRun env evs (subscribe kind uid opens w)).2.pendingReads ∧
        (subRun env (evs ++ List.replicate k SubEvent.cancel)
            (subscribe kind uid opens w)).2.log =
          (subRun env evs (subscribe kind uid opens w)).2.log ++
            List.replicate k SubLog.cancelled) := by
  refine ⟨?_, ?_⟩
  · intro kind uid opens w
    refine ⟨?_, ?_, ?_⟩
    · unfold subscribe
      split
      · rfl
      · split <;> rfl
    · intro h
      rw [subscribe_opened kind uid opens w h]
      exact ⟨rfl, rfl⟩
    · intro h
      unfold subscribe
      rw [if_neg (by simp [h])]
      split <;> exact ⟨rfl, rfl⟩
  · intro env kind uid opens w evs k hno
    have hh0 : (subscribe kind uid opens w).2.handle = Handle.noop := by
      unfold subscribe
      rw [if_neg (by simp [hno])]
      split <;> rfl
    have hh : (subRun env evs (subscribe kind uid opens w)).2.handle = Handle.noop :=
      (subRun_handle_eq env evs _).trans hh0
    have hq := subRun_handle env evs _ (subscribe_handle kind uid opens w) hh
    obtain ⟨h1, h2, h3, h4⟩ := subRun_noop_cancels env k _ hh
    rw [subRun_append]
    exact ⟨h1, h2.trans hq, h3, h4⟩

/-- C22 for a subscription set up while `firebaseConnected` is false: the handle is invoked
twice while the read is pending and once more after it settled. -/
theorem C22_setup_returns_handle_and_fallback_handle_is_noop_witness :
    ((subscribe SubKind.students "u1" true (World.withLocalStudent false 0)).2.handle =
        Handle.noop ∧
      (subscribe SubKind.students "u1" true (World.withLocalStudent false 0)).2.listening =
        false) ∧
    (subRun Env.allOk ([] ++ List.replicate 2 SubEvent.cancel)
        (subscribe SubKind.students "u1" true (World.withLocalStudent false 0))).1 =
      World.withLocalStudent false 0 ∧
    (subRun Env.allOk ([SubEvent.readSettles] ++ List.replicate 1 SubEvent.cancel)
        (subscribe (SubKind.attendance []) "u1" false World.attendanceMirrored)).2.log =
      [SubLog.called [sampleAttendanceRemote], SubLog.cancelled] ∧
    ((subscribe SubKind.students "u1" true World.withRoster).2.handle = Handle.unsubscribe ∧
      (subscribe SubKind.students "u1" true World.withRoster).2.listening = true) :=
  ⟨(C22_setup_returns_handle_and_fallback_handle_is_noop.1 SubKind.students "u1" true
      (World.withLocalStudent false 0)).2.2 (by decide),
   (C22_setup_returns_handle_and_fallback_handle_is_noop.2 Env.allOk SubKind.students "u1"
      true (World.withLocalStudent false 0) [] 2 (by decide)).1.trans (by decide),
   (C22_setup_returns_handle_and_fallback_handle_is_noop.2 Env.allOk (SubKind.attendance [])
      "u1" false World.attendanceMirrored [SubEvent.readSettles] 1
      (by decide)).2.2.2.trans (by decide),
   (C22_setup_returns_handle_and_fallback_handle_is_noop.1 SubKind.students "u1" true
      World.withRoster).2.1 (by decide)⟩

/-! ## C30 -/

/-- C30: the view `subscribeToAttendanceRecords` computes from a collection is what
`getAttendanceRecords` computes from it for the filters without `startDate` and `endDate`.
On a snapshot the callback gets what the read served by the remote store resolves with for
those filters; in the fallback it gets what the read served by the browser database resolves
with for them. -/
theorem C30_subscription_applies_year_and_division_only :
    (∀ (env : Env) (filters : Obj) (records : List Obj),
      (SubKind.attendance filters).view env records =
        jsSort (attendanceCompare env) (applyFilters (withoutDates filters) records)) ∧
    (∀ (env : Env) (uid : String) (filters : Obj) (w : World) (s : List Obj),
      env.RemoteUp → w.isOnline = true → w.firebaseConnected = true →
      jsSort (attendanceCompare env)
        (applyFilters (withoutDates filters) (recordsOf w StoreName.attendance uid)) =
          Except.ok s →
      (subRun env [SubEvent.snapshot]
          (subscribeToAttendanceRecords uid filters true w)).2.log = [SubLog.called s] ∧
        (getAttendanceRecords env uid (withoutDates filters) w).1 = Outcome.ok s) ∧
    (∀ (env : Env) (uid : String) (filters : Obj) (opens : Bool) (w : World) (s : List Obj),
      RemoteUnreachable env w → (w.isOnline && w.firebaseConnected && opens) = false →
      w.indexedDBPresent = true → (∀ t, env.idbOpenOk t = true) →
      (∀ t, env.idbRequestOk t = true) →
      jsSort (attendanceCompare env)
        (applyFilters (withoutDates filters) w.localAttendance) = Except.ok s →
      (subRun env [SubEvent.readSettles]
          (subscribeToAttendanceRecords uid filters opens w)).2.log = [SubLog.called s] ∧
        (getAttendanceRecords env uid (withoutDates filters) w).1 = Outcome.ok s) := by
  have hview : ∀ (env : Env) (filters : Obj) (records : List Obj),
      (SubKind.attendance filters).view env records =
        jsSort (attendanceCompare env) (applyFilters (withoutDates filters) records) := by
    intro env filters records
    simp only [SubKind.view, applyClassFilters_eq]
  refine ⟨hview, ?_, ?_⟩
  · intro env uid filters w s hu ho hc hs
    refine ⟨?_, getAttendanceRecords_served_value hu uid _ ho hs⟩
    have hyes : (w.isOnline && w.firebaseConnected && true) = true := by simp [ho, hc]
    rw [subscribeToAttendanceRecords, subscribe_opened _ _ _ _ hyes, subRun_cons, subRun_nil]
    simp only [subStep, if_true, onSnapshotNext, SubKind.store, hview, hs]
    rfl
  · intro env uid filters opens w s hu hno hp hopen hreq hs
    constructor
    · rw [subscribeToAttendanceRecords, subscribe_fallback_supported _ _ _ _ hno hp,
        subRun_cons, subRun_nil, (subStep_readSettles env _ Nat.one_pos).2.1]
      simp only [deliverLocal, SubKind.store, getLocalAll_run, hp, hopen, hreq, Bool.and_self,
        if_true, World.store_attendance, hview, hs]
      rfl
    · rw [getAttendanceRecords_local_value uid _ hu hp hopen hreq, hs]
      rfl

/-- C30 at the two March records with filters that ask for 1 to 10 March: the record of
20 March is delivered by the subscription, on a snapshot and in the fallback, and is not in what
the read with the same filters resolves with. -/
theorem C30_subscription_applies_year_and_division_only_witness :
    (subRun Env.allOk [SubEvent.snapshot]
        (subscribeToAttendanceRecords "u1" earlyMarch true World.withMarch)).2.log =
      [SubLog.called (marchDocs.reverse.map docRecord)] ∧
    (getAttendanceRecords Env.allOk "u1" (withoutDates earlyMarch) World.withMarch).1 =
      Outcome.ok (marchDocs.reverse.map docRecord) ∧
    (getAttendanceRecords Env.allOk "u1" earlyMarch World.withMarch).1 =
      Outcome.ok [sampleAttendanceRemote] ∧
    (subRun Env.probeFails [SubEvent.readSettles]
        (subscribeToAttendanceRecords "u1" earlyMarch true
          (World.offlineHolding [] (marchDocs.map docRecord) 0))).2.log =
      [SubLog.called (marchDocs.reverse.map docRecord)] :=
  ⟨(C30_subscription_applies_year_and_division_only.2.1 Env.allOk "u1" earlyMarch
      World.withMarch (marchDocs.reverse.map docRecord) allOk_remoteUp (by decide) (by decide)
      rfl).1,
   (C30_subscription_applies_year_and_division_only.2.1 Env.allOk "u1" earlyMarch
      World.withMarch (marchDocs.reverse.map docRecord) allOk_remoteUp (by decide) (by decide)
      rfl).2,
   by decide,
   (C30_subscription_applies_year_and_division_only.2.2 Env.probeFails "u1" earlyMarch true
      (World.offlineHolding [] (marchDocs.map docRecord) 0)
      (marchDocs.reverse.map docRecord) (Or.inr (Or.inl rfl)) (by decide) (by decide)
      (fun _ => rfl)
      (fun _ => rfl) rfl).1⟩

/-! ## C23 -/

/-- C23 (the code at the failing input): the student `doc3` is in the remote store and in the
browser database, and its name is changed. Served by the browser database, `updateStudent`
resolves with the whole stored record with the patch and the new `updatedAt` laid over it;
served by the remote store it resolves with `{ id, ...updatedData }`: the id, the patch and
`updatedAt` only, without `rollNumber`, `year`, `division` and `createdAt`. -/
theorem C23_remote_update_returns_patch_only :
    (updateStudent Env.probeFails "u1" "doc3" [("name", "Asha K")]
        (World.afterRemoteAdd 0)).1 =
      Outcome.ok [("id", "doc3"), ("name", "Asha K"), ("rollNumber", "7"),
        ("year", "FirstYear"), ("division", "A"), ("createdAt", "2024-03-07T10:00:00.000Z"),
        ("updatedAt", "2024-03-07T10:00:00.000Z")] ∧
    (updateStudent Env.allOk "u1" "doc3" [("name", "Asha K")] (World.afterRemoteAdd 0)).1 =
      Outcome.ok [("id", "doc3"), ("name", "Asha K"),
        ("updatedAt", "2024-03-07T10:00:00.000Z")] ∧
    (updateStudent Env.allOk "u1" "doc3" [("name", "Asha K")]
        (World.afterRemoteAdd 0)).2.remoteStudents =
      [Doc.mk "u1" "doc3" [("name", "Asha K"), ("rollNumber", "7"), ("year", "FirstYear"),
        ("division", "A"), ("createdAt", "2024-03-07T10:00:00.000Z"),
        ("updatedAt", "2024-03-07T10:00:00.000Z")]] ∧
    (updateStudent Env.allOk "u1" "doc3" [("name", "Asha K")] (World.afterRemoteAdd 0)).1 ≠
      (updateStudent Env.probeFails "u1" "doc3" [("name", "Asha K")]
        (World.afterRemoteAdd 0)).1 := by
  decide

/-! ## C29 -/

/-- C29 (the code at the failing input): the remote document `d7` of user `u1` carries a data
field `id` with value `7`, as the import of a CSV file with an `id` column stores it. The
record `getStudents` builds is `{ id: doc.id, ...doc.data() }`, in which the data field
overwrites the key: its `id` is `7`. With that id `deleteStudent` resolves and the document is
still there. The same for `getAttendanceRecords`, and for the record `addStudent` returns. -/
theorem C29_data_field_id_overrides_document_key :
    (getStudents Env.allOk "u1" World.withCsvImport).1 = Outcome.ok [csvStudent] ∧
    Obj.get csvStudent "id" = some "7" ∧
    (deleteStudent Env.allOk "u1" "7" World.withCsvImport).1 = Outcome.ok true ∧
    (deleteStudent Env.allOk "u1" "7" World.withCsvImport).2.remoteStudents =
      [Doc.mk "u1" "d7" csvStudent] ∧
    (getAttendanceRecords Env.allOk "u1" [] World.withCsvImport).1 =
      Outcome.ok [("id", "7") :: sampleAttendance] ∧
    (addStudent Env.allOk "u1" csvStudent World.empty).1 =
      Outcome.ok (("id", "7") :: sampleStudentStamped) ∧
    (addStudent Env.allOk "u1" csvStudent World.empty).2.remoteStudents =
      [Doc.mk "u1" "doc3" (("id", "7") :: sampleStudentStamped)] := by
  decide

/-! ## C25 -/

/-- C25: for every behaviour of the probe `forceFirebaseReconnect` resolves; it resolves with
`true` exactly when the probe read resolves and with `false` when it rejects; right afterwards
`getConnectionStatus().firebaseConnected` is the value it resolved with, and `online`,
`localDBSupported` and both stores are as before. -/
theorem C25_forceFirebaseReconnect_reports_probe :
    ∀ (env : Env) (w : World),
      ∃ w2, forceFirebaseReconnect env w = (Outcome.ok (env.probeOk w.tick), w2) ∧
        (getConnectionStatus w2).firebaseConnected = env.probeOk w.tick ∧
        (getConnectionStatus w2).online = (getConnectionStatus w).online ∧
        (getConnectionStatus w2).localDBSupported = (getConnectionStatus w).localDBSupported ∧
        SameLocal w w2 ∧ SameRemote w w2 := by
  intro env w
  by_cases h : env.probeOk w.tick = true
  · refine ⟨((w.advance 1).setConnected true).setConnected true, ?_, ?_, ?_, ?_, ?_, ?_⟩
    · simp [forceFirebaseReconnect, checkFirebaseConnection, h]
    · simp [getConnectionStatus, h]
    · simp [getConnectionStatus]
    · simp [getConnectionStatus]
    · simp [SameLocal]
    · simp [SameRemote]
  · have h2 : env.probeOk w.tick = false := by simpa using h
    refine ⟨((w.advance 1).setConnected false).setConnected false, ?_, ?_, ?_, ?_, ?_, ?_⟩
    · simp [forceFirebaseReconnect, checkFirebaseConnection, h2]
    · simp [getConnectionStatus, h2]
    · simp [getConnectionStatus]
    · simp [getConnectionStatus]
    · simp [SameLocal]
    · simp [SameRemote]

/-! ## C26 -/

/-- C26 (counterexample): the flag does not record a rejected remote operation, and it can be
false after a successful one. With a probe that succeeds and a remote read that is rejected,
`getStudents` falls back to the Local Store and `getConnectionStatus().firebaseConnected` is
still true; with a probe that succeeds before the write of `addStudent` and fails in the nested
re-read, the student is written to the remote store, the call resolves with the remote record,
and the flag is false. -/
theorem C26_flag_ignores_outcome_of_remote_operation :
    (getStudentsRemote Env.remoteRejects "u1" World.empty).1 =
        Outcome.error "remote read rejected" ∧
      (getConnectionStatus
        (getStudents Env.remoteRejects "u1" World.empty).2).firebaseConnected = true ∧
      (addStudent (Env.probeUntil 3) "u1" sampleStudent World.empty).1 =
        Outcome.ok (("id", "doc3") :: sampleStudentStamped) ∧
      (addStudent (Env.probeUntil 3) "u1" sampleStudent World.empty).2.remoteStudents =
        [Doc.mk "u1" "doc3" sampleStudentStamped] ∧
      (getConnectionStatus
        (addStudent (Env.probeUntil 3) "u1" sampleStudent World.empty).2).firebaseConnected =
          false := by
  refine ⟨?_, ?_, ?_, ?_, ?_⟩ <;> decide

/-- C26 (amended): the flag follows the probes only. After a facade operation called while the
browser is online, `getConnectionStatus().firebaseConnected` is the outcome of the most recent
connection probe, whatever became of the remote read or write that followed it. For the reads,
the updates, the deletes and `addAttendanceRecord` that is the probe of the operation itself;
for `addStudent`, `addMultipleStudents` and `addMultipleAttendanceRecords` it is the probe of
the nested re-read when the probe and the write of the operation succeeded, and the probe of the
operation otherwise. Called while the browser is offline, every one of the operations runs no
probe and leaves the flag as it was. -/
theorem C26_flag_is_outcome_of_most_recent_probe (env : Env) (w : World) (uid id : String)
    (data filters : Obj) (ids : List String) (batch : List Obj) :
    (w.isOnline = true →
      (getConnectionStatus (getStudents env uid w).2).firebaseConnected = env.probeOk w.tick ∧
      (getConnectionStatus (getAttendanceRecords env uid filters w).2).firebaseConnected =
        env.probeOk w.tick ∧
      (getConnectionStatus (updateStudent env uid id data w).2).firebaseConnected =
        env.probeOk (w.tick + 1) ∧
      (getConnectionStatus (deleteStudent env uid id w).2).firebaseConnected =
        env.probeOk w.tick ∧
      (getConnectionStatus (deleteMultipleStudents env uid ids w).2).firebaseConnected =
        env.probeOk w.tick ∧
      (getConnectionStatus (addAttendanceRecord env uid data w).2).firebaseConnected =
        env.probeOk (w.tick + 1) ∧
      (getConnectionStatus (updateAttendanceRecord env uid id data w).2).firebaseConnected =
        env.probeOk (w.tick + 1) ∧
      (getConnectionStatus (deleteAttendanceRecord env uid id w).2).firebaseConnected =
        env.probeOk w.tick ∧
      (getConnectionStatus (addStudent env uid data w).2).firebaseConnected =
        (if env.probeOk (w.tick + 2) && env.remoteOk (w.tick + 3) then env.probeOk (w.tick + 4)
          else env.probeOk (w.tick + 2)) ∧
      (getConnectionStatus (addMultipleStudents env uid batch w).2).firebaseConnected =
        (if env.probeOk (w.tick + 2 * batch.length) &&
            env.remoteOk (w.tick + 2 * batch.length + 1 + batch.length) then
          env.probeOk (w.tick + 2 * batch.length + 1 + batch.length + 1)
          else env.probeOk (w.tick + 2 * batch.length)) ∧
      (getConnectionStatus (addMultipleAttendanceRecords env uid batch w).2).firebaseConnected =
        (if env.probeOk (w.tick + batch.length) &&
            env.remoteOk (w.tick + batch.length + 1 + batch.length) then
          env.probeOk (w.tick + batch.length + 1 + batch.length + 1)
          else env.probeOk (w.tick + batch.length))) ∧
    (w.isOnline = false →
      (getConnectionStatus (getStudents env uid w).2).firebaseConnected =
        (getConnectionStatus w).firebaseConnected ∧
      (getConnectionStatus (getAttendanceRecords env uid filters w).2).firebaseConnected =
        (getConnectionStatus w).firebaseConnected ∧
      (getConnectionStatus (updateStudent env uid id data w).2).firebaseConnected =
        (getConnectionStatus w).firebaseConnected ∧
      (getConnectionStatus (deleteStudent env uid id w).2).firebaseConnected =
        (getConnectionStatus w).firebaseConnected ∧
      (getConnectionStatus (deleteMultipleStudents env uid ids w).2).firebaseConnected =
        (getConnectionStatus w).firebaseConnected ∧
      (getConnectionStatus (addAttendanceRecord env uid data w).2).firebaseConnected =
        (getConnectionStatus w).firebaseConnected ∧
      (getConnectionStatus (updateAttendanceRecord env uid id data w).2).firebaseConnected =
        (getConnectionStatus w).firebaseConnected ∧
      (getConnectionStatus (deleteAttendanceRecord env uid id w).2).firebaseConnected =
        (getConnectionStatus w).firebaseConnected ∧
      (getConnectionStatus (addStudent env uid data w).2).firebaseConnected =
        (getConnectionStatus w).firebaseConnected ∧
      (getConnectionStatus (addMultipleStudents env uid batch w).2).firebaseConnected =
        (getConnectionStatus w).firebaseConnected ∧
      (getConnectionStatus (addMultipleAttendanceRecords env uid batch w).2).firebaseConnected =
        (getConnectionStatus w).firebaseConnected) := by
  constructor
  · intro ho
    refine ⟨?_, ?_, ?_, ?_, ?_, ?_, ?_, ?_, ?_, ?_, ?_⟩
    · simp [getConnectionStatus, getStudents_flag, flagAfterProbe, ho]
    · simp [getConnectionStatus, getAttendanceRecords_flag, flagAfterProbe, ho]
    · simp [getConnectionStatus, updateStudent_flag, flagAfterProbe, ho]
    · simp [getConnectionStatus, deleteStudent_flag, flagAfterProbe, ho]
    · simp [getConnectionStatus, deleteMultipleStudents_flag, flagAfterProbe, ho]
    · simp [getConnectionStatus, addAttendanceRecord_flag, flagAfterProbe, ho]
    · simp [getConnectionStatus, updateAttendanceRecord_flag, flagAfterProbe, ho]
    · simp [getConnectionStatus, deleteAttendanceRecord_flag, flagAfterProbe, ho]
    · simpa [getConnectionStatus] using addStudent_flag env uid data w ho
    · simpa [getConnectionStatus] using addMultipleStudents_flag env uid batch w ho
    · simpa [getConnectionStatus] using addMultipleAttendanceRecords_flag env uid batch w ho
  · intro ho
    refine ⟨?_, ?_, ?_, ?_, ?_, ?_, ?_, ?_, ?_, ?_, ?_⟩
    · simp [getConnectionStatus, getStudents_flag, flagAfterProbe, ho]
    · simp [getConnectionStatus, getAttendanceRecords_flag, flagAfterProbe, ho]
    · simp [getConnectionStatus, updateStudent_flag, flagAfterProbe, ho]
    · simp [getConnectionStatus, deleteStudent_flag, flagAfterProbe, ho]
    · simp [getConnectionStatus, deleteMultipleStudents_flag, flagAfterProbe, ho]
    · simp [getConnectionStatus, addAttendanceRecord_flag, flagAfterProbe, ho]
    · simp [getConnectionStatus, updateAttendanceRecord_flag, flagAfterProbe, ho]
    · simp [getConnectionStatus, deleteAttendanceRecord_flag, flagAfterProbe, ho]
    · simpa [getConnectionStatus] using addStudent_flag_offline env uid data w ho
    · simpa [getConnectionStatus] using addMultipleStudents_flag_offline env uid batch w ho
    · simpa [getConnectionStatus] using
        addMultipleAttendanceRecords_flag_offline env uid batch w ho

/-- C26 (witness): the amended statement at the empty world with a remote store that accepts
the probe and rejects every read and write, for `getStudents` and for `addStudent`; and at the
empty world with the browser offline and the flag set, for the same two operations. -/
theorem C26_flag_is_outcome_of_most_recent_probe_witness :
    (World.empty.isOnline = true ∧
      (getConnectionStatus
        (getStudents Env.remoteRejects "u1" World.empty).2).firebaseConnected =
          Env.remoteRejects.probeOk World.empty.tick ∧
      (getConnectionStatus
        (addStudent Env.remoteRejects "u1" sampleStudent World.empty).2).firebaseConnected =
          (if Env.remoteRejects.probeOk (World.empty.tick + 2) &&
              Env.remoteRejects.remoteOk (World.empty.tick + 3) then
            Env.remoteRejects.probeOk (World.empty.tick + 4)
            else Env.remoteRejects.probeOk (World.empty.tick + 2))) ∧
    (({ World.empty with isOnline := false } : World).isOnline = false ∧
      (getConnectionStatus
        (getStudents Env.allOk "u1"
          { World.empty with isOnline := false }).2).firebaseConnected =
        (getConnectionStatus { World.empty with isOnline := false }).firebaseConnected ∧
      (getConnectionStatus
        (addStudent Env.allOk "u1" sampleStudent
          { World.empty with isOnline := false }).2).firebaseConnected =
        (getConnectionStatus { World.empty with isOnline := false }).firebaseConnected) :=
  ⟨⟨rfl,
    ((C26_flag_is_outcome_of_most_recent_probe Env.remoteRejects World.empty "u1" "doc3"
      sampleStudent [] ["doc3"] [sampleStudent]).1 rfl).1,
    ((C26_flag_is_outcome_of_most_recent_probe Env.remoteRejects World.empty "u1" "doc3"
      sampleStudent [] ["doc3"] [sampleStudent]).1 rfl).2.2.2.2.2.2.2.2.1⟩,
   ⟨rfl,
    ((C26_flag_is_outcome_of_most_recent_probe Env.allOk { World.empty with isOnline := false }
      "u1" "doc3" sampleStudent [] ["doc3"] [sampleStudent]).2 rfl).1,
    ((C26_flag_is_outcome_of_most_recent_probe Env.allOk { World.empty with isOnline := false }
      "u1" "doc3" sampleStudent [] ["doc3"] [sampleStudent]).2 rfl).2.2.2.2.2.2.2.2.1⟩⟩

/-! ## C24 -/

/-- C24 (counterexample): the Local Store is one collection for every user. A student and an
attendance record that user `u1` added while the remote store was unreachable, and the students
that a read of `u1` mirrored into the Local Store, are returned to user `u2` by `getStudents`
and `getAttendanceRecords` on the fallback path, although `u2` owns no document; with nothing
written for `u1` the same read of `u2` returns the empty list. -/
theorem C24_fallback_read_returns_records_of_another_user :
    "u1" ≠ "u2" ∧
      (getStudents Env.probeFails "u2"
        (addStudent Env.probeFails "u1" sampleStudent World.empty).2).1 =
          Outcome.ok [sampleStudentLocal] ∧
      (getAttendanceRecords Env.probeFails "u2" []
        (addAttendanceRecord Env.probeFails "u1" sampleAttendance World.empty).2).1 =
          Outcome.ok [sampleAttendanceLocal] ∧
      (getStudents Env.probeFails "u2" (getStudents Env.allOk "u1" World.withRoster).2).1 =
        (getStudents Env.allOk "u1" World.withRoster).1 ∧
      recordsOf (getStudents Env.allOk "u1" World.withRoster).2 StoreName.students "u2" = [] ∧
      (getStudents Env.probeFails "u2" World.empty).1 = Outcome.ok [] := by
  refine ⟨?_, ?_, ?_, ?_, ?_, ?_⟩ <;> decide

/-- C24 (amended): the reads are scoped by user on the remote path only. Served by the remote
store (browser online, probe and read succeed, and for `getStudents` a comparator that does not
throw), `getStudents(u)` and `getAttendanceRecords(u)` resolve with records of documents of the
partition of `u` only, and with the same value in every world that holds the same documents of
`u`, whatever the documents of the other users and the content of the Local Store. Served by the
Local Store fallback (remote store unreachable), both calls run the same for every user
identifier, and with a working browser database they resolve with the sorted (and filtered)
content of the whole local collection, which is not partitioned by user. -/
theorem C24_remote_reads_are_scoped_by_user_and_fallback_reads_are_not :
    (∀ (env : Env) (u : String) (w w2 : World) (s : List Obj),
      w.isOnline = true → env.probeOk w.tick = true → env.remoteOk (w.tick + 1) = true →
      jsSort (studentCompare env) (recordsOf w StoreName.students u) = Except.ok s →
      w2.isOnline = true → w2.tick = w.tick →
      recordsOf w2 StoreName.students u = recordsOf w StoreName.students u →
      (getStudents env u w).1 = Outcome.ok s ∧ (getStudents env u w2).1 = Outcome.ok s ∧
        ∀ r ∈ s, ∃ d ∈ w.remoteStudents, d.user = u ∧ r = docRecord d) ∧
    (∀ (env : Env) (u : String) (filters : Obj) (w w2 : World),
      w.isOnline = true → env.probeOk w.tick = true → env.remoteOk (w.tick + 1) = true →
      w2.isOnline = true → w2.tick = w.tick →
      recordsOf w2 StoreName.attendance u = recordsOf w StoreName.attendance u →
      ∃ s, (getAttendanceRecords env u filters w).1 = Outcome.ok s ∧
        (getAttendanceRecords env u filters w2).1 = Outcome.ok s ∧
        ∀ r ∈ s, ∃ d ∈ w.remoteAttendance, d.user = u ∧ r = docRecord d) ∧
    (∀ (env : Env) (u v : String) (filters : Obj) (w : World),
      RemoteUnreachable env w →
      getStudents env u w = getStudents env v w ∧
        getAttendanceRecords env u filters w = getAttendanceRecords env v filters w) ∧
    (∀ (env : Env) (u : String) (filters : Obj) (w : World),
      RemoteUnreachable env w → w.indexedDBPresent = true →
      (∀ t, env.idbOpenOk t = true) → (∀ t, env.idbRequestOk t = true) →
      (getStudents env u w).1 = (liftExcept (jsSort (studentCompare env) w.localStudents) w).1 ∧
        (getAttendanceRecords env u filters w).1 =
          (liftExcept (jsSort (attendanceCompare env)
            (applyFilters filters w.localAttendance)) w).1) := by
  refine ⟨?_, ?_, ?_, ?_⟩
  · intro env u w w2 s h1 h2 h3 hs g1 gt hrec
    refine ⟨getStudents_remote_value u h1 h2 h3 hs,
      getStudents_remote_value u g1 (by rw [gt]; exact h2) (by rw [gt]; exact h3)
        (by rw [hrec]; exact hs), ?_⟩
    intro r hr
    exact mem_recordsOf ((jsSort_perm _ _ _ hs).subset hr)
  · intro env u filters w w2 h1 h2 h3 g1 gt hrec
    refine ⟨_, getAttendanceRecords_remote_value u filters h1 h2 h3, ?_, ?_⟩
    · rw [getAttendanceRecords_remote_value u filters g1 (by rw [gt]; exact h2)
        (by rw [gt]; exact h3), hrec]
    · intro r hr
      have hr2 := (List.perm_insertionSort _ _).subset hr
      rw [applyFilters_eq] at hr2
      exact mem_recordsOf (List.mem_filter.1 hr2).1
  · intro env u v filters w hu
    exact ⟨by rw [getStudents, getStudents, Eff.tryCatch_run, Eff.tryCatch_run,
        getStudentsRemote_any_user u v hu],
      by rw [getAttendanceRecords, getAttendanceRecords, Eff.tryCatch_run, Eff.tryCatch_run,
        getAttendanceRecordsRemote_any_user u v filters hu]⟩
  · intro env u filters w hu hp hopen hreq
    exact ⟨getStudents_local_value u hu hp hopen hreq,
      getAttendanceRecords_local_value u filters hu hp hopen hreq⟩

/-- C24 (witness): the remote read of `u1` is the same with and without the document of `u2`,
and the fallback read of `u2` in the world where `u1` added a student locally is the read of
`u1` and the content of the local collection. -/
theorem C24_remote_reads_are_scoped_by_user_and_fallback_reads_are_not_witness :
    ((getStudents Env.allOk "u1" World.withSharedRoster).1 =
        Outcome.ok
          [[("id", "d3"), ("year", "FirstYear"), ("division", "A"), ("rollNumber", "10")],
           [("id", "d2"), ("year", "FirstYear"), ("division", "A"), ("rollNumber", "2")],
           [("id", "d1"), ("year", "SecondYear"), ("division", "B"), ("rollNumber", "5")]] ∧
      (getStudents Env.allOk "u1" (World.withSharedRoster.onlyUser "u1")).1 =
        Outcome.ok
          [[("id", "d3"), ("year", "FirstYear"), ("division", "A"), ("rollNumber", "10")],
           [("id", "d2"), ("year", "FirstYear"), ("division", "A"), ("rollNumber", "2")],
           [("id", "d1"), ("year", "SecondYear"), ("division", "B"), ("rollNumber", "5")]] ∧
      ∀ r ∈ [[("id", "d3"), ("year", "FirstYear"), ("division", "A"), ("rollNumber", "10")],
           [("id", "d2"), ("year", "FirstYear"), ("division", "A"), ("rollNumber", "2")],
           [("id", "d1"), ("year", "SecondYear"), ("division", "B"), ("rollNumber", "5")]],
        ∃ d ∈ World.withSharedRoster.remoteStudents, d.user = "u1" ∧ r = docRecord d) ∧
      (∃ s, (getAttendanceRecords Env.allOk "u1" [] World.withRemoteAttendance).1 =
          Outcome.ok s ∧
        (getAttendanceRecords Env.allOk "u1" []
          (World.withRemoteAttendance.onlyUser "u1")).1 = Outcome.ok s ∧
        ∀ r ∈ s, ∃ d ∈ World.withRemoteAttendance.remoteAttendance,
          d.user = "u1" ∧ r = docRecord d) ∧
      (getStudents Env.probeFails "u2" (World.withLocalStudent true 0) =
          getStudents Env.probeFails "u1" (World.withLocalStudent true 0) ∧
        getAttendanceRecords Env.probeFails "u2" [] (World.withLocalStudent true 0) =
          getAttendanceRecords Env.probeFails "u1" [] (World.withLocalStudent true 0)) ∧
      ((getStudents Env.probeFails "u2" (World.withLocalStudent true 0)).1 =
          (liftExcept (jsSort (studentCompare Env.probeFails)
            (World.withLocalStudent true 0).localStudents)
            (World.withLocalStudent true 0)).1 ∧
        (getAttendanceRecords Env.probeFails "u2" [] (World.withLocalStudent true 0)).1 =
          (liftExcept (jsSort (attendanceCompare Env.probeFails)
            (applyFilters [] (World.withLocalStudent true 0).localAttendance))
            (World.withLocalStudent true 0)).1) :=
  ⟨C24_remote_reads_are_scoped_by_user_and_fallback_reads_are_not.1 Env.allOk "u1"
      World.withSharedRoster (World.withSharedRoster.onlyUser "u1") _ rfl rfl rfl rfl rfl rfl
      rfl,
   C24_remote_reads_are_scoped_by_user_and_fallback_reads_are_not.2.1 Env.allOk "u1" []
      World.withRemoteAttendance (World.withRemoteAttendance.onlyUser "u1") rfl rfl rfl rfl rfl
      rfl,
   C24_remote_reads_are_scoped_by_user_and_fallback_reads_are_not.2.2.1 Env.probeFails "u2"
      "u1" [] (World.withLocalStudent true 0) (Or.inr (Or.inl rfl)),
   C24_remote_reads_are_scoped_by_user_and_fallback_reads_are_not.2.2.2 Env.probeFails "u2"
      [] (World.withLocalStudent true 0) (Or.inr (Or.inl rfl)) rfl (fun _ => rfl)
      (fun _ => rfl)⟩

/-! ## C27 -/

/-- C27 (counterexample): the submit handler rejects a student whose rollNumber is used only in
another class. The list passed to the form holds one student, rollNumber 7 of FirstYear A; the
completed form holds rollNumber 7 of SecondYear B; `handleSubmit` answers that a student with
this roll number already exists and calls nothing, although no existing student has the same
rollNumber, year and division. App.jsx passes that list when no class is selected. -/
theorem C27_rollNumber_of_another_class_is_rejected :
    CompletedForm sampleFormOtherClass ∧
      ¬ SameClassDuplicate [sampleStudentRemote] sampleFormOtherClass ∧
      submitCheck [sampleStudentRemote] sampleFormOtherClass = SubmitCheck.duplicate ∧
      handleSubmit Env.allOk "u1" [sampleStudentRemote] sampleFormOtherClass World.empty =
        (Outcome.ok (Message.mk "error" "A student with this roll number already exists."),
          World.empty) ∧
      filteredStudents [sampleStudentRemote] [("year", ""), ("division", "")] =
        [sampleStudentRemote] := by
  refine ⟨?_, ?_, ?_, ?_, ?_⟩ <;> decide

/-- C27 (amended): the submit handler compares the rollNumber only, against the list it is
given. For every list of students passed to the roster form and every completed form, the
handler rejects the new student as a duplicate if and only if a student of that list has the
same rollNumber, and it passes the form to `addStudent` otherwise; a rejection leaves the
message `A student with this roll number already exists.` and calls nothing. The year and the
division enter only through the list App.jsx passes: when a class is selected and the form
carries the year and division of that class, the handler rejects if and only if a student of
the whole roster has the same rollNumber, year and division; when no class is selected the list
is the whole roster. -/
theorem C27_duplicate_check_compares_rollNumber_only :
    (∀ (students : List Obj) (formData : Obj), CompletedForm formData →
      (submitCheck students formData = SubmitCheck.duplicate ↔
        ∃ s ∈ students, Obj.get s "rollNumber" = Obj.get formData "rollNumber") ∧
      (submitCheck students formData = SubmitCheck.accepted ↔
        ¬ ∃ s ∈ students, Obj.get s "rollNumber" = Obj.get formData "rollNumber")) ∧
    (∀ (env : Env) (uid : String) (students : List Obj) (formData : Obj) (w : World),
      (submitCheck students formData = SubmitCheck.duplicate →
        handleSubmit env uid students formData w =
          (Outcome.ok (Message.mk "error" "A student with this roll number already exists."),
            w)) ∧
      (submitCheck students formData = SubmitCheck.accepted →
        handleSubmit env uid students formData w =
          Eff.handle
            (Eff.cont (addStudent env uid formData w)
              (fun _ => pure (Message.mk "success" "Student added successfully!")))
            (fun message =>
              pure (Message.mk "error"
                (if message = "" then "Failed to add student. Please try again."
                  else message))))) ∧
    (∀ (roster : List Obj) (selectedClass formData : Obj), CompletedForm formData →
      Obj.get selectedClass "year" = Obj.get formData "year" →
      Obj.get selectedClass "division" = Obj.get formData "division" →
      (submitCheck (filteredStudents roster selectedClass) formData = SubmitCheck.duplicate ↔
        SameClassDuplicate roster formData)) ∧
    (∀ (roster : List Obj) (selectedClass : Obj),
      truthy (Obj.get selectedClass "year") = false ∨
        truthy (Obj.get selectedClass "division") = false →
      filteredStudents roster selectedClass = roster) := by
  refine ⟨?_, ?_, ?_, ?_⟩
  · intro students formData h
    rw [submitCheck_of_completed students h]
    by_cases hex : ∃ s ∈ students, Obj.get s "rollNumber" = Obj.get formData "rollNumber"
    · simp [hex]
    · simp [hex]
  · intro env uid students formData w
    constructor
    · intro h
      simp [handleSubmit, h]
    · intro h
      simp [handleSubmit, h, Eff.tryCatch_run, Eff.bind_run]
  · intro roster selectedClass formData h hy hd
    rw [submitCheck_of_completed _ h]
    have hy2 : truthy (Obj.get selectedClass "year") = true := by rw [hy]; exact h.2.2.1
    have hd2 : truthy (Obj.get selectedClass "division") = true := by rw [hd]; exact h.2.2.2
    have hiff : (∃ s ∈ filteredStudents roster selectedClass,
        Obj.get s "rollNumber" = Obj.get formData "rollNumber") ↔
        SameClassDuplicate roster formData := by
      constructor
      · rintro ⟨s, hs, hr⟩
        rw [mem_filteredStudents_of_selected hy2 hd2] at hs
        exact ⟨s, hs.1, hr, hs.2.1.trans hy, hs.2.2.trans hd⟩
      · rintro ⟨s, hs, hr, hsy, hsd⟩
        exact ⟨s, (mem_filteredStudents_of_selected hy2 hd2 s).2
          ⟨hs, hsy.trans hy.symm, hsd.trans hd.symm⟩, hr⟩
    by_cases hex : SameClassDuplicate roster formData
    · simp [hiff, hex]
    · simp [hiff, hex]
  · intro roster selectedClass h
    exact filteredStudents_of_unselected h

/-- C27 (witness): the amended statement at the sample student and the form of SecondYear B:
passed the one-student list the handler rejects; with SecondYear B selected in App.jsx the list
is empty and the handler accepts. -/
theorem C27_duplicate_check_compares_rollNumber_only_witness :
    CompletedForm sampleFormOtherClass ∧
      ((submitCheck [sampleStudentRemote] sampleFormOtherClass = SubmitCheck.duplicate ↔
        ∃ s ∈ [sampleStudentRemote],
          Obj.get s "rollNumber" = Obj.get sampleFormOtherClass "rollNumber") ∧
      (submitCheck [sampleStudentRemote] sampleFormOtherClass = SubmitCheck.accepted ↔
        ¬ ∃ s ∈ [sampleStudentRemote],
          Obj.get s "rollNumber" = Obj.get sampleFormOtherClass "rollNumber")) ∧
      handleSubmit Env.allOk "u1" [sampleStudentRemote] sampleFormOtherClass World.empty =
        (Outcome.ok (Message.mk "error" "A student with this roll number already exists."),
          World.empty) ∧
      (submitCheck
          (filteredStudents [sampleStudentRemote] [("year", "SecondYear"), ("division", "B")])
          sampleFormOtherClass = SubmitCheck.duplicate ↔
        SameClassDuplicate [sampleStudentRemote] sampleFormOtherClass) ∧
      filteredStudents [sampleStudentRemote] [("year", ""), ("division", "")] =
        [sampleStudentRemote] :=
  ⟨by decide,
   C27_duplicate_check_compares_rollNumber_only.1 [sampleStudentRemote] sampleFormOtherClass
      (by decide),
   (C27_duplicate_check_compares_rollNumber_only.2.1 Env.allOk "u1" [sampleStudentRemote]
      sampleFormOtherClass World.empty).1 (by decide),
   C27_duplicate_check_compares_rollNumber_only.2.2.1 [sampleStudentRemote]
      [("year", "SecondYear"), ("division", "B")] sampleFormOtherClass (by decide) rfl rfl,
   C27_duplicate_check_compares_rollNumber_only.2.2.2 [sampleStudentRemote]
      [("year", ""), ("division", "")] (Or.inl rfl)⟩

/-! ## C28 -/

/-- C28: `addAttendanceRecord` adds and never replaces. Served by the remote store (browser
online, probe and write succeed, the store assigning each time a key that no document of the
user carries yet), two calls with the same data both resolve and the remote collection afterwards
is the one before plus two documents with different keys, both carrying the studentId and the
date of the data. Served by the fallback (remote store unreachable), after two calls that
resolve the local collection is the one before plus two records with different ids, both
carrying the studentId and the date of the data. Nothing checks for an existing record of that
student and date. -/
theorem C28_two_adds_make_two_records :
    (∀ (env : Env) (uid : String) (data : Obj) (w : World),
      w.isOnline = true → env.probeOk (w.tick + 1) = true → env.remoteOk (w.tick + 2) = true →
      findDoc uid (env.newDocId (w.tick + 2)) w.remoteAttendance = none →
      env.probeOk ((addAttendanceRecord env uid data w).2.tick + 1) = true →
      env.remoteOk ((addAttendanceRecord env uid data w).2.tick + 2) = true →
      findDoc uid (env.newDocId ((addAttendanceRecord env uid data w).2.tick + 2))
        (addAttendanceRecord env uid data w).2.remoteAttendance = none →
      ∃ w1 w2 d1 d2,
        addAttendanceRecord env uid data w = (Outcome.ok (docRecord d1), w1) ∧
        addAttendanceRecord env uid data w1 = (Outcome.ok (docRecord d2), w2) ∧
        w2.remoteAttendance.Perm (d2 :: d1 :: w.remoteAttendance) ∧
        d1.id ≠ d2.id ∧ d1.user = uid ∧ d2.user = uid ∧
        Obj.get d1.data "studentId" = Obj.get data "studentId" ∧
        Obj.get d1.data "date" = Obj.get data "date" ∧
        Obj.get d2.data "studentId" = Obj.get data "studentId" ∧
        Obj.get d2.data "date" = Obj.get data "date") ∧
    (∀ (env : Env) (uid : String) (data r1 r2 : Obj) (w w1 w2 : World),
      RemoteUnreachable env (w.advance 1) →
      addAttendanceRecord env uid data w = (Outcome.ok r1, w1) →
      RemoteUnreachable env (w1.advance 1) →
      addAttendanceRecord env uid data w1 = (Outcome.ok r2, w2) →
      w2.localAttendance.Perm (r2 :: r1 :: w.localAttendance) ∧
        Obj.get r1 "id" ≠ Obj.get r2 "id" ∧
        Obj.get r1 "studentId" = Obj.get data "studentId" ∧
        Obj.get r1 "date" = Obj.get data "date" ∧
        Obj.get r2 "studentId" = Obj.get data "studentId" ∧
        Obj.get r2 "date" = Obj.get data "date") := by
  constructor
  · intro env uid data w ho hp hr hnew hp2 hr2 hnew2
    obtain ⟨w1, hrun1, hrem1, -, ho1⟩ := addAttendanceRecord_remote_run uid data ho hp hr
    rw [hrun1] at hp2 hr2 hnew2
    obtain ⟨w2, hrun2, hrem2, -, -⟩ := addAttendanceRecord_remote_run uid data ho1 hp2 hr2
    have hperm1 := perm_upsertDoc_of_new (Doc.mk uid (env.newDocId (w.tick + 2))
      (Obj.set data "createdAt" (env.nowIso w.tick))) w.remoteAttendance hnew
    have hperm2 := perm_upsertDoc_of_new (Doc.mk uid (env.newDocId (w1.tick + 2))
      (Obj.set data "createdAt" (env.nowIso w1.tick))) w1.remoteAttendance hnew2
    refine ⟨w1, w2, _, _, hrun1, hrun2, ?_, ?_, rfl, rfl, ?_, ?_, ?_, ?_⟩
    · rw [hrem2]
      refine hperm2.trans (List.Perm.cons _ ?_)
      rw [hrem1]
      exact hperm1
    · intro heq
      have hmem : Doc.mk uid (env.newDocId (w.tick + 2))
          (Obj.set data "createdAt" (env.nowIso w.tick)) ∈ w1.remoteAttendance := by
        rw [hrem1]
        exact mem_upsertDoc_self _ _
      unfold findDoc at hnew2
      rw [List.find?_eq_none] at hnew2
      have := hnew2 _ hmem
      simp only [decide_eq_true_eq, true_and] at this
      exact this heq
    · exact Obj.get_set_other _ _ _ _ (by decide)
    · exact Obj.get_set_other _ _ _ _ (by decide)
    · exact Obj.get_set_other _ _ _ _ (by decide)
    · exact Obj.get_set_other _ _ _ _ (by decide)
  · intro env uid data r1 r2 w w1 w2 hu1 hrun1 hu2 hrun2
    obtain ⟨rest1, hr1, -, hst1, -⟩ := addAttendanceRecord_fallback_ok hu1 hrun1
    obtain ⟨rest2, hr2, hkey2, hst2, -⟩ := addAttendanceRecord_fallback_ok hu2 hrun2
    have hid1 : Obj.get r1 "id" = some ("local_" ++ rest1) := by rw [hr1, Obj.get_set_same]
    have hid2 : Obj.get r2 "id" = some ("local_" ++ rest2) := by rw [hr2, Obj.get_set_same]
    have hmem : r1 ∈ w1.localAttendance := by
      rw [hst1, mem_insertByKey]
      exact Or.inl rfl
    refine ⟨?_, ?_, ?_, ?_, ?_, ?_⟩
    · rw [hst2]
      refine (perm_insertByKey _ _).trans (List.Perm.cons _ ?_)
      rw [hst1]
      exact perm_insertByKey _ _
    · rw [hid2]
      exact get_id_ne_of_keyOf_ne (hasKey_eq_false hkey2 r1 hmem)
    · rw [hr1, Obj.get_set_other _ _ _ _ (by decide), Obj.get_set_other _ _ _ _ (by decide)]
    · rw [hr1, Obj.get_set_other _ _ _ _ (by decide), Obj.get_set_other _ _ _ _ (by decide)]
    · rw [hr2, Obj.get_set_other _ _ _ _ (by decide), Obj.get_set_other _ _ _ _ (by decide)]
    · rw [hr2, Obj.get_set_other _ _ _ _ (by decide), Obj.get_set_other _ _ _ _ (by decide)]

/-- C28 (witness): the sample attendance record added twice, to the empty remote store with
every call succeeding, and to the empty browser database with the probe failing. -/
theorem C28_two_adds_make_two_records_witness :
    (∃ w1 w2 d1 d2,
        addAttendanceRecord Env.allOk "u1" sampleAttendance World.empty =
          (Outcome.ok (docRecord d1), w1) ∧
        addAttendanceRecord Env.allOk "u1" sampleAttendance w1 =
          (Outcome.ok (docRecord d2), w2) ∧
        w2.remoteAttendance.Perm (d2 :: d1 :: World.empty.remoteAttendance) ∧
        d1.id ≠ d2.id ∧ d1.user = "u1" ∧ d2.user = "u1" ∧
        Obj.get d1.data "studentId" = Obj.get sampleAttendance "studentId" ∧
        Obj.get d1.data "date" = Obj.get sampleAttendance "date" ∧
        Obj.get d2.data "studentId" = Obj.get sampleAttendance "studentId" ∧
        Obj.get d2.data "date" = Obj.get sampleAttendance "date") ∧
      (({ World.offlineAt 12 with
          localAttendance := [sampleAttendanceLocal,
            sampleAttendanceStamped ++ [("id", "local_1709805600008_k3j9x2m1q")]] } :
          World).localAttendance.Perm
          ((sampleAttendanceStamped ++ [("id", "local_1709805600008_k3j9x2m1q")]) ::
            sampleAttendanceLocal :: World.empty.localAttendance) ∧
        Obj.get sampleAttendanceLocal "id" ≠
          Obj.get (sampleAttendanceStamped ++ [("id", "local_1709805600008_k3j9x2m1q")]) "id" ∧
        Obj.get sampleAttendanceLocal "studentId" = Obj.get sampleAttendance "studentId" ∧
        Obj.get sampleAttendanceLocal "date" = Obj.get sampleAttendance "date" ∧
        Obj.get (sampleAttendanceStamped ++ [("id", "local_1709805600008_k3j9x2m1q")])
          "studentId" = Obj.get sampleAttendance "studentId" ∧
        Obj.get (sampleAttendanceStamped ++ [("id", "local_1709805600008_k3j9x2m1q")])
          "date" = Obj.get sampleAttendance "date") :=
  ⟨C28_two_adds_make_two_records.1 Env.allOk "u1" sampleAttendance World.empty rfl rfl rfl
      (by decide) rfl rfl (by decide),
   C28_two_adds_make_two_records.2 Env.probeFails "u1" sampleAttendance sampleAttendanceLocal
      (sampleAttendanceStamped ++ [("id", "local_1709805600008_k3j9x2m1q")]) World.empty
      { World.offlineAt 6 with localAttendance := [sampleAttendanceLocal] }
      { World.offlineAt 12 with
        localAttendance := [sampleAttendanceLocal,
          sampleAttendanceStamped ++ [("id", "local_1709805600008_k3j9x2m1q")]] }
      (Or.inr (Or.inl rfl)) (by decide) (Or.inr (Or.inl rfl)) (by decide)⟩

end Attendance
